import Mathlib

/-!
# Health thermometer application: connection life cycle

A shallow embedding of the application sources (`health_thermometer.c`,
`ht_gatt.c`, `ht_hw.c`, `health_thermo_service.c`, `battery_service.c`,
`dev_info_service.c`) as state-passing functions over one `World` record.

* The C globals (`g_ht_data`, `g_app_hw_data`, the service data blocks) are
  fields of `World`.
* Every call into the firmware is appended to `World.log` as a `Req`; the
  firmware's answers are read from a `Firmware` record.
* `ReportPanic` hands the panic code to the firmware call `Panic`, which does
  not return: the panic is recorded in the log and the statements that follow
  it in the C code are not run (`panicked`).
* The timer service is a pool of live timers; `TimerCreate` hands out an
  identifier that was never handed out before and that differs from
  `TIMER_INVALID`.
* Machine integers are natural numbers, reduced explicitly where the C
  arithmetic can wrap.
-/

namespace HT

/-! ## SDK constants -/

/-- The SDK value of an unused timer handle. -/
def TIMER_INVALID : Nat := 0

/-- The SDK value of an unused connection identifier. -/
def GATT_INVALID_UCID : Nat := 0xFFFF

/-- One millisecond, in the microsecond unit of the timer service. -/
def MILLISECOND : Nat := 1000

/-- One second, in microseconds. -/
def SECOND : Nat := 1000 * MILLISECOND

/-- One minute, in microseconds. -/
def MINUTE : Nat := 60 * SECOND

/-- The address type of a random device address (SDK, bluetooth.h). -/
def L2CA_RANDOM_ADDR_TYPE : Nat := 0x01

/-- The two top bits of the NAP select the kind of random address. -/
def BD_ADDR_NAP_RANDOM_TYPE_MASK : Nat := 0xC000

/-- The kind bits of a resolvable private address. -/
def BD_ADDR_NAP_RANDOM_TYPE_RESOLVABLE : Nat := 0x4000

/-- HCI reason: supervision timeout (link loss). -/
def HCI_ERROR_CONN_TIMEOUT : Nat := 0x08

/-- HCI reason: connection terminated by the local host. -/
def HCI_ERROR_CONN_TERM_LOCAL_HOST : Nat := 0x16

/-- Flag bit of GATT_ACCESS_IND: read access. -/
def ATT_ACCESS_READ : Nat := 0x0001

/-- Flag bit of GATT_ACCESS_IND: write access. -/
def ATT_ACCESS_WRITE : Nat := 0x0002

/-- Flag bit of GATT_ACCESS_IND: permission is requested. -/
def ATT_ACCESS_PERMISSION : Nat := 0x8000

/-- Flag bit of GATT_ACCESS_IND: the write is complete. -/
def ATT_ACCESS_WRITE_COMPLETE : Nat := 0x4000

/-- AD type: list of 16-bit service UUIDs. -/
def AD_TYPE_SERVICE_UUID_16BIT_LIST : Nat := 0x03

/-- AD type: shortened local name. -/
def AD_TYPE_LOCAL_NAME_SHORT : Nat := 0x08

/-- AD type: complete local name. -/
def AD_TYPE_LOCAL_NAME_COMPLETE : Nat := 0x09

/-- AD type: transmit power level. -/
def AD_TYPE_TX_POWER : Nat := 0x0A

/-- AD type: appearance (app_gatt.h). -/
def AD_TYPE_APPEARANCE : Nat := 0x19

/-! ## Application constants -/

/-- Words of an identity resolving key (health_thermometer.h). -/
def MAX_WORDS_IRK : Nat := 8

/-- Number of stored identity keys (health_thermometer.c). -/
def MAX_NUMBER_IRK_STORED : Nat := 1

/-- Magic value of the NVM sanity word. -/
def NVM_SANITY_MAGIC : Nat := 0xAB08

/-- Retry period between two connection parameter update requests. -/
def GAP_CONN_PARAM_TIMEOUT : Nat := 30 * SECOND

/-- The period TGAP(conn_pause_peripheral). -/
def TGAP_CPP_PERIOD : Nat := 5 * SECOND

/-- The period TGAP(conn_pause_central). -/
def TGAP_CPC_PERIOD : Nat := 1 * SECOND

/-- Period of the measurement timer. -/
def HT_TEMP_MEAS_TIME : Nat := 40 * SECOND

/-- Grace period for re-encryption with the old keys (app_gatt.h). -/
def BONDING_CHANCE_TIMER : Nat := 30 * SECOND

/-- Advertising timeout of the fast mode (ht_gatt.h). -/
def FAST_CONNECTION_ADVERT_TIMEOUT_VALUE : Nat := 30 * SECOND

/-- Advertising timeout of the reduced power mode (ht_gatt.h). -/
def SLOW_CONNECTION_ADVERT_TIMEOUT_VALUE : Nat := 1 * MINUTE

/-- Fast advertising interval, lower end (gap_conn_params.h). -/
def FC_ADVERTISING_INTERVAL_MIN : Nat := 60 * MILLISECOND

/-- Fast advertising interval, upper end. -/
def FC_ADVERTISING_INTERVAL_MAX : Nat := 60 * MILLISECOND

/-- Reduced power advertising interval, lower end. -/
def RP_ADVERTISING_INTERVAL_MIN : Nat := 1280 * MILLISECOND

/-- Reduced power advertising interval, upper end. -/
def RP_ADVERTISING_INTERVAL_MAX : Nat := 1280 * MILLISECOND

/-- Budget of connection parameter update requests per connection. -/
def MAX_NUM_CONN_PARAM_UPDATE_REQS : Nat := 4

/-- Number of requests made with the self-preferred profile. -/
def CPU_SELF_PARAMS_MAX_ATTEMPTS : Nat := 2

/-- Preferred maximum connection interval. -/
def PREFERRED_MAX_CON_INTERVAL : Nat := 0x001B

/-- Preferred minimum connection interval. -/
def PREFERRED_MIN_CON_INTERVAL : Nat := 0x001B

/-- Preferred slave latency. -/
def PREFERRED_SLAVE_LATENCY : Nat := 0x0004

/-- Preferred supervision timeout. -/
def PREFERRED_SUPERVISION_TIMEOUT : Nat := 0x03e8

/-- Fallback profile: maximum connection interval. -/
def APPLE_MAX_CON_INTERVAL : Nat := 0x001B

/-- Fallback profile: minimum connection interval. -/
def APPLE_MIN_CON_INTERVAL : Nat := 0x0006

/-- Fallback profile: slave latency. -/
def APPLE_SLAVE_LATENCY : Nat := 0x0004

/-- Fallback profile: supervision timeout. -/
def APPLE_SUPERVISION_TIMEOUT : Nat := 0x0258

/-- Ceiling of the advertisement payload (ht_gatt.c). -/
def MAX_ADV_DATA_LEN : Nat := 31

/-- Length of the shortened device name (ht_gatt.c). -/
def SHORTENED_DEV_NAME_LEN : Nat := 8

/-- Length of the transmit power AD structure (ht_gatt.c). -/
def TX_POWER_VALUE_LENGTH : Nat := 2

/-- Length of the appearance attribute. -/
def ATTR_LEN_DEVICE_APPEARANCE : Nat := 2

/-- Appearance value of a thermometer (appearance.h). -/
def APPEARANCE_THERMOMETER_VALUE : Nat := 0x0300

/-- UUID of the health thermometer service (health_thermo_uuids.h). -/
def UUID_HEALTH_THERMOMETER_SERVICE : Nat := 0x1809

/-- Client configuration: nothing configured (app_gatt.h). -/
def gatt_client_config_none : Nat := 0x0000

/-- Client configuration: notifications (app_gatt.h). -/
def gatt_client_config_notification : Nat := 0x0001

/-- Client configuration: indications (app_gatt.h). -/
def gatt_client_config_indication : Nat := 0x0002

/-- Voltage of a full battery, in mV (battery_service.c). -/
def BATTERY_FULL_BATTERY_VOLTAGE : Nat := 3000

/-- Voltage of a flat battery, in mV (battery_service.c). -/
def BATTERY_FLAT_BATTERY_VOLTAGE : Nat := 1800

/-- Period of the extra long button press timer (ht_hw.c). -/
def EXTRA_LONG_BUTTON_PRESS_TIMER : Nat := 4 * SECOND

/-- Period of a short beep (user_config.h). -/
def SHORT_BEEP_TIMER_VALUE : Nat := 100 * MILLISECOND

/-- Period of a long beep (user_config.h). -/
def LONG_BEEP_TIMER_VALUE : Nat := 500 * MILLISECOND

/-- Period of the gap between two beeps (user_config.h). -/
def BEEP_GAP_TIMER_VALUE : Nat := 25 * MILLISECOND

/-- The PWM unit of the buzzer (ht_hw.c). -/
def BUZZER_PWM_INDEX_0 : Nat := 0

/-- PIO number of the left button (ht_hw.c). -/
def BUTTON_LEFT : Nat := 0

/-- PIO number of the right button. -/
def BUTTON_RIGHT : Nat := 3

/-- PIO number of the faster button. -/
def BUTTON_FASTER : Nat := 4

/-- PIO number of the brake button. -/
def BUTTON_BRAKE : Nat := 9

/-- PIO number of the GHG button. -/
def BUTTON_GHG : Nat := 10

/-- PIO number of the BP button. -/
def BUTTON_BP : Nat := 11

/-- The bit mask of one PIO. -/
def PIO_BIT_MASK (pio : Nat) : Nat := 1 <<< pio

/-! ## Data model -/

/-- Application states (health_thermometer.h). -/
inductive app_state
  | app_state_init
  | app_state_fast_advertising
  | app_state_slow_advertising
  | app_state_connected
  | app_state_disconnecting
  | app_state_idle
  deriving DecidableEq, Repr

/-- Application panic codes (app_gatt.h). -/
inductive app_panic_code
  | app_panic_set_advert_params
  | app_panic_set_advert_data
  | app_panic_set_scan_rsp_data
  | app_panic_connection_est
  | app_panic_db_registration
  | app_panic_nvm_read
  | app_panic_nvm_write
  | app_panic_read_tx_pwr_level
  | app_panic_delete_whitelist
  | app_panic_add_whitelist
  | app_panic_con_param_update
  | app_panic_invalid_state
  | app_panic_unexpected_beep_type
  | app_panic_gap_set_mode
  | app_panic_uuid_not_supported
  | app_panic_set_scan_params
  | app_panic_nvm_erase
  deriving DecidableEq, Repr

/-- Status codes of the SDK that the application tests or produces; every
other numeric value is `other`. The SDK names `ls_err_none` and
`sys_status_success` denote the same value. -/
inductive sys_status
  | sys_status_success
  | gatt_status_irq_proceed
  | gatt_status_read_not_permitted
  | gatt_status_write_not_permitted
  | gatt_status_request_not_supported
  | gatt_status_desc_improper_config
  | gatt_status_unlikely_error
  | sm_status_repeated_attempts
  | other (code : Nat)
  deriving DecidableEq, Repr

/-- The SDK alias of success for link supervisor calls. -/
def ls_err_none : sys_status := sys_status.sys_status_success

/-- Typed Bluetooth device address (SDK record TYPED_BD_ADDR_T). -/
structure TYPED_BD_ADDR_T where
  type : Nat
  lap : Nat
  uap : Nat
  nap : Nat
  deriving DecidableEq, Repr

/-- Connection parameters of one update request (SDK record ble_con_params). -/
structure ble_con_params where
  con_max_interval : Nat
  con_min_interval : Nat
  con_slave_latency : Nat
  con_super_timeout : Nat
  deriving DecidableEq, Repr

/-- Beep types of the buzzer (ht_hw.h). -/
inductive buzzer_beep_type
  | buzzer_beep_off
  | buzzer_beep_short
  | buzzer_beep_long
  | buzzer_beep_twice
  | buzzer_beep_thrice
  deriving DecidableEq, Repr

/-- Known button states (ht_hw.c). -/
inductive BUTTON_STATE_T
  | button_state_down
  | button_state_up
  | button_state_unknown
  deriving DecidableEq, Repr

/-- The functions that the application registers as timer callbacks. -/
inductive timer_cb
  | requestConnParamUpdate
  | handleGapCppTimerExpiry
  | handleBondingChanceTimerExpiry
  | gattAdvertTimerHandler
  | htTempMeasTimerHandler
  | HandleExtraLongButtonPress
  | appBuzzerTimerHandler
  deriving DecidableEq, Repr

/-- One timer of the timer service: handle, period, callback. -/
structure Timer where
  id : Nat
  period : Nat
  cb : timer_cb
  deriving DecidableEq, Repr

/-- Source of advertising data (SDK enum ad_src). -/
inductive ad_src
  | ad_src_advertise
  | ad_src_scan_rsp
  deriving DecidableEq, Repr

/-- Connectable filter of a slave connect request: the two values of
`connect_flags` that GattStartAdverts builds. -/
inductive connect_flags
  | slave_undirected
  | slave_whitelist
  deriving DecidableEq, Repr

/-- Verdict on a diversifier (SDK enum sm_div_verdict). -/
inductive sm_div_verdict
  | SM_DIV_APPROVED
  | SM_DIV_REVOKED
  deriving DecidableEq, Repr

/-- Size in words of TYPED_BD_ADDR_T on the 16-bit target: one word for the
type, two for the 24-bit LAP, one for the UAP and one for the NAP. -/
def SIZEOF_TYPED_BD_ADDR_T : Nat := 5

/-- NVM offset of the sanity word. -/
def NVM_OFFSET_SANITY_WORD : Nat := 0

/-- NVM offset of the bonded flag. -/
def NVM_OFFSET_BONDED_FLAG : Nat := NVM_OFFSET_SANITY_WORD + 1

/-- NVM offset of the bonded address; the bonded flag takes one word. -/
def NVM_OFFSET_BONDED_ADDR : Nat := NVM_OFFSET_BONDED_FLAG + 1

/-- NVM offset of the diversifier. -/
def NVM_OFFSET_SM_DIV : Nat := NVM_OFFSET_BONDED_ADDR + SIZEOF_TYPED_BD_ADDR_T

/-- NVM offset of the identity resolving key; the diversifier takes one word. -/
def NVM_OFFSET_SM_IRK : Nat := NVM_OFFSET_SM_DIV + 1

/-- Number of NVM words used by the application itself. -/
def NVM_MAX_APP_MEMORY_WORDS : Nat := NVM_OFFSET_SM_IRK + MAX_WORDS_IRK

/-- Words of NVM used by the health thermometer service. -/
def HEALTH_THERMO_SERVICE_NVM_MEMORY_WORDS : Nat := 1

/-- Offset of the client configuration inside the service's NVM block. -/
def HEALTH_THERMO_NVM_TEMP_CLIENT_CONFIG_OFFSET : Nat := 0

/-- Size of a temperature measurement payload. -/
def MAX_TEMP_MEAS_SIZE : Nat := 5

/-- Words of NVM used by the battery service. -/
def BATTERY_SERVICE_NVM_MEMORY_WORDS : Nat := 1

/-- Offset of the client configuration inside the battery NVM block. -/
def BATTERY_NVM_LEVEL_CLIENT_CONFIG_OFFSET : Nat := 0

/-- Length of the system identifier (dev_info_service.c). -/
def SYSTEM_ID_LENGTH : Nat := 8

/-- Fixed part of the system identifier (dev_info_service.c). -/
def SYSTEM_ID_FIXED_CONSTANT : Nat := 0xFFFE

/-- The event GATT_ACCESS_IND. -/
structure GATT_ACCESS_IND_T where
  cid : Nat
  handle : Nat
  flags : Nat
  value : List Nat
  deriving DecidableEq, Repr

/-- The application data structure HT_DATA_T (health_thermometer.h). -/
structure HT_DATA_T where
  state : app_state
  app_tid : Nat
  con_bd_addr : TYPED_BD_ADDR_T
  st_ucid : Nat
  bonded : Bool
  bonded_bd_addr : TYPED_BD_ADDR_T
  diversifier : Nat
  con_param_update_tid : Nat
  cpu_timer_value : Nat
  central_device_irk : List Nat
  num_conn_update_req : Nat
  encrypt_enabled : Bool
  pairing_button_pressed : Bool
  bonding_reattempt_tid : Nat
  conn_interval : Nat
  conn_latency : Nat
  conn_timeout : Nat
  deriving DecidableEq, Repr

/-- The hardware data APP_HW_DATA_T (ht_hw.h) together with the file-level
variables of ht_hw.c. -/
structure APP_HW_DATA_T where
  buzzer_tid : Nat
  beep_type : buzzer_beep_type
  beep_count : Nat
  button_press_tid : Nat
  ghg_state : BUTTON_STATE_T
  bp_state : BUTTON_STATE_T
  ghg_count : Nat
  bp_count : Nat
  deriving DecidableEq, Repr

/-- The data of health_thermo_service.c: HT_SERV_DATA_T, `send_count` and
HT_SR_DATA. -/
structure HT_SERV_DATA_T where
  ind_cfm_pending : Bool
  temp_client_config : Nat
  nvm_offset : Nat
  send_count : Nat
  sendcnt : Nat
  heartcnt : Nat
  ghgcnt : Nat
  anjstate : Nat
  batlevel : Nat
  deriving DecidableEq, Repr

/-- The battery service data BATT_DATA_T (battery_service.c). -/
structure BATT_DATA_T where
  level : Nat
  level_client_config : Nat
  nvm_offset : Nat
  deriving DecidableEq, Repr

/-- Calls made by the application into the firmware and into the GAP
service, in the order of the C calls. -/
inductive Req
  | Panic (code : app_panic_code)
  | GattConnectReq (flags : connect_flags)
  | GattCancelConnectReq
  | GattDisconnectReq (ucid : Nat)
  | GattAccessRsp (cid handle : Nat) (rc : sys_status) (length : Nat) (value : List Nat)
  | GattCharValueNotification (ucid handle length : Nat) (value : List Nat)
  | GattAddDatabaseReq
  | SMRequestSecurityLevel (addr : TYPED_BD_ADDR_T)
  | SMPairingAuthRsp (data : Nat) (accept : Bool)
  | SMDivApproval (cid : Nat) (verdict : sm_div_verdict)
  | SMInit (diversifier : Nat)
  | LsAddWhiteListDevice (addr : TYPED_BD_ADDR_T)
  | LsResetWhiteList
  | LsConnectionParamUpdateReq (addr : TYPED_BD_ADDR_T) (params : ble_con_params)
  | GapSetMode
  | GapSetAdvInterval (adv_interval_min adv_interval_max : Nat)
  | LsStoreAdvScanData (length : Nat) (data : List Nat) (src : ad_src)
  | LsReadTransmitPowerLevel
  | PioEnablePWM (index : Nat) (enable : Bool)
  | HtInitHardware
  | GattInit
  | GattInstallServerWrite
  | SleepWakeOnUartRX (enable : Bool)
  | Nvm_Disable
  | GapDataInit
  | GapReadDataFromNVM (offset : Nat)
  | GapInitWriteDataToNVM (offset : Nat)
  | GapHandleAccessRead (ind : GATT_ACCESS_IND_T)
  | GapHandleAccessWrite (ind : GATT_ACCESS_IND_T)
  deriving DecidableEq, Repr

/-- Answers of the firmware and of the GAP service during one handler. -/
structure Firmware where
  SMPrivacyMatchAddress : TYPED_BD_ADDR_T → List Nat → Int
  LsAddWhiteListDevice : TYPED_BD_ADDR_T → sys_status
  LsConnectionParamUpdateReq : TYPED_BD_ADDR_T → ble_con_params → sys_status
  GapSetMode : sys_status
  GapSetAdvInterval : Nat → Nat → sys_status
  LsStoreAdvScanData : Nat → List Nat → ad_src → sys_status
  LsReadTransmitPowerLevel : sys_status
  tx_power_level : Nat
  BatteryReadVoltage : Nat
  CSReadBdaddr : Option TYPED_BD_ADDR_T
  GapGetNameAndLength : List Nat

/-- Constants of the generated attribute database (app_gatt_db.h) and of the
GAP service, none of which is among the sources. -/
structure Config where
  HANDLE_GAP_SERVICE : Nat
  HANDLE_GAP_SERVICE_END : Nat
  HANDLE_HEALTH_THERMOMETER_SERVICE : Nat
  HANDLE_HEALTH_THERMOMETER_SERVICE_END : Nat
  HANDLE_HT_TEMP_MEASUREMENT : Nat
  HANDLE_HT_TEMP_MEAS_C_CFG : Nat
  HANDLE_BATTERY_SERVICE : Nat
  HANDLE_BATTERY_SERVICE_END : Nat
  HANDLE_BATT_LEVEL : Nat
  HANDLE_BATT_LEVEL_C_CFG : Nat
  HANDLE_DEVICE_INFO_SERVICE : Nat
  HANDLE_DEVICE_INFO_SERVICE_END : Nat
  HANDLE_DEVICE_INFO_SYSTEM_ID : Nat
  GAP_SERVICE_NVM_MEMORY_WORDS : Nat

/-- The whole state: the C globals, the NVM words, the timer service and the
log of calls made so far. -/
structure World where
  g : HT_DATA_T
  hw : APP_HW_DATA_T
  serv : HT_SERV_DATA_T
  batt : BATT_DATA_T
  system_id : List Nat
  nvm : Nat → Nat
  timers : List Timer
  created : List Timer
  next_tid : Nat
  log : List Req

/-! ## Firmware calls, timer service, NVM -/

/-- Record one call in the log. -/
def emit (r : Req) (w : World) : World :=
  { w with log := w.log ++ [r] }

/-- True for the log entry of a reported panic. -/
def isPanic (r : Req) : Bool :=
  match r with
  | Req.Panic _ => true
  | _ => false

/-- The single reporting point ReportPanic: the panic code is handed to the
firmware call Panic, which does not return. The panic is recorded in the log
and nothing is run after it: wherever ReportPanic is called it is the last
step of the calling function on that path, and a function that calls one that
may report a panic (gattSetAdvertParams, GattStartAdverts, AppSetState,
handleSignalSmSimplePairingCompleteInd) tests `panicked` and stops there. -/
def ReportPanic (panic_code : app_panic_code) (w : World) : World :=
  emit (Req.Panic panic_code) w

/-- True when a panic was reported on the way from the world `w` to the later
world `r`: one of the calls that `r` has logged after those of `w` is a panic.
The C code stops there. -/
def panicked (w r : World) : Bool :=
  (r.log.drop w.log.length).any isPanic

/-- The SDK call TimerDelete: the timer with this handle, if any, is no longer
live. -/
def TimerDelete (tid : Nat) (w : World) : World :=
  { w with timers := w.timers.filter (fun t => t.id != tid) }

/-- The SDK call TimerCreate: a timer with a handle never used before becomes
live; the handle is returned. -/
def TimerCreate (period : Nat) (cb : timer_cb) (w : World) : Nat × World :=
  (w.next_tid + 1,
    { w with
      timers := w.timers ++ [{ id := w.next_tid + 1, period := period, cb := cb }]
      created := w.created ++ [{ id := w.next_tid + 1, period := period, cb := cb }]
      next_tid := w.next_tid + 1 })

/-- The SDK call TimerInit: the pool of timers is empty again. -/
def TimerInit (w : World) : World :=
  { w with timers := [] }

/-- Modelled from the spec: nvm_access.c is not among the sources; Nvm_Write is
the raw write of words at a word offset of the persisted region. -/
def Nvm_Write (buffer : List Nat) (offset : Nat) (w : World) : World :=
  { w with nvm := fun a =>
      if offset ≤ a ∧ a < offset + buffer.length then buffer.getD (a - offset) 0 else w.nvm a }

/-- Modelled from the spec: nvm_access.c is not among the sources; Nvm_Read is
the raw read of `length` words at a word offset of the persisted region. -/
def Nvm_Read (length offset : Nat) (w : World) : List Nat :=
  (List.range length).map (fun i => w.nvm (offset + i))

/-- The words of a typed address in the order of the record's fields. -/
def addrWords (a : TYPED_BD_ADDR_T) : List Nat :=
  [a.type, a.lap % 65536, a.lap / 65536, a.uap, a.nap]

/-- The typed address held by five words. -/
def addrOfWords (ws : List Nat) : TYPED_BD_ADDR_T :=
  { type := ws.getD 0 0
    lap := ws.getD 1 0 + 65536 * ws.getD 2 0
    uap := ws.getD 3 0
    nap := ws.getD 4 0 }

/-- The word of a C boolean. -/
def boolWord (b : Bool) : Nat := if b then 1 else 0

/-- The little-endian octets written by BufWriteUint16. -/
def BufWriteUint16 (v : Nat) : List Nat := [v % 256, (v / 256) % 256]

/-- The 16-bit value read by BufReadUint16 from the first two octets. -/
def BufReadUint16 (p : List Nat) : Nat := p.getD 0 0 % 256 + 256 * (p.getD 1 0 % 256)

/-- Low order byte of a 16-bit value (app_gatt.h). -/
def LE8_L (x : Nat) : Nat := x &&& 0xff

/-- High order byte of a 16-bit value (app_gatt.h). -/
def LE8_H (x : Nat) : Nat := (x >>> 8) &&& 0xff

/-! ## ht_gatt.c -/

/-- The check GattIsAddressResolvableRandom. -/
def GattIsAddressResolvableRandom (p_addr : TYPED_BD_ADDR_T) : Bool :=
  if p_addr.type ≠ L2CA_RANDOM_ADDR_TYPE ∨
      (p_addr.nap &&& BD_ADDR_NAP_RANDOM_TYPE_MASK) ≠ BD_ADDR_NAP_RANDOM_TYPE_RESOLVABLE then
    false
  else
    true

/-- One call of LsStoreAdvScanData followed by the panic of the caller when the
call is refused. -/
def storeAdvScanData (F : Firmware) (length : Nat) (data : List Nat) (src : ad_src)
    (code : app_panic_code) (w : World) : World :=
  let w1 := emit (Req.LsStoreAdvScanData length data src) w
  if F.LsStoreAdvScanData length data src ≠ ls_err_none then ReportPanic code w1 else w1

/-- The device name buffer with its first octet set to an AD type, cut to the
length handed to the firmware. -/
def nameData (F : Firmware) (adtype length : Nat) : List Nat :=
  (F.GapGetNameAndLength.set 0 adtype).take length

/-- The function addDeviceNameToAdvData; the lengths are 16-bit unsigned, as
is the arithmetic of the 16-bit target. -/
def addDeviceNameToAdvData (F : Firmware) (adv_data_len scan_data_len : Nat) (w : World) :
    World :=
  let device_name_adtype_len := F.GapGetNameAndLength.length % 65536
  if (device_name_adtype_len + 1) % 65536 ≤ (MAX_ADV_DATA_LEN + 65536 - adv_data_len) % 65536 then
    storeAdvScanData F device_name_adtype_len
      (nameData F AD_TYPE_LOCAL_NAME_COMPLETE device_name_adtype_len)
      ad_src.ad_src_advertise app_panic_code.app_panic_set_advert_data w
  else if (device_name_adtype_len + 1) % 65536 ≤
      (MAX_ADV_DATA_LEN + 65536 - scan_data_len) % 65536 then
    storeAdvScanData F device_name_adtype_len
      (nameData F AD_TYPE_LOCAL_NAME_COMPLETE device_name_adtype_len)
      ad_src.ad_src_scan_rsp app_panic_code.app_panic_set_scan_rsp_data w
  else if (MAX_ADV_DATA_LEN + 65536 - adv_data_len) % 65536 ≥ SHORTENED_DEV_NAME_LEN + 2 then
    storeAdvScanData F SHORTENED_DEV_NAME_LEN
      (nameData F AD_TYPE_LOCAL_NAME_SHORT SHORTENED_DEV_NAME_LEN)
      ad_src.ad_src_advertise app_panic_code.app_panic_set_advert_data w
  else
    storeAdvScanData F ((MAX_ADV_DATA_LEN + 65536 - scan_data_len) % 65536)
      (nameData F AD_TYPE_LOCAL_NAME_SHORT ((MAX_ADV_DATA_LEN + 65536 - scan_data_len) % 65536))
      ad_src.ad_src_scan_rsp app_panic_code.app_panic_set_scan_rsp_data w

/-- The list built by GetSupported16BitUUIDServiceList. -/
def GetSupported16BitUUIDServiceList : List Nat :=
  [AD_TYPE_SERVICE_UUID_16BIT_LIST, LE8_L UUID_HEALTH_THERMOMETER_SERVICE,
    LE8_H UUID_HEALTH_THERMOMETER_SERVICE]

/-- The function gattSetAdvertParams. A call that the firmware refuses is
reported as a panic, and the statements after the panic are not run. -/
def gattSetAdvertParams (F : Firmware) (fast_connection : Bool) (w : World) : World :=
  let adv_interval_min :=
    if fast_connection then FC_ADVERTISING_INTERVAL_MIN else RP_ADVERTISING_INTERVAL_MIN
  let adv_interval_max :=
    if fast_connection then FC_ADVERTISING_INTERVAL_MAX else RP_ADVERTISING_INTERVAL_MAX
  let device_appearance :=
    [AD_TYPE_APPEARANCE, LE8_L APPEARANCE_THERMOMETER_VALUE, LE8_H APPEARANCE_THERMOMETER_VALUE]
  let length_added_to_adv := 3
  let w1 := emit Req.GapSetMode w
  if F.GapSetMode ≠ ls_err_none then
    ReportPanic app_panic_code.app_panic_set_advert_params w1
  else
  let w2 := emit (Req.GapSetAdvInterval adv_interval_min adv_interval_max) w1
  if F.GapSetAdvInterval adv_interval_min adv_interval_max ≠ ls_err_none then
    ReportPanic app_panic_code.app_panic_set_advert_params w2
  else
  let w3 := emit (Req.LsStoreAdvScanData 0 [] ad_src.ad_src_advertise) w2
  if F.LsStoreAdvScanData 0 [] ad_src.ad_src_advertise ≠ ls_err_none then
    ReportPanic app_panic_code.app_panic_set_advert_data w3
  else
  let w4 := emit (Req.LsStoreAdvScanData 0 [] ad_src.ad_src_scan_rsp) w3
  if F.LsStoreAdvScanData 0 [] ad_src.ad_src_scan_rsp ≠ ls_err_none then
    ReportPanic app_panic_code.app_panic_set_scan_rsp_data w4
  else
  let advert_data := GetSupported16BitUUIDServiceList
  let length := advert_data.length
  let length_added_to_adv := length_added_to_adv + (length + 1)
  let w5 := emit (Req.LsStoreAdvScanData length advert_data ad_src.ad_src_advertise) w4
  if F.LsStoreAdvScanData length advert_data ad_src.ad_src_advertise ≠ ls_err_none then
    ReportPanic app_panic_code.app_panic_set_advert_data w5
  else
  let length_added_to_adv := length_added_to_adv + (device_appearance.length + 1)
  let w6 := emit (Req.LsStoreAdvScanData (ATTR_LEN_DEVICE_APPEARANCE + 1) device_appearance
    ad_src.ad_src_advertise) w5
  if F.LsStoreAdvScanData (ATTR_LEN_DEVICE_APPEARANCE + 1) device_appearance
      ad_src.ad_src_advertise ≠ ls_err_none then
    ReportPanic app_panic_code.app_panic_set_advert_data w6
  else
  let w7 := emit Req.LsReadTransmitPowerLevel w6
  if F.LsReadTransmitPowerLevel ≠ ls_err_none then
    ReportPanic app_panic_code.app_panic_read_tx_pwr_level w7
  else
  let device_tx_power := [AD_TYPE_TX_POWER, F.tx_power_level % 256]
  let length_added_to_adv := length_added_to_adv + (TX_POWER_VALUE_LENGTH + 1)
  let w8 := emit (Req.LsStoreAdvScanData TX_POWER_VALUE_LENGTH device_tx_power
    ad_src.ad_src_advertise) w7
  if F.LsStoreAdvScanData TX_POWER_VALUE_LENGTH device_tx_power
      ad_src.ad_src_advertise ≠ ls_err_none then
    ReportPanic app_panic_code.app_panic_set_advert_data w8
  else addDeviceNameToAdvData F length_added_to_adv 0 w8

/-- The function GattStopAdverts. -/
def GattStopAdverts (w : World) : World :=
  emit Req.GattCancelConnectReq w

/-- The function GattStartAdverts. When gattSetAdvertParams has reported a
panic, neither the connect request nor the timer calls are reached. -/
def GattStartAdverts (F : Firmware) (fast_connection : Bool) (w : World) : World :=
  let w1 := { w with g := { w.g with st_ucid := GATT_INVALID_UCID } }
  let w2 := gattSetAdvertParams F fast_connection w1
  if panicked w1 w2 then w2
  else
  let flags :=
    if w2.g.bonded && !GattIsAddressResolvableRandom w2.g.bonded_bd_addr then
      connect_flags.slave_whitelist
    else connect_flags.slave_undirected
  let w3 := emit (Req.GattConnectReq flags) w2
  let advert_timer_value :=
    if fast_connection then FAST_CONNECTION_ADVERT_TIMEOUT_VALUE
    else SLOW_CONNECTION_ADVERT_TIMEOUT_VALUE
  let w4 := TimerDelete w3.g.app_tid w3
  let r := TimerCreate advert_timer_value timer_cb.gattAdvertTimerHandler w4
  { r.2 with g := { r.2.g with app_tid := r.1 } }

/-- The timer callback gattAdvertTimerHandler. -/
def gattAdvertTimerHandler (tid : Nat) (w : World) : World :=
  if w.g.app_tid = tid then
    let w1 := { w with g := { w.g with app_tid := TIMER_INVALID } }
    match w1.g.state with
    | app_state.app_state_fast_advertising => GattStopAdverts w1
    | app_state.app_state_slow_advertising => GattStopAdverts w1
    | _ => w1
  else w

/-! ## ht_hw.c: buzzer and button timer -/

/-- The function HtHwDataInit. -/
def HtHwDataInit (w : World) : World :=
  let w1 := TimerDelete w.hw.button_press_tid w
  { w1 with hw := { w1.hw with button_press_tid := TIMER_INVALID } }

/-- The function SoundBuzzer (the buzzer is enabled in user_config.h). -/
def SoundBuzzer (beep_type : buzzer_beep_type) (w : World) : World :=
  let w1 := emit (Req.PioEnablePWM BUZZER_PWM_INDEX_0 false) w
  let w2 := TimerDelete w1.hw.buzzer_tid w1
  let w3 := { w2 with hw := { w2.hw with
    buzzer_tid := TIMER_INVALID, beep_count := 0, beep_type := beep_type } }
  let beep_timer :=
    match beep_type with
    | buzzer_beep_type.buzzer_beep_long => LONG_BEEP_TIMER_VALUE
    | _ => SHORT_BEEP_TIMER_VALUE
  if w3.hw.beep_type ≠ buzzer_beep_type.buzzer_beep_off then
    let w4 := { w3 with hw := { w3.hw with beep_count := 0 } }
    let w5 := emit (Req.PioEnablePWM BUZZER_PWM_INDEX_0 true) w4
    let w6 := TimerDelete w5.hw.buzzer_tid w5
    let r := TimerCreate beep_timer timer_cb.appBuzzerTimerHandler w6
    { r.2 with hw := { r.2.hw with buzzer_tid := r.1 } }
  else w3

/-- The timer callback appBuzzerTimerHandler; it does not look at the handle
it receives. -/
def appBuzzerTimerHandler (_tid : Nat) (w : World) : World :=
  let w1 := { w with hw := { w.hw with buzzer_tid := TIMER_INVALID } }
  let r : Nat × World :=
    match w1.hw.beep_type with
    | buzzer_beep_type.buzzer_beep_short =>
      (SHORT_BEEP_TIMER_VALUE,
        emit (Req.PioEnablePWM BUZZER_PWM_INDEX_0 false)
          { w1 with hw := { w1.hw with beep_type := buzzer_beep_type.buzzer_beep_off } })
    | buzzer_beep_type.buzzer_beep_long =>
      (SHORT_BEEP_TIMER_VALUE,
        emit (Req.PioEnablePWM BUZZER_PWM_INDEX_0 false)
          { w1 with hw := { w1.hw with beep_type := buzzer_beep_type.buzzer_beep_off } })
    | buzzer_beep_type.buzzer_beep_twice =>
      if w1.hw.beep_count = 0 then
        (BEEP_GAP_TIMER_VALUE,
          emit (Req.PioEnablePWM BUZZER_PWM_INDEX_0 false)
            { w1 with hw := { w1.hw with beep_count := 1 } })
      else if w1.hw.beep_count = 1 then
        (SHORT_BEEP_TIMER_VALUE,
          emit (Req.PioEnablePWM BUZZER_PWM_INDEX_0 true)
            { w1 with hw := { w1.hw with beep_count := 2 } })
      else
        let w2 := emit (Req.PioEnablePWM BUZZER_PWM_INDEX_0 false)
          { w1 with hw := { w1.hw with beep_count := 0 } }
        (SHORT_BEEP_TIMER_VALUE,
          { w2 with hw := { w2.hw with beep_type := buzzer_beep_type.buzzer_beep_off } })
    | buzzer_beep_type.buzzer_beep_thrice =>
      if w1.hw.beep_count = 0 ∨ w1.hw.beep_count = 2 then
        (BEEP_GAP_TIMER_VALUE,
          emit (Req.PioEnablePWM BUZZER_PWM_INDEX_0 false)
            { w1 with hw := { w1.hw with beep_count := (w1.hw.beep_count + 1) % 65536 } })
      else if w1.hw.beep_count = 1 ∨ w1.hw.beep_count = 3 then
        (SHORT_BEEP_TIMER_VALUE,
          emit (Req.PioEnablePWM BUZZER_PWM_INDEX_0 true)
            { w1 with hw := { w1.hw with beep_count := (w1.hw.beep_count + 1) % 65536 } })
      else
        let w2 := emit (Req.PioEnablePWM BUZZER_PWM_INDEX_0 false)
          { w1 with hw := { w1.hw with beep_count := 0 } }
        (SHORT_BEEP_TIMER_VALUE,
          { w2 with hw := { w2.hw with beep_type := buzzer_beep_type.buzzer_beep_off } })
    | buzzer_beep_type.buzzer_beep_off =>
      (SHORT_BEEP_TIMER_VALUE, ReportPanic app_panic_code.app_panic_unexpected_beep_type w1)
  if r.2.hw.beep_type ≠ buzzer_beep_type.buzzer_beep_off then
    let c := TimerCreate r.1 timer_cb.appBuzzerTimerHandler r.2
    { c.2 with hw := { c.2.hw with buzzer_tid := c.1 } }
  else r.2

/-! ## battery_service.c -/

/-- The function readBatteryLevel on the voltage read from the firmware; the
voltage is a 16-bit value and the arithmetic is 32-bit unsigned. -/
def readBatteryLevel (F : Firmware) : Nat :=
  let bat_voltage := F.BatteryReadVoltage % 65536
  let bat_voltage :=
    if bat_voltage < BATTERY_FLAT_BATTERY_VOLTAGE then BATTERY_FLAT_BATTERY_VOLTAGE
    else bat_voltage
  let bat_voltage := bat_voltage - BATTERY_FLAT_BATTERY_VOLTAGE
  let bat_level := ((bat_voltage * 100) % 4294967296) /
    (BATTERY_FULL_BATTERY_VOLTAGE - BATTERY_FLAT_BATTERY_VOLTAGE)
  let bat_level := if bat_level > 100 then 100 else bat_level
  bat_level % 256

/-- The function AppIsDeviceBonded. -/
def AppIsDeviceBonded (w : World) : Bool := w.g.bonded

/-- The function BatteryDataInit. -/
def BatteryDataInit (w : World) : World :=
  if !AppIsDeviceBonded w then
    { w with batt := { w.batt with level_client_config := gatt_client_config_none } }
  else w

/-- The function BatteryInitChipReset. -/
def BatteryInitChipReset (w : World) : World :=
  { w with batt := { w.batt with level := 0 } }

/-- The function BatteryUpdateLevel. -/
def BatteryUpdateLevel (K : Config) (F : Firmware) (ucid : Nat) (w : World) : World :=
  let cur_bat_level := readBatteryLevel F
  let old_vbat := w.batt.level
  if old_vbat ≠ cur_bat_level then
    if ucid ≠ GATT_INVALID_UCID ∧
        (w.batt.level_client_config &&& gatt_client_config_notification) ≠ 0 then
      let w1 := emit (Req.GattCharValueNotification ucid K.HANDLE_BATT_LEVEL 1 [cur_bat_level]) w
      { w1 with batt := { w1.batt with level := cur_bat_level } }
    else w
  else w

/-- The function BatteryHandleAccessRead. -/
def BatteryHandleAccessRead (K : Config) (F : Firmware) (p_ind : GATT_ACCESS_IND_T)
    (w : World) : World :=
  if p_ind.handle = K.HANDLE_BATT_LEVEL then
    let w1 := { w with batt := { w.batt with level := readBatteryLevel F } }
    emit (Req.GattAccessRsp p_ind.cid p_ind.handle sys_status.sys_status_success 1
      [w1.batt.level]) w1
  else if p_ind.handle = K.HANDLE_BATT_LEVEL_C_CFG then
    emit (Req.GattAccessRsp p_ind.cid p_ind.handle sys_status.sys_status_success 2
      (BufWriteUint16 w.batt.level_client_config)) w
  else
    emit (Req.GattAccessRsp p_ind.cid p_ind.handle sys_status.gatt_status_read_not_permitted
      0 []) w

/-- The function BatteryHandleAccessWrite. -/
def BatteryHandleAccessWrite (K : Config) (F : Firmware) (p_ind : GATT_ACCESS_IND_T)
    (w : World) : World :=
  let r : sys_status × World :=
    if p_ind.handle = K.HANDLE_BATT_LEVEL_C_CFG then
      let client_config := BufReadUint16 p_ind.value
      if client_config = gatt_client_config_notification ∨
          client_config = gatt_client_config_none then
        let w1 := { w with batt := { w.batt with level_client_config := client_config } }
        if AppIsDeviceBonded w1 then
          (sys_status.sys_status_success,
            Nvm_Write [client_config]
              (w1.batt.nvm_offset + BATTERY_NVM_LEVEL_CLIENT_CONFIG_OFFSET) w1)
        else (sys_status.sys_status_success, w1)
      else (sys_status.gatt_status_desc_improper_config, w)
    else (sys_status.gatt_status_write_not_permitted, w)
  let w2 := emit (Req.GattAccessRsp p_ind.cid p_ind.handle r.1 0 []) r.2
  if (w2.batt.level_client_config &&& gatt_client_config_notification) ≠ 0 then
    BatteryUpdateLevel K F p_ind.cid { w2 with batt := { w2.batt with level := 0xFF } }
  else w2

/-- The function BatteryReadDataFromNVM; the result carries the advanced
offset. -/
def BatteryReadDataFromNVM (p_offset : Nat) (w : World) : Nat × World :=
  let w1 := { w with batt := { w.batt with nvm_offset := p_offset } }
  let w2 :=
    if AppIsDeviceBonded w1 then
      { w1 with batt := { w1.batt with level_client_config :=
          (Nvm_Read 1 (p_offset + BATTERY_NVM_LEVEL_CLIENT_CONFIG_OFFSET) w1).getD 0 0 } }
    else w1
  ((p_offset + BATTERY_SERVICE_NVM_MEMORY_WORDS) % 65536, w2)

/-- The function BatteryCheckHandleRange. -/
def BatteryCheckHandleRange (K : Config) (handle : Nat) : Bool :=
  decide (handle ≥ K.HANDLE_BATTERY_SERVICE ∧ handle ≤ K.HANDLE_BATTERY_SERVICE_END)

/-- The function BatteryBondingNotify. -/
def BatteryBondingNotify (w : World) : World :=
  if AppIsDeviceBonded w then
    Nvm_Write [w.batt.level_client_config]
      (w.batt.nvm_offset + BATTERY_NVM_LEVEL_CLIENT_CONFIG_OFFSET) w
  else w

/-! ## health_thermo_service.c -/

/-- The function HealthThermoDataInit. -/
def HealthThermoDataInit (w : World) : World :=
  if !AppIsDeviceBonded w then
    { w with serv := { w.serv with temp_client_config := gatt_client_config_none } }
  else w

/-- The function HealthThermoHandleAccessRead. -/
def HealthThermoHandleAccessRead (K : Config) (p_ind : GATT_ACCESS_IND_T) (w : World) : World :=
  if p_ind.handle = K.HANDLE_HT_TEMP_MEASUREMENT then
    emit (Req.GattAccessRsp p_ind.cid p_ind.handle sys_status.sys_status_success 5
      [w.serv.sendcnt, w.serv.heartcnt, w.serv.ghgcnt, w.serv.anjstate, w.serv.batlevel]) w
  else if p_ind.handle = K.HANDLE_HT_TEMP_MEAS_C_CFG then
    emit (Req.GattAccessRsp p_ind.cid p_ind.handle sys_status.sys_status_success 2
      (BufWriteUint16 w.serv.temp_client_config)) w
  else
    emit (Req.GattAccessRsp p_ind.cid p_ind.handle sys_status.gatt_status_irq_proceed 0 []) w

/-- The function HealthThermoHandleAccessWrite. -/
def HealthThermoHandleAccessWrite (K : Config) (p_ind : GATT_ACCESS_IND_T) (w : World) : World :=
  let r : sys_status × World :=
    if p_ind.handle = K.HANDLE_HT_TEMP_MEAS_C_CFG then
      let client_config := BufReadUint16 p_ind.value
      if client_config = gatt_client_config_notification ∨
          client_config = gatt_client_config_none then
        let w1 := { w with serv := { w.serv with temp_client_config := client_config } }
        if AppIsDeviceBonded w1 then
          (sys_status.sys_status_success,
            Nvm_Write [client_config]
              (w1.serv.nvm_offset + HEALTH_THERMO_NVM_TEMP_CLIENT_CONFIG_OFFSET) w1)
        else (sys_status.sys_status_success, w1)
      else (sys_status.gatt_status_desc_improper_config, w)
    else (sys_status.gatt_status_write_not_permitted, w)
  emit (Req.GattAccessRsp p_ind.cid p_ind.handle r.1 0 []) r.2

/-- The function HealthThermoSendTempReading: the world after the call, the
payload after the call and the returned flag. -/
def HealthThermoSendTempReading (K : Config) (ucid : Nat) (value : List Nat) (w : World) :
    World × List Nat × Bool :=
  let send_count := if w.serv.send_count = 0xFF then 0 else (w.serv.send_count + 1) % 256
  let value := value.set 0 send_count
  let w1 := { w with serv := { w.serv with
    send_count := send_count, sendcnt := send_count, heartcnt := value.getD 1 0,
    ghgcnt := value.getD 2 0, anjstate := value.getD 3 0, batlevel := value.getD 4 0 } }
  if ucid ≠ GATT_INVALID_UCID ∧
      (w1.serv.temp_client_config &&& gatt_client_config_notification) ≠ 0 then
    (emit (Req.GattCharValueNotification ucid K.HANDLE_HT_TEMP_MEASUREMENT MAX_TEMP_MEAS_SIZE
      value) w1, value, true)
  else (w1, value, false)

/-- The function HealthThermoReadDataFromNVM; the result carries the advanced
offset. -/
def HealthThermoReadDataFromNVM (p_offset : Nat) (w : World) : Nat × World :=
  let w1 := { w with serv := { w.serv with nvm_offset := p_offset } }
  let w2 :=
    if AppIsDeviceBonded w1 then
      { w1 with serv := { w1.serv with temp_client_config :=
          (Nvm_Read 1 (p_offset + HEALTH_THERMO_NVM_TEMP_CLIENT_CONFIG_OFFSET) w1).getD 0 0 } }
    else w1
  ((p_offset + HEALTH_THERMO_SERVICE_NVM_MEMORY_WORDS) % 65536, w2)

/-- The function HealthThermoCheckHandleRange. -/
def HealthThermoCheckHandleRange (K : Config) (handle : Nat) : Bool :=
  decide (handle ≥ K.HANDLE_HEALTH_THERMOMETER_SERVICE ∧
    handle ≤ K.HANDLE_HEALTH_THERMOMETER_SERVICE_END)

/-- The function HealthThermoBondingNotify. -/
def HealthThermoBondingNotify (w : World) : World :=
  if AppIsDeviceBonded w then
    Nvm_Write [w.serv.temp_client_config]
      (w.serv.nvm_offset + HEALTH_THERMO_NVM_TEMP_CLIENT_CONFIG_OFFSET) w
  else w

/-! ## dev_info_service.c -/

/-- The function getSystemId: the eight octets computed from the device
address, when the firmware can read it. -/
def getSystemId (F : Firmware) : Option (List Nat) :=
  match F.CSReadBdaddr with
  | some bdaddr =>
    some [(SYSTEM_ID_FIXED_CONSTANT >>> 8) % 256, SYSTEM_ID_FIXED_CONSTANT % 256,
      (bdaddr.lap >>> 16) % 256, (bdaddr.lap >>> 8) % 256, bdaddr.lap % 256,
      (bdaddr.nap >>> 8) % 256, bdaddr.nap % 256, bdaddr.uap % 256]
  | none => none

/-- The function DeviceInfoHandleAccessRead. -/
def DeviceInfoHandleAccessRead (K : Config) (F : Firmware) (p_ind : GATT_ACCESS_IND_T)
    (w : World) : World :=
  if p_ind.handle = K.HANDLE_DEVICE_INFO_SYSTEM_ID then
    match getSystemId F with
    | some sys_id =>
      emit (Req.GattAccessRsp p_ind.cid p_ind.handle sys_status.sys_status_success
        SYSTEM_ID_LENGTH sys_id) { w with system_id := sys_id }
    | none =>
      emit (Req.GattAccessRsp p_ind.cid p_ind.handle sys_status.gatt_status_unlikely_error
        SYSTEM_ID_LENGTH []) w
  else
    emit (Req.GattAccessRsp p_ind.cid p_ind.handle sys_status.gatt_status_irq_proceed 0 []) w

/-- The function DeviceInfoCheckHandleRange. -/
def DeviceInfoCheckHandleRange (K : Config) (handle : Nat) : Bool :=
  decide (handle ≥ K.HANDLE_DEVICE_INFO_SERVICE ∧ handle ≤ K.HANDLE_DEVICE_INFO_SERVICE_END)

/-! ## ht_gatt.c: attribute dispatcher -/

/-- Modelled from the spec: gap_service.c is not among the sources;
GapCheckHandleRange tests the handle against the range of the GAP service, as
the three services of the sources do for theirs. -/
def GapCheckHandleRange (K : Config) (handle : Nat) : Bool :=
  decide (handle ≥ K.HANDLE_GAP_SERVICE ∧ handle ≤ K.HANDLE_GAP_SERVICE_END)

/-- The function HandleAccessRead. -/
def HandleAccessRead (K : Config) (F : Firmware) (p_ind : GATT_ACCESS_IND_T) (w : World) :
    World :=
  if GapCheckHandleRange K p_ind.handle then
    emit (Req.GapHandleAccessRead p_ind) w
  else if HealthThermoCheckHandleRange K p_ind.handle then
    HealthThermoHandleAccessRead K p_ind w
  else if BatteryCheckHandleRange K p_ind.handle then
    BatteryHandleAccessRead K F p_ind w
  else if DeviceInfoCheckHandleRange K p_ind.handle then
    DeviceInfoHandleAccessRead K F p_ind w
  else
    emit (Req.GattAccessRsp p_ind.cid p_ind.handle sys_status.gatt_status_read_not_permitted
      0 []) w

/-- The function HandleAccessWrite. -/
def HandleAccessWrite (K : Config) (F : Firmware) (p_ind : GATT_ACCESS_IND_T) (w : World) :
    World :=
  if GapCheckHandleRange K p_ind.handle then
    emit (Req.GapHandleAccessWrite p_ind) w
  else if HealthThermoCheckHandleRange K p_ind.handle then
    HealthThermoHandleAccessWrite K p_ind w
  else if BatteryCheckHandleRange K p_ind.handle then
    BatteryHandleAccessWrite K F p_ind w
  else
    emit (Req.GattAccessRsp p_ind.cid p_ind.handle sys_status.gatt_status_write_not_permitted
      0 []) w

/-! ## health_thermometer.c: initialisation and state changes -/

/-- The function htDataInit. The call GapDataInit goes to the GAP service,
which is not among the sources, and is recorded. -/
def htDataInit (w : World) : World :=
  let w1 := TimerDelete w.g.app_tid w
  let w2 := { w1 with g := { w1.g with app_tid := TIMER_INVALID } }
  let w3 := TimerDelete w2.g.con_param_update_tid w2
  let w4 := { w3 with g := { w3.g with
    con_param_update_tid := TIMER_INVALID
    cpu_timer_value := 0 } }
  let w5 := TimerDelete w4.g.bonding_reattempt_tid w4
  let w6 := { w5 with g := { w5.g with
    bonding_reattempt_tid := TIMER_INVALID
    st_ucid := GATT_INVALID_UCID
    encrypt_enabled := false
    conn_interval := 0
    conn_latency := 0
    conn_timeout := 0 } }
  let w7 := HtHwDataInit w6
  let w8 := emit Req.GapDataInit w7
  let w9 := BatteryDataInit w8
  HealthThermoDataInit w9

/-- The function readPersistentStore. The calls GapReadDataFromNVM and
GapInitWriteDataToNVM go to the GAP service and are recorded; they advance the
offset by the number of words of the GAP block. -/
def readPersistentStore (K : Config) (w : World) : World :=
  let nvm_offset := NVM_MAX_APP_MEMORY_WORDS
  let nvm_sanity := (Nvm_Read 1 NVM_OFFSET_SANITY_WORD w).getD 0 0
  let w1 :=
    if nvm_sanity = NVM_SANITY_MAGIC then
      let a := { w with g := { w.g with
        bonded := decide ((Nvm_Read 1 NVM_OFFSET_BONDED_FLAG w).getD 0 0 ≠ 0) } }
      let b :=
        if a.g.bonded then
          let bonded_bd_addr :=
            addrOfWords (Nvm_Read SIZEOF_TYPED_BD_ADDR_T NVM_OFFSET_BONDED_ADDR a)
          let b1 := { a with g := { a.g with bonded_bd_addr := bonded_bd_addr } }
          if GattIsAddressResolvableRandom b1.g.bonded_bd_addr then
            let irk := Nvm_Read MAX_WORDS_IRK NVM_OFFSET_SM_IRK b1
            { b1 with g := { b1.g with central_device_irk := irk } }
          else b1
        else { a with g := { a.g with bonded := false } }
      let diversifier := (Nvm_Read 1 NVM_OFFSET_SM_DIV b).getD 0 0
      let c := { b with g := { b.g with diversifier := diversifier } }
      emit (Req.GapReadDataFromNVM nvm_offset) c
    else
      let a := Nvm_Write [NVM_SANITY_MAGIC] NVM_OFFSET_SANITY_WORD w
      let b := { a with g := { a.g with bonded := false } }
      let c := Nvm_Write [boolWord b.g.bonded] NVM_OFFSET_BONDED_FLAG b
      let d := { c with g := { c.g with diversifier := 0 } }
      let e := Nvm_Write [d.g.diversifier] NVM_OFFSET_SM_DIV d
      emit (Req.GapInitWriteDataToNVM nvm_offset) e
  let nvm_offset := (nvm_offset + K.GAP_SERVICE_NVM_MEMORY_WORDS) % 65536
  let r1 := HealthThermoReadDataFromNVM nvm_offset w1
  let r2 := BatteryReadDataFromNVM r1.1 r1.2
  r2.2

/-- The timer callback requestConnParamUpdate. -/
def requestConnParamUpdate (F : Firmware) (tid : Nat) (w : World) : World :=
  if w.g.con_param_update_tid = tid then
    let w1 := { w with g := { w.g with
      con_param_update_tid := TIMER_INVALID
      cpu_timer_value := 0 } }
    match w1.g.state with
    | app_state.app_state_connected =>
      let w2 := { w1 with g := { w1.g with
        num_conn_update_req := (w1.g.num_conn_update_req + 1) % 256 } }
      let app_pref_conn_param : ble_con_params :=
        if w2.g.num_conn_update_req ≤ CPU_SELF_PARAMS_MAX_ATTEMPTS then
          { con_max_interval := PREFERRED_MAX_CON_INTERVAL
            con_min_interval := PREFERRED_MIN_CON_INTERVAL
            con_slave_latency := PREFERRED_SLAVE_LATENCY
            con_super_timeout := PREFERRED_SUPERVISION_TIMEOUT }
        else
          { con_max_interval := APPLE_MAX_CON_INTERVAL
            con_min_interval := APPLE_MIN_CON_INTERVAL
            con_slave_latency := APPLE_SLAVE_LATENCY
            con_super_timeout := APPLE_SUPERVISION_TIMEOUT }
      let w3 := emit (Req.LsConnectionParamUpdateReq w2.g.con_bd_addr app_pref_conn_param) w2
      if F.LsConnectionParamUpdateReq w2.g.con_bd_addr app_pref_conn_param ≠ ls_err_none then
        ReportPanic app_panic_code.app_panic_con_param_update w3
      else w3
    | _ => w1
  else w

/-- The timer callback htTempMeasTimerHandler. -/
def htTempMeasTimerHandler (tid : Nat) (w : World) : World :=
  if tid = w.g.app_tid then
    let w1 := { w with g := { w.g with app_tid := TIMER_INVALID } }
    match w1.g.state with
    | app_state.app_state_connected =>
      let r := TimerCreate HT_TEMP_MEAS_TIME timer_cb.htTempMeasTimerHandler w1
      { r.2 with g := { r.2.g with app_tid := r.1 } }
    | _ => w1
  else w

/-- The function appInitExit. -/
def appInitExit (F : Firmware) (w : World) : World :=
  if w.g.bonded && !GattIsAddressResolvableRandom w.g.bonded_bd_addr then
    let w1 := emit (Req.LsAddWhiteListDevice w.g.bonded_bd_addr) w
    if F.LsAddWhiteListDevice w.g.bonded_bd_addr ≠ ls_err_none then
      ReportPanic app_panic_code.app_panic_add_whitelist w1
    else w1
  else w

/-- The function appAdvertisingExit. -/
def appAdvertisingExit (w : World) : World :=
  let w1 := TimerDelete w.g.app_tid w
  { w1 with g := { w1.g with app_tid := TIMER_INVALID } }

/-- The function AppSetState. A panic reported by the exit action of the old
state leaves the state as it was; a panic reported while the advertisements
are started comes after the new state has been stored. -/
def AppSetState (F : Firmware) (new_state : app_state) (w : World) : World :=
  let old_state := w.g.state
  if old_state ≠ new_state then
    let w1 :=
      match old_state with
      | app_state.app_state_init => appInitExit F w
      | app_state.app_state_disconnecting => htDataInit w
      | app_state.app_state_fast_advertising => appAdvertisingExit w
      | app_state.app_state_slow_advertising => appAdvertisingExit w
      | app_state.app_state_connected => w
      | app_state.app_state_idle => w
    if panicked w w1 then w1
    else
    let w2 := { w1 with g := { w1.g with state := new_state } }
    match new_state with
    | app_state.app_state_fast_advertising =>
      let w3 := GattStartAdverts F true w2
      if panicked w2 w3 then w3
      else SoundBuzzer buzzer_beep_type.buzzer_beep_twice w3
    | app_state.app_state_slow_advertising => GattStartAdverts F false w2
    | app_state.app_state_idle => SoundBuzzer buzzer_beep_type.buzzer_beep_long w2
    | app_state.app_state_connected =>
      if !GattIsAddressResolvableRandom w2.g.con_bd_addr then
        emit (Req.SMRequestSecurityLevel w2.g.con_bd_addr) w2
      else w2
    | app_state.app_state_disconnecting => emit (Req.GattDisconnectReq w2.g.st_ucid) w2
    | app_state.app_state_init => w2
  else w

/-- The timer callback handleGapCppTimerExpiry. -/
def handleGapCppTimerExpiry (tid : Nat) (w : World) : World :=
  if w.g.con_param_update_tid = tid then
    let r := TimerCreate TGAP_CPC_PERIOD timer_cb.requestConnParamUpdate w
    { r.2 with g := { r.2.g with
      con_param_update_tid := r.1
      cpu_timer_value := TGAP_CPC_PERIOD } }
  else w

/-- The timer callback handleBondingChanceTimerExpiry. -/
def handleBondingChanceTimerExpiry (F : Firmware) (tid : Nat) (w : World) : World :=
  if w.g.bonding_reattempt_tid = tid then
    AppSetState F app_state.app_state_disconnecting
      { w with g := { w.g with bonding_reattempt_tid := TIMER_INVALID } }
  else w

/-- True when the stored link parameters do not comply with the preferred
ones: the condition tested by the connect confirmation and by the parameter
update indication (the latency test is compiled in, PREFERRED_SLAVE_LATENCY
being non-zero). -/
def paramsOutsidePreferred (w : World) : Bool :=
  decide (w.g.conn_interval < PREFERRED_MIN_CON_INTERVAL ∨
    w.g.conn_interval > PREFERRED_MAX_CON_INTERVAL ∨
    w.g.conn_latency < PREFERRED_SLAVE_LATENCY)

/-! ## health_thermometer.c: handlers of firmware events -/

/-- The handler handleSignalGattAddDbCfm. -/
def handleSignalGattAddDbCfm (F : Firmware) (result : sys_status) (w : World) : World :=
  match w.g.state with
  | app_state.app_state_init =>
    if result = sys_status.sys_status_success then
      AppSetState F app_state.app_state_fast_advertising w
    else ReportPanic app_panic_code.app_panic_db_registration w
  | _ => ReportPanic app_panic_code.app_panic_invalid_state w

/-- The body of handleSignalGattCancelConnectCfm in the two advertising
states. -/
def cancelConnectCfmAdvertising (F : Firmware) (w : World) : World :=
  if w.g.pairing_button_pressed then
    let w1 := { w with g := { w.g with pairing_button_pressed := false } }
    let w2 := emit Req.LsResetWhiteList w1
    if w2.g.state = app_state.app_state_fast_advertising then GattStartAdverts F true w2
    else AppSetState F app_state.app_state_fast_advertising w2
  else if w.g.state = app_state.app_state_fast_advertising then
    AppSetState F app_state.app_state_slow_advertising w
  else AppSetState F app_state.app_state_idle w

/-- The handler handleSignalGattCancelConnectCfm. -/
def handleSignalGattCancelConnectCfm (F : Firmware) (w : World) : World :=
  match w.g.state with
  | app_state.app_state_fast_advertising => cancelConnectCfmAdvertising F w
  | app_state.app_state_slow_advertising => cancelConnectCfmAdvertising F w
  | _ => ReportPanic app_panic_code.app_panic_invalid_state w

/-- The handler handleSignalLmEvConnectionComplete. -/
def handleSignalLmEvConnectionComplete (conn_interval conn_latency supervision_timeout : Nat)
    (w : World) : World :=
  { w with g := { w.g with
    conn_interval := conn_interval
    conn_latency := conn_latency
    conn_timeout := supervision_timeout } }

/-- The body of handleSignalGattConnectCfm in the two advertising states. -/
def connectCfmAdvertising (F : Firmware) (result : sys_status) (cid : Nat)
    (bd_addr : TYPED_BD_ADDR_T) (w : World) : World :=
  if result = sys_status.sys_status_success then
    let w1 := { w with g := { w.g with st_ucid := cid, con_bd_addr := bd_addr } }
    if w1.g.bonded && GattIsAddressResolvableRandom w1.g.bonded_bd_addr &&
        decide (F.SMPrivacyMatchAddress bd_addr w1.g.central_device_irk < 0) then
      AppSetState F app_state.app_state_disconnecting w1
    else
      let w2 := AppSetState F app_state.app_state_connected w1
      if w2.g.con_param_update_tid = TIMER_INVALID ∧ paramsOutsidePreferred w2 = true then
        let w3 := { w2 with g := { w2.g with num_conn_update_req := 0 } }
        let r := TimerCreate TGAP_CPP_PERIOD timer_cb.handleGapCppTimerExpiry w3
        { r.2 with g := { r.2.g with
          con_param_update_tid := r.1
          cpu_timer_value := TGAP_CPP_PERIOD } }
      else w2
  else if w.g.state = app_state.app_state_slow_advertising then
    AppSetState F app_state.app_state_fast_advertising w
  else GattStartAdverts F true w

/-- The handler handleSignalGattConnectCfm. -/
def handleSignalGattConnectCfm (F : Firmware) (result : sys_status) (cid : Nat)
    (bd_addr : TYPED_BD_ADDR_T) (w : World) : World :=
  match w.g.state with
  | app_state.app_state_fast_advertising => connectCfmAdvertising F result cid bd_addr w
  | app_state.app_state_slow_advertising => connectCfmAdvertising F result cid bd_addr w
  | _ => ReportPanic app_panic_code.app_panic_invalid_state w

/-- The handler handleSignalSmKeysInd; `div_present` and `id_present` are the
outcomes of the tests of `keys_present` against the bits SM_KEY_TYPE_DIV and
SM_KEY_TYPE_ID. -/
def handleSignalSmKeysInd (div_present id_present : Bool) (div : Nat) (irk : List Nat)
    (w : World) : World :=
  match w.g.state with
  | app_state.app_state_connected =>
    let w1 :=
      if div_present then
        let a := { w with g := { w.g with diversifier := div } }
        Nvm_Write [a.g.diversifier] NVM_OFFSET_SM_DIV a
      else w
    if GattIsAddressResolvableRandom w1.g.con_bd_addr && id_present then
      let b := { w1 with g := { w1.g with central_device_irk := irk.take MAX_WORDS_IRK } }
      Nvm_Write b.g.central_device_irk NVM_OFFSET_SM_IRK b
    else w1
  | _ => ReportPanic app_panic_code.app_panic_invalid_state w

/-- The handler handleSignalSmPairingAuthInd. -/
def handleSignalSmPairingAuthInd (data : Nat) (w : World) : World :=
  match w.g.state with
  | app_state.app_state_connected =>
    if !w.g.bonded then emit (Req.SMPairingAuthRsp data true) w
    else emit (Req.SMPairingAuthRsp data false) w
  | _ => ReportPanic app_panic_code.app_panic_invalid_state w

/-- The handler handleSignalSmSimplePairingCompleteInd. -/
def handleSignalSmSimplePairingCompleteInd (F : Firmware) (status : sys_status)
    (bd_addr : TYPED_BD_ADDR_T) (w : World) : World :=
  match w.g.state with
  | app_state.app_state_connected =>
    if status = sys_status.sys_status_success then
      let w1 := { w with g := { w.g with bonded := true, bonded_bd_addr := bd_addr } }
      let w2 := Nvm_Write [boolWord w1.g.bonded] NVM_OFFSET_BONDED_FLAG w1
      let w3 := Nvm_Write (addrWords w2.g.bonded_bd_addr) NVM_OFFSET_BONDED_ADDR w2
      let w4 :=
        if !GattIsAddressResolvableRandom w3.g.bonded_bd_addr then
          let a := emit (Req.LsAddWhiteListDevice w3.g.bonded_bd_addr) w3
          if F.LsAddWhiteListDevice w3.g.bonded_bd_addr ≠ ls_err_none then
            ReportPanic app_panic_code.app_panic_add_whitelist a
          else a
        else w3
      if panicked w3 w4 then w4
      else BatteryBondingNotify (HealthThermoBondingNotify w4)
    else if status = sys_status.sm_status_repeated_attempts then
      AppSetState F app_state.app_state_disconnecting w
    else if w.g.bonded then
      let w1 := { w with g := { w.g with encrypt_enabled := false } }
      let r := TimerCreate BONDING_CHANCE_TIMER timer_cb.handleBondingChanceTimerExpiry w1
      { r.2 with g := { r.2.g with bonding_reattempt_tid := r.1 } }
    else w
  | _ => w

/-- The handler handleSignalLMEncryptionChange. -/
def handleSignalLMEncryptionChange (K : Config) (F : Firmware) (status : sys_status)
    (enc_enable : Bool) (w : World) : World :=
  match w.g.state with
  | app_state.app_state_connected =>
    if status = sys_status.sys_status_success then
      let w1 := { w with g := { w.g with encrypt_enabled := enc_enable } }
      if w1.g.encrypt_enabled then
        let w2 := TimerDelete w1.g.bonding_reattempt_tid w1
        let w3 := { w2 with g := { w2.g with bonding_reattempt_tid := TIMER_INVALID } }
        let w4 := BatteryUpdateLevel K F w3.g.st_ucid w3
        htTempMeasTimerHandler TIMER_INVALID w4
      else w1
    else w
  | _ => ReportPanic app_panic_code.app_panic_invalid_state w

/-- The handler handleSignalSmDivApproveInd. -/
def handleSignalSmDivApproveInd (cid div : Nat) (w : World) : World :=
  match w.g.state with
  | app_state.app_state_connected =>
    let approve_div :=
      if w.g.bonded then
        if w.g.diversifier = div then sm_div_verdict.SM_DIV_APPROVED
        else sm_div_verdict.SM_DIV_REVOKED
      else sm_div_verdict.SM_DIV_REVOKED
    emit (Req.SMDivApproval cid approve_div) w
  | _ => ReportPanic app_panic_code.app_panic_invalid_state w

/-- The handler handleSignalLsConnParamUpdateCfm. -/
def handleSignalLsConnParamUpdateCfm (status : sys_status) (w : World) : World :=
  match w.g.state with
  | app_state.app_state_connected =>
    if status ≠ ls_err_none ∧ w.g.num_conn_update_req < MAX_NUM_CONN_PARAM_UPDATE_REQS then
      let w1 := TimerDelete w.g.con_param_update_tid w
      let r := TimerCreate GAP_CONN_PARAM_TIMEOUT timer_cb.requestConnParamUpdate w1
      { r.2 with g := { r.2.g with
        con_param_update_tid := r.1
        cpu_timer_value := GAP_CONN_PARAM_TIMEOUT } }
    else w
  | _ => ReportPanic app_panic_code.app_panic_invalid_state w

/-- The body of handleSignalLmConnectionUpdate in the states connected and
disconnecting. -/
def connectionUpdateStore (conn_interval conn_latency supervision_timeout : Nat) (w : World) :
    World :=
  { w with g := { w.g with
    conn_interval := conn_interval
    conn_latency := conn_latency
    conn_timeout := supervision_timeout } }

/-- The handler handleSignalLmConnectionUpdate. -/
def handleSignalLmConnectionUpdate (conn_interval conn_latency supervision_timeout : Nat)
    (w : World) : World :=
  match w.g.state with
  | app_state.app_state_connected =>
    connectionUpdateStore conn_interval conn_latency supervision_timeout w
  | app_state.app_state_disconnecting =>
    connectionUpdateStore conn_interval conn_latency supervision_timeout w
  | _ => ReportPanic app_panic_code.app_panic_invalid_state w

/-- The handler handleSignalLsConnParamUpdateInd. -/
def handleSignalLsConnParamUpdateInd (w : World) : World :=
  match w.g.state with
  | app_state.app_state_connected =>
    let w1 := TimerDelete w.g.con_param_update_tid w
    let w2 := { w1 with g := { w1.g with
      con_param_update_tid := TIMER_INVALID
      cpu_timer_value := 0 } }
    if paramsOutsidePreferred w2 then
      let w3 := { w2 with g := { w2.g with num_conn_update_req := 0 } }
      let r := TimerCreate GAP_CONN_PARAM_TIMEOUT timer_cb.requestConnParamUpdate w3
      { r.2 with g := { r.2.g with
        con_param_update_tid := r.1
        cpu_timer_value := GAP_CONN_PARAM_TIMEOUT } }
    else w2
  | _ => ReportPanic app_panic_code.app_panic_invalid_state w

/-- The handler handleSignalGattAccessInd. -/
def handleSignalGattAccessInd (K : Config) (F : Firmware) (p_event_data : GATT_ACCESS_IND_T)
    (w : World) : World :=
  match w.g.state with
  | app_state.app_state_connected =>
    let w1 :=
      if w.g.cpu_timer_value = TGAP_CPC_PERIOD ∧ w.g.con_param_update_tid ≠ TIMER_INVALID then
        let a := TimerDelete w.g.con_param_update_tid w
        let r := TimerCreate TGAP_CPC_PERIOD timer_cb.requestConnParamUpdate a
        { r.2 with g := { r.2.g with con_param_update_tid := r.1 } }
      else w
    if p_event_data.flags =
        (ATT_ACCESS_WRITE ||| ATT_ACCESS_PERMISSION ||| ATT_ACCESS_WRITE_COMPLETE) then
      let w2 := HandleAccessWrite K F p_event_data w1
      if w2.g.encrypt_enabled then
        let w3 := TimerDelete w2.g.app_tid w2
        let w4 := { w3 with g := { w3.g with app_tid := TIMER_INVALID } }
        htTempMeasTimerHandler TIMER_INVALID w4
      else w2
    else if p_event_data.flags = (ATT_ACCESS_READ ||| ATT_ACCESS_PERMISSION) then
      HandleAccessRead K F p_event_data w1
    else
      emit (Req.GattAccessRsp p_event_data.cid p_event_data.handle
        sys_status.gatt_status_request_not_supported 0 []) w1
  | _ => ReportPanic app_panic_code.app_panic_invalid_state w

/-- The part of handleSignalLmDisconnectComplete shared by the states
connected (after htDataInit) and disconnecting. -/
def disconnectCompleteNext (F : Firmware) (reason : Nat) (w : World) : World :=
  if reason = HCI_ERROR_CONN_TIMEOUT then
    AppSetState F app_state.app_state_fast_advertising w
  else if reason = HCI_ERROR_CONN_TERM_LOCAL_HOST then
    if w.g.state = app_state.app_state_connected then
      AppSetState F app_state.app_state_fast_advertising w
    else if w.g.bonded then
      if GattIsAddressResolvableRandom w.g.bonded_bd_addr &&
          decide (F.SMPrivacyMatchAddress w.g.con_bd_addr w.g.central_device_irk < 0) then
        AppSetState F app_state.app_state_fast_advertising w
      else AppSetState F app_state.app_state_idle w
    else AppSetState F app_state.app_state_fast_advertising w
  else if !w.g.bonded then AppSetState F app_state.app_state_fast_advertising w
  else AppSetState F app_state.app_state_idle w

/-- The handler handleSignalLmDisconnectComplete. -/
def handleSignalLmDisconnectComplete (F : Firmware) (reason : Nat) (w : World) : World :=
  let w1 := TimerDelete w.g.bonding_reattempt_tid w
  let w2 := { w1 with g := { w1.g with
    bonding_reattempt_tid := TIMER_INVALID
    conn_interval := 0
    conn_latency := 0
    conn_timeout := 0 } }
  match w2.g.state with
  | app_state.app_state_connected => disconnectCompleteNext F reason (htDataInit w2)
  | app_state.app_state_disconnecting => disconnectCompleteNext F reason w2
  | _ => ReportPanic app_panic_code.app_panic_invalid_state w2

/-! ## health_thermometer.c and ht_hw.c: buttons -/

/-- The function HandleShortButtonPress. -/
def HandleShortButtonPress (K : Config) (val : List Nat) (w : World) : World :=
  (HealthThermoSendTempReading K w.g.st_ucid val w).1

/-- The timer callback HandleExtraLongButtonPress. -/
def HandleExtraLongButtonPress (F : Firmware) (tid : Nat) (w : World) : World :=
  if tid = w.hw.button_press_tid then
    let w1 := { w with hw := { w.hw with button_press_tid := TIMER_INVALID } }
    let w2 := SoundBuzzer buzzer_beep_type.buzzer_beep_thrice w1
    let w3 := { w2 with g := { w2.g with bonded := false } }
    let w4 := Nvm_Write [boolWord w3.g.bonded] NVM_OFFSET_BONDED_FLAG w3
    match w4.g.state with
    | app_state.app_state_connected =>
      let a := TimerDelete w4.g.app_tid w4
      let b := { a with g := { a.g with app_tid := TIMER_INVALID } }
      let c := AppSetState F app_state.app_state_disconnecting b
      emit Req.LsResetWhiteList c
    | app_state.app_state_fast_advertising =>
      let a := htDataInit w4
      let b := { a with g := { a.g with pairing_button_pressed := true } }
      GattStopAdverts b
    | app_state.app_state_slow_advertising =>
      let a := htDataInit w4
      let b := { a with g := { a.g with pairing_button_pressed := true } }
      GattStopAdverts b
    | app_state.app_state_disconnecting => emit Req.LsResetWhiteList w4
    | _ =>
      let a := htDataInit w4
      let b := emit Req.LsResetWhiteList a
      AppSetState F app_state.app_state_fast_advertising b
  else w

/-- One of the four plain buttons of HandlePIOChangedEvent: the byte `switchs`
after the button's bit of `pio_cause` has been looked at. -/
def switchBit (pio_cause pio_state mask up_mask down_mask switchs : Nat) : Nat :=
  if pio_cause &&& mask ≠ 0 then
    if pio_state &&& mask ≠ 0 then switchs &&& up_mask else switchs &&& down_mask
  else switchs

/-- One of the two counting buttons of HandlePIOChangedEvent: the new button
state and the new count. -/
def countButton (pio_cause pio_state mask : Nat) (st : BUTTON_STATE_T) (count : Nat) :
    BUTTON_STATE_T × Nat :=
  if pio_cause &&& mask ≠ 0 then
    if pio_state &&& mask ≠ 0 then (BUTTON_STATE_T.button_state_up, count)
    else
      let valid := decide (st = BUTTON_STATE_T.button_state_up)
      (BUTTON_STATE_T.button_state_down,
        if valid then (if count = 0xFF then 0 else (count + 1) % 256) else count)
  else (st, count)

/-- The function HandlePIOChangedEvent. -/
def HandlePIOChangedEvent (K : Config) (F : Firmware) (pio_cause pio_state : Nat) (w : World) :
    World :=
  let bat := readBatteryLevel F
  let switchs := 0xFF
  let r : Nat × World :=
    if pio_cause &&& PIO_BIT_MASK BUTTON_LEFT ≠ 0 then
      if ¬ (pio_state &&& PIO_BIT_MASK BUTTON_LEFT ≠ 0) then
        let a := TimerDelete w.hw.button_press_tid w
        let c := TimerCreate EXTRA_LONG_BUTTON_PRESS_TIMER timer_cb.HandleExtraLongButtonPress a
        (switchs &&& 0xBF, { c.2 with hw := { c.2.hw with button_press_tid := c.1 } })
      else if w.hw.button_press_tid ≠ TIMER_INVALID then
        let a := TimerDelete w.hw.button_press_tid w
        (switchs &&& 0x7F, { a with hw := { a.hw with button_press_tid := TIMER_INVALID } })
      else (switchs, w)
    else (switchs, w)
  let switchs := switchBit pio_cause pio_state (PIO_BIT_MASK BUTTON_RIGHT) 0xDF 0xEF r.1
  let switchs := switchBit pio_cause pio_state (PIO_BIT_MASK BUTTON_FASTER) 0xF7 0xFB switchs
  let switchs := switchBit pio_cause pio_state (PIO_BIT_MASK BUTTON_BRAKE) 0xFD 0xFE switchs
  let ghg := countButton pio_cause pio_state (PIO_BIT_MASK BUTTON_GHG)
    r.2.hw.ghg_state r.2.hw.ghg_count
  let bp := countButton pio_cause pio_state (PIO_BIT_MASK BUTTON_BP)
    r.2.hw.bp_state r.2.hw.bp_count
  let w1 := { r.2 with hw := { r.2.hw with
    ghg_state := ghg.1
    ghg_count := ghg.2
    bp_state := bp.1
    bp_count := bp.2 } }
  HandleShortButtonPress K [0, w1.hw.bp_count, w1.hw.ghg_count, switchs, bat] w1

/-! ## health_thermometer.c: entry points -/

/-- The firmware events that AppProcessLmEvent switches on, with the fields
that the handlers read; every other event code is `other`. -/
inductive LmEvent
  | GATT_ADD_DB_CFM (result : sys_status)
  | GATT_CANCEL_CONNECT_CFM
  | LM_EV_CONNECTION_COMPLETE (conn_interval conn_latency supervision_timeout : Nat)
  | GATT_CONNECT_CFM (result : sys_status) (cid : Nat) (bd_addr : TYPED_BD_ADDR_T)
  | SM_KEYS_IND (div_present id_present : Bool) (div : Nat) (irk : List Nat)
  | SM_PAIRING_AUTH_IND (data : Nat)
  | SM_SIMPLE_PAIRING_COMPLETE_IND (status : sys_status) (bd_addr : TYPED_BD_ADDR_T)
  | LM_EV_ENCRYPTION_CHANGE (status : sys_status) (enc_enable : Bool)
  | SM_DIV_APPROVE_IND (cid div : Nat)
  | LS_CONNECTION_PARAM_UPDATE_CFM (status : sys_status)
  | LM_EV_CONNECTION_UPDATE (conn_interval conn_latency supervision_timeout : Nat)
  | LS_CONNECTION_PARAM_UPDATE_IND
  | GATT_ACCESS_IND (ind : GATT_ACCESS_IND_T)
  | GATT_DISCONNECT_IND
  | GATT_DISCONNECT_CFM
  | LM_EV_DISCONNECT_COMPLETE (reason : Nat)
  | other
  deriving DecidableEq, Repr

/-- The system events that AppProcessSystemEvent switches on. -/
inductive SysEvent
  | sys_event_battery_low
  | sys_event_pio_changed (pio_cause pio_state : Nat)
  | other
  deriving DecidableEq, Repr

/-- The function AppProcessLmEvent. -/
def AppProcessLmEvent (K : Config) (F : Firmware) (ev : LmEvent) (w : World) : World :=
  match ev with
  | LmEvent.GATT_ADD_DB_CFM result => handleSignalGattAddDbCfm F result w
  | LmEvent.GATT_CANCEL_CONNECT_CFM => handleSignalGattCancelConnectCfm F w
  | LmEvent.LM_EV_CONNECTION_COMPLETE i l t => handleSignalLmEvConnectionComplete i l t w
  | LmEvent.GATT_CONNECT_CFM result cid bd_addr =>
    handleSignalGattConnectCfm F result cid bd_addr w
  | LmEvent.SM_KEYS_IND dp ip div irk => handleSignalSmKeysInd dp ip div irk w
  | LmEvent.SM_PAIRING_AUTH_IND data => handleSignalSmPairingAuthInd data w
  | LmEvent.SM_SIMPLE_PAIRING_COMPLETE_IND status bd_addr =>
    handleSignalSmSimplePairingCompleteInd F status bd_addr w
  | LmEvent.LM_EV_ENCRYPTION_CHANGE status enc_enable =>
    handleSignalLMEncryptionChange K F status enc_enable w
  | LmEvent.SM_DIV_APPROVE_IND cid div => handleSignalSmDivApproveInd cid div w
  | LmEvent.LS_CONNECTION_PARAM_UPDATE_CFM status => handleSignalLsConnParamUpdateCfm status w
  | LmEvent.LM_EV_CONNECTION_UPDATE i l t => handleSignalLmConnectionUpdate i l t w
  | LmEvent.LS_CONNECTION_PARAM_UPDATE_IND => handleSignalLsConnParamUpdateInd w
  | LmEvent.GATT_ACCESS_IND ind => handleSignalGattAccessInd K F ind w
  | LmEvent.GATT_DISCONNECT_IND => w
  | LmEvent.GATT_DISCONNECT_CFM => w
  | LmEvent.LM_EV_DISCONNECT_COMPLETE reason => handleSignalLmDisconnectComplete F reason w
  | LmEvent.other => w

/-- The function AppProcessSystemEvent. -/
def AppProcessSystemEvent (K : Config) (F : Firmware) (id : SysEvent) (w : World) : World :=
  match id with
  | SysEvent.sys_event_battery_low =>
    if w.g.state = app_state.app_state_connected then BatteryUpdateLevel K F w.g.st_ucid w
    else w
  | SysEvent.sys_event_pio_changed pio_cause pio_state =>
    HandlePIOChangedEvent K F pio_cause pio_state w
  | SysEvent.other => w

/-- The function AppInit. The calls that only configure the firmware are
recorded; the NVM configuration call depends on a build flag and is left
out. -/
def AppInit (K : Config) (w : World) : World :=
  let w1 := TimerInit w
  let w2 := emit Req.GattInit w1
  let w3 := emit Req.GattInstallServerWrite w2
  let w4 := emit (Req.SleepWakeOnUartRX false) w3
  let w5 := emit Req.Nvm_Disable w4
  let w6 := BatteryInitChipReset w5
  let w7 := emit Req.GapDataInit w6
  let w8 := readPersistentStore K w7
  let w9 := emit (Req.SMInit w8.g.diversifier) w8
  let w10 := htDataInit w9
  let w11 := emit Req.HtInitHardware w10
  let w12 := { w11 with g := { w11.g with state := app_state.app_state_init } }
  emit Req.GattAddDatabaseReq w12

/-- The timer service runs the callback of a timer that fires; the timer is
then no longer live. -/
def timerExpiry (F : Firmware) (cb : timer_cb) (tid : Nat) (w : World) : World :=
  let w1 := TimerDelete tid w
  match cb with
  | timer_cb.requestConnParamUpdate => requestConnParamUpdate F tid w1
  | timer_cb.handleGapCppTimerExpiry => handleGapCppTimerExpiry tid w1
  | timer_cb.handleBondingChanceTimerExpiry => handleBondingChanceTimerExpiry F tid w1
  | timer_cb.gattAdvertTimerHandler => gattAdvertTimerHandler tid w1
  | timer_cb.htTempMeasTimerHandler => htTempMeasTimerHandler tid w1
  | timer_cb.HandleExtraLongButtonPress => HandleExtraLongButtonPress F tid w1
  | timer_cb.appBuzzerTimerHandler => appBuzzerTimerHandler tid w1

/-- What the application can be asked to handle: a firmware event, a system
event (low battery, a button) or the expiry of a timer. -/
inductive Event
  | lm (ev : LmEvent)
  | sys (ev : SysEvent)
  | timer (cb : timer_cb) (tid : Nat)
  deriving DecidableEq, Repr

/-- One handler run, to completion. -/
def handle (K : Config) (F : Firmware) (ev : Event) (w : World) : World :=
  match ev with
  | Event.lm e => AppProcessLmEvent K F e w
  | Event.sys e => AppProcessSystemEvent K F e w
  | Event.timer cb tid => timerExpiry F cb tid w

/-- The C globals as the loader leaves them (all zero, the two button states
unknown), over a given NVM content, with an empty timer pool and log. -/
def powerOn (nvm : Nat → Nat) : World :=
  { g :=
      { state := app_state.app_state_init
        app_tid := 0
        con_bd_addr := { type := 0, lap := 0, uap := 0, nap := 0 }
        st_ucid := 0
        bonded := false
        bonded_bd_addr := { type := 0, lap := 0, uap := 0, nap := 0 }
        diversifier := 0
        con_param_update_tid := 0
        cpu_timer_value := 0
        central_device_irk := List.replicate MAX_WORDS_IRK 0
        num_conn_update_req := 0
        encrypt_enabled := false
        pairing_button_pressed := false
        bonding_reattempt_tid := 0
        conn_interval := 0
        conn_latency := 0
        conn_timeout := 0 }
    hw :=
      { buzzer_tid := 0
        beep_type := buzzer_beep_type.buzzer_beep_off
        beep_count := 0
        button_press_tid := 0
        ghg_state := BUTTON_STATE_T.button_state_unknown
        bp_state := BUTTON_STATE_T.button_state_unknown
        ghg_count := 0
        bp_count := 0 }
    serv :=
      { ind_cfm_pending := false
        temp_client_config := 0
        nvm_offset := 0
        send_count := 0
        sendcnt := 0
        heartcnt := 0
        ghgcnt := 0
        anjstate := 0
        batlevel := 0 }
    batt := { level := 0, level_client_config := 0, nvm_offset := 0 }
    system_id := List.replicate SYSTEM_ID_LENGTH 0
    nvm := nvm
    timers := []
    created := []
    next_tid := 0
    log := [] }

/-- A timer expiry is genuine when it delivers the handle of a timer that
was created with that callback; it may have been deleted since. -/
def genuine (ev : Event) (w : World) : Prop :=
  match ev with
  | Event.timer cb tid => ∃ t ∈ w.created, t.id = tid ∧ t.cb = cb
  | _ => True

/-- The worlds observed between handlers: AppInit after power on, then any
number of handler runs, each for an event that the predicate `A` admits, with
any answers of the firmware, timer expiries being genuine. -/
inductive Reachable (K : Config) (A : Event → Prop) : World → Prop
  | init (nvm : Nat → Nat) : Reachable K A (AppInit K (powerOn nvm))
  | step (w : World) (F : Firmware) (ev : Event) :
      Reachable K A w → A ev → genuine ev w → Reachable K A (handle K F ev w)

/-- Every connection-established confirmation carries a connection
identifier other than GATT_INVALID_UCID. -/
def validCid (ev : Event) : Prop :=
  match ev with
  | Event.lm (LmEvent.GATT_CONNECT_CFM _ cid _) => cid ≠ GATT_INVALID_UCID
  | _ => True

/-- No restriction on the events. -/
def anyEvent (_ev : Event) : Prop := True

/-- The live timers that serve one purpose, given by their callbacks. -/
def liveTimers (cbs : List timer_cb) (w : World) : List Timer :=
  w.timers.filter (fun t => decide (t.cb ∈ cbs))

/-- A firmware that accepts every request. -/
def F0 : Firmware :=
  { SMPrivacyMatchAddress := fun _ _ => 0
    LsAddWhiteListDevice := fun _ => ls_err_none
    LsConnectionParamUpdateReq := fun _ _ => ls_err_none
    GapSetMode := ls_err_none
    GapSetAdvInterval := fun _ _ => ls_err_none
    LsStoreAdvScanData := fun _ _ _ => ls_err_none
    LsReadTransmitPowerLevel := ls_err_none
    tx_power_level := 0
    BatteryReadVoltage := 3000
    CSReadBdaddr := none
    GapGetNameAndLength := [0, 72, 84] }

/-- An attribute database with four disjoint handle ranges. -/
def K0 : Config :=
  { HANDLE_GAP_SERVICE := 1
    HANDLE_GAP_SERVICE_END := 7
    HANDLE_HEALTH_THERMOMETER_SERVICE := 8
    HANDLE_HEALTH_THERMOMETER_SERVICE_END := 11
    HANDLE_HT_TEMP_MEASUREMENT := 10
    HANDLE_HT_TEMP_MEAS_C_CFG := 11
    HANDLE_BATTERY_SERVICE := 12
    HANDLE_BATTERY_SERVICE_END := 15
    HANDLE_BATT_LEVEL := 14
    HANDLE_BATT_LEVEL_C_CFG := 15
    HANDLE_DEVICE_INFO_SERVICE := 16
    HANDLE_DEVICE_INFO_SERVICE_END := 30
    HANDLE_DEVICE_INFO_SYSTEM_ID := 18
    GAP_SERVICE_NVM_MEMORY_WORDS := 22 }

/-- A public (not random) peer address. -/
def addrPublic : TYPED_BD_ADDR_T := { type := 0, lap := 0x123456, uap := 0x5B, nap := 0x0002 }

/-- The requests issued between the world `w` and the later world `r`. -/
def issued (w r : World) : List Req := r.log.drop w.log.length

/-- No timer of the list carries the handle TIMER_INVALID. -/
def idsValid (l : List Timer) : Prop := ∀ t ∈ l, t.id ≠ TIMER_INVALID

/-- The world after AppInit on erased NVM. -/
def wBoot : World := AppInit K0 (powerOn (fun _ => 0xFFFF))

/-- The world after the database registration has been confirmed. -/
def wAdv : World :=
  handle K0 F0 (Event.lm (LmEvent.GATT_ADD_DB_CFM sys_status.sys_status_success)) wBoot

/-- The world after the link layer has reported a connection interval of 20. -/
def wLink : World :=
  handle K0 F0 (Event.lm (LmEvent.LM_EV_CONNECTION_COMPLETE 20 0 100)) wAdv

/-- The world after a connection with a public address has been confirmed. -/
def wConn : World :=
  handle K0 F0
    (Event.lm (LmEvent.GATT_CONNECT_CFM sys_status.sys_status_success 1 addrPublic)) wLink

/-- The world after the first quiescence timer (handle 3) has fired. -/
def wA : World := handle K0 F0 (Event.timer timer_cb.handleGapCppTimerExpiry 3) wConn

/-- The world after the second quiescence timer (handle 4) has fired: the
first update request has been made. -/
def wB : World := handle K0 F0 (Event.timer timer_cb.requestConnParamUpdate 4) wA

/-- The world after a pairing with the connected peer has succeeded. -/
def wPaired : World :=
  handle K0 F0
    (Event.lm (LmEvent.SM_SIMPLE_PAIRING_COMPLETE_IND sys_status.sys_status_success addrPublic))
    wConn

/-- The world after a later pairing attempt of the bonded peer has failed. -/
def wFail1 : World :=
  handle K0 F0
    (Event.lm (LmEvent.SM_SIMPLE_PAIRING_COMPLETE_IND (sys_status.other 1) addrPublic)) wPaired

/-- The world after one more pairing attempt has failed, the bonding-chance
timer of the first failure still running. -/
def wFail2 : World :=
  handle K0 F0
    (Event.lm (LmEvent.SM_SIMPLE_PAIRING_COMPLETE_IND (sys_status.other 1) addrPublic)) wFail1

/-- The world after the peer of `wConn` has terminated the connection. -/
def wGone : World := handle K0 F0 (Event.lm (LmEvent.LM_EV_DISCONNECT_COMPLETE 0x13)) wConn

/-- A resolvable private address: random type, the kind bits 01. -/
def addrRpa : TYPED_BD_ADDR_T := { type := 1, lap := 0x00ABCD, uap := 0x11, nap := 0x4321 }

/-- A firmware that accepts every request and resolves no address. -/
def F1 : Firmware := { F0 with SMPrivacyMatchAddress := fun _ _ => -1 }

/-- The advertising world of a device bonded to a resolvable private
address. -/
def wAdvRpa : World := { wLink with g := { wLink.g with bonded := true, bonded_bd_addr := addrRpa } }

/-- The world after the advertising timer of `wAdv` (handle 1) has fired and
the cancellation has been confirmed: slow advertising. -/
def wSlow : World :=
  handle K0 F0 (Event.lm LmEvent.GATT_CANCEL_CONNECT_CFM)
    (handle K0 F0 (Event.timer timer_cb.gattAdvertTimerHandler 1) wAdv)

/-- The handler has reported app_panic_invalid_state, and nothing else, and
has left the application state as it was. -/
def fatalInvalidState (w r : World) : Prop :=
  issued w r = [Req.Panic app_panic_code.app_panic_invalid_state] ∧ r.g.state = w.g.state

/-- True for the log entry of a connect request. -/
def isConnectReq (r : Req) : Bool :=
  match r with
  | Req.GattConnectReq _ => true
  | _ => false

/-- The world after the left button has been pressed while advertising: the
extra long button press timer (handle 3) is running. -/
def wPress : World :=
  handle K0 F0 (Event.sys (SysEvent.sys_event_pio_changed (PIO_BIT_MASK BUTTON_LEFT) 0)) wAdv

/-- The world after the extra long button press timer has fired while
advertising: a pairing removal is pending and the advertisements are being
stopped. -/
def wRemove : World := handle K0 F0 (Event.timer timer_cb.HandleExtraLongButtonPress 3) wPress

/-- The world after the pairing attempts of the bonded peer have been
repeated too often: disconnecting. -/
def wRep : World :=
  handle K0 F0
    (Event.lm (LmEvent.SM_SIMPLE_PAIRING_COMPLETE_IND sys_status.sm_status_repeated_attempts
      addrPublic)) wPaired

/-- The world after the link layer has reported parameters inside the
preferred envelope. -/
def wLinkIn : World :=
  handle K0 F0 (Event.lm (LmEvent.LM_EV_CONNECTION_COMPLETE 27 4 100)) wAdv

/-- The parameters carried by the connection parameter update requests of a
log, in the order of the requests. -/
def requestedParams (l : List Req) : List ble_con_params :=
  l.filterMap (fun r =>
    match r with
    | Req.LsConnectionParamUpdateReq _ p => some p
    | _ => none)

/-- A read access to a handle of the GAP service, as K0 lays the database
out. -/
def indRead : GATT_ACCESS_IND_T :=
  { cid := 1, handle := 3, flags := ATT_ACCESS_READ ||| ATT_ACCESS_PERMISSION, value := [] }

/-- The world after the first update request of `wB` has been refused: the
retry timer (handle 5) is running. -/
def wRetry : World :=
  handle K0 F0 (Event.lm (LmEvent.LS_CONNECTION_PARAM_UPDATE_CFM (sys_status.other 1))) wB

/-- The world after the link layer has reported, in `wB`, new parameters
inside the preferred envelope. -/
def wIn : World := handle K0 F0 (Event.lm (LmEvent.LM_EV_CONNECTION_UPDATE 27 4 100)) wB

/-- The world after the completion of that parameter update. -/
def wDone : World := handle K0 F0 (Event.lm LmEvent.LS_CONNECTION_PARAM_UPDATE_IND) wIn

/-- The world after the peer of `wDone` has terminated the connection, the
link layer has then reported a new link with parameters inside the preferred
envelope: fast advertising, about to be connected again. -/
def wUp : World :=
  handle K0 F0 (Event.lm (LmEvent.LM_EV_CONNECTION_COMPLETE 27 4 100))
    (handle K0 F0 (Event.lm (LmEvent.LM_EV_DISCONNECT_COMPLETE 0x13)) wDone)

/-- True for the log entry of a store of advertising or scan response
data. -/
def isStoreReq (r : Req) : Bool :=
  match r with
  | Req.LsStoreAdvScanData _ _ _ => true
  | _ => false

/-- The services that register a handle range with the attribute
dispatcher. -/
inductive service
  | gap
  | health_thermo
  | battery
  | dev_info
  deriving DecidableEq, Repr

/-- The routing rule of the specification: the first service of a list of
registered ranges `[handle_low, handle_high]` whose range contains the handle,
if there is one. -/
def specFirstMatch (ranges : List (service × Nat × Nat)) (handle : Nat) : Option service :=
  match ranges with
  | [] => none
  | (s, lo, hi) :: rest =>
    if lo ≤ handle ∧ handle ≤ hi then some s else specFirstMatch rest handle

/-- The ranges of the four services in the priority order of the
specification: GAP, health thermometer, battery, device information. -/
def registeredRanges (K : Config) : List (service × Nat × Nat) :=
  [(service.gap, K.HANDLE_GAP_SERVICE, K.HANDLE_GAP_SERVICE_END),
   (service.health_thermo, K.HANDLE_HEALTH_THERMOMETER_SERVICE,
     K.HANDLE_HEALTH_THERMOMETER_SERVICE_END),
   (service.battery, K.HANDLE_BATTERY_SERVICE, K.HANDLE_BATTERY_SERVICE_END),
   (service.dev_info, K.HANDLE_DEVICE_INFO_SERVICE, K.HANDLE_DEVICE_INFO_SERVICE_END)]

/-- The ranges of the services that have a write handler, in the same
order: the device information service has none. -/
def writableRanges (K : Config) : List (service × Nat × Nat) :=
  (registeredRanges K).filter (fun e => e.1 != service.dev_info)

/-- A write access to the handle 18, which K0 puts in the range of the device
information service. -/
def indWriteDevInfo : GATT_ACCESS_IND_T :=
  { cid := 1, handle := 18
    flags := ATT_ACCESS_WRITE ||| ATT_ACCESS_PERMISSION ||| ATT_ACCESS_WRITE_COMPLETE
    value := [1, 0] }

/-- A firmware that refuses the call GapSetMode and accepts every other
request. -/
def FRefused : Firmware := { F0 with GapSetMode := sys_status.other 1 }

/-- The connection identifier is in use exactly in the states connected and
disconnecting; outside them no bonding-chance handle is stored; no timer was
ever created with the handle TIMER_INVALID. -/
def ucidInv (w : World) : Prop :=
  (w.g.st_ucid ≠ GATT_INVALID_UCID ↔
    (w.g.state = app_state.app_state_connected ∨
      w.g.state = app_state.app_state_disconnecting)) ∧
  ((w.g.state ≠ app_state.app_state_connected ∧
      w.g.state ≠ app_state.app_state_disconnecting) →
    w.g.bonding_reattempt_tid = TIMER_INVALID) ∧
  idsValid w.created

/-- The attempt counter is within the budget, and below it while a connection
parameter timer handle is stored; no timer was ever created with the handle
TIMER_INVALID. -/
def budgetInv (w : World) : Prop :=
  w.g.num_conn_update_req ≤ MAX_NUM_CONN_PARAM_UPDATE_REQS ∧
  (w.g.con_param_update_tid ≠ TIMER_INVALID →
    w.g.num_conn_update_req < MAX_NUM_CONN_PARAM_UPDATE_REQS) ∧
  idsValid w.created

/-! ## Frame lemmas: what the building blocks leave alone -/

@[simp] theorem emit_g (r : Req) (w : World) : (emit r w).g = w.g := rfl

@[simp] theorem emit_hw (r : Req) (w : World) : (emit r w).hw = w.hw := rfl

@[simp] theorem emit_created (r : Req) (w : World) : (emit r w).created = w.created := rfl

@[simp] theorem emit_log (r : Req) (w : World) : (emit r w).log = w.log ++ [r] := rfl

@[simp] theorem ReportPanic_g (c : app_panic_code) (w : World) : (ReportPanic c w).g = w.g := rfl

@[simp] theorem ReportPanic_hw (c : app_panic_code) (w : World) :
    (ReportPanic c w).hw = w.hw := rfl

@[simp] theorem ReportPanic_created (c : app_panic_code) (w : World) :
    (ReportPanic c w).created = w.created := rfl

@[simp] theorem ReportPanic_log (c : app_panic_code) (w : World) :
    (ReportPanic c w).log = w.log ++ [Req.Panic c] := rfl

/-- The panics reported between two worlds are those among the calls logged
in between. -/
theorem panicked_of_log {w r : World} {l : List Req} (h : r.log = w.log ++ l) :
    panicked w r = l.any isPanic := by
  simp [panicked, h]

@[simp] theorem panicked_self (w : World) : panicked w w = false := by
  simp [panicked]

@[simp] theorem TimerDelete_g (tid : Nat) (w : World) : (TimerDelete tid w).g = w.g := rfl

@[simp] theorem TimerDelete_hw (tid : Nat) (w : World) : (TimerDelete tid w).hw = w.hw := rfl

@[simp] theorem TimerDelete_created (tid : Nat) (w : World) :
    (TimerDelete tid w).created = w.created := rfl

@[simp] theorem TimerDelete_log (tid : Nat) (w : World) : (TimerDelete tid w).log = w.log := rfl

@[simp] theorem TimerCreate_g (p : Nat) (cb : timer_cb) (w : World) :
    (TimerCreate p cb w).2.g = w.g := rfl

@[simp] theorem TimerCreate_hw (p : Nat) (cb : timer_cb) (w : World) :
    (TimerCreate p cb w).2.hw = w.hw := rfl

@[simp] theorem TimerCreate_log (p : Nat) (cb : timer_cb) (w : World) :
    (TimerCreate p cb w).2.log = w.log := rfl

theorem TimerCreate_fst_ne (p : Nat) (cb : timer_cb) (w : World) :
    (TimerCreate p cb w).1 ≠ TIMER_INVALID := by
  simp [TimerCreate, TIMER_INVALID]

@[simp] theorem TimerCreate_idsValid (p : Nat) (cb : timer_cb) (w : World) :
    idsValid (TimerCreate p cb w).2.created ↔ idsValid w.created := by
  simp [TimerCreate, idsValid, TIMER_INVALID, List.mem_append, or_imp, forall_and]

@[simp] theorem Nvm_Write_g (b : List Nat) (o : Nat) (w : World) : (Nvm_Write b o w).g = w.g := rfl

@[simp] theorem Nvm_Write_hw (b : List Nat) (o : Nat) (w : World) :
    (Nvm_Write b o w).hw = w.hw := rfl

@[simp] theorem Nvm_Write_created (b : List Nat) (o : Nat) (w : World) :
    (Nvm_Write b o w).created = w.created := rfl

@[simp] theorem Nvm_Write_log (b : List Nat) (o : Nat) (w : World) :
    (Nvm_Write b o w).log = w.log := rfl

@[simp] theorem storeAdvScanData_g (F : Firmware) (n : Nat) (d : List Nat) (s : ad_src)
    (c : app_panic_code) (w : World) : (storeAdvScanData F n d s c w).g = w.g := by
  unfold storeAdvScanData; dsimp only; split <;> rfl

@[simp] theorem storeAdvScanData_hw (F : Firmware) (n : Nat) (d : List Nat) (s : ad_src)
    (c : app_panic_code) (w : World) : (storeAdvScanData F n d s c w).hw = w.hw := by
  unfold storeAdvScanData; dsimp only; split <;> rfl

@[simp] theorem storeAdvScanData_created (F : Firmware) (n : Nat) (d : List Nat) (s : ad_src)
    (c : app_panic_code) (w : World) :
    (storeAdvScanData F n d s c w).created = w.created := by
  unfold storeAdvScanData; dsimp only; split <;> rfl

theorem storeAdvScanData_log (F : Firmware) (n : Nat) (d : List Nat) (s : ad_src)
    (c : app_panic_code) (w : World) :
    ∃ l, (storeAdvScanData F n d s c w).log = w.log ++ l := by
  unfold storeAdvScanData; dsimp only; split
  · exact ⟨[Req.LsStoreAdvScanData n d s, Req.Panic c], by simp⟩
  · exact ⟨[Req.LsStoreAdvScanData n d s], by simp⟩

@[simp] theorem addDeviceNameToAdvData_g (F : Firmware) (a s : Nat) (w : World) :
    (addDeviceNameToAdvData F a s w).g = w.g := by
  unfold addDeviceNameToAdvData; dsimp only; split_ifs <;> simp

@[simp] theorem addDeviceNameToAdvData_hw (F : Firmware) (a s : Nat) (w : World) :
    (addDeviceNameToAdvData F a s w).hw = w.hw := by
  unfold addDeviceNameToAdvData; dsimp only; split_ifs <;> simp

@[simp] theorem addDeviceNameToAdvData_created (F : Firmware) (a s : Nat) (w : World) :
    (addDeviceNameToAdvData F a s w).created = w.created := by
  unfold addDeviceNameToAdvData; dsimp only; split_ifs <;> simp

theorem addDeviceNameToAdvData_log (F : Firmware) (a s : Nat) (w : World) :
    ∃ l, (addDeviceNameToAdvData F a s w).log = w.log ++ l := by
  unfold addDeviceNameToAdvData; dsimp only; split_ifs <;> exact storeAdvScanData_log _ _ _ _ _ _

/-- One store changes the log only: the call, then the panic when the call is
refused. -/
theorem storeAdvScanData_eq (F : Firmware) (n : Nat) (d : List Nat) (s : ad_src)
    (c : app_panic_code) (w : World) :
    storeAdvScanData F n d s c w =
      { w with log := w.log ++ (Req.LsStoreAdvScanData n d s ::
        (if F.LsStoreAdvScanData n d s = ls_err_none then [] else [Req.Panic c])) } := by
  unfold storeAdvScanData; dsimp only
  by_cases h : F.LsStoreAdvScanData n d s = ls_err_none
  · simp [h, emit]
  · simp [h, emit, ReportPanic]

/-- The function addDeviceNameToAdvData is one store. -/
theorem addDeviceNameToAdvData_store (F : Firmware) (a s : Nat) :
    ∃ (n : Nat) (d : List Nat) (src : ad_src) (c : app_panic_code),
      ∀ w, addDeviceNameToAdvData F a s w = storeAdvScanData F n d src c w := by
  unfold addDeviceNameToAdvData; dsimp only
  split_ifs
  all_goals exact ⟨_, _, _, _, fun _ => rfl⟩

/-- The calls of gattSetAdvertParams: no connect request among them; when no
panic is reported they are the eight set-up calls and the store of the device
name; when a panic is reported it is the last call, the only panic. Nothing
but the log changes. -/
theorem gattSetAdvertParams_eq (F : Firmware) (b : Bool) (w : World) :
    ∃ l, gattSetAdvertParams F b w = { w with log := w.log ++ l } ∧
      l.filter isConnectReq = [] ∧
      (l.any isPanic = false →
        ∃ (n : Nat) (d : List Nat) (src : ad_src),
          l = [Req.GapSetMode,
            Req.GapSetAdvInterval (if b then FC_ADVERTISING_INTERVAL_MIN else RP_ADVERTISING_INTERVAL_MIN) (if b then FC_ADVERTISING_INTERVAL_MAX else RP_ADVERTISING_INTERVAL_MAX),
            Req.LsStoreAdvScanData 0 [] ad_src.ad_src_advertise,
            Req.LsStoreAdvScanData 0 [] ad_src.ad_src_scan_rsp,
            Req.LsStoreAdvScanData 3 GetSupported16BitUUIDServiceList ad_src.ad_src_advertise,
            Req.LsStoreAdvScanData 3 [AD_TYPE_APPEARANCE, LE8_L APPEARANCE_THERMOMETER_VALUE, LE8_H APPEARANCE_THERMOMETER_VALUE] ad_src.ad_src_advertise,
            Req.LsReadTransmitPowerLevel,
            Req.LsStoreAdvScanData 2 [AD_TYPE_TX_POWER, F.tx_power_level % 256] ad_src.ad_src_advertise,
            Req.LsStoreAdvScanData n d src]) ∧
      (l.any isPanic = true → ∃ (c : app_panic_code) (l1 : List Req), l = l1 ++ [Req.Panic c] ∧
        l1.any isPanic = false) := by
  obtain ⟨n, d, src, c, hs⟩ := addDeviceNameToAdvData_store F (3 + (3 + 1) + (3 + 1) + (2 + 1)) 0
  have e3 : GetSupported16BitUUIDServiceList.length = 3 := rfl
  have e4 : ATTR_LEN_DEVICE_APPEARANCE + 1 = 3 := rfl
  have e5 : TX_POWER_VALUE_LENGTH = 2 := rfl
  by_cases h1 : F.GapSetMode = ls_err_none
  swap
  · exact ⟨[Req.GapSetMode,
      Req.Panic app_panic_code.app_panic_set_advert_params],
      by simp [gattSetAdvertParams, h1, ReportPanic, emit, e3, e4, e5], by simp [isConnectReq],
      by simp [isPanic], fun _ => ⟨_, [Req.GapSetMode], rfl,
        by simp [isPanic]⟩⟩
  by_cases h2 : F.GapSetAdvInterval (if b then FC_ADVERTISING_INTERVAL_MIN else RP_ADVERTISING_INTERVAL_MIN) (if b then FC_ADVERTISING_INTERVAL_MAX else RP_ADVERTISING_INTERVAL_MAX) = ls_err_none
  swap
  · exact ⟨[Req.GapSetMode,
      Req.GapSetAdvInterval (if b then FC_ADVERTISING_INTERVAL_MIN else RP_ADVERTISING_INTERVAL_MIN) (if b then FC_ADVERTISING_INTERVAL_MAX else RP_ADVERTISING_INTERVAL_MAX),
      Req.Panic app_panic_code.app_panic_set_advert_params],
      by simp [gattSetAdvertParams, h1, h2, ReportPanic, emit, e3, e4, e5], by simp [isConnectReq],
      by simp [isPanic], fun _ => ⟨_, [Req.GapSetMode,
        Req.GapSetAdvInterval (if b then FC_ADVERTISING_INTERVAL_MIN else RP_ADVERTISING_INTERVAL_MIN) (if b then FC_ADVERTISING_INTERVAL_MAX else RP_ADVERTISING_INTERVAL_MAX)], rfl,
        by simp [isPanic]⟩⟩
  by_cases h3 : F.LsStoreAdvScanData 0 [] ad_src.ad_src_advertise = ls_err_none
  swap
  · exact ⟨[Req.GapSetMode,
      Req.GapSetAdvInterval (if b then FC_ADVERTISING_INTERVAL_MIN else RP_ADVERTISING_INTERVAL_MIN) (if b then FC_ADVERTISING_INTERVAL_MAX else RP_ADVERTISING_INTERVAL_MAX),
      Req.LsStoreAdvScanData 0 [] ad_src.ad_src_advertise,
      Req.Panic app_panic_code.app_panic_set_advert_data],
      by simp [gattSetAdvertParams, h1, h2, h3, ReportPanic, emit, e3, e4, e5], by simp [isConnectReq],
      by simp [isPanic], fun _ => ⟨_, [Req.GapSetMode,
        Req.GapSetAdvInterval (if b then FC_ADVERTISING_INTERVAL_MIN else RP_ADVERTISING_INTERVAL_MIN) (if b then FC_ADVERTISING_INTERVAL_MAX else RP_ADVERTISING_INTERVAL_MAX),
        Req.LsStoreAdvScanData 0 [] ad_src.ad_src_advertise], rfl,
        by simp [isPanic]⟩⟩
  by_cases h4 : F.LsStoreAdvScanData 0 [] ad_src.ad_src_scan_rsp = ls_err_none
  swap
  · exact ⟨[Req.GapSetMode,
      Req.GapSetAdvInterval (if b then FC_ADVERTISING_INTERVAL_MIN else RP_ADVERTISING_INTERVAL_MIN) (if b then FC_ADVERTISING_INTERVAL_MAX else RP_ADVERTISING_INTERVAL_MAX),
      Req.LsStoreAdvScanData 0 [] ad_src.ad_src_advertise,
      Req.LsStoreAdvScanData 0 [] ad_src.ad_src_scan_rsp,
      Req.Panic app_panic_code.app_panic_set_scan_rsp_data],
      by simp [gattSetAdvertParams, h1, h2, h3, h4, ReportPanic, emit, e3, e4, e5], by simp [isConnectReq],
      by simp [isPanic], fun _ => ⟨_, [Req.GapSetMode,
        Req.GapSetAdvInterval (if b then FC_ADVERTISING_INTERVAL_MIN else RP_ADVERTISING_INTERVAL_MIN) (if b then FC_ADVERTISING_INTERVAL_MAX else RP_ADVERTISING_INTERVAL_MAX),
        Req.LsStoreAdvScanData 0 [] ad_src.ad_src_advertise,
        Req.LsStoreAdvScanData 0 [] ad_src.ad_src_scan_rsp], rfl,
        by simp [isPanic]⟩⟩
  by_cases h5 : F.LsStoreAdvScanData 3 GetSupported16BitUUIDServiceList ad_src.ad_src_advertise = ls_err_none
  swap
  · exact ⟨[Req.GapSetMode,
      Req.GapSetAdvInterval (if b then FC_ADVERTISING_INTERVAL_MIN else RP_ADVERTISING_INTERVAL_MIN) (if b then FC_ADVERTISING_INTERVAL_MAX else RP_ADVERTISING_INTERVAL_MAX),
      Req.LsStoreAdvScanData 0 [] ad_src.ad_src_advertise,
      Req.LsStoreAdvScanData 0 [] ad_src.ad_src_scan_rsp,
      Req.LsStoreAdvScanData 3 GetSupported16BitUUIDServiceList ad_src.ad_src_advertise,
      Req.Panic app_panic_code.app_panic_set_advert_data],
      by simp [gattSetAdvertParams, h1, h2, h3, h4, h5, ReportPanic, emit, e3, e4, e5], by simp [isConnectReq],
      by simp [isPanic], fun _ => ⟨_, [Req.GapSetMode,
        Req.GapSetAdvInterval (if b then FC_ADVERTISING_INTERVAL_MIN else RP_ADVERTISING_INTERVAL_MIN) (if b then FC_ADVERTISING_INTERVAL_MAX else RP_ADVERTISING_INTERVAL_MAX),
        Req.LsStoreAdvScanData 0 [] ad_src.ad_src_advertise,
        Req.LsStoreAdvScanData 0 [] ad_src.ad_src_scan_rsp,
        Req.LsStoreAdvScanData 3 GetSupported16BitUUIDServiceList ad_src.ad_src_advertise], rfl,
        by simp [isPanic]⟩⟩
  by_cases h6 : F.LsStoreAdvScanData 3 [AD_TYPE_APPEARANCE, LE8_L APPEARANCE_THERMOMETER_VALUE, LE8_H APPEARANCE_THERMOMETER_VALUE] ad_src.ad_src_advertise = ls_err_none
  swap
  · exact ⟨[Req.GapSetMode,
      Req.GapSetAdvInterval (if b then FC_ADVERTISING_INTERVAL_MIN else RP_ADVERTISING_INTERVAL_MIN) (if b then FC_ADVERTISING_INTERVAL_MAX else RP_ADVERTISING_INTERVAL_MAX),
      Req.LsStoreAdvScanData 0 [] ad_src.ad_src_advertise,
      Req.LsStoreAdvScanData 0 [] ad_src.ad_src_scan_rsp,
      Req.LsStoreAdvScanData 3 GetSupported16BitUUIDServiceList ad_src.ad_src_advertise,
      Req.LsStoreAdvScanData 3 [AD_TYPE_APPEARANCE, LE8_L APPEARANCE_THERMOMETER_VALUE, LE8_H APPEARANCE_THERMOMETER_VALUE] ad_src.ad_src_advertise,
      Req.Panic app_panic_code.app_panic_set_advert_data],
      by simp [gattSetAdvertParams, h1, h2, h3, h4, h5, h6, ReportPanic, emit, e3, e4, e5], by simp [isConnectReq],
      by simp [isPanic], fun _ => ⟨_, [Req.GapSetMode,
        Req.GapSetAdvInterval (if b then FC_ADVERTISING_INTERVAL_MIN else RP_ADVERTISING_INTERVAL_MIN) (if b then FC_ADVERTISING_INTERVAL_MAX else RP_ADVERTISING_INTERVAL_MAX),
        Req.LsStoreAdvScanData 0 [] ad_src.ad_src_advertise,
        Req.LsStoreAdvScanData 0 [] ad_src.ad_src_scan_rsp,
        Req.LsStoreAdvScanData 3 GetSupported16BitUUIDServiceList ad_src.ad_src_advertise,
        Req.LsStoreAdvScanData 3 [AD_TYPE_APPEARANCE, LE8_L APPEARANCE_THERMOMETER_VALUE, LE8_H APPEARANCE_THERMOMETER_VALUE] ad_src.ad_src_advertise], rfl,
        by simp [isPanic]⟩⟩
  by_cases h7 : F.LsReadTransmitPowerLevel = ls_err_none
  swap
  · exact ⟨[Req.GapSetMode,
      Req.GapSetAdvInterval (if b then FC_ADVERTISING_INTERVAL_MIN else RP_ADVERTISING_INTERVAL_MIN) (if b then FC_ADVERTISING_INTERVAL_MAX else RP_ADVERTISING_INTERVAL_MAX),
      Req.LsStoreAdvScanData 0 [] ad_src.ad_src_advertise,
      Req.LsStoreAdvScanData 0 [] ad_src.ad_src_scan_rsp,
      Req.LsStoreAdvScanData 3 GetSupported16BitUUIDServiceList ad_src.ad_src_advertise,
      Req.LsStoreAdvScanData 3 [AD_TYPE_APPEARANCE, LE8_L APPEARANCE_THERMOMETER_VALUE, LE8_H APPEARANCE_THERMOMETER_VALUE] ad_src.ad_src_advertise,
      Req.LsReadTransmitPowerLevel,
      Req.Panic app_panic_code.app_panic_read_tx_pwr_level],
      by simp [gattSetAdvertParams, h1, h2, h3, h4, h5, h6, h7, ReportPanic, emit, e3, e4, e5], by simp [isConnectReq],
      by simp [isPanic], fun _ => ⟨_, [Req.GapSetMode,
        Req.GapSetAdvInterval (if b then FC_ADVERTISING_INTERVAL_MIN else RP_ADVERTISING_INTERVAL_MIN) (if b then FC_ADVERTISING_INTERVAL_MAX else RP_ADVERTISING_INTERVAL_MAX),
        Req.LsStoreAdvScanData 0 [] ad_src.ad_src_advertise,
        Req.LsStoreAdvScanData 0 [] ad_src.ad_src_scan_rsp,
        Req.LsStoreAdvScanData 3 GetSupported16BitUUIDServiceList ad_src.ad_src_advertise,
        Req.LsStoreAdvScanData 3 [AD_TYPE_APPEARANCE, LE8_L APPEARANCE_THERMOMETER_VALUE, LE8_H APPEARANCE_THERMOMETER_VALUE] ad_src.ad_src_advertise,
        Req.LsReadTransmitPowerLevel], rfl,
        by simp [isPanic]⟩⟩
  by_cases h8 : F.LsStoreAdvScanData 2 [AD_TYPE_TX_POWER, F.tx_power_level % 256] ad_src.ad_src_advertise = ls_err_none
  swap
  · exact ⟨[Req.GapSetMode,
      Req.GapSetAdvInterval (if b then FC_ADVERTISING_INTERVAL_MIN else RP_ADVERTISING_INTERVAL_MIN) (if b then FC_ADVERTISING_INTERVAL_MAX else RP_ADVERTISING_INTERVAL_MAX),
      Req.LsStoreAdvScanData 0 [] ad_src.ad_src_advertise,
      Req.LsStoreAdvScanData 0 [] ad_src.ad_src_scan_rsp,
      Req.LsStoreAdvScanData 3 GetSupported16BitUUIDServiceList ad_src.ad_src_advertise,
      Req.LsStoreAdvScanData 3 [AD_TYPE_APPEARANCE, LE8_L APPEARANCE_THERMOMETER_VALUE, LE8_H APPEARANCE_THERMOMETER_VALUE] ad_src.ad_src_advertise,
      Req.LsReadTransmitPowerLevel,
      Req.LsStoreAdvScanData 2 [AD_TYPE_TX_POWER, F.tx_power_level % 256] ad_src.ad_src_advertise,
      Req.Panic app_panic_code.app_panic_set_advert_data],
      by simp [gattSetAdvertParams, h1, h2, h3, h4, h5, h6, h7, h8, ReportPanic, emit, e3, e4, e5], by simp [isConnectReq],
      by simp [isPanic], fun _ => ⟨_, [Req.GapSetMode,
        Req.GapSetAdvInterval (if b then FC_ADVERTISING_INTERVAL_MIN else RP_ADVERTISING_INTERVAL_MIN) (if b then FC_ADVERTISING_INTERVAL_MAX else RP_ADVERTISING_INTERVAL_MAX),
        Req.LsStoreAdvScanData 0 [] ad_src.ad_src_advertise,
        Req.LsStoreAdvScanData 0 [] ad_src.ad_src_scan_rsp,
        Req.LsStoreAdvScanData 3 GetSupported16BitUUIDServiceList ad_src.ad_src_advertise,
        Req.LsStoreAdvScanData 3 [AD_TYPE_APPEARANCE, LE8_L APPEARANCE_THERMOMETER_VALUE, LE8_H APPEARANCE_THERMOMETER_VALUE] ad_src.ad_src_advertise,
        Req.LsReadTransmitPowerLevel,
        Req.LsStoreAdvScanData 2 [AD_TYPE_TX_POWER, F.tx_power_level % 256] ad_src.ad_src_advertise], rfl,
        by simp [isPanic]⟩⟩
  by_cases h9 : F.LsStoreAdvScanData n d src = ls_err_none
  · exact ⟨[Req.GapSetMode,
      Req.GapSetAdvInterval (if b then FC_ADVERTISING_INTERVAL_MIN else RP_ADVERTISING_INTERVAL_MIN) (if b then FC_ADVERTISING_INTERVAL_MAX else RP_ADVERTISING_INTERVAL_MAX),
      Req.LsStoreAdvScanData 0 [] ad_src.ad_src_advertise,
      Req.LsStoreAdvScanData 0 [] ad_src.ad_src_scan_rsp,
      Req.LsStoreAdvScanData 3 GetSupported16BitUUIDServiceList ad_src.ad_src_advertise,
      Req.LsStoreAdvScanData 3 [AD_TYPE_APPEARANCE, LE8_L APPEARANCE_THERMOMETER_VALUE, LE8_H APPEARANCE_THERMOMETER_VALUE] ad_src.ad_src_advertise,
      Req.LsReadTransmitPowerLevel,
      Req.LsStoreAdvScanData 2 [AD_TYPE_TX_POWER, F.tx_power_level % 256] ad_src.ad_src_advertise,
      Req.LsStoreAdvScanData n d src],
      by simp [gattSetAdvertParams, h1, h2, h3, h4, h5, h6, h7, h8, h9, hs, storeAdvScanData_eq, emit, e3, e4, e5],
      by simp [isConnectReq], fun _ => ⟨n, d, src, rfl⟩, by simp [isPanic]⟩
  · exact ⟨[Req.GapSetMode,
      Req.GapSetAdvInterval (if b then FC_ADVERTISING_INTERVAL_MIN else RP_ADVERTISING_INTERVAL_MIN) (if b then FC_ADVERTISING_INTERVAL_MAX else RP_ADVERTISING_INTERVAL_MAX),
      Req.LsStoreAdvScanData 0 [] ad_src.ad_src_advertise,
      Req.LsStoreAdvScanData 0 [] ad_src.ad_src_scan_rsp,
      Req.LsStoreAdvScanData 3 GetSupported16BitUUIDServiceList ad_src.ad_src_advertise,
      Req.LsStoreAdvScanData 3 [AD_TYPE_APPEARANCE, LE8_L APPEARANCE_THERMOMETER_VALUE, LE8_H APPEARANCE_THERMOMETER_VALUE] ad_src.ad_src_advertise,
      Req.LsReadTransmitPowerLevel,
      Req.LsStoreAdvScanData 2 [AD_TYPE_TX_POWER, F.tx_power_level % 256] ad_src.ad_src_advertise,
      Req.LsStoreAdvScanData n d src,
      Req.Panic c],
      by simp [gattSetAdvertParams, h1, h2, h3, h4, h5, h6, h7, h8, h9, hs, storeAdvScanData_eq, emit, e3, e4, e5],
      by simp [isConnectReq], by simp [isPanic],
      fun _ => ⟨c, [Req.GapSetMode,
        Req.GapSetAdvInterval (if b then FC_ADVERTISING_INTERVAL_MIN else RP_ADVERTISING_INTERVAL_MIN) (if b then FC_ADVERTISING_INTERVAL_MAX else RP_ADVERTISING_INTERVAL_MAX),
        Req.LsStoreAdvScanData 0 [] ad_src.ad_src_advertise,
        Req.LsStoreAdvScanData 0 [] ad_src.ad_src_scan_rsp,
        Req.LsStoreAdvScanData 3 GetSupported16BitUUIDServiceList ad_src.ad_src_advertise,
        Req.LsStoreAdvScanData 3 [AD_TYPE_APPEARANCE, LE8_L APPEARANCE_THERMOMETER_VALUE, LE8_H APPEARANCE_THERMOMETER_VALUE] ad_src.ad_src_advertise,
        Req.LsReadTransmitPowerLevel,
        Req.LsStoreAdvScanData 2 [AD_TYPE_TX_POWER, F.tx_power_level % 256] ad_src.ad_src_advertise,
        Req.LsStoreAdvScanData n d src], rfl,
        by simp [isPanic]⟩⟩

@[simp] theorem gattSetAdvertParams_g (F : Firmware) (b : Bool) (w : World) :
    (gattSetAdvertParams F b w).g = w.g := by
  obtain ⟨l, h, _⟩ := gattSetAdvertParams_eq F b w
  rw [h]

@[simp] theorem gattSetAdvertParams_hw (F : Firmware) (b : Bool) (w : World) :
    (gattSetAdvertParams F b w).hw = w.hw := by
  obtain ⟨l, h, _⟩ := gattSetAdvertParams_eq F b w
  rw [h]

@[simp] theorem gattSetAdvertParams_created (F : Firmware) (b : Bool) (w : World) :
    (gattSetAdvertParams F b w).created = w.created := by
  obtain ⟨l, h, _⟩ := gattSetAdvertParams_eq F b w
  rw [h]

/-- A later log that extends an earlier one. -/
theorem log_ext_trans {a b c : List Req} (h1 : ∃ l, b = a ++ l) (h2 : ∃ l, c = b ++ l) :
    ∃ l, c = a ++ l := by
  obtain ⟨l1, rfl⟩ := h1
  obtain ⟨l2, rfl⟩ := h2
  exact ⟨l1 ++ l2, by simp⟩

theorem log_ext_refl (a : List Req) : ∃ l, a = a ++ l := ⟨[], by simp⟩

theorem log_ext_emit {a : List Req} {v : World} (r : Req) (h : ∃ l, v.log = a ++ l) :
    ∃ l, (emit r v).log = a ++ l := by
  obtain ⟨l, hl⟩ := h
  exact ⟨l ++ [r], by simp [hl]⟩

theorem log_ext_panic {a : List Req} {v : World} (c : app_panic_code)
    (h : ∃ l, v.log = a ++ l) : ∃ l, (ReportPanic c v).log = a ++ l :=
  log_ext_emit (Req.Panic c) h

theorem gattSetAdvertParams_log (F : Firmware) (b : Bool) (w : World) :
    ∃ l, (gattSetAdvertParams F b w).log = w.log ++ l := by
  obtain ⟨l, h, _⟩ := gattSetAdvertParams_eq F b w
  exact ⟨l, by rw [h]⟩

@[simp] theorem GattStopAdverts_g (w : World) : (GattStopAdverts w).g = w.g := rfl

@[simp] theorem GattStopAdverts_created (w : World) : (GattStopAdverts w).created = w.created :=
  rfl

@[simp] theorem emit_next_tid (r : Req) (w : World) : (emit r w).next_tid = w.next_tid := rfl

@[simp] theorem ReportPanic_next_tid (c : app_panic_code) (w : World) :
    (ReportPanic c w).next_tid = w.next_tid := rfl

@[simp] theorem TimerDelete_next_tid (tid : Nat) (w : World) :
    (TimerDelete tid w).next_tid = w.next_tid := rfl

@[simp] theorem TimerCreate_fst (p : Nat) (cb : timer_cb) (w : World) :
    (TimerCreate p cb w).1 = w.next_tid + 1 := rfl

@[simp] theorem storeAdvScanData_next_tid (F : Firmware) (n : Nat) (d : List Nat) (s : ad_src)
    (c : app_panic_code) (w : World) :
    (storeAdvScanData F n d s c w).next_tid = w.next_tid := by
  unfold storeAdvScanData; dsimp only; split <;> rfl

@[simp] theorem addDeviceNameToAdvData_next_tid (F : Firmware) (a s : Nat) (w : World) :
    (addDeviceNameToAdvData F a s w).next_tid = w.next_tid := by
  unfold addDeviceNameToAdvData; dsimp only; split_ifs <;> simp

@[simp] theorem gattSetAdvertParams_next_tid (F : Firmware) (b : Bool) (w : World) :
    (gattSetAdvertParams F b w).next_tid = w.next_tid := by
  obtain ⟨l, h, _⟩ := gattSetAdvertParams_eq F b w
  rw [h]

/-- The world that GattStartAdverts leaves. With no panic reported: the
set-up calls, then the connect request, the timer of the stored advertising
handle deleted and one timer created, its handle stored. With a panic
reported by gattSetAdvertParams: st_ucid set and the calls up to the panic,
nothing else. -/
theorem GattStartAdverts_eq (F : Firmware) (b : Bool) (w : World) :
    ∃ l, l.filter isConnectReq = [] ∧
      panicked w (GattStartAdverts F b w) = l.any isPanic ∧
      (l.any isPanic = false →
        (∃ (n : Nat) (d : List Nat) (src : ad_src),
          l = [Req.GapSetMode,
            Req.GapSetAdvInterval (if b then FC_ADVERTISING_INTERVAL_MIN else RP_ADVERTISING_INTERVAL_MIN) (if b then FC_ADVERTISING_INTERVAL_MAX else RP_ADVERTISING_INTERVAL_MAX),
            Req.LsStoreAdvScanData 0 [] ad_src.ad_src_advertise,
            Req.LsStoreAdvScanData 0 [] ad_src.ad_src_scan_rsp,
            Req.LsStoreAdvScanData 3 GetSupported16BitUUIDServiceList ad_src.ad_src_advertise,
            Req.LsStoreAdvScanData 3 [AD_TYPE_APPEARANCE, LE8_L APPEARANCE_THERMOMETER_VALUE, LE8_H APPEARANCE_THERMOMETER_VALUE] ad_src.ad_src_advertise,
            Req.LsReadTransmitPowerLevel,
            Req.LsStoreAdvScanData 2 [AD_TYPE_TX_POWER, F.tx_power_level % 256] ad_src.ad_src_advertise,
            Req.LsStoreAdvScanData n d src]) ∧
        GattStartAdverts F b w =
          { w with
            g := { w.g with st_ucid := GATT_INVALID_UCID, app_tid := w.next_tid + 1 }
            timers := w.timers.filter (fun t => t.id != w.g.app_tid) ++
              [{ id := w.next_tid + 1
                 period := if b then FAST_CONNECTION_ADVERT_TIMEOUT_VALUE
                   else SLOW_CONNECTION_ADVERT_TIMEOUT_VALUE
                 cb := timer_cb.gattAdvertTimerHandler }]
            created := w.created ++
              [{ id := w.next_tid + 1
                 period := if b then FAST_CONNECTION_ADVERT_TIMEOUT_VALUE
                   else SLOW_CONNECTION_ADVERT_TIMEOUT_VALUE
                 cb := timer_cb.gattAdvertTimerHandler }]
            next_tid := w.next_tid + 1
            log := w.log ++ (l ++ [Req.GattConnectReq
              (if w.g.bonded && !GattIsAddressResolvableRandom w.g.bonded_bd_addr then
                connect_flags.slave_whitelist else connect_flags.slave_undirected)]) }) ∧
      (l.any isPanic = true →
        (∃ (c : app_panic_code) (l1 : List Req), l = l1 ++ [Req.Panic c] ∧
          l1.any isPanic = false) ∧
        GattStartAdverts F b w =
          { w with
            g := { w.g with st_ucid := GATT_INVALID_UCID }
            log := w.log ++ l }) := by
  obtain ⟨l, h, q, hok, hpanic⟩ := gattSetAdvertParams_eq F b
    { w with g := { w.g with st_ucid := GATT_INVALID_UCID } }
  have hp : panicked { w with g := { w.g with st_ucid := GATT_INVALID_UCID } }
      (gattSetAdvertParams F b { w with g := { w.g with st_ucid := GATT_INVALID_UCID } }) =
      l.any isPanic := panicked_of_log (by rw [h])
  cases hl : l.any isPanic
  · have e : GattStartAdverts F b w =
        { w with
          g := { w.g with st_ucid := GATT_INVALID_UCID, app_tid := w.next_tid + 1 }
          timers := w.timers.filter (fun t => t.id != w.g.app_tid) ++
            [{ id := w.next_tid + 1
               period := if b then FAST_CONNECTION_ADVERT_TIMEOUT_VALUE
                 else SLOW_CONNECTION_ADVERT_TIMEOUT_VALUE
               cb := timer_cb.gattAdvertTimerHandler }]
          created := w.created ++
            [{ id := w.next_tid + 1
               period := if b then FAST_CONNECTION_ADVERT_TIMEOUT_VALUE
                 else SLOW_CONNECTION_ADVERT_TIMEOUT_VALUE
               cb := timer_cb.gattAdvertTimerHandler }]
          next_tid := w.next_tid + 1
          log := w.log ++ (l ++ [Req.GattConnectReq
            (if w.g.bonded && !GattIsAddressResolvableRandom w.g.bonded_bd_addr then
              connect_flags.slave_whitelist else connect_flags.slave_undirected)]) } := by
      simp only [GattStartAdverts, hp, hl]
      rw [h]
      simp [TimerCreate, TimerDelete, emit]
    refine ⟨l, q, ?_, fun _ => ⟨hok hl, e⟩, fun hh => by rw [hl] at hh; cases hh⟩
    rw [panicked_of_log (l := l ++ [Req.GattConnectReq
      (if w.g.bonded && !GattIsAddressResolvableRandom w.g.bonded_bd_addr then
        connect_flags.slave_whitelist else connect_flags.slave_undirected)]) (by rw [e])]
    simp [hl, isPanic]
  · have e : GattStartAdverts F b w =
        { w with
          g := { w.g with st_ucid := GATT_INVALID_UCID }
          log := w.log ++ l } := by
      simp only [GattStartAdverts, hp, hl]
      rw [h]
      simp
    refine ⟨l, q, ?_, fun hh => (by rw [hl] at hh; cases hh), fun _ => ⟨hpanic hl, e⟩⟩
    rw [panicked_of_log (l := l) (by rw [e]), hl]

@[simp] theorem GattStartAdverts_g (F : Firmware) (b : Bool) (w : World) :
    (GattStartAdverts F b w).g =
      { w.g with
        st_ucid := GATT_INVALID_UCID
        app_tid := if panicked w (GattStartAdverts F b w) then w.g.app_tid
          else w.next_tid + 1 } := by
  obtain ⟨l, _, hp, hok, hpanic⟩ := GattStartAdverts_eq F b w
  cases hl : l.any isPanic
  · rw [hp, hl, (hok hl).2]; rfl
  · rw [hp, hl, (hpanic hl).2]; rfl

@[simp] theorem GattStartAdverts_hw (F : Firmware) (b : Bool) (w : World) :
    (GattStartAdverts F b w).hw = w.hw := by
  obtain ⟨l, _, hp, hok, hpanic⟩ := GattStartAdverts_eq F b w
  cases hl : l.any isPanic
  · rw [(hok hl).2]
  · rw [(hpanic hl).2]

@[simp] theorem GattStartAdverts_idsValid (F : Firmware) (b : Bool) (w : World) :
    idsValid (GattStartAdverts F b w).created ↔ idsValid w.created := by
  obtain ⟨l, _, hp, hok, hpanic⟩ := GattStartAdverts_eq F b w
  cases hl : l.any isPanic
  · rw [(hok hl).2]
    simp [idsValid, TIMER_INVALID, List.mem_append, or_imp, forall_and]
  · rw [(hpanic hl).2]

/-- GattStartAdverts requests what it logs: its log extends the log it
started from. -/
theorem GattStartAdverts_log_ext (F : Firmware) (b : Bool) (w : World) :
    ∃ l, (GattStartAdverts F b w).log = w.log ++ l := by
  obtain ⟨l, _, hp, hok, hpanic⟩ := GattStartAdverts_eq F b w
  cases hl : l.any isPanic
  · exact ⟨_, by rw [(hok hl).2]⟩
  · exact ⟨_, by rw [(hpanic hl).2]⟩

@[simp] theorem HtHwDataInit_g (w : World) : (HtHwDataInit w).g = w.g := rfl

@[simp] theorem HtHwDataInit_created (w : World) : (HtHwDataInit w).created = w.created := rfl

@[simp] theorem HtHwDataInit_log (w : World) : (HtHwDataInit w).log = w.log := rfl

@[simp] theorem SoundBuzzer_g (b : buzzer_beep_type) (w : World) : (SoundBuzzer b w).g = w.g := by
  unfold SoundBuzzer; dsimp only; split <;> rfl

@[simp] theorem SoundBuzzer_idsValid (b : buzzer_beep_type) (w : World) :
    idsValid (SoundBuzzer b w).created ↔ idsValid w.created := by
  unfold SoundBuzzer; dsimp only; split <;> simp

theorem SoundBuzzer_log (b : buzzer_beep_type) (w : World) :
    (SoundBuzzer b w).log = w.log ++
      (if b = buzzer_beep_type.buzzer_beep_off then [Req.PioEnablePWM BUZZER_PWM_INDEX_0 false]
      else [Req.PioEnablePWM BUZZER_PWM_INDEX_0 false, Req.PioEnablePWM BUZZER_PWM_INDEX_0 true])
    := by
  unfold SoundBuzzer; dsimp only; split_ifs <;> simp_all

@[simp] theorem appBuzzerTimerHandler_g (tid : Nat) (w : World) :
    (appBuzzerTimerHandler tid w).g = w.g := by
  unfold appBuzzerTimerHandler; dsimp only
  cases w.hw.beep_type <;> dsimp only <;> split_ifs <;> simp

@[simp] theorem appBuzzerTimerHandler_idsValid (tid : Nat) (w : World) :
    idsValid (appBuzzerTimerHandler tid w).created ↔ idsValid w.created := by
  unfold appBuzzerTimerHandler; dsimp only
  cases w.hw.beep_type <;> dsimp only <;> split_ifs <;> simp

@[simp] theorem BatteryDataInit_g (w : World) : (BatteryDataInit w).g = w.g := by
  unfold BatteryDataInit; split <;> rfl

@[simp] theorem BatteryDataInit_created (w : World) :
    (BatteryDataInit w).created = w.created := by
  unfold BatteryDataInit; split <;> rfl

@[simp] theorem BatteryDataInit_log (w : World) : (BatteryDataInit w).log = w.log := by
  unfold BatteryDataInit; split <;> rfl

@[simp] theorem HealthThermoDataInit_g (w : World) : (HealthThermoDataInit w).g = w.g := by
  unfold HealthThermoDataInit; split <;> rfl

@[simp] theorem HealthThermoDataInit_created (w : World) :
    (HealthThermoDataInit w).created = w.created := by
  unfold HealthThermoDataInit; split <;> rfl

@[simp] theorem HealthThermoDataInit_log (w : World) :
    (HealthThermoDataInit w).log = w.log := by
  unfold HealthThermoDataInit; split <;> rfl

@[simp] theorem BatteryUpdateLevel_g (K : Config) (F : Firmware) (ucid : Nat) (w : World) :
    (BatteryUpdateLevel K F ucid w).g = w.g := by
  unfold BatteryUpdateLevel; dsimp only; split_ifs <;> rfl

@[simp] theorem BatteryUpdateLevel_created (K : Config) (F : Firmware) (ucid : Nat) (w : World) :
    (BatteryUpdateLevel K F ucid w).created = w.created := by
  unfold BatteryUpdateLevel; dsimp only; split_ifs <;> rfl

@[simp] theorem htDataInit_g (w : World) :
    (htDataInit w).g = { w.g with
      app_tid := TIMER_INVALID
      con_param_update_tid := TIMER_INVALID
      cpu_timer_value := 0
      bonding_reattempt_tid := TIMER_INVALID
      st_ucid := GATT_INVALID_UCID
      encrypt_enabled := false
      conn_interval := 0
      conn_latency := 0
      conn_timeout := 0 } := by
  simp [htDataInit]

@[simp] theorem htDataInit_created (w : World) : (htDataInit w).created = w.created := by
  simp [htDataInit]

@[simp] theorem htDataInit_log (w : World) : (htDataInit w).log = w.log ++ [Req.GapDataInit] := by
  simp [htDataInit]

@[simp] theorem appInitExit_g (F : Firmware) (w : World) : (appInitExit F w).g = w.g := by
  unfold appInitExit; split_ifs <;> rfl

@[simp] theorem appInitExit_created (F : Firmware) (w : World) :
    (appInitExit F w).created = w.created := by
  unfold appInitExit; split_ifs <;> rfl

theorem appInitExit_log (F : Firmware) (w : World) :
    ∃ l, (appInitExit F w).log = w.log ++ l := by
  unfold appInitExit; split_ifs
  · exact log_ext_panic _ (log_ext_emit _ (log_ext_refl _))
  · exact log_ext_emit _ (log_ext_refl _)
  · exact log_ext_refl _

@[simp] theorem appAdvertisingExit_g (w : World) :
    (appAdvertisingExit w).g = { w.g with app_tid := TIMER_INVALID } := rfl

@[simp] theorem appAdvertisingExit_created (w : World) :
    (appAdvertisingExit w).created = w.created := rfl

@[simp] theorem appAdvertisingExit_log (w : World) : (appAdvertisingExit w).log = w.log := rfl

@[simp] theorem panicked_htDataInit (w : World) : panicked w (htDataInit w) = false := by
  rw [panicked_of_log (htDataInit_log w)]; rfl

@[simp] theorem panicked_appAdvertisingExit (w : World) :
    panicked w (appAdvertisingExit w) = false := by
  rw [panicked_of_log (l := []) (by simp)]; rfl

/-- The exit action of init reports a panic exactly when the bonded address
is to be added to the whitelist and the firmware refuses. -/
theorem panicked_appInitExit (F : Firmware) (w : World) :
    panicked w (appInitExit F w) =
      (w.g.bonded && !GattIsAddressResolvableRandom w.g.bonded_bd_addr &&
        decide (F.LsAddWhiteListDevice w.g.bonded_bd_addr ≠ ls_err_none)) := by
  unfold appInitExit
  split_ifs with h1 h2
  · rw [panicked_of_log (l := [Req.LsAddWhiteListDevice w.g.bonded_bd_addr,
      Req.Panic app_panic_code.app_panic_add_whitelist]) (by simp)]
    simp [isPanic, h1, h2]
  · rw [panicked_of_log (l := [Req.LsAddWhiteListDevice w.g.bonded_bd_addr]) (by simp)]
    simp [isPanic, h2]
  · simp
    intro a b
    simp [a, b] at h1

/-- The state after AppSetState: the new state, unless the exit action of init
reported a panic, which comes before the new state is stored. -/
@[simp] theorem AppSetState_state (F : Firmware) (s : app_state) (w : World) :
    (AppSetState F s w).g.state =
      if w.g.state = app_state.app_state_init ∧ panicked w (appInitExit F w) = true then
        app_state.app_state_init
      else s := by
  cases hs : w.g.state <;> cases s <;> simp [AppSetState, hs] <;> split_ifs <;> simp_all

theorem AppSetState_st_ucid (F : Firmware) (s : app_state) (w : World) :
    (AppSetState F s w).g.st_ucid =
      if w.g.state = s then w.g.st_ucid
      else if w.g.state = app_state.app_state_init ∧ panicked w (appInitExit F w) = true then
        w.g.st_ucid
      else if s = app_state.app_state_fast_advertising ∨
          s = app_state.app_state_slow_advertising then GATT_INVALID_UCID
      else if w.g.state = app_state.app_state_disconnecting then GATT_INVALID_UCID
      else w.g.st_ucid := by
  cases hs : w.g.state <;> cases s <;> simp [AppSetState, hs] <;> split_ifs <;> simp_all

theorem AppSetState_bonding_reattempt_tid (F : Firmware) (s : app_state) (w : World) :
    (AppSetState F s w).g.bonding_reattempt_tid =
      if w.g.state ≠ s ∧ w.g.state = app_state.app_state_disconnecting then TIMER_INVALID
      else w.g.bonding_reattempt_tid := by
  cases hs : w.g.state <;> cases s <;> simp [AppSetState, hs] <;> split_ifs <;> simp_all

theorem AppSetState_con_param_update_tid (F : Firmware) (s : app_state) (w : World) :
    (AppSetState F s w).g.con_param_update_tid =
      if w.g.state ≠ s ∧ w.g.state = app_state.app_state_disconnecting then TIMER_INVALID
      else w.g.con_param_update_tid := by
  cases hs : w.g.state <;> cases s <;> simp [AppSetState, hs] <;> split_ifs <;> simp_all

@[simp] theorem AppSetState_num_conn_update_req (F : Firmware) (s : app_state) (w : World) :
    (AppSetState F s w).g.num_conn_update_req = w.g.num_conn_update_req := by
  cases hs : w.g.state <;> cases s <;> simp [AppSetState, hs] <;> split_ifs <;> simp_all

@[simp] theorem AppSetState_con_bd_addr (F : Firmware) (s : app_state) (w : World) :
    (AppSetState F s w).g.con_bd_addr = w.g.con_bd_addr := by
  cases hs : w.g.state <;> cases s <;> simp [AppSetState, hs] <;> split_ifs <;> simp_all

@[simp] theorem AppSetState_idsValid (F : Firmware) (s : app_state) (w : World) :
    idsValid (AppSetState F s w).created ↔ idsValid w.created := by
  cases hs : w.g.state <;> cases s <;> simp [AppSetState, hs] <;> split_ifs <;> simp_all

@[simp] theorem htTempMeasTimerHandler_g (tid : Nat) (w : World) :
    (htTempMeasTimerHandler tid w).g =
      if tid = w.g.app_tid then
        { w.g with app_tid :=
            if w.g.state = app_state.app_state_connected then w.next_tid + 1 else TIMER_INVALID }
      else w.g := by
  unfold htTempMeasTimerHandler; dsimp only
  split_ifs with h1 h2
  · simp [h2]
  · cases hs : w.g.state <;> simp_all
  · rfl

@[simp] theorem htTempMeasTimerHandler_idsValid (tid : Nat) (w : World) :
    idsValid (htTempMeasTimerHandler tid w).created ↔ idsValid w.created := by
  unfold htTempMeasTimerHandler; dsimp only
  split_ifs with h1
  · cases hs : w.g.state <;> simp
  · rfl

@[simp] theorem BatteryHandleAccessRead_g (K : Config) (F : Firmware) (i : GATT_ACCESS_IND_T)
    (w : World) : (BatteryHandleAccessRead K F i w).g = w.g := by
  unfold BatteryHandleAccessRead; split_ifs <;> rfl

@[simp] theorem BatteryHandleAccessRead_created (K : Config) (F : Firmware)
    (i : GATT_ACCESS_IND_T) (w : World) :
    (BatteryHandleAccessRead K F i w).created = w.created := by
  unfold BatteryHandleAccessRead; split_ifs <;> rfl

@[simp] theorem BatteryHandleAccessWrite_g (K : Config) (F : Firmware) (i : GATT_ACCESS_IND_T)
    (w : World) : (BatteryHandleAccessWrite K F i w).g = w.g := by
  unfold BatteryHandleAccessWrite AppIsDeviceBonded; dsimp only; split_ifs <;> simp

@[simp] theorem BatteryHandleAccessWrite_created (K : Config) (F : Firmware)
    (i : GATT_ACCESS_IND_T) (w : World) :
    (BatteryHandleAccessWrite K F i w).created = w.created := by
  unfold BatteryHandleAccessWrite AppIsDeviceBonded; dsimp only; split_ifs <;> simp

@[simp] theorem HealthThermoHandleAccessRead_g (K : Config) (i : GATT_ACCESS_IND_T)
    (w : World) : (HealthThermoHandleAccessRead K i w).g = w.g := by
  unfold HealthThermoHandleAccessRead; split_ifs <;> rfl

@[simp] theorem HealthThermoHandleAccessRead_created (K : Config) (i : GATT_ACCESS_IND_T)
    (w : World) : (HealthThermoHandleAccessRead K i w).created = w.created := by
  unfold HealthThermoHandleAccessRead; split_ifs <;> rfl

@[simp] theorem HealthThermoHandleAccessWrite_g (K : Config) (i : GATT_ACCESS_IND_T)
    (w : World) : (HealthThermoHandleAccessWrite K i w).g = w.g := by
  unfold HealthThermoHandleAccessWrite AppIsDeviceBonded; dsimp only; split_ifs <;> simp

@[simp] theorem HealthThermoHandleAccessWrite_created (K : Config) (i : GATT_ACCESS_IND_T)
    (w : World) : (HealthThermoHandleAccessWrite K i w).created = w.created := by
  unfold HealthThermoHandleAccessWrite AppIsDeviceBonded; dsimp only; split_ifs <;> simp

@[simp] theorem DeviceInfoHandleAccessRead_g (K : Config) (F : Firmware)
    (i : GATT_ACCESS_IND_T) (w : World) : (DeviceInfoHandleAccessRead K F i w).g = w.g := by
  unfold DeviceInfoHandleAccessRead; split_ifs
  · cases getSystemId F <;> rfl
  · rfl

@[simp] theorem DeviceInfoHandleAccessRead_created (K : Config) (F : Firmware)
    (i : GATT_ACCESS_IND_T) (w : World) :
    (DeviceInfoHandleAccessRead K F i w).created = w.created := by
  unfold DeviceInfoHandleAccessRead; split_ifs
  · cases getSystemId F <;> rfl
  · rfl

@[simp] theorem HandleAccessRead_g (K : Config) (F : Firmware) (i : GATT_ACCESS_IND_T)
    (w : World) : (HandleAccessRead K F i w).g = w.g := by
  unfold HandleAccessRead; split_ifs <;> simp

@[simp] theorem HandleAccessRead_created (K : Config) (F : Firmware) (i : GATT_ACCESS_IND_T)
    (w : World) : (HandleAccessRead K F i w).created = w.created := by
  unfold HandleAccessRead; split_ifs <;> simp

@[simp] theorem HandleAccessWrite_g (K : Config) (F : Firmware) (i : GATT_ACCESS_IND_T)
    (w : World) : (HandleAccessWrite K F i w).g = w.g := by
  unfold HandleAccessWrite; split_ifs <;> simp

@[simp] theorem HandleAccessWrite_created (K : Config) (F : Firmware) (i : GATT_ACCESS_IND_T)
    (w : World) : (HandleAccessWrite K F i w).created = w.created := by
  unfold HandleAccessWrite; split_ifs <;> simp

@[simp] theorem HealthThermoSendTempReading_g (K : Config) (ucid : Nat) (v : List Nat)
    (w : World) : (HealthThermoSendTempReading K ucid v w).1.g = w.g := by
  unfold HealthThermoSendTempReading; dsimp only; split_ifs <;> rfl

@[simp] theorem HealthThermoSendTempReading_created (K : Config) (ucid : Nat) (v : List Nat)
    (w : World) : (HealthThermoSendTempReading K ucid v w).1.created = w.created := by
  unfold HealthThermoSendTempReading; dsimp only; split_ifs <;> rfl

@[simp] theorem HandlePIOChangedEvent_g (K : Config) (F : Firmware) (c s : Nat) (w : World) :
    (HandlePIOChangedEvent K F c s w).g = w.g := by
  unfold HandlePIOChangedEvent HandleShortButtonPress; dsimp only
  simp only [HealthThermoSendTempReading_g]
  split_ifs <;> rfl

@[simp] theorem HandlePIOChangedEvent_idsValid (K : Config) (F : Firmware) (c s : Nat)
    (w : World) :
    idsValid (HandlePIOChangedEvent K F c s w).created ↔ idsValid w.created := by
  unfold HandlePIOChangedEvent HandleShortButtonPress; dsimp only
  simp only [HealthThermoSendTempReading_created]
  split_ifs <;> simp

@[simp] theorem HealthThermoReadDataFromNVM_created (o : Nat) (w : World) :
    (HealthThermoReadDataFromNVM o w).2.created = w.created := by
  unfold HealthThermoReadDataFromNVM; dsimp only; split_ifs <;> rfl

@[simp] theorem HealthThermoReadDataFromNVM_g (o : Nat) (w : World) :
    (HealthThermoReadDataFromNVM o w).2.g = w.g := by
  unfold HealthThermoReadDataFromNVM; dsimp only; split_ifs <;> rfl

@[simp] theorem BatteryReadDataFromNVM_created (o : Nat) (w : World) :
    (BatteryReadDataFromNVM o w).2.created = w.created := by
  unfold BatteryReadDataFromNVM; dsimp only; split_ifs <;> rfl

@[simp] theorem BatteryReadDataFromNVM_g (o : Nat) (w : World) :
    (BatteryReadDataFromNVM o w).2.g = w.g := by
  unfold BatteryReadDataFromNVM; dsimp only; split_ifs <;> rfl

@[simp] theorem readPersistentStore_created (K : Config) (w : World) :
    (readPersistentStore K w).created = w.created := by
  unfold readPersistentStore; dsimp only
  simp only [BatteryReadDataFromNVM_created, HealthThermoReadDataFromNVM_created]
  split_ifs <;> simp

@[simp] theorem readPersistentStore_num_conn_update_req (K : Config) (w : World) :
    (readPersistentStore K w).g.num_conn_update_req = w.g.num_conn_update_req := by
  unfold readPersistentStore; dsimp only
  simp only [BatteryReadDataFromNVM_g, HealthThermoReadDataFromNVM_g]
  split_ifs <;> simp

@[simp] theorem BatteryBondingNotify_g (w : World) : (BatteryBondingNotify w).g = w.g := by
  unfold BatteryBondingNotify; split_ifs <;> rfl

@[simp] theorem BatteryBondingNotify_created (w : World) :
    (BatteryBondingNotify w).created = w.created := by
  unfold BatteryBondingNotify; split_ifs <;> rfl

@[simp] theorem HealthThermoBondingNotify_g (w : World) :
    (HealthThermoBondingNotify w).g = w.g := by
  unfold HealthThermoBondingNotify; split_ifs <;> rfl

@[simp] theorem HealthThermoBondingNotify_created (w : World) :
    (HealthThermoBondingNotify w).created = w.created := by
  unfold HealthThermoBondingNotify; split_ifs <;> rfl

set_option linter.unusedTactic false
set_option linter.unreachableTactic false

/-! ## The connection identifier invariant, handler by handler -/

theorem ucidInv_AddDbCfm (F : Firmware) (r : sys_status) (w : World) (h : ucidInv w) :
    ucidInv (handleSignalGattAddDbCfm F r w) := by
  unfold ucidInv at h ⊢
  unfold handleSignalGattAddDbCfm
  cases hs : w.g.state <;> simp only [hs] at h ⊢ <;> (try split_ifs) <;>
    simp [AppSetState_st_ucid, AppSetState_bonding_reattempt_tid, hs] at h ⊢ <;>
    (simp_all; try (split_ifs <;> simp))

theorem ucidInv_CancelConnectCfm (F : Firmware) (w : World) (h : ucidInv w) :
    ucidInv (handleSignalGattCancelConnectCfm F w) := by
  unfold ucidInv at h ⊢
  unfold handleSignalGattCancelConnectCfm cancelConnectCfmAdvertising
  cases hs : w.g.state <;> simp only [hs] at h ⊢ <;> (try split_ifs) <;>
    simp [AppSetState_st_ucid, AppSetState_bonding_reattempt_tid, hs] at h ⊢ <;> simp_all

theorem ucidInv_ConnectionComplete (a b c : Nat) (w : World) (h : ucidInv w) :
    ucidInv (handleSignalLmEvConnectionComplete a b c w) := by
  unfold ucidInv at h ⊢
  unfold handleSignalLmEvConnectionComplete
  cases hs : w.g.state <;> simp only [hs] at h ⊢ <;>
    simp [AppSetState_st_ucid, AppSetState_bonding_reattempt_tid, hs] at h ⊢ <;> simp_all

theorem ucidInv_ConnectCfm (F : Firmware) (r : sys_status) (cid : Nat) (a : TYPED_BD_ADDR_T) (w : World) (h : ucidInv w) (hc : cid ≠ GATT_INVALID_UCID) :
    ucidInv (handleSignalGattConnectCfm F r cid a w) := by
  unfold ucidInv at h ⊢
  unfold handleSignalGattConnectCfm connectCfmAdvertising
  cases hs : w.g.state <;> simp only [hs] at h ⊢ <;> (try split_ifs) <;>
    simp [AppSetState_st_ucid, AppSetState_bonding_reattempt_tid, hs] at h ⊢ <;> simp_all

theorem ucidInv_SmKeysInd (dp ip : Bool) (d : Nat) (irk : List Nat) (w : World) (h : ucidInv w) :
    ucidInv (handleSignalSmKeysInd dp ip d irk w) := by
  unfold ucidInv at h ⊢
  unfold handleSignalSmKeysInd
  cases hs : w.g.state <;> simp only [hs] at h ⊢ <;> (try split_ifs) <;>
    simp [AppSetState_st_ucid, AppSetState_bonding_reattempt_tid, hs] at h ⊢ <;> simp_all

theorem ucidInv_PairingAuthInd (d : Nat) (w : World) (h : ucidInv w) :
    ucidInv (handleSignalSmPairingAuthInd d w) := by
  unfold ucidInv at h ⊢
  unfold handleSignalSmPairingAuthInd
  cases hs : w.g.state <;> simp only [hs] at h ⊢ <;> (try split_ifs) <;>
    simp [AppSetState_st_ucid, AppSetState_bonding_reattempt_tid, hs] at h ⊢ <;> simp_all

theorem ucidInv_PairingComplete (F : Firmware) (st : sys_status) (a : TYPED_BD_ADDR_T) (w : World) (h : ucidInv w) :
    ucidInv (handleSignalSmSimplePairingCompleteInd F st a w) := by
  unfold ucidInv at h ⊢
  unfold handleSignalSmSimplePairingCompleteInd
  cases hs : w.g.state <;> simp only [hs] at h ⊢ <;> (try split_ifs) <;>
    simp [AppSetState_st_ucid, AppSetState_bonding_reattempt_tid, hs] at h ⊢ <;> simp_all

theorem ucidInv_EncryptionChange (K : Config) (F : Firmware) (st : sys_status) (e : Bool) (w : World) (h : ucidInv w) :
    ucidInv (handleSignalLMEncryptionChange K F st e w) := by
  unfold ucidInv at h ⊢
  unfold handleSignalLMEncryptionChange
  cases hs : w.g.state <;> simp only [hs] at h ⊢ <;> (try split_ifs) <;>
    simp [AppSetState_st_ucid, AppSetState_bonding_reattempt_tid, hs] at h ⊢ <;> (try split_ifs) <;> simp_all

theorem ucidInv_DivApproveInd (c d : Nat) (w : World) (h : ucidInv w) :
    ucidInv (handleSignalSmDivApproveInd c d w) := by
  unfold ucidInv at h ⊢
  unfold handleSignalSmDivApproveInd
  cases hs : w.g.state <;> simp only [hs] at h ⊢ <;>
    simp [AppSetState_st_ucid, AppSetState_bonding_reattempt_tid, hs] at h ⊢ <;> simp_all

theorem ucidInv_ConnParamUpdateCfm (st : sys_status) (w : World) (h : ucidInv w) :
    ucidInv (handleSignalLsConnParamUpdateCfm st w) := by
  unfold ucidInv at h ⊢
  unfold handleSignalLsConnParamUpdateCfm
  cases hs : w.g.state <;> simp only [hs] at h ⊢ <;> (try split_ifs) <;>
    simp [AppSetState_st_ucid, AppSetState_bonding_reattempt_tid, hs] at h ⊢ <;> simp_all

theorem ucidInv_ConnectionUpdate (a b c : Nat) (w : World) (h : ucidInv w) :
    ucidInv (handleSignalLmConnectionUpdate a b c w) := by
  unfold ucidInv at h ⊢
  unfold handleSignalLmConnectionUpdate connectionUpdateStore
  cases hs : w.g.state <;> simp only [hs] at h ⊢ <;> (try split_ifs) <;>
    simp [AppSetState_st_ucid, AppSetState_bonding_reattempt_tid, hs] at h ⊢ <;> simp_all

theorem ucidInv_ConnParamUpdateInd  (w : World) (h : ucidInv w) :
    ucidInv (handleSignalLsConnParamUpdateInd w) := by
  unfold ucidInv at h ⊢
  unfold handleSignalLsConnParamUpdateInd
  cases hs : w.g.state <;> simp only [hs] at h ⊢ <;> (try split_ifs) <;>
    simp [AppSetState_st_ucid, AppSetState_bonding_reattempt_tid, hs] at h ⊢ <;> simp_all

theorem ucidInv_GattAccessInd (K : Config) (F : Firmware) (i : GATT_ACCESS_IND_T) (w : World) (h : ucidInv w) :
    ucidInv (handleSignalGattAccessInd K F i w) := by
  unfold ucidInv at h ⊢
  unfold handleSignalGattAccessInd
  cases hs : w.g.state <;> simp only [hs] at h ⊢ <;> (try split_ifs) <;>
    simp [AppSetState_st_ucid, AppSetState_bonding_reattempt_tid, hs] at h ⊢ <;> simp_all

/-- The invariant only looks at three fields of the application data and at
the handles of the timers created so far. -/
theorem ucidInv_of_frame {w v : World} (h : ucidInv w) (hg : v.g = w.g)
    (hc : idsValid v.created ↔ idsValid w.created) : ucidInv v := by
  unfold ucidInv at h ⊢
  rw [hg, hc]; exact h

theorem disconnectCompleteNext_eq (F : Firmware) (r : Nat) (v : World) :
    ∃ s, (s = app_state.app_state_fast_advertising ∨ s = app_state.app_state_idle) ∧
      disconnectCompleteNext F r v = AppSetState F s v := by
  unfold disconnectCompleteNext
  split_ifs
  all_goals first
    | exact ⟨_, Or.inl rfl, rfl⟩
    | exact ⟨_, Or.inr rfl, rfl⟩

theorem ucidInv_leave_connection (F : Firmware) (s : app_state) (v : World)
    (hs : s = app_state.app_state_fast_advertising ∨ s = app_state.app_state_idle)
    (hv : v.g.state = app_state.app_state_disconnecting ∨
      (v.g.state = app_state.app_state_connected ∧ v.g.st_ucid = GATT_INVALID_UCID ∧
        v.g.bonding_reattempt_tid = TIMER_INVALID))
    (hc : idsValid v.created) : ucidInv (AppSetState F s v) := by
  unfold ucidInv
  rcases hs with rfl | rfl <;> rcases hv with hv | ⟨hv, hu, hb⟩ <;>
    simp [AppSetState_st_ucid, AppSetState_bonding_reattempt_tid, hv, hc, *]

theorem ucidInv_disconnectCompleteNext (F : Firmware) (r : Nat) (v : World)
    (hv : v.g.state = app_state.app_state_disconnecting ∨
      (v.g.state = app_state.app_state_connected ∧ v.g.st_ucid = GATT_INVALID_UCID ∧
        v.g.bonding_reattempt_tid = TIMER_INVALID))
    (hc : idsValid v.created) : ucidInv (disconnectCompleteNext F r v) := by
  obtain ⟨s, hs1, hs2⟩ := disconnectCompleteNext_eq F r v
  rw [hs2]
  exact ucidInv_leave_connection F s v hs1 hv hc

theorem ucidInv_DisconnectComplete (F : Firmware) (r : Nat) (w : World) (h : ucidInv w) :
    ucidInv (handleSignalLmDisconnectComplete F r w) := by
  unfold handleSignalLmDisconnectComplete
  dsimp only
  cases hs : w.g.state
  case app_state_connected =>
    simp only [TimerDelete_g, hs]
    exact ucidInv_disconnectCompleteNext F r _ (Or.inr (by simp [hs])) (by simpa using h.2.2)
  case app_state_disconnecting =>
    simp only [TimerDelete_g, hs]
    exact ucidInv_disconnectCompleteNext F r _ (Or.inl (by simp [hs])) (by simpa using h.2.2)
  all_goals
    unfold ucidInv at h ⊢
    simp [hs] at h ⊢
    simp_all

theorem ucidInv_SystemEvent (K : Config) (F : Firmware) (e : SysEvent) (w : World)
    (h : ucidInv w) : ucidInv (AppProcessSystemEvent K F e w) := by
  unfold AppProcessSystemEvent
  cases e
  · dsimp only; split_ifs
    · exact ucidInv_of_frame h (by simp) (by simp)
    · exact h
  · exact ucidInv_of_frame h (by simp) (by simp)
  · exact h

theorem ucidInv_requestConnParamUpdate (F : Firmware) (tid : Nat) (w : World) (h : ucidInv w) :
    ucidInv (requestConnParamUpdate F tid w) := by
  unfold ucidInv at h ⊢
  unfold requestConnParamUpdate
  cases hs : w.g.state <;> simp only [hs] at h ⊢ <;> (try split_ifs) <;>
    simp [AppSetState_st_ucid, AppSetState_bonding_reattempt_tid, hs] at h ⊢ <;> simp_all

theorem ucidInv_handleGapCppTimerExpiry (tid : Nat) (w : World) (h : ucidInv w) :
    ucidInv (handleGapCppTimerExpiry tid w) := by
  unfold ucidInv at h ⊢
  unfold handleGapCppTimerExpiry
  cases hs : w.g.state <;> simp only [hs] at h ⊢ <;> (try split_ifs) <;>
    simp [AppSetState_st_ucid, AppSetState_bonding_reattempt_tid, hs] at h ⊢ <;> simp_all

theorem ucidInv_handleBondingChanceTimerExpiry (F : Firmware) (tid : Nat) (w : World) (h : ucidInv w) (ht : tid ≠ TIMER_INVALID) :
    ucidInv (handleBondingChanceTimerExpiry F tid w) := by
  unfold ucidInv at h ⊢
  unfold handleBondingChanceTimerExpiry
  cases hs : w.g.state <;> simp only [hs] at h ⊢ <;> (try split_ifs) <;>
    simp [AppSetState_st_ucid, AppSetState_bonding_reattempt_tid, hs] at h ⊢ <;> simp_all

theorem ucidInv_gattAdvertTimerHandler (tid : Nat) (w : World) (h : ucidInv w) :
    ucidInv (gattAdvertTimerHandler tid w) := by
  unfold ucidInv at h ⊢
  unfold gattAdvertTimerHandler
  cases hs : w.g.state <;> simp only [hs] at h ⊢ <;> (try split_ifs) <;>
    simp [AppSetState_st_ucid, AppSetState_bonding_reattempt_tid, hs] at h ⊢ <;> simp_all

theorem ucidInv_htTempMeasTimerHandler (tid : Nat) (w : World) (h : ucidInv w) :
    ucidInv (htTempMeasTimerHandler tid w) := by
  unfold ucidInv at h ⊢
  unfold htTempMeasTimerHandler
  cases hs : w.g.state <;> simp only [hs] at h ⊢ <;> (try split_ifs) <;>
    simp [AppSetState_st_ucid, AppSetState_bonding_reattempt_tid, hs] at h ⊢ <;> simp_all

theorem ucidInv_HandleExtraLongButtonPress (F : Firmware) (tid : Nat) (w : World) (h : ucidInv w) :
    ucidInv (HandleExtraLongButtonPress F tid w) := by
  unfold ucidInv at h ⊢
  unfold HandleExtraLongButtonPress
  cases hs : w.g.state <;> simp only [hs] at h ⊢ <;> (try split_ifs) <;>
    simp [AppSetState_st_ucid, AppSetState_bonding_reattempt_tid, hs,
      panicked_appInitExit] at h ⊢ <;> simp_all

theorem ucidInv_appBuzzerTimerHandler (tid : Nat) (w : World) (h : ucidInv w) :
    ucidInv (appBuzzerTimerHandler tid w) :=
  ucidInv_of_frame h (by simp) (by simp)


theorem ucidInv_timerExpiry (F : Firmware) (cb : timer_cb) (tid : Nat) (w : World)
    (h : ucidInv w) (ht : tid ≠ TIMER_INVALID) : ucidInv (timerExpiry F cb tid w) := by
  have h1 : ucidInv (TimerDelete tid w) := ucidInv_of_frame h rfl Iff.rfl
  unfold timerExpiry
  cases cb <;> dsimp only
  · exact ucidInv_requestConnParamUpdate F tid _ h1
  · exact ucidInv_handleGapCppTimerExpiry tid _ h1
  · exact ucidInv_handleBondingChanceTimerExpiry F tid _ h1 ht
  · exact ucidInv_gattAdvertTimerHandler tid _ h1
  · exact ucidInv_htTempMeasTimerHandler tid _ h1
  · exact ucidInv_HandleExtraLongButtonPress F tid _ h1
  · exact ucidInv_appBuzzerTimerHandler tid _ h1

theorem ucidInv_handle (K : Config) (F : Firmware) (ev : Event) (w : World) (h : ucidInv w)
    (hA : validCid ev) (hg : genuine ev w) : ucidInv (handle K F ev w) := by
  cases ev with
  | lm e =>
    cases e <;> simp only [handle, AppProcessLmEvent]
    · exact ucidInv_AddDbCfm _ _ _ h
    · exact ucidInv_CancelConnectCfm _ _ h
    · exact ucidInv_ConnectionComplete _ _ _ _ h
    · exact ucidInv_ConnectCfm _ _ _ _ _ h hA
    · exact ucidInv_SmKeysInd _ _ _ _ _ h
    · exact ucidInv_PairingAuthInd _ _ h
    · exact ucidInv_PairingComplete _ _ _ _ h
    · exact ucidInv_EncryptionChange _ _ _ _ _ h
    · exact ucidInv_DivApproveInd _ _ _ h
    · exact ucidInv_ConnParamUpdateCfm _ _ h
    · exact ucidInv_ConnectionUpdate _ _ _ _ h
    · exact ucidInv_ConnParamUpdateInd _ h
    · exact ucidInv_GattAccessInd _ _ _ _ h
    · exact h
    · exact h
    · exact ucidInv_DisconnectComplete _ _ _ h
    · exact h
  | sys e => exact ucidInv_SystemEvent K F e w h
  | timer cb tid =>
    obtain ⟨t, ht, rfl, rfl⟩ := hg
    exact ucidInv_timerExpiry F _ _ w h (h.2.2 t ht)

theorem ucidInv_AppInit (K : Config) (nvm : Nat → Nat) : ucidInv (AppInit K (powerOn nvm)) := by
  simp [ucidInv, AppInit, TimerInit, BatteryInitChipReset, powerOn, idsValid]

theorem ucidInv_reachable (K : Config) (w : World) (h : Reachable K validCid w) : ucidInv w := by
  induction h with
  | init nvm => exact ucidInv_AppInit K nvm
  | step w F ev _ hA hg ih => exact ucidInv_handle K F ev w ih hA hg

/-! ## The attempt budget invariant, handler by handler -/

theorem budgetInv_of_frame {w v : World} (h : budgetInv w) (hg : v.g = w.g)
    (hc : idsValid v.created ↔ idsValid w.created) : budgetInv v := by
  unfold budgetInv at h ⊢
  rw [hg, hc]; exact h

theorem budgetInv_AddDbCfm (F : Firmware) (r : sys_status) (w : World) (h : budgetInv w) :
    budgetInv (handleSignalGattAddDbCfm F r w) := by
  unfold budgetInv at h ⊢
  unfold handleSignalGattAddDbCfm
  cases hs : w.g.state <;> simp only [hs] at h ⊢ <;> (try split_ifs) <;>
    (try simp [AppSetState_con_param_update_tid, MAX_NUM_CONN_PARAM_UPDATE_REQS, TIMER_INVALID,
      hs] at *) <;> (try split_ifs) <;> (try simp_all) <;> (try omega)

theorem budgetInv_CancelConnectCfm (F : Firmware) (w : World) (h : budgetInv w) :
    budgetInv (handleSignalGattCancelConnectCfm F w) := by
  unfold budgetInv at h ⊢
  unfold handleSignalGattCancelConnectCfm cancelConnectCfmAdvertising
  cases hs : w.g.state <;> simp only [hs] at h ⊢ <;> (try split_ifs) <;>
    (try simp [AppSetState_con_param_update_tid, MAX_NUM_CONN_PARAM_UPDATE_REQS, TIMER_INVALID,
      hs] at *) <;> (try split_ifs) <;> (try simp_all) <;> (try omega)

theorem budgetInv_ConnectionComplete (a b c : Nat) (w : World) (h : budgetInv w) :
    budgetInv (handleSignalLmEvConnectionComplete a b c w) := by
  unfold budgetInv at h ⊢
  unfold handleSignalLmEvConnectionComplete
  cases hs : w.g.state <;> simp only [hs] at h ⊢ <;> (try split_ifs) <;>
    (try simp [AppSetState_con_param_update_tid, MAX_NUM_CONN_PARAM_UPDATE_REQS, TIMER_INVALID,
      hs] at *) <;> (try split_ifs) <;> (try simp_all) <;> (try omega)

theorem budgetInv_ConnectCfm (F : Firmware) (r : sys_status) (cid : Nat) (a : TYPED_BD_ADDR_T) (w : World) (h : budgetInv w) :
    budgetInv (handleSignalGattConnectCfm F r cid a w) := by
  unfold budgetInv at h ⊢
  unfold handleSignalGattConnectCfm connectCfmAdvertising
  cases hs : w.g.state <;> simp only [hs] at h ⊢ <;> (try split_ifs) <;>
    (try simp [AppSetState_con_param_update_tid, MAX_NUM_CONN_PARAM_UPDATE_REQS, TIMER_INVALID,
      hs] at *) <;> (try split_ifs) <;> (try simp_all) <;> (try omega)

theorem budgetInv_SmKeysInd (dp ip : Bool) (d : Nat) (irk : List Nat) (w : World) (h : budgetInv w) :
    budgetInv (handleSignalSmKeysInd dp ip d irk w) := by
  unfold budgetInv at h ⊢
  unfold handleSignalSmKeysInd
  cases hs : w.g.state <;> simp only [hs] at h ⊢ <;> (try split_ifs) <;>
    (try simp [AppSetState_con_param_update_tid, MAX_NUM_CONN_PARAM_UPDATE_REQS, TIMER_INVALID,
      hs] at *) <;> (try split_ifs) <;> (try simp_all) <;> (try omega)

theorem budgetInv_PairingAuthInd (d : Nat) (w : World) (h : budgetInv w) :
    budgetInv (handleSignalSmPairingAuthInd d w) := by
  unfold budgetInv at h ⊢
  unfold handleSignalSmPairingAuthInd
  cases hs : w.g.state <;> simp only [hs] at h ⊢ <;> (try split_ifs) <;>
    (try simp [AppSetState_con_param_update_tid, MAX_NUM_CONN_PARAM_UPDATE_REQS, TIMER_INVALID,
      hs] at *) <;> (try split_ifs) <;> (try simp_all) <;> (try omega)

theorem budgetInv_PairingComplete (F : Firmware) (st : sys_status) (a : TYPED_BD_ADDR_T) (w : World) (h : budgetInv w) :
    budgetInv (handleSignalSmSimplePairingCompleteInd F st a w) := by
  unfold budgetInv at h ⊢
  unfold handleSignalSmSimplePairingCompleteInd
  cases hs : w.g.state <;> simp only [hs] at h ⊢ <;> (try split_ifs) <;>
    (try simp [AppSetState_con_param_update_tid, MAX_NUM_CONN_PARAM_UPDATE_REQS, TIMER_INVALID,
      hs] at *) <;> (try split_ifs) <;> (try simp_all) <;> (try omega)

theorem budgetInv_EncryptionChange (K : Config) (F : Firmware) (st : sys_status) (e : Bool) (w : World) (h : budgetInv w) :
    budgetInv (handleSignalLMEncryptionChange K F st e w) := by
  unfold budgetInv at h ⊢
  unfold handleSignalLMEncryptionChange
  cases hs : w.g.state <;> simp only [hs] at h ⊢ <;> (try split_ifs) <;>
    (try simp [AppSetState_con_param_update_tid, MAX_NUM_CONN_PARAM_UPDATE_REQS, TIMER_INVALID,
      hs] at *) <;> (try split_ifs) <;> (try simp_all) <;> (try omega)

theorem budgetInv_DivApproveInd (c d : Nat) (w : World) (h : budgetInv w) :
    budgetInv (handleSignalSmDivApproveInd c d w) := by
  unfold budgetInv at h ⊢
  unfold handleSignalSmDivApproveInd
  cases hs : w.g.state <;> simp only [hs] at h ⊢ <;> (try split_ifs) <;>
    (try simp [AppSetState_con_param_update_tid, MAX_NUM_CONN_PARAM_UPDATE_REQS, TIMER_INVALID,
      hs] at *) <;> (try split_ifs) <;> (try simp_all) <;> (try omega)

theorem budgetInv_ConnParamUpdateCfm (st : sys_status) (w : World) (h : budgetInv w) :
    budgetInv (handleSignalLsConnParamUpdateCfm st w) := by
  unfold budgetInv at h ⊢
  unfold handleSignalLsConnParamUpdateCfm
  cases hs : w.g.state <;> simp only [hs] at h ⊢ <;> (try split_ifs) <;>
    (try simp [AppSetState_con_param_update_tid, MAX_NUM_CONN_PARAM_UPDATE_REQS, TIMER_INVALID,
      hs] at *) <;> (try split_ifs) <;> (try simp_all) <;> (try omega)

theorem budgetInv_ConnectionUpdate (a b c : Nat) (w : World) (h : budgetInv w) :
    budgetInv (handleSignalLmConnectionUpdate a b c w) := by
  unfold budgetInv at h ⊢
  unfold handleSignalLmConnectionUpdate connectionUpdateStore
  cases hs : w.g.state <;> simp only [hs] at h ⊢ <;> (try split_ifs) <;>
    (try simp [AppSetState_con_param_update_tid, MAX_NUM_CONN_PARAM_UPDATE_REQS, TIMER_INVALID,
      hs] at *) <;> (try split_ifs) <;> (try simp_all) <;> (try omega)

theorem budgetInv_ConnParamUpdateInd  (w : World) (h : budgetInv w) :
    budgetInv (handleSignalLsConnParamUpdateInd w) := by
  unfold budgetInv at h ⊢
  unfold handleSignalLsConnParamUpdateInd
  cases hs : w.g.state <;> simp only [hs] at h ⊢ <;> (try split_ifs) <;>
    (try simp [AppSetState_con_param_update_tid, MAX_NUM_CONN_PARAM_UPDATE_REQS, TIMER_INVALID,
      hs] at *) <;> (try split_ifs) <;> (try simp_all) <;> (try omega)

theorem budgetInv_GattAccessInd (K : Config) (F : Firmware) (i : GATT_ACCESS_IND_T) (w : World) (h : budgetInv w) :
    budgetInv (handleSignalGattAccessInd K F i w) := by
  unfold budgetInv at h ⊢
  unfold handleSignalGattAccessInd
  cases hs : w.g.state <;> simp only [hs] at h ⊢ <;> (try split_ifs) <;>
    (try simp [AppSetState_con_param_update_tid, MAX_NUM_CONN_PARAM_UPDATE_REQS, TIMER_INVALID,
      hs] at *) <;> (try split_ifs) <;> (try simp_all) <;> (try omega)

theorem budgetInv_disconnectCompleteNext (F : Firmware) (r : Nat) (v : World)
    (h : budgetInv v) : budgetInv (disconnectCompleteNext F r v) := by
  obtain ⟨s, -, hs2⟩ := disconnectCompleteNext_eq F r v
  rw [hs2]
  unfold budgetInv at h ⊢
  rw [AppSetState_con_param_update_tid, AppSetState_num_conn_update_req, AppSetState_idsValid]
  refine ⟨h.1, ?_, h.2.2⟩
  split_ifs
  · simp
  · exact h.2.1

theorem budgetInv_DisconnectComplete (F : Firmware) (r : Nat) (w : World) (h : budgetInv w) :
    budgetInv (handleSignalLmDisconnectComplete F r w) := by
  unfold handleSignalLmDisconnectComplete
  dsimp only
  cases hs : w.g.state
  case app_state_connected =>
    simp only [TimerDelete_g, hs]
    refine budgetInv_disconnectCompleteNext F r _ ?_
    unfold budgetInv at h ⊢
    simpa [MAX_NUM_CONN_PARAM_UPDATE_REQS] using ⟨h.1, h.2.2⟩
  case app_state_disconnecting =>
    simp only [TimerDelete_g, hs]
    refine budgetInv_disconnectCompleteNext F r _ ?_
    unfold budgetInv at h ⊢
    simpa using h
  all_goals
    unfold budgetInv at h ⊢
    simp [hs] at h ⊢
    simp_all

theorem budgetInv_SystemEvent (K : Config) (F : Firmware) (e : SysEvent) (w : World)
    (h : budgetInv w) : budgetInv (AppProcessSystemEvent K F e w) := by
  unfold AppProcessSystemEvent
  cases e
  · dsimp only; split_ifs
    · exact budgetInv_of_frame h (by simp) (by simp)
    · exact h
  · exact budgetInv_of_frame h (by simp) (by simp)
  · exact h

theorem budgetInv_requestConnParamUpdate (F : Firmware) (tid : Nat) (w : World) (h : budgetInv w) (ht : tid ≠ TIMER_INVALID) :
    budgetInv (requestConnParamUpdate F tid w) := by
  unfold budgetInv at h ⊢
  unfold requestConnParamUpdate
  cases hs : w.g.state <;> simp only [hs] at h ⊢ <;> (try split_ifs) <;>
    (try simp [AppSetState_con_param_update_tid, MAX_NUM_CONN_PARAM_UPDATE_REQS, TIMER_INVALID,
      hs] at *) <;> (try split_ifs) <;> (try simp_all) <;> (try omega)

theorem budgetInv_handleGapCppTimerExpiry (tid : Nat) (w : World) (h : budgetInv w) (ht : tid ≠ TIMER_INVALID) :
    budgetInv (handleGapCppTimerExpiry tid w) := by
  unfold budgetInv at h ⊢
  unfold handleGapCppTimerExpiry
  cases hs : w.g.state <;> simp only [hs] at h ⊢ <;> (try split_ifs) <;>
    (try simp [AppSetState_con_param_update_tid, MAX_NUM_CONN_PARAM_UPDATE_REQS, TIMER_INVALID,
      hs] at *) <;> (try split_ifs) <;> (try simp_all) <;> (try omega)

theorem budgetInv_handleBondingChanceTimerExpiry (F : Firmware) (tid : Nat) (w : World) (h : budgetInv w) :
    budgetInv (handleBondingChanceTimerExpiry F tid w) := by
  unfold budgetInv at h ⊢
  unfold handleBondingChanceTimerExpiry
  cases hs : w.g.state <;> simp only [hs] at h ⊢ <;> (try split_ifs) <;>
    (try simp [AppSetState_con_param_update_tid, MAX_NUM_CONN_PARAM_UPDATE_REQS, TIMER_INVALID,
      hs] at *) <;> (try split_ifs) <;> (try simp_all) <;> (try omega)

theorem budgetInv_gattAdvertTimerHandler (tid : Nat) (w : World) (h : budgetInv w) :
    budgetInv (gattAdvertTimerHandler tid w) := by
  unfold budgetInv at h ⊢
  unfold gattAdvertTimerHandler
  cases hs : w.g.state <;> simp only [hs] at h ⊢ <;> (try split_ifs) <;>
    (try simp [AppSetState_con_param_update_tid, MAX_NUM_CONN_PARAM_UPDATE_REQS, TIMER_INVALID,
      hs] at *) <;> (try split_ifs) <;> (try simp_all) <;> (try omega)

theorem budgetInv_htTempMeasTimerHandler (tid : Nat) (w : World) (h : budgetInv w) :
    budgetInv (htTempMeasTimerHandler tid w) := by
  unfold budgetInv at h ⊢
  unfold htTempMeasTimerHandler
  cases hs : w.g.state <;> simp only [hs] at h ⊢ <;> (try split_ifs) <;>
    (try simp [AppSetState_con_param_update_tid, MAX_NUM_CONN_PARAM_UPDATE_REQS, TIMER_INVALID,
      hs] at *) <;> (try split_ifs) <;> (try simp_all) <;> (try omega)

theorem budgetInv_HandleExtraLongButtonPress (F : Firmware) (tid : Nat) (w : World) (h : budgetInv w) :
    budgetInv (HandleExtraLongButtonPress F tid w) := by
  unfold budgetInv at h ⊢
  unfold HandleExtraLongButtonPress
  cases hs : w.g.state <;> simp only [hs] at h ⊢ <;> (try split_ifs) <;>
    (try simp [AppSetState_con_param_update_tid, MAX_NUM_CONN_PARAM_UPDATE_REQS, TIMER_INVALID,
      hs] at *) <;> (try split_ifs) <;> (try simp_all) <;> (try omega)

theorem budgetInv_appBuzzerTimerHandler (tid : Nat) (w : World) (h : budgetInv w) :
    budgetInv (appBuzzerTimerHandler tid w) :=
  budgetInv_of_frame h (by simp) (by simp)

theorem budgetInv_timerExpiry (F : Firmware) (cb : timer_cb) (tid : Nat) (w : World)
    (h : budgetInv w) (ht : tid ≠ TIMER_INVALID) : budgetInv (timerExpiry F cb tid w) := by
  have h1 : budgetInv (TimerDelete tid w) := budgetInv_of_frame h rfl Iff.rfl
  unfold timerExpiry
  cases cb <;> dsimp only
  · exact budgetInv_requestConnParamUpdate F tid _ h1 ht
  · exact budgetInv_handleGapCppTimerExpiry tid _ h1 ht
  · exact budgetInv_handleBondingChanceTimerExpiry F tid _ h1
  · exact budgetInv_gattAdvertTimerHandler tid _ h1
  · exact budgetInv_htTempMeasTimerHandler tid _ h1
  · exact budgetInv_HandleExtraLongButtonPress F tid _ h1
  · exact budgetInv_appBuzzerTimerHandler tid _ h1

theorem budgetInv_handle (K : Config) (F : Firmware) (ev : Event) (w : World) (h : budgetInv w)
    (hg : genuine ev w) : budgetInv (handle K F ev w) := by
  cases ev with
  | lm e =>
    cases e <;> simp only [handle, AppProcessLmEvent]
    · exact budgetInv_AddDbCfm _ _ _ h
    · exact budgetInv_CancelConnectCfm _ _ h
    · exact budgetInv_ConnectionComplete _ _ _ _ h
    · exact budgetInv_ConnectCfm _ _ _ _ _ h
    · exact budgetInv_SmKeysInd _ _ _ _ _ h
    · exact budgetInv_PairingAuthInd _ _ h
    · exact budgetInv_PairingComplete _ _ _ _ h
    · exact budgetInv_EncryptionChange _ _ _ _ _ h
    · exact budgetInv_DivApproveInd _ _ _ h
    · exact budgetInv_ConnParamUpdateCfm _ _ h
    · exact budgetInv_ConnectionUpdate _ _ _ _ h
    · exact budgetInv_ConnParamUpdateInd _ h
    · exact budgetInv_GattAccessInd _ _ _ _ h
    · exact h
    · exact h
    · exact budgetInv_DisconnectComplete _ _ _ h
    · exact h
  | sys e => exact budgetInv_SystemEvent K F e w h
  | timer cb tid =>
    obtain ⟨t, ht, rfl, rfl⟩ := hg
    exact budgetInv_timerExpiry F _ _ w h (h.2.2 t ht)

theorem budgetInv_AppInit (K : Config) (nvm : Nat → Nat) :
    budgetInv (AppInit K (powerOn nvm)) := by
  simp [budgetInv, AppInit, TimerInit, BatteryInitChipReset, powerOn, idsValid]

theorem budgetInv_reachable (K : Config) (w : World) (h : Reachable K anyEvent w) :
    budgetInv w := by
  induction h with
  | init nvm => exact budgetInv_AppInit K nvm
  | step w F ev _ _ hg ih => exact budgetInv_handle K F ev w ih hg

/-! ## Reachability of the example worlds -/

theorem wConn_reachable (A : Event → Prop)
    (h1 : A (Event.lm (LmEvent.GATT_ADD_DB_CFM sys_status.sys_status_success)))
    (h2 : A (Event.lm (LmEvent.LM_EV_CONNECTION_COMPLETE 20 0 100)))
    (h3 : A (Event.lm (LmEvent.GATT_CONNECT_CFM sys_status.sys_status_success 1 addrPublic))) :
    Reachable K0 A wConn :=
  Reachable.step _ F0 _
    (Reachable.step _ F0 _
      (Reachable.step _ F0 _ (Reachable.init (fun _ => 0xFFFF)) h1 trivial) h2 trivial)
    h3 trivial

theorem wB_reachable : Reachable K0 anyEvent wB :=
  Reachable.step _ F0 _
    (Reachable.step _ F0 _ (wConn_reachable anyEvent trivial trivial trivial) trivial
      (show ∃ t ∈ wConn.created, t.id = 3 ∧ t.cb = timer_cb.handleGapCppTimerExpiry by decide))
    trivial (show ∃ t ∈ wA.created, t.id = 4 ∧ t.cb = timer_cb.requestConnParamUpdate by decide)

theorem validCid_connect :
    validCid (Event.lm (LmEvent.GATT_CONNECT_CFM sys_status.sys_status_success 1 addrPublic)) :=
  show (1 : Nat) ≠ GATT_INVALID_UCID by decide

theorem wFail2_reachable : Reachable K0 anyEvent wFail2 :=
  Reachable.step _ F0 _
    (Reachable.step _ F0 _
      (Reachable.step _ F0 _ (wConn_reachable anyEvent trivial trivial trivial) trivial trivial)
      trivial trivial)
    trivial trivial

/-! ## Properties of the specification -/

/-- C1. In every world reachable from AppInit by handling firmware events,
system events (buttons) and timer expiries, observed between handlers, every
connection-established confirmation carrying a connection identifier other
than GATT_INVALID_UCID, the stored identifier st_ucid differs from
GATT_INVALID_UCID if and only if the application state is connected or
disconnecting. -/
theorem C1_ucid_valid_iff_connected_or_disconnecting (K : Config) (w : World)
    (h : Reachable K validCid w) :
    w.g.st_ucid ≠ GATT_INVALID_UCID ↔
      (w.g.state = app_state.app_state_connected ∨
        w.g.state = app_state.app_state_disconnecting) :=
  (ucidInv_reachable K w h).1

/-- Witness of C1: the world after a confirmed connection is reachable, its
state is connected and its identifier is the one of the confirmation. -/
theorem C1_witness :
    Reachable K0 validCid wConn ∧ wConn.g.state = app_state.app_state_connected ∧
      (wConn.g.st_ucid ≠ GATT_INVALID_UCID ↔
        (wConn.g.state = app_state.app_state_connected ∨
          wConn.g.state = app_state.app_state_disconnecting)) :=
  ⟨wConn_reachable validCid trivial trivial validCid_connect, by decide,
    C1_ucid_valid_iff_connected_or_disconnecting K0 wConn
      (wConn_reachable validCid trivial trivial validCid_connect)⟩

/-- C2. In every world reachable from AppInit (the counter of the power-on
image being 0) by handling firmware events, system events and timer expiries,
each expiry delivering the handle of a timer created earlier with that
callback and handles never being handed out twice, the attempt counter
num_conn_update_req is at most MAX_NUM_CONN_PARAM_UPDATE_REQS, which is 4. -/
theorem C2_attempt_counter_within_budget (K : Config) (w : World)
    (h : Reachable K anyEvent w) :
    w.g.num_conn_update_req ≤ MAX_NUM_CONN_PARAM_UPDATE_REQS ∧
      MAX_NUM_CONN_PARAM_UPDATE_REQS = 4 :=
  ⟨(budgetInv_reachable K w h).1, rfl⟩

/-- Witness of C2: after the two quiescence timers the first request has been
made, the counter is 1 and the world is reachable. -/
theorem C2_witness :
    Reachable K0 anyEvent wB ∧ wB.g.num_conn_update_req = 1 ∧
      (wB.g.num_conn_update_req ≤ MAX_NUM_CONN_PARAM_UPDATE_REQS ∧
        MAX_NUM_CONN_PARAM_UPDATE_REQS = 4) :=
  ⟨wB_reachable, by decide, C2_attempt_counter_within_budget K0 wB wB_reachable⟩

/-- C3, evaluated where the code departs from it. The world `wFail2` is
reachable, without any panic on the way: connection, successful pairing, then
two failed pairing attempts (status other than repeated attempts). The first
failure arms bonding-chance timer 4. The second failure arms bonding-chance
timer 5 and stores its handle without deleting timer 4: two bonding-chance
timers are live at once. -/
theorem C3_second_pairing_failure_leaves_two_bonding_timers :
    Reachable K0 anyEvent wFail2 ∧
      wFail2.log.any isPanic = false ∧
      wFail1.g.state = app_state.app_state_connected ∧
      wFail1.g.bonded = true ∧
      liveTimers [timer_cb.handleBondingChanceTimerExpiry] wFail1 =
        [{ id := 4, period := BONDING_CHANCE_TIMER,
           cb := timer_cb.handleBondingChanceTimerExpiry }] ∧
      wFail1.g.bonding_reattempt_tid = 4 ∧
      liveTimers [timer_cb.handleBondingChanceTimerExpiry] wFail2 =
        [{ id := 4, period := BONDING_CHANCE_TIMER,
           cb := timer_cb.handleBondingChanceTimerExpiry },
         { id := 5, period := BONDING_CHANCE_TIMER,
           cb := timer_cb.handleBondingChanceTimerExpiry }] ∧
      wFail2.g.bonding_reattempt_tid = 5 :=
  ⟨wFail2_reachable, by decide, by decide, by decide, by decide, by decide, by decide,
    by decide⟩

/-- The requests issued between a world and a later one whose log extends
it. -/
theorem issued_of_log {w r : World} {l : List Req} (h : r.log = w.log ++ l) : issued w r = l := by
  simp [issued, h]

theorem issued_self (w : World) : issued w w = [] := by
  simp [issued]

/-- C4. Each of the six timer callbacks, called with a handle that differs
from the handle stored for its purpose, returns the world it was given: no
field changes, no request is issued, no timer is created. -/
theorem C4_stale_timer_callbacks_ignored (F : Firmware) (w : World) (tid : Nat) :
    (tid ≠ w.g.con_param_update_tid → requestConnParamUpdate F tid w = w) ∧
    (tid ≠ w.g.con_param_update_tid → handleGapCppTimerExpiry tid w = w) ∧
    (tid ≠ w.g.bonding_reattempt_tid → handleBondingChanceTimerExpiry F tid w = w) ∧
    (tid ≠ w.g.app_tid → gattAdvertTimerHandler tid w = w) ∧
    (tid ≠ w.g.app_tid → htTempMeasTimerHandler tid w = w) ∧
    (tid ≠ w.hw.button_press_tid → HandleExtraLongButtonPress F tid w = w) := by
  refine ⟨?_, ?_, ?_, ?_, ?_, ?_⟩ <;> intro h
  · unfold requestConnParamUpdate; rw [if_neg (Ne.symm h)]
  · unfold handleGapCppTimerExpiry; rw [if_neg (Ne.symm h)]
  · unfold handleBondingChanceTimerExpiry; rw [if_neg (Ne.symm h)]
  · unfold gattAdvertTimerHandler; rw [if_neg (Ne.symm h)]
  · unfold htTempMeasTimerHandler; rw [if_neg h]
  · unfold HandleExtraLongButtonPress; rw [if_neg h]

/-- Witness of C4: in the connected world `wConn` the stored handles are 3
(connection parameters) and TIMER_INVALID (the others); the handle 99 is
stale for every callback. -/
theorem C4_witness :
    wConn.g.con_param_update_tid = 3 ∧
    requestConnParamUpdate F0 99 wConn = wConn ∧
    handleGapCppTimerExpiry 99 wConn = wConn ∧
    handleBondingChanceTimerExpiry F0 99 wConn = wConn ∧
    gattAdvertTimerHandler 99 wConn = wConn ∧
    htTempMeasTimerHandler 99 wConn = wConn ∧
    HandleExtraLongButtonPress F0 99 wConn = wConn :=
  ⟨by decide,
    (C4_stale_timer_callbacks_ignored F0 wConn 99).1 (by decide),
    (C4_stale_timer_callbacks_ignored F0 wConn 99).2.1 (by decide),
    (C4_stale_timer_callbacks_ignored F0 wConn 99).2.2.1 (by decide),
    (C4_stale_timer_callbacks_ignored F0 wConn 99).2.2.2.1 (by decide),
    (C4_stale_timer_callbacks_ignored F0 wConn 99).2.2.2.2.1 (by decide),
    (C4_stale_timer_callbacks_ignored F0 wConn 99).2.2.2.2.2 (by decide)⟩

/-- C5. Each of the twelve state-checked handlers, run in a state outside
its valid set, reports app_panic_invalid_state (and issues nothing else) and
leaves the application state unchanged. The valid sets are: init for the
database confirmation; the two advertising states for the cancel and connect
confirmations; connected for the keys, pairing authorisation, encryption
change, diversifier approval, parameter update confirmation, parameter update
indication and attribute access; connected and disconnecting for the link
parameter update and the disconnect completion. -/
theorem C5_unexpected_event_is_fatal (K : Config) (F : Firmware) (w : World) :
    (w.g.state ≠ app_state.app_state_init →
      ∀ result, fatalInvalidState w (handleSignalGattAddDbCfm F result w)) ∧
    ((w.g.state ≠ app_state.app_state_fast_advertising ∧
        w.g.state ≠ app_state.app_state_slow_advertising) →
      fatalInvalidState w (handleSignalGattCancelConnectCfm F w) ∧
      ∀ result cid bd_addr,
        fatalInvalidState w (handleSignalGattConnectCfm F result cid bd_addr w)) ∧
    (w.g.state ≠ app_state.app_state_connected →
      (∀ dp ip div irk, fatalInvalidState w (handleSignalSmKeysInd dp ip div irk w)) ∧
      (∀ data, fatalInvalidState w (handleSignalSmPairingAuthInd data w)) ∧
      (∀ status enc, fatalInvalidState w (handleSignalLMEncryptionChange K F status enc w)) ∧
      (∀ cid div, fatalInvalidState w (handleSignalSmDivApproveInd cid div w)) ∧
      (∀ status, fatalInvalidState w (handleSignalLsConnParamUpdateCfm status w)) ∧
      fatalInvalidState w (handleSignalLsConnParamUpdateInd w) ∧
      (∀ ind, fatalInvalidState w (handleSignalGattAccessInd K F ind w))) ∧
    ((w.g.state ≠ app_state.app_state_connected ∧
        w.g.state ≠ app_state.app_state_disconnecting) →
      (∀ i l t, fatalInvalidState w (handleSignalLmConnectionUpdate i l t w)) ∧
      ∀ reason, fatalInvalidState w (handleSignalLmDisconnectComplete F reason w)) := by
  refine ⟨?_, ?_, ?_, ?_⟩ <;> intro h <;> cases hs : w.g.state <;> simp [hs] at h <;>
    simp [fatalInvalidState, issued, handleSignalGattAddDbCfm, handleSignalGattCancelConnectCfm,
      handleSignalGattConnectCfm, handleSignalSmKeysInd, handleSignalSmPairingAuthInd,
      handleSignalLMEncryptionChange, handleSignalSmDivApproveInd,
      handleSignalLsConnParamUpdateCfm, handleSignalLsConnParamUpdateInd,
      handleSignalGattAccessInd, handleSignalLmConnectionUpdate,
      handleSignalLmDisconnectComplete, hs]

/-- Witness of C5: the connected world `wConn` is outside the valid set of
the database, cancel and connect confirmations; the world `wBoot`, in state
init, is outside the valid set of the other handlers. -/
theorem C5_witness :
    wConn.g.state = app_state.app_state_connected ∧
    wBoot.g.state = app_state.app_state_init ∧
    fatalInvalidState wConn (handleSignalGattAddDbCfm F0 sys_status.sys_status_success wConn) ∧
    fatalInvalidState wConn (handleSignalGattCancelConnectCfm F0 wConn) ∧
    fatalInvalidState wBoot (handleSignalLsConnParamUpdateInd wBoot) ∧
    fatalInvalidState wBoot (handleSignalLmDisconnectComplete F0 HCI_ERROR_CONN_TIMEOUT wBoot) :=
  ⟨by decide, by decide,
    (C5_unexpected_event_is_fatal K0 F0 wConn).1 (by decide) sys_status.sys_status_success,
    ((C5_unexpected_event_is_fatal K0 F0 wConn).2.1 (by decide)).1,
    ((C5_unexpected_event_is_fatal K0 F0 wBoot).2.2.1 (by decide)).2.2.2.2.2.1,
    ((C5_unexpected_event_is_fatal K0 F0 wBoot).2.2.2 (by decide)).2 HCI_ERROR_CONN_TIMEOUT⟩

/-- C6, as stated, fails: in the world `wGone` (fast advertising, after the
peer has disconnected) a pairing-outcome notification with a failure status
issues nothing, so no panic is reported. -/
theorem C6_counterexample :
    wGone.g.state = app_state.app_state_fast_advertising ∧
      issued wGone
        (handleSignalSmSimplePairingCompleteInd F0 (sys_status.other 1) addrPublic wGone) = [] :=
  ⟨by decide, by decide⟩

/-- C6, amended. A pairing-outcome notification handled in any state other
than connected is ignored, for every status it carries: the world is returned
as it was, so no field changes and nothing, in particular no panic, is
reported. -/
theorem C6_pairing_outcome_ignored_outside_connected (F : Firmware) (status : sys_status)
    (bd_addr : TYPED_BD_ADDR_T) (w : World) (h : w.g.state ≠ app_state.app_state_connected) :
    handleSignalSmSimplePairingCompleteInd F status bd_addr w = w ∧
      issued w (handleSignalSmSimplePairingCompleteInd F status bd_addr w) = [] := by
  have h1 : handleSignalSmSimplePairingCompleteInd F status bd_addr w = w := by
    unfold handleSignalSmSimplePairingCompleteInd
    cases hs : w.g.state <;> simp [hs] at h ⊢
  rw [h1]
  exact ⟨rfl, issued_self w⟩

/-- Witness of C6 (amended): the notification is ignored in `wGone`. -/
theorem C6_witness :
    wGone.g.state ≠ app_state.app_state_connected ∧
      (handleSignalSmSimplePairingCompleteInd F0 sys_status.sm_status_repeated_attempts
          addrPublic wGone = wGone ∧
        issued wGone (handleSignalSmSimplePairingCompleteInd F0
          sys_status.sm_status_repeated_attempts addrPublic wGone) = []) :=
  ⟨by decide,
    C6_pairing_outcome_ignored_outside_connected F0 sys_status.sm_status_repeated_attempts
      addrPublic wGone (by decide)⟩

/-- C7. AppSetState called with the state the application is already in
returns the world as it was: no field changes, no request is issued, no timer
is deleted or created. -/
theorem C7_AppSetState_same_state_is_noop (F : Firmware) (s : app_state) (w : World)
    (h : w.g.state = s) : AppSetState F s w = w := by
  unfold AppSetState
  simp [h]

/-- Witness of C7: entering connected from connected. -/
theorem C7_witness :
    wConn.g.state = app_state.app_state_connected ∧
      AppSetState F0 app_state.app_state_connected wConn = wConn :=
  ⟨by decide, C7_AppSetState_same_state_is_noop F0 app_state.app_state_connected wConn
    (by decide)⟩

/-! ## What GattStartAdverts leaves behind -/

@[simp] theorem emit_timers (r : Req) (w : World) : (emit r w).timers = w.timers := rfl

@[simp] theorem ReportPanic_timers (c : app_panic_code) (w : World) :
    (ReportPanic c w).timers = w.timers := rfl

@[simp] theorem storeAdvScanData_timers (F : Firmware) (n : Nat) (d : List Nat) (s : ad_src)
    (c : app_panic_code) (w : World) : (storeAdvScanData F n d s c w).timers = w.timers := by
  unfold storeAdvScanData; dsimp only; split <;> rfl

@[simp] theorem addDeviceNameToAdvData_timers (F : Firmware) (a s : Nat) (w : World) :
    (addDeviceNameToAdvData F a s w).timers = w.timers := by
  unfold addDeviceNameToAdvData; dsimp only; split_ifs <;> simp

@[simp] theorem gattSetAdvertParams_timers (F : Firmware) (b : Bool) (w : World) :
    (gattSetAdvertParams F b w).timers = w.timers := by
  obtain ⟨l, h, _⟩ := gattSetAdvertParams_eq F b w
  rw [h]

/-- The timer that GattStartAdverts creates when it reports no panic. -/
theorem GattStartAdverts_timers (F : Firmware) (b : Bool) (w : World)
    (h : panicked w (GattStartAdverts F b w) = false) :
    (GattStartAdverts F b w).timers =
      w.timers.filter (fun t => t.id != w.g.app_tid) ++
        [{ id := w.next_tid + 1
           period := if b then FAST_CONNECTION_ADVERT_TIMEOUT_VALUE
             else SLOW_CONNECTION_ADVERT_TIMEOUT_VALUE
           cb := timer_cb.gattAdvertTimerHandler }] := by
  obtain ⟨l, _, hp, hok, _⟩ := GattStartAdverts_eq F b w
  rw [(hok (by rw [← hp, h])).2]

theorem GattStartAdverts_created (F : Firmware) (b : Bool) (w : World)
    (h : panicked w (GattStartAdverts F b w) = false) :
    (GattStartAdverts F b w).created =
      w.created ++
        [{ id := w.next_tid + 1
           period := if b then FAST_CONNECTION_ADVERT_TIMEOUT_VALUE
             else SLOW_CONNECTION_ADVERT_TIMEOUT_VALUE
           cb := timer_cb.gattAdvertTimerHandler }] := by
  obtain ⟨l, _, hp, hok, _⟩ := GattStartAdverts_eq F b w
  rw [(hok (by rw [← hp, h])).2]

/-- The log of GattStartAdverts, when it reports no panic: the set-up calls,
the first two of which are GapSetMode and GapSetAdvInterval with the interval
of the mode, none of them a connect request or a panic, then the connect
request with the filter policy. -/
theorem GattStartAdverts_log_flags (F : Firmware) (b : Bool) (w : World)
    (h : panicked w (GattStartAdverts F b w) = false) :
    ∃ l, (GattStartAdverts F b w).log =
        w.log ++ ((Req.GapSetMode ::
          Req.GapSetAdvInterval
            (if b then FC_ADVERTISING_INTERVAL_MIN else RP_ADVERTISING_INTERVAL_MIN)
            (if b then FC_ADVERTISING_INTERVAL_MAX else RP_ADVERTISING_INTERVAL_MAX) :: l) ++
          [Req.GattConnectReq
            (if w.g.bonded && !GattIsAddressResolvableRandom w.g.bonded_bd_addr then
              connect_flags.slave_whitelist else connect_flags.slave_undirected)]) ∧
      l.filter isConnectReq = [] ∧ l.any isPanic = false := by
  obtain ⟨l, q, hp, hok, _⟩ := GattStartAdverts_eq F b w
  have hl : l.any isPanic = false := by rw [← hp, h]
  obtain ⟨⟨n, d, src, e⟩, hw⟩ := hok hl
  subst e
  exact ⟨_, by rw [hw], by simp [isConnectReq], by simp [isPanic]⟩

/-- The log of GattStartAdverts ends with the connect request, when no panic
is reported. -/
theorem GattStartAdverts_log (F : Firmware) (b : Bool) (w : World)
    (h : panicked w (GattStartAdverts F b w) = false) :
    ∃ l, (GattStartAdverts F b w).log =
      w.log ++ (l ++ [Req.GattConnectReq
        (if w.g.bonded && !GattIsAddressResolvableRandom w.g.bonded_bd_addr then
          connect_flags.slave_whitelist else connect_flags.slave_undirected)]) := by
  obtain ⟨l, hl, _⟩ := GattStartAdverts_log_flags F b w h
  exact ⟨_, hl⟩

/-- When gattSetAdvertParams reports a panic, GattStartAdverts stops there:
the panic is the last call logged, no connect request is among the calls, no
timer is deleted or created and the stored advertising handle is as before. -/
theorem GattStartAdverts_halt (F : Firmware) (b : Bool) (w : World)
    (h : panicked w (GattStartAdverts F b w) = true) :
    (∃ (l : List Req) (c : app_panic_code),
      (GattStartAdverts F b w).log = w.log ++ (l ++ [Req.Panic c]) ∧
      l.filter isConnectReq = [] ∧ l.any isPanic = false) ∧
    (GattStartAdverts F b w).timers = w.timers ∧
    (GattStartAdverts F b w).created = w.created ∧
    (GattStartAdverts F b w).next_tid = w.next_tid := by
  obtain ⟨l, q, hp, _, hpanic⟩ := GattStartAdverts_eq F b w
  obtain ⟨⟨c, l1, e, e1⟩, hw⟩ := hpanic (by rw [← hp, h])
  subst e
  refine ⟨⟨l1, c, by rw [hw], ?_, e1⟩, by rw [hw], by rw [hw], by rw [hw]⟩
  simpa [isConnectReq] using q

theorem SoundBuzzer_created_mem (b : buzzer_beep_type) (w : World) (t : Timer)
    (h : t ∈ w.created) : t ∈ (SoundBuzzer b w).created := by
  unfold SoundBuzzer; dsimp only; split
  · simp [TimerCreate, h]
  · exact h

/-- The exit action of init changes the log only: the whitelist call when
the device is bonded to an address that is not resolvable, then the panic
when the call is refused. -/
theorem appInitExit_eq (F : Firmware) (w : World) :
    appInitExit F w =
      { w with log := w.log ++
        (if w.g.bonded && !GattIsAddressResolvableRandom w.g.bonded_bd_addr then
          Req.LsAddWhiteListDevice w.g.bonded_bd_addr ::
            (if F.LsAddWhiteListDevice w.g.bonded_bd_addr = ls_err_none then []
             else [Req.Panic app_panic_code.app_panic_add_whitelist])
        else []) } := by
  unfold appInitExit
  by_cases h1 : (w.g.bonded && !GattIsAddressResolvableRandom w.g.bonded_bd_addr) = true
  · by_cases h2 : F.LsAddWhiteListDevice w.g.bonded_bd_addr = ls_err_none
    · simp [h1, h2, emit]
    · simp [h1, h2, emit, ReportPanic]
  · simp [h1]

/-- The calls of AppSetState towards fast advertising from init. -/
theorem AppSetState_fast_from_init (F : Firmware) (w : World)
    (h : w.g.state = app_state.app_state_init) :
    AppSetState F app_state.app_state_fast_advertising w =
      if panicked w (appInitExit F w) then appInitExit F w
      else if panicked
          { appInitExit F w with g := { (appInitExit F w).g with
            state := app_state.app_state_fast_advertising } }
          (GattStartAdverts F true
            { appInitExit F w with g := { (appInitExit F w).g with
              state := app_state.app_state_fast_advertising } }) then
        GattStartAdverts F true
          { appInitExit F w with g := { (appInitExit F w).g with
            state := app_state.app_state_fast_advertising } }
      else
        SoundBuzzer buzzer_beep_type.buzzer_beep_twice (GattStartAdverts F true
          { appInitExit F w with g := { (appInitExit F w).g with
            state := app_state.app_state_fast_advertising } }) := by
  simp [AppSetState, h]

/-- C8, as stated, fails: the firmware `FRefused` refuses GapSetMode, and the
confirmation with the result success, handled in init, ends with the panic of
that call. The state is fast advertising but no connect request has been
issued and no timer has been created. -/
theorem C8_counterexample :
    wBoot.g.state = app_state.app_state_init ∧
    issued wBoot (handleSignalGattAddDbCfm FRefused sys_status.sys_status_success wBoot) =
      [Req.GapSetMode, Req.Panic app_panic_code.app_panic_set_advert_params] ∧
    (∀ flags, Req.GattConnectReq flags ∉
      issued wBoot (handleSignalGattAddDbCfm FRefused sys_status.sys_status_success wBoot)) ∧
    (handleSignalGattAddDbCfm FRefused sys_status.sys_status_success wBoot).created =
      wBoot.created := by
  refine ⟨by decide, by decide, ?_, by decide⟩
  have e : issued wBoot (handleSignalGattAddDbCfm FRefused sys_status.sys_status_success wBoot) =
      [Req.GapSetMode, Req.Panic app_panic_code.app_panic_set_advert_params] := by decide
  intro flags
  rw [e]
  simp

/-- C8, amended. The database-registration confirmation handled in state
init. With the result success and no panic reported, the state becomes fast
advertising, the advertising interval requested is the fast one, exactly one
connect request is issued and the stored advertising handle is that of a
timer created with the fast advertising timeout. With the result success and
a panic reported (the firmware refused the whitelist call of the exit from
init, or a call of the advertising set-up), the panic is the last request
issued, no connect request is issued, no timer is created or deleted, and the
state is init or fast advertising. With any other result the handler reports
app_panic_db_registration, issues nothing else, and the state stays init. -/
theorem C8_db_registration_confirmation_in_init (F : Firmware) (result : sys_status)
    (w : World) (h : w.g.state = app_state.app_state_init) :
    (result = sys_status.sys_status_success →
      (panicked w (handleSignalGattAddDbCfm F result w) = false →
        (handleSignalGattAddDbCfm F result w).g.state = app_state.app_state_fast_advertising ∧
        Req.GapSetAdvInterval FC_ADVERTISING_INTERVAL_MIN FC_ADVERTISING_INTERVAL_MAX ∈
          issued w (handleSignalGattAddDbCfm F result w) ∧
        (∃ flags, (issued w (handleSignalGattAddDbCfm F result w)).filter isConnectReq =
          [Req.GattConnectReq flags]) ∧
        { id := (handleSignalGattAddDbCfm F result w).g.app_tid
          period := FAST_CONNECTION_ADVERT_TIMEOUT_VALUE
          cb := timer_cb.gattAdvertTimerHandler } ∈
            (handleSignalGattAddDbCfm F result w).created) ∧
      (panicked w (handleSignalGattAddDbCfm F result w) = true →
        (∃ c, (issued w (handleSignalGattAddDbCfm F result w)).getLast? =
          some (Req.Panic c)) ∧
        (issued w (handleSignalGattAddDbCfm F result w)).filter isConnectReq = [] ∧
        (handleSignalGattAddDbCfm F result w).created = w.created ∧
        (handleSignalGattAddDbCfm F result w).timers = w.timers ∧
        ((handleSignalGattAddDbCfm F result w).g.state = app_state.app_state_init ∨
          (handleSignalGattAddDbCfm F result w).g.state =
            app_state.app_state_fast_advertising))) ∧
    (result ≠ sys_status.sys_status_success →
      (handleSignalGattAddDbCfm F result w).g.state = app_state.app_state_init ∧
      issued w (handleSignalGattAddDbCfm F result w) =
        [Req.Panic app_panic_code.app_panic_db_registration]) := by
  constructor
  · intro hres
    subst hres
    have hr : handleSignalGattAddDbCfm F sys_status.sys_status_success w =
        AppSetState F app_state.app_state_fast_advertising w := by
      simp [handleSignalGattAddDbCfm, h]
    rw [hr, AppSetState_fast_from_init F w h]
    have qA : (if w.g.bonded && !GattIsAddressResolvableRandom w.g.bonded_bd_addr then
          Req.LsAddWhiteListDevice w.g.bonded_bd_addr ::
            (if F.LsAddWhiteListDevice w.g.bonded_bd_addr = ls_err_none then []
             else [Req.Panic app_panic_code.app_panic_add_whitelist])
        else []).filter isConnectReq = [] := by
      split_ifs <;> simp [isConnectReq]
    have pA : (if w.g.bonded && !GattIsAddressResolvableRandom w.g.bonded_bd_addr then
          Req.LsAddWhiteListDevice w.g.bonded_bd_addr ::
            (if F.LsAddWhiteListDevice w.g.bonded_bd_addr = ls_err_none then []
             else [Req.Panic app_panic_code.app_panic_add_whitelist])
        else []).any isPanic = true →
        (if w.g.bonded && !GattIsAddressResolvableRandom w.g.bonded_bd_addr then
          Req.LsAddWhiteListDevice w.g.bonded_bd_addr ::
            (if F.LsAddWhiteListDevice w.g.bonded_bd_addr = ls_err_none then []
             else [Req.Panic app_panic_code.app_panic_add_whitelist])
        else []).getLast? = some (Req.Panic app_panic_code.app_panic_add_whitelist) := by
      split_ifs <;> simp [isPanic]
    have eA := appInitExit_eq F w
    generalize (if w.g.bonded && !GattIsAddressResolvableRandom w.g.bonded_bd_addr then
          Req.LsAddWhiteListDevice w.g.bonded_bd_addr ::
            (if F.LsAddWhiteListDevice w.g.bonded_bd_addr = ls_err_none then []
             else [Req.Panic app_panic_code.app_panic_add_whitelist])
        else []) = lA at eA qA pA
    have xl : (appInitExit F w).log = w.log ++ lA := by rw [eA]
    have xg : (appInitExit F w).g = w.g := by rw [eA]
    have xc : (appInitExit F w).created = w.created := by rw [eA]
    have xt : (appInitExit F w).timers = w.timers := by rw [eA]
    have xp : panicked w (appInitExit F w) = lA.any isPanic := panicked_of_log xl
    clear eA
    generalize appInitExit F w = x at xl xg xc xt xp ⊢
    cases cA : lA.any isPanic
    · rw [cA] at xp
      simp only [xp, Bool.false_eq_true, if_false]
      obtain ⟨l, q, hp, hok, hpanic⟩ := GattStartAdverts_eq F true
        { x with g := { x.g with state := app_state.app_state_fast_advertising } }
      cases cB : l.any isPanic
      · rw [cB] at hp
        simp only [hp, Bool.false_eq_true, if_false]
        obtain ⟨⟨n, d, src, e⟩, hG⟩ := hok cB
        have hlog : (SoundBuzzer buzzer_beep_type.buzzer_beep_twice (GattStartAdverts F true
            { x with g := { x.g with state := app_state.app_state_fast_advertising } })).log =
            w.log ++ (lA ++ (l ++ [Req.GattConnectReq
              (if x.g.bonded && !GattIsAddressResolvableRandom x.g.bonded_bd_addr then
                connect_flags.slave_whitelist else connect_flags.slave_undirected)]) ++
              [Req.PioEnablePWM BUZZER_PWM_INDEX_0 false,
                Req.PioEnablePWM BUZZER_PWM_INDEX_0 true]) := by
          rw [SoundBuzzer_log, hG]
          simp [xl]
        have hi := issued_of_log hlog
        have hpw : panicked w (SoundBuzzer buzzer_beep_type.buzzer_beep_twice
            (GattStartAdverts F true
              { x with g := { x.g with state := app_state.app_state_fast_advertising } })) =
            false := by
          rw [panicked_of_log hlog]
          simp [cA, cB, isPanic]
        refine ⟨fun _ => ⟨?_, ?_, ?_, ?_⟩, fun hh => ?_⟩
        · rw [SoundBuzzer_g, hG]
        · rw [hi, e]
          simp
        · exact ⟨if x.g.bonded && !GattIsAddressResolvableRandom x.g.bonded_bd_addr then
            connect_flags.slave_whitelist else connect_flags.slave_undirected,
            by rw [hi]; simp [qA, q, isConnectReq]⟩
        · apply SoundBuzzer_created_mem
          rw [SoundBuzzer_g, hG]
          simp
        · rw [hpw] at hh
          cases hh
      · rw [cB] at hp
        simp only [hp, if_true]
        obtain ⟨⟨c, l1, e, e1⟩, hG⟩ := hpanic cB
        have hlog : (GattStartAdverts F true
            { x with g := { x.g with state := app_state.app_state_fast_advertising } }).log =
            w.log ++ (lA ++ l) := by
          rw [hG]
          simp [xl]
        have hi := issued_of_log hlog
        refine ⟨fun hh => ?_, fun _ => ⟨⟨c, ?_⟩, ?_, ?_, ?_, Or.inr ?_⟩⟩
        · rw [panicked_of_log hlog] at hh
          simp [cB] at hh
        · rw [hi, e]
          simp
        · rw [hi]
          simp [qA, q]
        · rw [hG]
          exact xc
        · rw [hG]
          exact xt
        · rw [hG]
    · rw [cA] at xp
      simp only [xp, if_true]
      have hi := issued_of_log xl
      refine ⟨fun hh => ?_, fun _ => ⟨⟨app_panic_code.app_panic_add_whitelist, ?_⟩, ?_, xc, xt,
        Or.inl ?_⟩⟩
      · cases hh
      · rw [hi]
        exact pA cA
      · rw [hi]
        exact qA
      · rw [xg]
        exact h
  · intro hres
    simp [handleSignalGattAddDbCfm, h, hres, issued]

/-- Witness of C8: the confirmation with success in the world after AppInit,
with the firmware that accepts every call and with the one that refuses
GapSetMode, and the confirmation with another result. -/
theorem C8_witness :
    wBoot.g.state = app_state.app_state_init ∧
    (handleSignalGattAddDbCfm F0 sys_status.sys_status_success wBoot).g.state =
      app_state.app_state_fast_advertising ∧
    (issued wBoot (handleSignalGattAddDbCfm FRefused sys_status.sys_status_success
      wBoot)).filter isConnectReq = [] ∧
    (handleSignalGattAddDbCfm F0 (sys_status.other 7) wBoot).g.state =
      app_state.app_state_init ∧
    issued wBoot (handleSignalGattAddDbCfm F0 (sys_status.other 7) wBoot) =
      [Req.Panic app_panic_code.app_panic_db_registration] :=
  ⟨by decide,
    (((C8_db_registration_confirmation_in_init F0 sys_status.sys_status_success wBoot
      (by decide)).1 rfl).1 (by decide)).1,
    (((C8_db_registration_confirmation_in_init FRefused sys_status.sys_status_success wBoot
      (by decide)).1 rfl).2 (by decide)).2.1,
    ((C8_db_registration_confirmation_in_init F0 (sys_status.other 7) wBoot
      (by decide)).2 (by decide)).1,
    ((C8_db_registration_confirmation_in_init F0 (sys_status.other 7) wBoot
      (by decide)).2 (by decide)).2⟩

/-- C9. A successful connection-established confirmation handled in one of
the two advertising states stores the identifier of the event in st_ucid and
its address in con_bd_addr. The resulting state is disconnecting exactly when
the device is bonded, the bonded address is a resolvable private address and
the connecting address does not resolve against the stored identity key; a
disconnect request for that identifier is then the one request issued. In
every other case the resulting state is connected. -/
theorem C9_connection_established (F : Firmware) (cid : Nat) (bd_addr : TYPED_BD_ADDR_T)
    (w : World)
    (h : w.g.state = app_state.app_state_fast_advertising ∨
      w.g.state = app_state.app_state_slow_advertising) :
    (handleSignalGattConnectCfm F sys_status.sys_status_success cid bd_addr w).g.st_ucid = cid ∧
    (handleSignalGattConnectCfm F sys_status.sys_status_success cid bd_addr w).g.con_bd_addr =
      bd_addr ∧
    ((handleSignalGattConnectCfm F sys_status.sys_status_success cid bd_addr w).g.state =
        app_state.app_state_disconnecting ↔
      (w.g.bonded = true ∧ GattIsAddressResolvableRandom w.g.bonded_bd_addr = true ∧
        F.SMPrivacyMatchAddress bd_addr w.g.central_device_irk < 0)) ∧
    ((handleSignalGattConnectCfm F sys_status.sys_status_success cid bd_addr w).g.state =
        app_state.app_state_disconnecting →
      issued w (handleSignalGattConnectCfm F sys_status.sys_status_success cid bd_addr w) =
        [Req.GattDisconnectReq cid]) ∧
    ((handleSignalGattConnectCfm F sys_status.sys_status_success cid bd_addr w).g.state ≠
        app_state.app_state_disconnecting →
      (handleSignalGattConnectCfm F sys_status.sys_status_success cid bd_addr w).g.state =
        app_state.app_state_connected) := by
  have hni : w.g.state ≠ app_state.app_state_init := by
    rcases h with h | h <;> simp [h]
  by_cases hc : (w.g.bonded = true ∧ GattIsAddressResolvableRandom w.g.bonded_bd_addr = true ∧
      F.SMPrivacyMatchAddress bd_addr w.g.central_device_irk < 0)
  · have hr : handleSignalGattConnectCfm F sys_status.sys_status_success cid bd_addr w =
        AppSetState F app_state.app_state_disconnecting
          { w with g := { w.g with st_ucid := cid, con_bd_addr := bd_addr } } := by
      rcases h with h | h <;>
        simp [handleSignalGattConnectCfm, connectCfmAdvertising, h, hc.1, hc.2.1, hc.2.2]
    rw [hr]
    refine ⟨?_, by simp, by simp [hc, hni], ?_, by simp [hni]⟩
    · rcases h with h | h <;> simp [AppSetState_st_ucid, h]
    · intro _
      rcases h with h | h <;> simp [AppSetState, h, issued]
  · have hr : handleSignalGattConnectCfm F sys_status.sys_status_success cid bd_addr w =
        (let w2 := AppSetState F app_state.app_state_connected
          { w with g := { w.g with st_ucid := cid, con_bd_addr := bd_addr } }
        if w2.g.con_param_update_tid = TIMER_INVALID ∧ paramsOutsidePreferred w2 = true then
          let w3 := { w2 with g := { w2.g with num_conn_update_req := 0 } }
          let r := TimerCreate TGAP_CPP_PERIOD timer_cb.handleGapCppTimerExpiry w3
          { r.2 with g := { r.2.g with
            con_param_update_tid := r.1
            cpu_timer_value := TGAP_CPP_PERIOD } }
        else w2) := by
      have hc2 : (w.g.bonded && GattIsAddressResolvableRandom w.g.bonded_bd_addr &&
          decide (F.SMPrivacyMatchAddress bd_addr w.g.central_device_irk < 0)) = false := by
        rw [Bool.eq_false_iff]
        intro hh
        apply hc
        simpa [Bool.and_eq_true, and_assoc] using hh
      rcases h with h | h <;>
        simp [handleSignalGattConnectCfm, connectCfmAdvertising, h, hc2]
    rw [hr]
    dsimp only
    split_ifs <;>
      (refine ⟨?_, by simp, by simp [hc, hni], by simp [hni], by simp [hni]⟩
       rcases h with h | h <;> simp [AppSetState_st_ucid, h])

/-- Witness of C9: a public peer connecting to the unbonded device leads to
connected; a peer that does not resolve, connecting to a device bonded to a
resolvable private address, leads to disconnecting with a disconnect request
for the identifier of the event. -/
theorem C9_witness :
    wLink.g.state = app_state.app_state_fast_advertising ∧
    (handleSignalGattConnectCfm F0 sys_status.sys_status_success 1 addrPublic wLink).g.state =
      app_state.app_state_connected ∧
    (handleSignalGattConnectCfm F1 sys_status.sys_status_success 7 addrRpa wAdvRpa).g.state =
      app_state.app_state_disconnecting ∧
    issued wAdvRpa (handleSignalGattConnectCfm F1 sys_status.sys_status_success 7 addrRpa
      wAdvRpa) = [Req.GattDisconnectReq 7] :=
  ⟨by decide,
    (C9_connection_established F0 1 addrPublic wLink (Or.inl (by decide))).2.2.2.2
      (by decide),
    (C9_connection_established F1 7 addrRpa wAdvRpa (Or.inl (by decide))).2.2.1.2
      ⟨by decide, by decide, by decide⟩,
    (C9_connection_established F1 7 addrRpa wAdvRpa (Or.inl (by decide))).2.2.2.1
      (by decide)⟩

/-- C10, as stated, fails: with the firmware `FRefused`, which refuses
GapSetMode, the cancel confirmation handled in the fast advertising world
`wAdv`, no pairing removal pending, ends with the panic of that call. The
state is slow advertising but no connect request has been issued and no
advertising handle is stored. -/
theorem C10_counterexample :
    wAdv.g.pairing_button_pressed = false ∧
    wAdv.g.state = app_state.app_state_fast_advertising ∧
    (handleSignalGattCancelConnectCfm FRefused wAdv).g.state =
      app_state.app_state_slow_advertising ∧
    issued wAdv (handleSignalGattCancelConnectCfm FRefused wAdv) =
      [Req.GapSetMode, Req.Panic app_panic_code.app_panic_set_advert_params] ∧
    (∀ flags, Req.GattConnectReq flags ∉
      issued wAdv (handleSignalGattCancelConnectCfm FRefused wAdv)) ∧
    (handleSignalGattCancelConnectCfm FRefused wAdv).g.app_tid = TIMER_INVALID := by
  refine ⟨by decide, by decide, by decide, by decide, ?_, by decide⟩
  have e : issued wAdv (handleSignalGattCancelConnectCfm FRefused wAdv) =
      [Req.GapSetMode, Req.Panic app_panic_code.app_panic_set_advert_params] := by decide
  intro flags
  rw [e]
  simp

/-- C10, amended. The advertising-cancel confirmation handled with no pairing
removal pending. From fast advertising the resulting state is slow
advertising; when no panic is reported, the advertising interval requested is
the slow one, exactly one connect request is issued and the stored
advertising handle is that of a live timer with the slow advertising timeout;
when a panic is reported (the firmware refused a call of the advertising
set-up), the panic is the last request issued, no connect request is issued,
no timer is created and no advertising handle is stored. From slow
advertising the resulting state is idle and the only requests issued are the
two buzzer calls of the long beep: no connect request. -/
theorem C10_cancel_confirmation_without_pairing_removal (F : Firmware) (w : World)
    (hp : w.g.pairing_button_pressed = false) :
    (w.g.state = app_state.app_state_fast_advertising →
      (handleSignalGattCancelConnectCfm F w).g.state = app_state.app_state_slow_advertising ∧
      (panicked w (handleSignalGattCancelConnectCfm F w) = false →
        Req.GapSetAdvInterval RP_ADVERTISING_INTERVAL_MIN RP_ADVERTISING_INTERVAL_MAX ∈
          issued w (handleSignalGattCancelConnectCfm F w) ∧
        (∃ flags, (issued w (handleSignalGattCancelConnectCfm F w)).filter isConnectReq =
          [Req.GattConnectReq flags]) ∧
        { id := (handleSignalGattCancelConnectCfm F w).g.app_tid
          period := SLOW_CONNECTION_ADVERT_TIMEOUT_VALUE
          cb := timer_cb.gattAdvertTimerHandler } ∈
            (handleSignalGattCancelConnectCfm F w).timers) ∧
      (panicked w (handleSignalGattCancelConnectCfm F w) = true →
        (∃ c, (issued w (handleSignalGattCancelConnectCfm F w)).getLast? =
          some (Req.Panic c)) ∧
        (issued w (handleSignalGattCancelConnectCfm F w)).filter isConnectReq = [] ∧
        (handleSignalGattCancelConnectCfm F w).created = w.created ∧
        (handleSignalGattCancelConnectCfm F w).g.app_tid = TIMER_INVALID)) ∧
    (w.g.state = app_state.app_state_slow_advertising →
      (handleSignalGattCancelConnectCfm F w).g.state = app_state.app_state_idle ∧
      issued w (handleSignalGattCancelConnectCfm F w) =
        [Req.PioEnablePWM BUZZER_PWM_INDEX_0 false, Req.PioEnablePWM BUZZER_PWM_INDEX_0 true] ∧
      ∀ flags, Req.GattConnectReq flags ∉ issued w (handleSignalGattCancelConnectCfm F w)) := by
  constructor
  · intro h
    have hr : handleSignalGattCancelConnectCfm F w =
        GattStartAdverts F false { appAdvertisingExit w with g := { (appAdvertisingExit w).g with
          state := app_state.app_state_slow_advertising } } := by
      simp [handleSignalGattCancelConnectCfm, cancelConnectCfmAdvertising, h, hp, AppSetState]
    rw [hr]
    obtain ⟨l, q, hpk, hok, hpanic⟩ := GattStartAdverts_eq F false
      { appAdvertisingExit w with g := { (appAdvertisingExit w).g with
        state := app_state.app_state_slow_advertising } }
    refine ⟨by simp, ?_⟩
    cases cB : l.any isPanic
    · obtain ⟨⟨n, d, src, e⟩, hG⟩ := hok cB
      have hlog : (GattStartAdverts F false { appAdvertisingExit w with
          g := { (appAdvertisingExit w).g with
            state := app_state.app_state_slow_advertising } }).log =
          w.log ++ (l ++ [Req.GattConnectReq
            (if w.g.bonded && !GattIsAddressResolvableRandom w.g.bonded_bd_addr then
              connect_flags.slave_whitelist else connect_flags.slave_undirected)]) := by
        rw [hG]
        rfl
      have hi := issued_of_log hlog
      refine ⟨fun _ => ⟨?_,
        ⟨if w.g.bonded && !GattIsAddressResolvableRandom w.g.bonded_bd_addr then
          connect_flags.slave_whitelist else connect_flags.slave_undirected,
          by rw [hi]; simp [q, isConnectReq]⟩, ?_⟩, fun hh => ?_⟩
      · rw [hi, e]
        simp
      · rw [hG]
        simp
      · rw [panicked_of_log hlog] at hh
        simp [cB, isPanic] at hh
    · obtain ⟨⟨c, l1, e, e1⟩, hG⟩ := hpanic cB
      have hlog : (GattStartAdverts F false { appAdvertisingExit w with
          g := { (appAdvertisingExit w).g with
            state := app_state.app_state_slow_advertising } }).log = w.log ++ l := by
        rw [hG]
        rfl
      have hi := issued_of_log hlog
      refine ⟨fun hh => ?_, fun _ => ⟨⟨c, ?_⟩, ?_, ?_, ?_⟩⟩
      · rw [panicked_of_log hlog, cB] at hh
        cases hh
      · rw [hi, e]
        simp
      · rw [hi]
        exact q
      · rw [hG]
        rfl
      · rw [hG]
        rfl
  · intro h
    have hr : handleSignalGattCancelConnectCfm F w =
        SoundBuzzer buzzer_beep_type.buzzer_beep_long
          { appAdvertisingExit w with g := { (appAdvertisingExit w).g with
            state := app_state.app_state_idle } } := by
      simp [handleSignalGattCancelConnectCfm, cancelConnectCfmAdvertising, h, hp, AppSetState]
    rw [hr]
    have hi : issued w (SoundBuzzer buzzer_beep_type.buzzer_beep_long
        { appAdvertisingExit w with g := { (appAdvertisingExit w).g with
          state := app_state.app_state_idle } }) =
        [Req.PioEnablePWM BUZZER_PWM_INDEX_0 false, Req.PioEnablePWM BUZZER_PWM_INDEX_0 true] :=
      issued_of_log (by rw [SoundBuzzer_log]; simp)
    refine ⟨by simp, hi, ?_⟩
    intro flags
    rw [hi]
    simp

/-- Witness of C10: the confirmation in the fast advertising world `wAdv`,
with the firmware that accepts every call and with the one that refuses
GapSetMode, and in the slow advertising world `wSlow`. -/
theorem C10_witness :
    wAdv.g.pairing_button_pressed = false ∧
    wAdv.g.state = app_state.app_state_fast_advertising ∧
    (handleSignalGattCancelConnectCfm F0 wAdv).g.state = app_state.app_state_slow_advertising ∧
    Req.GapSetAdvInterval RP_ADVERTISING_INTERVAL_MIN RP_ADVERTISING_INTERVAL_MAX ∈
      issued wAdv (handleSignalGattCancelConnectCfm F0 wAdv) ∧
    (handleSignalGattCancelConnectCfm FRefused wAdv).g.app_tid = TIMER_INVALID ∧
    wSlow.g.state = app_state.app_state_slow_advertising ∧
    (handleSignalGattCancelConnectCfm F0 wSlow).g.state = app_state.app_state_idle :=
  ⟨by decide, by decide,
    ((C10_cancel_confirmation_without_pairing_removal F0 wAdv (by decide)).1 (by decide)).1,
    (((C10_cancel_confirmation_without_pairing_removal F0 wAdv (by decide)).1
      (by decide)).2.1 (by decide)).1,
    (((C10_cancel_confirmation_without_pairing_removal FRefused wAdv (by decide)).1
      (by decide)).2.2 (by decide)).2.2.2,
    by decide,
    ((C10_cancel_confirmation_without_pairing_removal F0 wSlow (by decide)).2 (by decide)).1⟩

/-! ## Logs without connect requests -/

theorem quiet_refl (a : List Req) : ∃ l, a = a ++ l ∧ l.filter isConnectReq = [] :=
  ⟨[], by simp⟩

theorem quiet_trans {a b c : List Req} (h1 : ∃ l, b = a ++ l ∧ l.filter isConnectReq = [])
    (h2 : ∃ l, c = b ++ l ∧ l.filter isConnectReq = []) :
    ∃ l, c = a ++ l ∧ l.filter isConnectReq = [] := by
  obtain ⟨l1, rfl, q1⟩ := h1
  obtain ⟨l2, rfl, q2⟩ := h2
  exact ⟨l1 ++ l2, by simp, by simp [q1, q2]⟩

theorem quiet_emit {a : List Req} {v : World} (r : Req) (hr : isConnectReq r = false)
    (h : ∃ l, v.log = a ++ l ∧ l.filter isConnectReq = []) :
    ∃ l, (emit r v).log = a ++ l ∧ l.filter isConnectReq = [] := by
  obtain ⟨l, hl, q⟩ := h
  exact ⟨l ++ [r], by simp [hl], by simp [q, hr]⟩

theorem quiet_panic {a : List Req} {v : World} (c : app_panic_code)
    (h : ∃ l, v.log = a ++ l ∧ l.filter isConnectReq = []) :
    ∃ l, (ReportPanic c v).log = a ++ l ∧ l.filter isConnectReq = [] :=
  quiet_emit (Req.Panic c) rfl h

theorem storeAdvScanData_quiet (F : Firmware) (n : Nat) (d : List Nat) (s : ad_src)
    (c : app_panic_code) (w : World) :
    ∃ l, (storeAdvScanData F n d s c w).log = w.log ++ l ∧ l.filter isConnectReq = [] := by
  unfold storeAdvScanData; dsimp only; split
  · exact quiet_panic _ (quiet_emit _ rfl (quiet_refl _))
  · exact quiet_emit _ rfl (quiet_refl _)

theorem addDeviceNameToAdvData_quiet (F : Firmware) (a s : Nat) (w : World) :
    ∃ l, (addDeviceNameToAdvData F a s w).log = w.log ++ l ∧ l.filter isConnectReq = [] := by
  unfold addDeviceNameToAdvData; dsimp only
  split_ifs <;> exact storeAdvScanData_quiet _ _ _ _ _ _

theorem gattSetAdvertParams_quiet (F : Firmware) (b : Bool) (w : World) :
    ∃ l, (gattSetAdvertParams F b w).log = w.log ++ l ∧ l.filter isConnectReq = [] := by
  obtain ⟨l, h, q, _⟩ := gattSetAdvertParams_eq F b w
  exact ⟨l, by rw [h], q⟩

/-- The log of GattStartAdverts, when no panic is reported: entries that are
no connect requests, then one connect request. -/
theorem GattStartAdverts_log_quiet (F : Firmware) (b : Bool) (w : World)
    (h : panicked w (GattStartAdverts F b w) = false) :
    ∃ l flags, (GattStartAdverts F b w).log = w.log ++ (l ++ [Req.GattConnectReq flags]) ∧
      l.filter isConnectReq = [] := by
  obtain ⟨l, hl, q, _⟩ := GattStartAdverts_log_flags F b w h
  exact ⟨_, _, hl, by simpa [isConnectReq] using q⟩

/-- C11, as stated, fails: with the firmware `FRefused`, which refuses
GapSetMode, the cancel confirmation handled in the world `wRemove`, a pairing
removal pending, ends with the panic of that call: the whitelist has been
reset, but no connect request has been issued. -/
theorem C11_counterexample :
    wRemove.g.pairing_button_pressed = true ∧
    wRemove.g.state = app_state.app_state_fast_advertising ∧
    issued wRemove (handleSignalGattCancelConnectCfm FRefused wRemove) =
      [Req.LsResetWhiteList, Req.GapSetMode,
        Req.Panic app_panic_code.app_panic_set_advert_params] ∧
    (issued wRemove (handleSignalGattCancelConnectCfm FRefused wRemove)).filter isConnectReq =
      [] := by
  decide

/-- C11, amended. The advertising-cancel confirmation handled in one of the
two advertising states with a pairing removal pending: the pending flag is
cleared, the whitelist is reset and the resulting state is fast advertising.
When no panic is reported, the advertising interval requested is the fast
one, exactly one connect request is issued and the stored advertising handle
is that of a timer created with the fast advertising timeout. When a panic is
reported (the firmware refused a call of the advertising set-up), the panic
is the last request issued, no connect request is issued and no timer is
created. -/
theorem C11_cancel_confirmation_with_pairing_removal (F : Firmware) (w : World)
    (hp : w.g.pairing_button_pressed = true)
    (h : w.g.state = app_state.app_state_fast_advertising ∨
      w.g.state = app_state.app_state_slow_advertising) :
    (handleSignalGattCancelConnectCfm F w).g.pairing_button_pressed = false ∧
    Req.LsResetWhiteList ∈ issued w (handleSignalGattCancelConnectCfm F w) ∧
    (handleSignalGattCancelConnectCfm F w).g.state = app_state.app_state_fast_advertising ∧
    (panicked w (handleSignalGattCancelConnectCfm F w) = false →
      Req.GapSetAdvInterval FC_ADVERTISING_INTERVAL_MIN FC_ADVERTISING_INTERVAL_MAX ∈
        issued w (handleSignalGattCancelConnectCfm F w) ∧
      (∃ flags, (issued w (handleSignalGattCancelConnectCfm F w)).filter isConnectReq =
        [Req.GattConnectReq flags]) ∧
      { id := (handleSignalGattCancelConnectCfm F w).g.app_tid
        period := FAST_CONNECTION_ADVERT_TIMEOUT_VALUE
        cb := timer_cb.gattAdvertTimerHandler } ∈
          (handleSignalGattCancelConnectCfm F w).created) ∧
    (panicked w (handleSignalGattCancelConnectCfm F w) = true →
      (∃ c, (issued w (handleSignalGattCancelConnectCfm F w)).getLast? = some (Req.Panic c)) ∧
      (issued w (handleSignalGattCancelConnectCfm F w)).filter isConnectReq = [] ∧
      (handleSignalGattCancelConnectCfm F w).created = w.created) := by
  have key : ∀ v r : World, v.log = w.log ++ [Req.LsResetWhiteList] → v.created = w.created →
      v.g.pairing_button_pressed = false → v.g.state = app_state.app_state_fast_advertising →
      (r = GattStartAdverts F true v ∨
        r = (if panicked v (GattStartAdverts F true v) then GattStartAdverts F true v
          else SoundBuzzer buzzer_beep_type.buzzer_beep_twice (GattStartAdverts F true v))) →
      r.g.pairing_button_pressed = false ∧
      Req.LsResetWhiteList ∈ issued w r ∧
      r.g.state = app_state.app_state_fast_advertising ∧
      (panicked w r = false →
        Req.GapSetAdvInterval FC_ADVERTISING_INTERVAL_MIN FC_ADVERTISING_INTERVAL_MAX ∈
          issued w r ∧
        (∃ flags, (issued w r).filter isConnectReq = [Req.GattConnectReq flags]) ∧
        { id := r.g.app_tid
          period := FAST_CONNECTION_ADVERT_TIMEOUT_VALUE
          cb := timer_cb.gattAdvertTimerHandler } ∈ r.created) ∧
      (panicked w r = true →
        (∃ c, (issued w r).getLast? = some (Req.Panic c)) ∧
        (issued w r).filter isConnectReq = [] ∧
        r.created = w.created) := by
    intro v r hvlog hvc hvflag hvstate hr
    obtain ⟨l, q, hpk, hok, hpanic⟩ := GattStartAdverts_eq F true v
    cases cB : l.any isPanic
    · obtain ⟨⟨n, d, src, e⟩, hG⟩ := hok cB
      rw [cB] at hpk
      have hGlog : (GattStartAdverts F true v).log =
          w.log ++ ([Req.LsResetWhiteList] ++ (l ++ [Req.GattConnectReq
            (if v.g.bonded && !GattIsAddressResolvableRandom v.g.bonded_bd_addr then
              connect_flags.slave_whitelist else connect_flags.slave_undirected)])) := by
        rw [hG]
        simp [hvlog]
      have hGg : (GattStartAdverts F true v).g.app_tid = v.next_tid + 1 := by rw [hG]
      have hGc : ({ id := v.next_tid + 1
                    period := FAST_CONNECTION_ADVERT_TIMEOUT_VALUE
                    cb := timer_cb.gattAdvertTimerHandler } : Timer) ∈
          (GattStartAdverts F true v).created := by
        rw [hG]
        simp
      have hGf : (GattStartAdverts F true v).g.pairing_button_pressed = false := by
        rw [hG]
        exact hvflag
      have hGs : (GattStartAdverts F true v).g.state = app_state.app_state_fast_advertising := by
        rw [hG]
        exact hvstate
      rcases hr with hr | hr
      · subst hr
        have hi := issued_of_log hGlog
        refine ⟨hGf, by rw [hi]; simp, hGs, fun _ => ⟨?_,
          ⟨if v.g.bonded && !GattIsAddressResolvableRandom v.g.bonded_bd_addr then
            connect_flags.slave_whitelist else connect_flags.slave_undirected, ?_⟩, ?_⟩, fun hh => ?_⟩
        · rw [hi, e]
          simp
        · rw [hi]
          simp [q, isConnectReq]
        · rw [hGg]
          exact hGc
        · rw [panicked_of_log hGlog] at hh
          simp [cB, isPanic] at hh
      · simp only [hpk, Bool.false_eq_true, if_false] at hr
        subst hr
        have hlog : (SoundBuzzer buzzer_beep_type.buzzer_beep_twice
            (GattStartAdverts F true v)).log =
            w.log ++ ([Req.LsResetWhiteList] ++ (l ++ [Req.GattConnectReq
              (if v.g.bonded && !GattIsAddressResolvableRandom v.g.bonded_bd_addr then
                connect_flags.slave_whitelist else connect_flags.slave_undirected)]) ++
              [Req.PioEnablePWM BUZZER_PWM_INDEX_0 false,
                Req.PioEnablePWM BUZZER_PWM_INDEX_0 true]) := by
          rw [SoundBuzzer_log, hGlog]
          simp
        have hi := issued_of_log hlog
        refine ⟨by rw [SoundBuzzer_g]; exact hGf, by rw [hi]; simp,
          by rw [SoundBuzzer_g]; exact hGs, fun _ => ⟨?_,
          ⟨if v.g.bonded && !GattIsAddressResolvableRandom v.g.bonded_bd_addr then
            connect_flags.slave_whitelist else connect_flags.slave_undirected, ?_⟩, ?_⟩, fun hh => ?_⟩
        · rw [hi, e]
          simp
        · rw [hi]
          simp [q, isConnectReq]
        · apply SoundBuzzer_created_mem
          rw [SoundBuzzer_g, hGg]
          exact hGc
        · rw [panicked_of_log hlog] at hh
          simp [cB, isPanic] at hh
    · obtain ⟨⟨c, l1, e, e1⟩, hG⟩ := hpanic cB
      rw [cB] at hpk
      have hr2 : r = GattStartAdverts F true v := by
        rcases hr with hr | hr
        · exact hr
        · simpa only [hpk, if_true] using hr
      subst hr2
      have hGlog : (GattStartAdverts F true v).log =
          w.log ++ ([Req.LsResetWhiteList] ++ l) := by
        rw [hG]
        simp [hvlog]
      have hi := issued_of_log hGlog
      refine ⟨by rw [hG]; exact hvflag, by rw [hi]; simp, by rw [hG]; exact hvstate,
        fun hh => ?_, fun _ => ⟨⟨c, ?_⟩, ?_, ?_⟩⟩
      · rw [panicked_of_log hGlog] at hh
        simp [cB, isPanic] at hh
      · rw [hi, e, ← List.append_assoc, List.getLast?_append]
        rfl
      · rw [hi, List.filter_append, q]
        rfl
      · rw [hG]
        exact hvc
  rcases h with h | h
  · exact key (emit Req.LsResetWhiteList { w with g := { w.g with pairing_button_pressed := false } })
      _ (by simp) rfl rfl (by simp [h])
      (Or.inl (by simp [handleSignalGattCancelConnectCfm, cancelConnectCfmAdvertising, h, hp]))
  · exact key { appAdvertisingExit (emit Req.LsResetWhiteList
          { w with g := { w.g with pairing_button_pressed := false } }) with
        g := { (appAdvertisingExit (emit Req.LsResetWhiteList
          { w with g := { w.g with pairing_button_pressed := false } })).g with
          state := app_state.app_state_fast_advertising } }
      _ (by simp) rfl rfl rfl
      (Or.inr (by simp [handleSignalGattCancelConnectCfm, cancelConnectCfmAdvertising, h, hp,
        AppSetState]))

/-- Witness of C11: the confirmation that follows the extra long button press
in fast advertising, with the firmware that accepts every call and with the
one that refuses GapSetMode. -/
theorem C11_witness :
    wRemove.g.pairing_button_pressed = true ∧
    wRemove.g.state = app_state.app_state_fast_advertising ∧
    (handleSignalGattCancelConnectCfm F0 wRemove).g.pairing_button_pressed = false ∧
    Req.LsResetWhiteList ∈ issued wRemove (handleSignalGattCancelConnectCfm F0 wRemove) ∧
    (handleSignalGattCancelConnectCfm F0 wRemove).g.state =
      app_state.app_state_fast_advertising ∧
    (∃ flags, (issued wRemove (handleSignalGattCancelConnectCfm F0 wRemove)).filter
      isConnectReq = [Req.GattConnectReq flags]) ∧
    (handleSignalGattCancelConnectCfm FRefused wRemove).created = wRemove.created :=
  ⟨by decide, by decide,
    (C11_cancel_confirmation_with_pairing_removal F0 wRemove (by decide)
      (Or.inl (by decide))).1,
    (C11_cancel_confirmation_with_pairing_removal F0 wRemove (by decide)
      (Or.inl (by decide))).2.1,
    (C11_cancel_confirmation_with_pairing_removal F0 wRemove (by decide)
      (Or.inl (by decide))).2.2.1,
    ((C11_cancel_confirmation_with_pairing_removal F0 wRemove (by decide)
      (Or.inl (by decide))).2.2.2.1 (by decide)).2.1,
    ((C11_cancel_confirmation_with_pairing_removal FRefused wRemove (by decide)
      (Or.inl (by decide))).2.2.2.2 (by decide)).2.2⟩

/-! ## The state after a disconnection -/

/-- The state chosen by the reason table of the disconnect completion, from a
state other than init. -/
theorem disconnectCompleteNext_state (F : Firmware) (reason : Nat) (v : World)
    (hv : v.g.state ≠ app_state.app_state_init) :
    (disconnectCompleteNext F reason v).g.state =
      if reason = HCI_ERROR_CONN_TIMEOUT then app_state.app_state_fast_advertising
      else if reason = HCI_ERROR_CONN_TERM_LOCAL_HOST then
        if v.g.state = app_state.app_state_connected then app_state.app_state_fast_advertising
        else if v.g.bonded = true then
          if GattIsAddressResolvableRandom v.g.bonded_bd_addr = true ∧
              F.SMPrivacyMatchAddress v.g.con_bd_addr v.g.central_device_irk < 0 then
            app_state.app_state_fast_advertising
          else app_state.app_state_idle
        else app_state.app_state_fast_advertising
      else if v.g.bonded = true then app_state.app_state_idle
      else app_state.app_state_fast_advertising := by
  unfold disconnectCompleteNext
  split_ifs <;> simp_all

/-- The disconnect completion in the states connected and disconnecting, as
the reason table applied to the application data of the world it was given. -/
theorem DisconnectComplete_state (F : Firmware) (reason : Nat) (w : World)
    (h : w.g.state = app_state.app_state_connected ∨
      w.g.state = app_state.app_state_disconnecting) :
    (handleSignalLmDisconnectComplete F reason w).g.state =
      if reason = HCI_ERROR_CONN_TIMEOUT then app_state.app_state_fast_advertising
      else if reason = HCI_ERROR_CONN_TERM_LOCAL_HOST then
        if w.g.state = app_state.app_state_connected then app_state.app_state_fast_advertising
        else if w.g.bonded = true then
          if GattIsAddressResolvableRandom w.g.bonded_bd_addr = true ∧
              F.SMPrivacyMatchAddress w.g.con_bd_addr w.g.central_device_irk < 0 then
            app_state.app_state_fast_advertising
          else app_state.app_state_idle
        else app_state.app_state_fast_advertising
      else if w.g.bonded = true then app_state.app_state_idle
      else app_state.app_state_fast_advertising := by
  rcases h with h | h <;>
    simp [handleSignalLmDisconnectComplete, h, disconnectCompleteNext_state]

/-- C12. A disconnect completion with the reason supervision timeout,
handled in connected or in disconnecting, results in the state fast
advertising, whatever the bonded flag and the bonded and connected addresses
are. -/
theorem C12_link_loss_leads_to_fast_advertising (F : Firmware) (w : World)
    (h : w.g.state = app_state.app_state_connected ∨
      w.g.state = app_state.app_state_disconnecting) :
    (handleSignalLmDisconnectComplete F HCI_ERROR_CONN_TIMEOUT w).g.state =
      app_state.app_state_fast_advertising := by
  rw [DisconnectComplete_state F _ w h]
  simp

/-- Witness of C12: link loss in the connected world `wConn` and in the
disconnecting world `wRep` of a bonded device. -/
theorem C12_witness :
    wConn.g.state = app_state.app_state_connected ∧
    wRep.g.state = app_state.app_state_disconnecting ∧ wRep.g.bonded = true ∧
    (handleSignalLmDisconnectComplete F0 HCI_ERROR_CONN_TIMEOUT wConn).g.state =
      app_state.app_state_fast_advertising ∧
    (handleSignalLmDisconnectComplete F0 HCI_ERROR_CONN_TIMEOUT wRep).g.state =
      app_state.app_state_fast_advertising :=
  ⟨by decide, by decide, by decide,
    C12_link_loss_leads_to_fast_advertising F0 wConn (Or.inl (by decide)),
    C12_link_loss_leads_to_fast_advertising F0 wRep (Or.inr (by decide))⟩

/-- C13. A disconnect completion with the reason terminated by the local
host. Handled in connected, the resulting state is fast advertising. Handled
in disconnecting, the resulting state is fast advertising if the device is not
bonded, fast advertising if it is bonded to a resolvable private address and
the connected peer address does not resolve against the stored identity key,
and idle in every other bonded case. -/
theorem C13_local_disconnect (F : Firmware) (w : World) :
    (w.g.state = app_state.app_state_connected →
      (handleSignalLmDisconnectComplete F HCI_ERROR_CONN_TERM_LOCAL_HOST w).g.state =
        app_state.app_state_fast_advertising) ∧
    (w.g.state = app_state.app_state_disconnecting →
      (w.g.bonded = false →
        (handleSignalLmDisconnectComplete F HCI_ERROR_CONN_TERM_LOCAL_HOST w).g.state =
          app_state.app_state_fast_advertising) ∧
      (w.g.bonded = true ∧ GattIsAddressResolvableRandom w.g.bonded_bd_addr = true ∧
          F.SMPrivacyMatchAddress w.g.con_bd_addr w.g.central_device_irk < 0 →
        (handleSignalLmDisconnectComplete F HCI_ERROR_CONN_TERM_LOCAL_HOST w).g.state =
          app_state.app_state_fast_advertising) ∧
      (w.g.bonded = true ∧ ¬ (GattIsAddressResolvableRandom w.g.bonded_bd_addr = true ∧
          F.SMPrivacyMatchAddress w.g.con_bd_addr w.g.central_device_irk < 0) →
        (handleSignalLmDisconnectComplete F HCI_ERROR_CONN_TERM_LOCAL_HOST w).g.state =
          app_state.app_state_idle)) := by
  have hne : HCI_ERROR_CONN_TERM_LOCAL_HOST ≠ HCI_ERROR_CONN_TIMEOUT := by decide
  refine ⟨fun h => ?_, fun h => ⟨fun hb => ?_, fun hb => ?_, fun hb => ?_⟩⟩
  · rw [DisconnectComplete_state F _ w (Or.inl h)]
    simp [hne, h]
  · rw [DisconnectComplete_state F _ w (Or.inr h)]
    simp [hne, h, hb]
  · rw [DisconnectComplete_state F _ w (Or.inr h)]
    simp [hne, h, hb.1, hb.2.1, hb.2.2]
  · rw [DisconnectComplete_state F _ w (Or.inr h)]
    rw [if_neg hne, if_pos rfl, if_neg (by simp [h]), if_pos hb.1, if_neg hb.2]

/-- Witness of C13: a local disconnect reported in the connected world
`wConn`, and in the disconnecting world `wRep` of a device bonded to a public
address. -/
theorem C13_witness :
    wConn.g.state = app_state.app_state_connected ∧
    (handleSignalLmDisconnectComplete F0 HCI_ERROR_CONN_TERM_LOCAL_HOST wConn).g.state =
      app_state.app_state_fast_advertising ∧
    wRep.g.state = app_state.app_state_disconnecting ∧
    (handleSignalLmDisconnectComplete F0 HCI_ERROR_CONN_TERM_LOCAL_HOST wRep).g.state =
      app_state.app_state_idle :=
  ⟨by decide, (C13_local_disconnect F0 wConn).1 (by decide), by decide,
    ((C13_local_disconnect F0 wRep).2 (by decide)).2.2 ⟨by decide, by decide⟩⟩

/-- C14. A disconnect completion with any reason other than supervision
timeout and terminated by the local host, handled in connected or in
disconnecting: the resulting state is fast advertising if the device is not
bonded and idle if it is bonded. -/
theorem C14_remote_disconnect (F : Firmware) (reason : Nat) (w : World)
    (hr1 : reason ≠ HCI_ERROR_CONN_TIMEOUT) (hr2 : reason ≠ HCI_ERROR_CONN_TERM_LOCAL_HOST)
    (h : w.g.state = app_state.app_state_connected ∨
      w.g.state = app_state.app_state_disconnecting) :
    (w.g.bonded = false →
      (handleSignalLmDisconnectComplete F reason w).g.state =
        app_state.app_state_fast_advertising) ∧
    (w.g.bonded = true →
      (handleSignalLmDisconnectComplete F reason w).g.state = app_state.app_state_idle) := by
  rw [DisconnectComplete_state F _ w h]
  constructor <;> intro hb <;> simp [hr1, hr2, hb]

/-- Witness of C14: the remote user terminates the connection (reason 0x13)
of the unbonded world `wConn` and of the bonded world `wPaired`. -/
theorem C14_witness :
    wConn.g.bonded = false ∧ wPaired.g.bonded = true ∧
    (handleSignalLmDisconnectComplete F0 0x13 wConn).g.state =
      app_state.app_state_fast_advertising ∧
    (handleSignalLmDisconnectComplete F0 0x13 wPaired).g.state = app_state.app_state_idle :=
  ⟨by decide, by decide,
    (C14_remote_disconnect F0 0x13 wConn (by decide) (by decide) (Or.inl (by decide))).1
      (by decide),
    (C14_remote_disconnect F0 0x13 wPaired (by decide) (by decide) (Or.inl (by decide))).2
      (by decide)⟩

/-- C15. A pairing-authorisation request handled in connected is answered
with exactly one response to the security manager, which accepts if and only
if the bonded flag is false; apart from the log of requests the world is
unchanged. -/
theorem C15_pairing_authorisation (data : Nat) (w : World)
    (h : w.g.state = app_state.app_state_connected) :
    (∃ accept, issued w (handleSignalSmPairingAuthInd data w) =
        [Req.SMPairingAuthRsp data accept] ∧ (accept = true ↔ w.g.bonded = false)) ∧
    { handleSignalSmPairingAuthInd data w with log := w.log } = w := by
  cases hb : w.g.bonded
  · exact ⟨⟨true, by simp [handleSignalSmPairingAuthInd, h, hb, issued]⟩,
      by simp [handleSignalSmPairingAuthInd, h, hb, emit]⟩
  · exact ⟨⟨false, by simp [handleSignalSmPairingAuthInd, h, hb, issued]⟩,
      by simp [handleSignalSmPairingAuthInd, h, hb, emit]⟩

/-- Witness of C15: the request is accepted in the unbonded world `wConn`. -/
theorem C15_witness :
    wConn.g.state = app_state.app_state_connected ∧ wConn.g.bonded = false ∧
    ((∃ accept, issued wConn (handleSignalSmPairingAuthInd 5 wConn) =
        [Req.SMPairingAuthRsp 5 accept] ∧ (accept = true ↔ wConn.g.bonded = false)) ∧
      { handleSignalSmPairingAuthInd 5 wConn with log := wConn.log } = wConn) :=
  ⟨by decide, by decide, C15_pairing_authorisation 5 wConn (by decide)⟩

/-- C17. A pairing-outcome notification with a failure status handled in
connected. With the status repeated attempts the resulting state is
disconnecting and the one request issued is the disconnect request for the
stored connection. Otherwise, if the device is bonded, a bonding-chance timer
of 30 seconds becomes live, its handle is stored in bonding_reattempt_tid,
nothing is requested and the state stays connected. Otherwise the world is
returned as it was: no field changes and no timer is armed. -/
theorem C17_pairing_failure_policy (F : Firmware) (status : sys_status)
    (bd_addr : TYPED_BD_ADDR_T) (w : World)
    (h : w.g.state = app_state.app_state_connected)
    (hs : status ≠ sys_status.sys_status_success) :
    (status = sys_status.sm_status_repeated_attempts →
      (handleSignalSmSimplePairingCompleteInd F status bd_addr w).g.state =
        app_state.app_state_disconnecting ∧
      issued w (handleSignalSmSimplePairingCompleteInd F status bd_addr w) =
        [Req.GattDisconnectReq w.g.st_ucid]) ∧
    (status ≠ sys_status.sm_status_repeated_attempts → w.g.bonded = true →
      (handleSignalSmSimplePairingCompleteInd F status bd_addr w).g.state =
        app_state.app_state_connected ∧
      (handleSignalSmSimplePairingCompleteInd F status bd_addr w).timers =
        w.timers ++
          [{ id := (handleSignalSmSimplePairingCompleteInd F status bd_addr w).g.bonding_reattempt_tid
             period := 30 * SECOND
             cb := timer_cb.handleBondingChanceTimerExpiry }] ∧
      (handleSignalSmSimplePairingCompleteInd F status bd_addr w).g.bonding_reattempt_tid ≠
        TIMER_INVALID ∧
      issued w (handleSignalSmSimplePairingCompleteInd F status bd_addr w) = []) ∧
    (status ≠ sys_status.sm_status_repeated_attempts → w.g.bonded = false →
      handleSignalSmSimplePairingCompleteInd F status bd_addr w = w) := by
  refine ⟨fun hr => ?_, fun hr hb => ?_, fun hr hb => ?_⟩
  · subst hr
    simp [handleSignalSmSimplePairingCompleteInd, h, AppSetState, issued]
  · simp [handleSignalSmSimplePairingCompleteInd, h, hs, hr, hb, TimerCreate, issued,
      BONDING_CHANCE_TIMER, TIMER_INVALID]
  · simp [handleSignalSmSimplePairingCompleteInd, h, hs, hr, hb]

/-- Witness of C17: repeated attempts and another failure in the bonded world
`wPaired`, a failure in the unbonded world `wConn`. -/
theorem C17_witness :
    wPaired.g.state = app_state.app_state_connected ∧ wPaired.g.bonded = true ∧
    (handleSignalSmSimplePairingCompleteInd F0 sys_status.sm_status_repeated_attempts addrPublic
      wPaired).g.state = app_state.app_state_disconnecting ∧
    (handleSignalSmSimplePairingCompleteInd F0 (sys_status.other 1) addrPublic
      wPaired).g.state = app_state.app_state_connected ∧
    wConn.g.bonded = false ∧
    handleSignalSmSimplePairingCompleteInd F0 (sys_status.other 1) addrPublic wConn = wConn :=
  ⟨by decide, by decide,
    ((C17_pairing_failure_policy F0 sys_status.sm_status_repeated_attempts addrPublic wPaired
      (by decide) (by decide)).1 rfl).1,
    ((C17_pairing_failure_policy F0 (sys_status.other 1) addrPublic wPaired
      (by decide) (by decide)).2.1 (by decide) (by decide)).1,
    by decide,
    (C17_pairing_failure_policy F0 (sys_status.other 1) addrPublic wConn
      (by decide) (by decide)).2.2 (by decide) (by decide)⟩

/-- C19. A diversifier-approval request handled in connected is answered
with exactly one verdict, which is approved if and only if the device is
bonded and the presented diversifier equals the stored one, and revoked in
every other case; apart from the log of requests the world is unchanged. -/
theorem C19_diversifier_approval (cid div : Nat) (w : World)
    (h : w.g.state = app_state.app_state_connected) :
    (∃ verdict, issued w (handleSignalSmDivApproveInd cid div w) =
        [Req.SMDivApproval cid verdict] ∧
      (verdict = sm_div_verdict.SM_DIV_APPROVED ↔
        (w.g.bonded = true ∧ w.g.diversifier = div)) ∧
      (¬ (w.g.bonded = true ∧ w.g.diversifier = div) →
        verdict = sm_div_verdict.SM_DIV_REVOKED)) ∧
    { handleSignalSmDivApproveInd cid div w with log := w.log } = w := by
  by_cases hb : w.g.bonded = true
  · by_cases hd : w.g.diversifier = div
    · exact ⟨⟨sm_div_verdict.SM_DIV_APPROVED,
        by simp [handleSignalSmDivApproveInd, h, hb, hd, issued]⟩,
        by simp [handleSignalSmDivApproveInd, h, hb, hd, emit]⟩
    · exact ⟨⟨sm_div_verdict.SM_DIV_REVOKED,
        by simp [handleSignalSmDivApproveInd, h, hb, hd, issued]⟩,
        by simp [handleSignalSmDivApproveInd, h, hb, hd, emit]⟩
  · exact ⟨⟨sm_div_verdict.SM_DIV_REVOKED,
      by simp [handleSignalSmDivApproveInd, h, hb, issued]⟩,
      by simp [handleSignalSmDivApproveInd, h, hb, emit]⟩

/-- Witness of C19: the bonded world `wPaired` stores the diversifier 0. -/
theorem C19_witness :
    wPaired.g.state = app_state.app_state_connected ∧ wPaired.g.bonded = true ∧
    wPaired.g.diversifier = 0 ∧
    ((∃ verdict, issued wPaired (handleSignalSmDivApproveInd 1 0 wPaired) =
        [Req.SMDivApproval 1 verdict] ∧
      (verdict = sm_div_verdict.SM_DIV_APPROVED ↔
        (wPaired.g.bonded = true ∧ wPaired.g.diversifier = 0)) ∧
      (¬ (wPaired.g.bonded = true ∧ wPaired.g.diversifier = 0) →
        verdict = sm_div_verdict.SM_DIV_REVOKED)) ∧
      { handleSignalSmDivApproveInd 1 0 wPaired with log := wPaired.log } = wPaired) :=
  ⟨by decide, by decide, by decide, C19_diversifier_approval 1 0 wPaired (by decide)⟩

/-! ## The connect confirmation with a success status -/

/-- A successful connect confirmation from a peer that does not resolve
against the identity key of the bond is answered by entering disconnecting. -/
theorem connectCfm_success_mismatch (F : Firmware) (cid : Nat) (bd_addr : TYPED_BD_ADDR_T)
    (w : World)
    (h : w.g.state = app_state.app_state_fast_advertising ∨
      w.g.state = app_state.app_state_slow_advertising)
    (hc : w.g.bonded = true ∧ GattIsAddressResolvableRandom w.g.bonded_bd_addr = true ∧
      F.SMPrivacyMatchAddress bd_addr w.g.central_device_irk < 0) :
    handleSignalGattConnectCfm F sys_status.sys_status_success cid bd_addr w =
      AppSetState F app_state.app_state_disconnecting
        { w with g := { w.g with st_ucid := cid, con_bd_addr := bd_addr } } := by
  rcases h with h | h <;>
    simp [handleSignalGattConnectCfm, connectCfmAdvertising, h, hc.1, hc.2.1, hc.2.2]

/-- A successful connect confirmation from any other peer enters connected
and then looks at the connection parameters. -/
theorem connectCfm_success_admitted (F : Firmware) (cid : Nat) (bd_addr : TYPED_BD_ADDR_T)
    (w : World)
    (h : w.g.state = app_state.app_state_fast_advertising ∨
      w.g.state = app_state.app_state_slow_advertising)
    (hc : ¬ (w.g.bonded = true ∧ GattIsAddressResolvableRandom w.g.bonded_bd_addr = true ∧
      F.SMPrivacyMatchAddress bd_addr w.g.central_device_irk < 0)) :
    handleSignalGattConnectCfm F sys_status.sys_status_success cid bd_addr w =
      (let w2 := AppSetState F app_state.app_state_connected
        { w with g := { w.g with st_ucid := cid, con_bd_addr := bd_addr } }
      if w2.g.con_param_update_tid = TIMER_INVALID ∧ paramsOutsidePreferred w2 = true then
        let w3 := { w2 with g := { w2.g with num_conn_update_req := 0 } }
        let r := TimerCreate TGAP_CPP_PERIOD timer_cb.handleGapCppTimerExpiry w3
        { r.2 with g := { r.2.g with
          con_param_update_tid := r.1
          cpu_timer_value := TGAP_CPP_PERIOD } }
      else w2) := by
  have hc2 : (w.g.bonded && GattIsAddressResolvableRandom w.g.bonded_bd_addr &&
      decide (F.SMPrivacyMatchAddress bd_addr w.g.central_device_irk < 0)) = false := by
    rw [Bool.eq_false_iff]
    intro hh
    apply hc
    simpa [Bool.and_eq_true, and_assoc] using hh
  rcases h with h | h <;>
    simp [handleSignalGattConnectCfm, connectCfmAdvertising, h, hc2]

/-- Entering connected from an advertising state leaves the stored link
parameters, the connection-parameter handle and the history of timers as they
were. -/
theorem AppSetState_connected_of_advertising (F : Firmware) (w : World)
    (h : w.g.state = app_state.app_state_fast_advertising ∨
      w.g.state = app_state.app_state_slow_advertising) :
    (AppSetState F app_state.app_state_connected w).g.con_param_update_tid =
        w.g.con_param_update_tid ∧
    (AppSetState F app_state.app_state_connected w).g.conn_interval = w.g.conn_interval ∧
    (AppSetState F app_state.app_state_connected w).g.conn_latency = w.g.conn_latency ∧
    (AppSetState F app_state.app_state_connected w).created = w.created ∧
    (AppSetState F app_state.app_state_connected w).next_tid = w.next_tid := by
  rcases h with h | h <;> simp [AppSetState, h] <;> split_ifs <;> simp [appAdvertisingExit]

/-- C20. A successful connection-established confirmation handled in an
advertising state with no connection-parameter timer handle stored, and
leading to connected. When the stored link parameters are outside the
envelope (interval below 27, interval above 27 or latency below 4) the
attempt counter is 0 afterwards, a timer of 5 seconds with the callback of
quiescence timer A is live and is the one timer created, and its handle is
stored. When they are inside the envelope no timer at all is created, no
handle is stored and the attempt counter is as it was. -/
theorem C20_start_of_negotiation (F : Firmware) (cid : Nat) (bd_addr : TYPED_BD_ADDR_T)
    (w : World)
    (h : w.g.state = app_state.app_state_fast_advertising ∨
      w.g.state = app_state.app_state_slow_advertising)
    (htid : w.g.con_param_update_tid = TIMER_INVALID)
    (hconn : (handleSignalGattConnectCfm F sys_status.sys_status_success cid bd_addr w).g.state =
      app_state.app_state_connected) :
    ((w.g.conn_interval < 27 ∨ w.g.conn_interval > 27 ∨ w.g.conn_latency < 4) →
      (handleSignalGattConnectCfm F sys_status.sys_status_success cid bd_addr
        w).g.num_conn_update_req = 0 ∧
      (handleSignalGattConnectCfm F sys_status.sys_status_success cid bd_addr
        w).g.con_param_update_tid ≠ TIMER_INVALID ∧
      { id := (handleSignalGattConnectCfm F sys_status.sys_status_success cid bd_addr
          w).g.con_param_update_tid
        period := 5 * SECOND
        cb := timer_cb.handleGapCppTimerExpiry } ∈
        (handleSignalGattConnectCfm F sys_status.sys_status_success cid bd_addr w).timers ∧
      (handleSignalGattConnectCfm F sys_status.sys_status_success cid bd_addr w).created =
        w.created ++
          [{ id := (handleSignalGattConnectCfm F sys_status.sys_status_success cid bd_addr
              w).g.con_param_update_tid
             period := 5 * SECOND
             cb := timer_cb.handleGapCppTimerExpiry }] ∧
      (handleSignalGattConnectCfm F sys_status.sys_status_success cid bd_addr
        w).g.cpu_timer_value = 5 * SECOND) ∧
    (¬ (w.g.conn_interval < 27 ∨ w.g.conn_interval > 27 ∨ w.g.conn_latency < 4) →
      (handleSignalGattConnectCfm F sys_status.sys_status_success cid bd_addr
        w).g.con_param_update_tid = TIMER_INVALID ∧
      (handleSignalGattConnectCfm F sys_status.sys_status_success cid bd_addr w).created =
        w.created ∧
      (handleSignalGattConnectCfm F sys_status.sys_status_success cid bd_addr
        w).g.num_conn_update_req = w.g.num_conn_update_req) := by
  have hc : ¬ (w.g.bonded = true ∧ GattIsAddressResolvableRandom w.g.bonded_bd_addr = true ∧
      F.SMPrivacyMatchAddress bd_addr w.g.central_device_irk < 0) := by
    intro hc
    have hni : w.g.state ≠ app_state.app_state_init := by
      rcases h with h | h <;> simp [h]
    rw [connectCfm_success_mismatch F cid bd_addr w h hc] at hconn
    simp [hni] at hconn
  rw [connectCfm_success_admitted F cid bd_addr w h hc]
  obtain ⟨e1, e2, e3, e4, e5⟩ := AppSetState_connected_of_advertising F
    { w with g := { w.g with st_ucid := cid, con_bd_addr := bd_addr } } h
  simp only at e1 e2 e3 e4 e5
  have hp : paramsOutsidePreferred (AppSetState F app_state.app_state_connected
      { w with g := { w.g with st_ucid := cid, con_bd_addr := bd_addr } }) = true ↔
      (w.g.conn_interval < 27 ∨ w.g.conn_interval > 27 ∨ w.g.conn_latency < 4) := by
    simp [paramsOutsidePreferred, e2, e3, PREFERRED_MIN_CON_INTERVAL, PREFERRED_MAX_CON_INTERVAL,
      PREFERRED_SLAVE_LATENCY]
  dsimp only
  refine ⟨fun ho => ?_, fun hi => ?_⟩
  · rw [if_pos ⟨by rw [e1, htid], hp.2 ho⟩]
    simp [TimerCreate, e4, e5, TGAP_CPP_PERIOD, TIMER_INVALID]
  · rw [if_neg (fun hh => hi (hp.1 hh.2))]
    exact ⟨by rw [e1, htid], e4, by simp⟩

/-- Witness of C20: `wLink` stores the interval 20 (outside the envelope),
`wLinkIn` the interval 27 and the latency 4 (inside). -/
theorem C20_witness :
    wLink.g.conn_interval = 20 ∧ wLinkIn.g.conn_interval = 27 ∧ wLinkIn.g.conn_latency = 4 ∧
    (handleSignalGattConnectCfm F0 sys_status.sys_status_success 1 addrPublic
      wLink).g.num_conn_update_req = 0 ∧
    (handleSignalGattConnectCfm F0 sys_status.sys_status_success 1 addrPublic
      wLink).g.con_param_update_tid ≠ TIMER_INVALID ∧
    (handleSignalGattConnectCfm F0 sys_status.sys_status_success 1 addrPublic wLinkIn).created =
      wLinkIn.created :=
  ⟨by decide, by decide, by decide,
    ((C20_start_of_negotiation F0 1 addrPublic wLink (Or.inl (by decide)) (by decide)
      (by decide)).1 (by decide)).1,
    ((C20_start_of_negotiation F0 1 addrPublic wLink (Or.inl (by decide)) (by decide)
      (by decide)).1 (by decide)).2.1,
    ((C20_start_of_negotiation F0 1 addrPublic wLinkIn (Or.inl (by decide)) (by decide)
      (by decide)).2 (by decide)).2.1⟩

/-! ## Pairing success and the bonding-chance timer -/

/-- The bonding notification of the thermometer service touches one word of
the store at most. -/
theorem HealthThermoBondingNotify_nvm (w : World) (a : Nat)
    (ha : a ≠ w.serv.nvm_offset + HEALTH_THERMO_NVM_TEMP_CLIENT_CONFIG_OFFSET) :
    (HealthThermoBondingNotify w).nvm a = w.nvm a := by
  unfold HealthThermoBondingNotify
  split_ifs
  · simp only [Nvm_Write, List.length_singleton]
    rw [if_neg]
    omega
  · rfl

/-- The bonding notification of the battery service touches one word of the
store at most. -/
theorem BatteryBondingNotify_nvm (w : World) (a : Nat)
    (ha : a ≠ w.batt.nvm_offset + BATTERY_NVM_LEVEL_CLIENT_CONFIG_OFFSET) :
    (BatteryBondingNotify w).nvm a = w.nvm a := by
  unfold BatteryBondingNotify
  split_ifs
  · simp only [Nvm_Write, List.length_singleton]
    rw [if_neg]
    omega
  · rfl

/-- The bonding notification of the thermometer service leaves the data of
the battery service alone. -/
theorem HealthThermoBondingNotify_batt (w : World) :
    (HealthThermoBondingNotify w).batt = w.batt := by
  unfold HealthThermoBondingNotify
  split_ifs <;> rfl

/-- The two bonding notifications request nothing. -/
theorem BondingNotify_log (w : World) :
    (BatteryBondingNotify (HealthThermoBondingNotify w)).log = w.log := by
  simp only [BatteryBondingNotify, HealthThermoBondingNotify]
  split_ifs <;> rfl

/-- The handler of a successful pairing in connected, up to the bonding
notifications: the writes of the flag and of the address, then the whitelist
call. The bonding notifications follow, unless the whitelist call was refused
and reported as a panic. -/
theorem pairingSuccess_eq (F : Firmware) (bd_addr : TYPED_BD_ADDR_T) (w : World)
    (h : w.g.state = app_state.app_state_connected) :
    ∃ v : World,
      (handleSignalSmSimplePairingCompleteInd F sys_status.sys_status_success bd_addr w =
          BatteryBondingNotify (HealthThermoBondingNotify v) ∨
        handleSignalSmSimplePairingCompleteInd F sys_status.sys_status_success bd_addr w =
          v) ∧
      v.nvm = (Nvm_Write (addrWords bd_addr) NVM_OFFSET_BONDED_ADDR
        (Nvm_Write [1] NVM_OFFSET_BONDED_FLAG w)).nvm ∧
      v.g = { w.g with bonded := true, bonded_bd_addr := bd_addr } ∧
      v.serv = w.serv ∧ v.batt = w.batt ∧
      v.log = w.log ++
        (if GattIsAddressResolvableRandom bd_addr = true then []
         else Req.LsAddWhiteListDevice bd_addr ::
          (if F.LsAddWhiteListDevice bd_addr = ls_err_none then []
           else [Req.Panic app_panic_code.app_panic_add_whitelist])) := by
  cases hr : GattIsAddressResolvableRandom bd_addr
  · by_cases hf : F.LsAddWhiteListDevice bd_addr = ls_err_none
    · refine ⟨emit (Req.LsAddWhiteListDevice bd_addr)
        (Nvm_Write (addrWords bd_addr) NVM_OFFSET_BONDED_ADDR
          (Nvm_Write [1] NVM_OFFSET_BONDED_FLAG
            { w with g := { w.g with bonded := true, bonded_bd_addr := bd_addr } })),
        Or.inl ?_, rfl, rfl, rfl, rfl, by simp [hf]⟩
      simp [handleSignalSmSimplePairingCompleteInd, h, hr, hf, boolWord, panicked, isPanic]
    · refine ⟨ReportPanic app_panic_code.app_panic_add_whitelist
        (emit (Req.LsAddWhiteListDevice bd_addr)
          (Nvm_Write (addrWords bd_addr) NVM_OFFSET_BONDED_ADDR
            (Nvm_Write [1] NVM_OFFSET_BONDED_FLAG
              { w with g := { w.g with bonded := true, bonded_bd_addr := bd_addr } }))),
        Or.inr ?_, rfl, rfl, rfl, rfl, by simp [hf]⟩
      simp [handleSignalSmSimplePairingCompleteInd, h, hr, hf, boolWord, panicked, isPanic]
  · refine ⟨Nvm_Write (addrWords bd_addr) NVM_OFFSET_BONDED_ADDR
        (Nvm_Write [1] NVM_OFFSET_BONDED_FLAG
          { w with g := { w.g with bonded := true, bonded_bd_addr := bd_addr } }),
        Or.inl ?_, rfl, rfl, rfl, rfl, by simp⟩
    simp [handleSignalSmSimplePairingCompleteInd, h, hr, boolWord]

/-- The offsets of the bonded flag and of the bonded address, and the size of
the region of the application, in words. -/
theorem NVM_offsets :
    NVM_OFFSET_BONDED_FLAG = 1 ∧ NVM_OFFSET_BONDED_ADDR = 2 ∧ NVM_MAX_APP_MEMORY_WORDS = 16 := by
  decide

/-- C16. A pairing-outcome notification with the success status handled in
connected: afterwards the bonded flag is true, the bonded address is the
address of the event and the state is still connected. The word at the
offset of the bonded flag holds 1 and the five words from the offset of the
bonded address hold the address, every other word being as before; this is
said of every word that is not one of the two configuration words which the
services store on the bonding notification. The address is added to the
whitelist if and only if it is not a resolvable private address. -/
theorem C16_pairing_success (F : Firmware) (bd_addr : TYPED_BD_ADDR_T) (w : World)
    (h : w.g.state = app_state.app_state_connected) :
    (handleSignalSmSimplePairingCompleteInd F sys_status.sys_status_success bd_addr
      w).g.bonded = true ∧
    (handleSignalSmSimplePairingCompleteInd F sys_status.sys_status_success bd_addr
      w).g.bonded_bd_addr = bd_addr ∧
    (handleSignalSmSimplePairingCompleteInd F sys_status.sys_status_success bd_addr
      w).g.state = app_state.app_state_connected ∧
    (∀ a, a ≠ w.serv.nvm_offset + HEALTH_THERMO_NVM_TEMP_CLIENT_CONFIG_OFFSET →
      a ≠ w.batt.nvm_offset + BATTERY_NVM_LEVEL_CLIENT_CONFIG_OFFSET →
      (handleSignalSmSimplePairingCompleteInd F sys_status.sys_status_success bd_addr w).nvm a =
        if a = NVM_OFFSET_BONDED_FLAG then 1
        else if NVM_OFFSET_BONDED_ADDR ≤ a ∧ a < NVM_OFFSET_BONDED_ADDR + SIZEOF_TYPED_BD_ADDR_T
          then (addrWords bd_addr).getD (a - NVM_OFFSET_BONDED_ADDR) 0
        else w.nvm a) ∧
    (NVM_MAX_APP_MEMORY_WORDS ≤ w.serv.nvm_offset → NVM_MAX_APP_MEMORY_WORDS ≤ w.batt.nvm_offset →
      Nvm_Read 1 NVM_OFFSET_BONDED_FLAG
        (handleSignalSmSimplePairingCompleteInd F sys_status.sys_status_success bd_addr w) = [1] ∧
      Nvm_Read SIZEOF_TYPED_BD_ADDR_T NVM_OFFSET_BONDED_ADDR
        (handleSignalSmSimplePairingCompleteInd F sys_status.sys_status_success bd_addr w) =
          addrWords bd_addr) ∧
    (Req.LsAddWhiteListDevice bd_addr ∈
        issued w (handleSignalSmSimplePairingCompleteInd F sys_status.sys_status_success bd_addr
          w) ↔
      GattIsAddressResolvableRandom bd_addr = false) := by
  obtain ⟨v, hv, hvn, hvg, hvs, hvb, hvl⟩ := pairingSuccess_eq F bd_addr w h
  have hnvm : ∀ a, a ≠ w.serv.nvm_offset + HEALTH_THERMO_NVM_TEMP_CLIENT_CONFIG_OFFSET →
      a ≠ w.batt.nvm_offset + BATTERY_NVM_LEVEL_CLIENT_CONFIG_OFFSET →
      (handleSignalSmSimplePairingCompleteInd F sys_status.sys_status_success bd_addr w).nvm a =
        if a = NVM_OFFSET_BONDED_FLAG then 1
        else if NVM_OFFSET_BONDED_ADDR ≤ a ∧ a < NVM_OFFSET_BONDED_ADDR + SIZEOF_TYPED_BD_ADDR_T
          then (addrWords bd_addr).getD (a - NVM_OFFSET_BONDED_ADDR) 0
        else w.nvm a := by
    intro a h1 h2
    have hva : (handleSignalSmSimplePairingCompleteInd F sys_status.sys_status_success bd_addr
        w).nvm a = v.nvm a := by
      rcases hv with hv | hv
      · rw [hv, BatteryBondingNotify_nvm _ a
          (by rw [HealthThermoBondingNotify_batt, hvb]; exact h2),
          HealthThermoBondingNotify_nvm _ a (by rw [hvs]; exact h1)]
      · rw [hv]
    rw [hva, hvn]
    simp only [Nvm_Write, addrWords, List.length_cons, List.length_nil, NVM_offsets.1,
      NVM_offsets.2.1, SIZEOF_TYPED_BD_ADDR_T]
    by_cases c1 : a = 1
    · subst c1; simp
    · by_cases c2 : 2 ≤ a ∧ a < 2 + 5
      · simp [c1, c2]
      · rw [if_neg (by omega), if_neg (by omega), if_neg c1, if_neg (by omega)]
  have hg : (handleSignalSmSimplePairingCompleteInd F sys_status.sys_status_success bd_addr
      w).g = v.g := by
    rcases hv with hv | hv <;> simp [hv]
  have hlog : (handleSignalSmSimplePairingCompleteInd F sys_status.sys_status_success bd_addr
      w).log = v.log := by
    rcases hv with hv | hv
    · rw [hv, BondingNotify_log]
    · rw [hv]
  refine ⟨?_, ?_, ?_, hnvm, ?_, ?_⟩
  · simp [hg, hvg]
  · simp [hg, hvg]
  · simp [hg, hvg, h]
  · intro hs hb
    simp only [NVM_offsets.2.2] at hs hb
    have hk : ∀ a, a < 7 →
        a ≠ w.serv.nvm_offset + HEALTH_THERMO_NVM_TEMP_CLIENT_CONFIG_OFFSET ∧
        a ≠ w.batt.nvm_offset + BATTERY_NVM_LEVEL_CLIENT_CONFIG_OFFSET := by
      intro a ha
      simp only [HEALTH_THERMO_NVM_TEMP_CLIENT_CONFIG_OFFSET,
        BATTERY_NVM_LEVEL_CLIENT_CONFIG_OFFSET]
      omega
    constructor
    · have e : List.range 1 = [0] := by decide
      simp only [Nvm_Read, NVM_offsets.1, e, List.map_cons, List.map_nil, Nat.add_zero]
      rw [hnvm 1 (hk 1 (by omega)).1 (hk 1 (by omega)).2]
      simp [NVM_offsets.1]
    · simp only [Nvm_Read, SIZEOF_TYPED_BD_ADDR_T, NVM_offsets.2.1]
      have e : List.range 5 = [0, 1, 2, 3, 4] := by decide
      rw [e]
      simp only [List.map_cons, List.map_nil, Nat.add_zero, Nat.reduceAdd]
      rw [hnvm 2 (hk 2 (by omega)).1 (hk 2 (by omega)).2,
        hnvm 3 (hk 3 (by omega)).1 (hk 3 (by omega)).2,
        hnvm 4 (hk 4 (by omega)).1 (hk 4 (by omega)).2,
        hnvm 5 (hk 5 (by omega)).1 (hk 5 (by omega)).2,
        hnvm 6 (hk 6 (by omega)).1 (hk 6 (by omega)).2]
      simp [NVM_offsets.1, NVM_offsets.2.1, SIZEOF_TYPED_BD_ADDR_T, addrWords]
  · have hi : issued w (handleSignalSmSimplePairingCompleteInd F sys_status.sys_status_success
        bd_addr w) =
        (if GattIsAddressResolvableRandom bd_addr = true then []
         else Req.LsAddWhiteListDevice bd_addr ::
          (if F.LsAddWhiteListDevice bd_addr = ls_err_none then []
           else [Req.Panic app_panic_code.app_panic_add_whitelist])) :=
      issued_of_log (by rw [hlog, hvl])
    rw [hi]
    cases hr : GattIsAddressResolvableRandom bd_addr <;> simp

/-- Witness of C16: the public peer of `wConn` pairs; its address is stored
and added to the whitelist. -/
theorem C16_witness :
    wConn.g.state = app_state.app_state_connected ∧
    (handleSignalSmSimplePairingCompleteInd F0 sys_status.sys_status_success addrPublic
      wConn).g.bonded = true ∧
    Nvm_Read SIZEOF_TYPED_BD_ADDR_T NVM_OFFSET_BONDED_ADDR
      (handleSignalSmSimplePairingCompleteInd F0 sys_status.sys_status_success addrPublic
        wConn) = addrWords addrPublic ∧
    Req.LsAddWhiteListDevice addrPublic ∈
      issued wConn (handleSignalSmSimplePairingCompleteInd F0 sys_status.sys_status_success
        addrPublic wConn) :=
  ⟨by decide,
    (C16_pairing_success F0 addrPublic wConn (by decide)).1,
    ((C16_pairing_success F0 addrPublic wConn (by decide)).2.2.2.2.1 (by decide) (by decide)).2,
    (C16_pairing_success F0 addrPublic wConn (by decide)).2.2.2.2.2.2 (by decide)⟩

/-- The battery service creates and deletes no timer. -/
theorem BatteryUpdateLevel_timers (K : Config) (F : Firmware) (ucid : Nat) (w : World) :
    (BatteryUpdateLevel K F ucid w).timers = w.timers := by
  unfold BatteryUpdateLevel; dsimp only; split_ifs <;> rfl

/-- A timer live after htTempMeasTimerHandler was live before, or is the
measurement timer. -/
theorem htTempMeasTimerHandler_timers_mem (tid : Nat) (w : World) (t : Timer)
    (ht : t ∈ (htTempMeasTimerHandler tid w).timers) :
    t ∈ w.timers ∨ t.cb = timer_cb.htTempMeasTimerHandler := by
  unfold htTempMeasTimerHandler at ht
  dsimp only at ht
  split_ifs at ht with h1
  · cases hs : w.g.state <;> simp [hs, TimerCreate] at ht <;> first | exact Or.inl ht | skip
    rcases ht with ht | ht
    · exact Or.inl ht
    · exact Or.inr (by rw [ht])
  · exact Or.inl ht

/-- C18. The device is connected and bonding_reattempt_tid holds the handle T
of an armed bonding-chance timer. (a) When the expiry callback of T runs, the
resulting state is disconnecting and the one request issued is the disconnect
request for the stored connection. (b) When an encryption-changed event with
success status and encryption enabled is handled first, the state stays
connected, the stored handle is TIMER_INVALID and no bonding-chance timer
with the handle T is live; the expiry callback carrying T then returns the
world as it is, and a delivery of that expiry by the timer service leaves the
state connected and issues nothing. -/
theorem C18_bonding_chance_grace_period (K : Config) (F F2 : Firmware) (T : Nat) (w : World)
    (h : w.g.state = app_state.app_state_connected)
    (hT : w.g.bonding_reattempt_tid = T)
    (hT0 : T ≠ TIMER_INVALID) :
    ((handleBondingChanceTimerExpiry F T w).g.state = app_state.app_state_disconnecting ∧
      issued w (handleBondingChanceTimerExpiry F T w) = [Req.GattDisconnectReq w.g.st_ucid]) ∧
    ((handleSignalLMEncryptionChange K F sys_status.sys_status_success true w).g.state =
        app_state.app_state_connected ∧
      (handleSignalLMEncryptionChange K F sys_status.sys_status_success true
        w).g.bonding_reattempt_tid = TIMER_INVALID ∧
      (∀ t ∈ (handleSignalLMEncryptionChange K F sys_status.sys_status_success true w).timers,
        t.cb = timer_cb.handleBondingChanceTimerExpiry → t.id ≠ T) ∧
      handleBondingChanceTimerExpiry F2 T
          (handleSignalLMEncryptionChange K F sys_status.sys_status_success true w) =
        handleSignalLMEncryptionChange K F sys_status.sys_status_success true w ∧
      (timerExpiry F2 timer_cb.handleBondingChanceTimerExpiry T
        (handleSignalLMEncryptionChange K F sys_status.sys_status_success true w)).g.state =
        app_state.app_state_connected ∧
      issued (handleSignalLMEncryptionChange K F sys_status.sys_status_success true w)
        (timerExpiry F2 timer_cb.handleBondingChanceTimerExpiry T
          (handleSignalLMEncryptionChange K F sys_status.sys_status_success true w)) = []) := by
  have he : handleSignalLMEncryptionChange K F sys_status.sys_status_success true w =
      htTempMeasTimerHandler TIMER_INVALID
        (BatteryUpdateLevel K F w.g.st_ucid
          { TimerDelete T { w with g := { w.g with encrypt_enabled := true } } with
            g := { w.g with encrypt_enabled := true, bonding_reattempt_tid := TIMER_INVALID } }) := by
    simp [handleSignalLMEncryptionChange, h, hT]
  have hs : (handleSignalLMEncryptionChange K F sys_status.sys_status_success true w).g.state =
      app_state.app_state_connected := by
    rw [he]; simp; split_ifs <;> simp [h]
  have hb : (handleSignalLMEncryptionChange K F sys_status.sys_status_success true
      w).g.bonding_reattempt_tid = TIMER_INVALID := by
    rw [he]; simp; split_ifs <;> simp
  have hcb : handleBondingChanceTimerExpiry F2 T
      (handleSignalLMEncryptionChange K F sys_status.sys_status_success true w) =
      handleSignalLMEncryptionChange K F sys_status.sys_status_success true w := by
    unfold handleBondingChanceTimerExpiry
    rw [if_neg (by rw [hb]; exact fun e => hT0 e.symm)]
  have hx : timerExpiry F2 timer_cb.handleBondingChanceTimerExpiry T
      (handleSignalLMEncryptionChange K F sys_status.sys_status_success true w) =
      TimerDelete T (handleSignalLMEncryptionChange K F sys_status.sys_status_success true w) := by
    simp only [timerExpiry, handleBondingChanceTimerExpiry, TimerDelete_g]
    rw [if_neg (by rw [hb]; exact fun e => hT0 e.symm)]
  refine ⟨⟨?_, ?_⟩, hs, hb, ?_, hcb, ?_, ?_⟩
  · simp [handleBondingChanceTimerExpiry, hT, h]
  · simp [handleBondingChanceTimerExpiry, hT, AppSetState, h, issued]
  · intro t ht hc
    rw [he] at ht
    rcases htTempMeasTimerHandler_timers_mem _ _ t ht with ht | ht
    · rw [BatteryUpdateLevel_timers] at ht
      simp [TimerDelete] at ht
      exact ht.2
    · rw [hc] at ht
      exact absurd ht (by decide)
  · rw [hx]; simpa using hs
  · rw [hx]; exact issued_of_log (by simp)

/-- Witness of C18: in `wFail1` the bonding-chance timer with the handle 4 is
live and stored. -/
theorem C18_witness :
    wFail1.g.state = app_state.app_state_connected ∧ wFail1.g.bonding_reattempt_tid = 4 ∧
    { id := 4, period := BONDING_CHANCE_TIMER, cb := timer_cb.handleBondingChanceTimerExpiry } ∈
      wFail1.timers ∧
    (handleBondingChanceTimerExpiry F0 4 wFail1).g.state = app_state.app_state_disconnecting ∧
    (timerExpiry F0 timer_cb.handleBondingChanceTimerExpiry 4
      (handleSignalLMEncryptionChange K0 F0 sys_status.sys_status_success true wFail1)).g.state =
      app_state.app_state_connected :=
  ⟨by decide, by decide, by decide,
    (C18_bonding_chance_grace_period K0 F0 F0 4 wFail1 (by decide) (by decide) (by decide)).1.1,
    (C18_bonding_chance_grace_period K0 F0 F0 4 wFail1 (by decide) (by decide)
      (by decide)).2.2.2.2.2.1⟩

/-! ## The negotiation of the connection parameters -/

/-- The expiry of the first quiescence timer, delivered with the stored
handle: the second quiescence timer is created and stored. -/
theorem timerExpiry_handleGapCpp (F : Firmware) (A : Nat) (w : World)
    (hA : w.g.con_param_update_tid = A) :
    (timerExpiry F timer_cb.handleGapCppTimerExpiry A w).g =
      { w.g with
        con_param_update_tid := w.next_tid + 1
        cpu_timer_value := TGAP_CPC_PERIOD } ∧
    (timerExpiry F timer_cb.handleGapCppTimerExpiry A w).timers =
      w.timers.filter (fun t => t.id != A) ++
        [{ id := w.next_tid + 1, period := TGAP_CPC_PERIOD,
           cb := timer_cb.requestConnParamUpdate }] ∧
    (timerExpiry F timer_cb.handleGapCppTimerExpiry A w).created =
      w.created ++
        [{ id := w.next_tid + 1, period := TGAP_CPC_PERIOD,
           cb := timer_cb.requestConnParamUpdate }] ∧
    (timerExpiry F timer_cb.handleGapCppTimerExpiry A w).log = w.log := by
  simp [timerExpiry, handleGapCppTimerExpiry, hA, TimerCreate, TimerDelete]

/-- The callback requestConnParamUpdate in connected, run with the stored
handle: the counter is incremented, the handle and the timer value are
cleared, the request with the parameters of the attempt is issued. -/
theorem requestConnParamUpdate_eq (F : Firmware) (T : Nat) (w : World)
    (h : w.g.state = app_state.app_state_connected) (hT : w.g.con_param_update_tid = T) :
    ∃ p : ble_con_params, ∃ l : List Req,
      p = (if (w.g.num_conn_update_req + 1) % 256 ≤ 2 then
            { con_max_interval := 27, con_min_interval := 27, con_slave_latency := 4,
              con_super_timeout := 1000 }
          else
            { con_max_interval := 27, con_min_interval := 6, con_slave_latency := 4,
              con_super_timeout := 600 }) ∧
      l = (if F.LsConnectionParamUpdateReq w.g.con_bd_addr p = ls_err_none then []
          else [Req.Panic app_panic_code.app_panic_con_param_update]) ∧
      (requestConnParamUpdate F T w).g =
        { w.g with
          con_param_update_tid := TIMER_INVALID
          cpu_timer_value := 0
          num_conn_update_req := (w.g.num_conn_update_req + 1) % 256 } ∧
      (requestConnParamUpdate F T w).timers = w.timers ∧
      (requestConnParamUpdate F T w).created = w.created ∧
      (requestConnParamUpdate F T w).log =
        w.log ++ Req.LsConnectionParamUpdateReq w.g.con_bd_addr p :: l := by
  refine ⟨_, _, rfl, rfl, ?_⟩
  simp only [requestConnParamUpdate, hT, if_true, h]
  split_ifs <;>
    simp_all [emit, ReportPanic, CPU_SELF_PARAMS_MAX_ATTEMPTS, PREFERRED_MAX_CON_INTERVAL,
      PREFERRED_MIN_CON_INTERVAL, PREFERRED_SLAVE_LATENCY, PREFERRED_SUPERVISION_TIMEOUT,
      APPLE_MAX_CON_INTERVAL, APPLE_MIN_CON_INTERVAL, APPLE_SLAVE_LATENCY,
      APPLE_SUPERVISION_TIMEOUT]

/-- The timer service delivering the expiry of a connection-parameter
request timer. -/
theorem timerExpiry_requestConnParamUpdate (F : Firmware) (T : Nat) (w : World) :
    timerExpiry F timer_cb.requestConnParamUpdate T w =
      requestConnParamUpdate F T (TimerDelete T w) := rfl

/-- C21. The device is connected, the stored connection-parameter handle is
that of timer A and the attempt counter is 0. The expiry of A issues nothing
and creates one timer, of 1 second with the callback requestConnParamUpdate,
which is live and whose handle is stored. The expiry of that timer B then
sets the attempt counter to 1, stores TIMER_INVALID as handle and 0 as timer
value, creates no timer and leaves live only timers that were live at the
start, neither A nor B among them; it issues the connection parameter update
request for the connected peer with min interval 27, max interval 27, latency
4 and supervision timeout 1000, and nothing else unless the firmware refuses
the request, which is then reported as a panic. -/
theorem C21_quiescence_then_first_request (F : Firmware) (A : Nat) (w : World)
    (h : w.g.state = app_state.app_state_connected)
    (hA : w.g.con_param_update_tid = A)
    (hn : w.g.num_conn_update_req = 0) :
    (issued w (timerExpiry F timer_cb.handleGapCppTimerExpiry A w) = [] ∧
      { id := (timerExpiry F timer_cb.handleGapCppTimerExpiry A w).g.con_param_update_tid
        period := 1 * SECOND
        cb := timer_cb.requestConnParamUpdate } ∈
        (timerExpiry F timer_cb.handleGapCppTimerExpiry A w).timers ∧
      (timerExpiry F timer_cb.handleGapCppTimerExpiry A w).created =
        w.created ++
          [{ id := (timerExpiry F timer_cb.handleGapCppTimerExpiry A w).g.con_param_update_tid
             period := 1 * SECOND
             cb := timer_cb.requestConnParamUpdate }] ∧
      (timerExpiry F timer_cb.handleGapCppTimerExpiry A w).g.cpu_timer_value = 1 * SECOND ∧
      (timerExpiry F timer_cb.handleGapCppTimerExpiry A w).g.num_conn_update_req = 0 ∧
      (timerExpiry F timer_cb.handleGapCppTimerExpiry A w).g.state =
        app_state.app_state_connected) ∧
    ((timerExpiry F timer_cb.requestConnParamUpdate
        (timerExpiry F timer_cb.handleGapCppTimerExpiry A w).g.con_param_update_tid
        (timerExpiry F timer_cb.handleGapCppTimerExpiry A w)).g.num_conn_update_req = 1 ∧
      (timerExpiry F timer_cb.requestConnParamUpdate
        (timerExpiry F timer_cb.handleGapCppTimerExpiry A w).g.con_param_update_tid
        (timerExpiry F timer_cb.handleGapCppTimerExpiry A w)).g.con_param_update_tid =
        TIMER_INVALID ∧
      (timerExpiry F timer_cb.requestConnParamUpdate
        (timerExpiry F timer_cb.handleGapCppTimerExpiry A w).g.con_param_update_tid
        (timerExpiry F timer_cb.handleGapCppTimerExpiry A w)).g.cpu_timer_value = 0 ∧
      (timerExpiry F timer_cb.requestConnParamUpdate
        (timerExpiry F timer_cb.handleGapCppTimerExpiry A w).g.con_param_update_tid
        (timerExpiry F timer_cb.handleGapCppTimerExpiry A w)).created =
        (timerExpiry F timer_cb.handleGapCppTimerExpiry A w).created ∧
      (∀ t ∈ (timerExpiry F timer_cb.requestConnParamUpdate
          (timerExpiry F timer_cb.handleGapCppTimerExpiry A w).g.con_param_update_tid
          (timerExpiry F timer_cb.handleGapCppTimerExpiry A w)).timers,
        t ∈ w.timers ∧ t.id ≠ A ∧
          t.id ≠ (timerExpiry F timer_cb.handleGapCppTimerExpiry A w).g.con_param_update_tid) ∧
      issued (timerExpiry F timer_cb.handleGapCppTimerExpiry A w)
        (timerExpiry F timer_cb.requestConnParamUpdate
          (timerExpiry F timer_cb.handleGapCppTimerExpiry A w).g.con_param_update_tid
          (timerExpiry F timer_cb.handleGapCppTimerExpiry A w)) =
        Req.LsConnectionParamUpdateReq w.g.con_bd_addr
            { con_max_interval := 27, con_min_interval := 27, con_slave_latency := 4,
              con_super_timeout := 1000 } ::
          (if F.LsConnectionParamUpdateReq w.g.con_bd_addr
              { con_max_interval := 27, con_min_interval := 27, con_slave_latency := 4,
                con_super_timeout := 1000 } = ls_err_none then []
           else [Req.Panic app_panic_code.app_panic_con_param_update])) := by
  obtain ⟨eg, et, ec, el⟩ := timerExpiry_handleGapCpp F A w hA
  generalize timerExpiry F timer_cb.handleGapCppTimerExpiry A w = wa at eg et ec el ⊢
  have hB : wa.g.con_param_update_tid = w.next_tid + 1 := by rw [eg]
  refine ⟨⟨?_, ?_, ?_, ?_, ?_, ?_⟩, ?_⟩
  · exact issued_of_log (by rw [el]; simp)
  · rw [et, hB]; simp [TGAP_CPC_PERIOD]
  · rw [ec, hB]; simp [TGAP_CPC_PERIOD]
  · rw [eg]; simp [TGAP_CPC_PERIOD]
  · rw [eg]; exact hn
  · rw [eg]; exact h
  · rw [timerExpiry_requestConnParamUpdate]
    obtain ⟨p, l, hp, hl, rg, rt, rc, rl⟩ := requestConnParamUpdate_eq F
      wa.g.con_param_update_tid (TimerDelete wa.g.con_param_update_tid wa)
      (by rw [TimerDelete_g, eg]; exact h) (by simp)
    generalize requestConnParamUpdate F wa.g.con_param_update_tid
      (TimerDelete wa.g.con_param_update_tid wa) = wb at rg rt rc rl ⊢
    have hc : (TimerDelete wa.g.con_param_update_tid wa).g.con_bd_addr = w.g.con_bd_addr := by
      rw [TimerDelete_g, eg]
    have hk : (TimerDelete wa.g.con_param_update_tid wa).g.num_conn_update_req = 0 := by
      rw [TimerDelete_g, eg]; exact hn
    rw [hk] at hp rg
    rw [hc] at hl rl
    simp only [Nat.zero_add, Nat.one_mod, Nat.one_le_ofNat, if_true] at hp
    subst hp
    refine ⟨by rw [rg], by rw [rg], by rw [rg], by rw [rc]; rfl, ?_, ?_⟩
    · intro t ht
      rw [rt, hB] at ht
      simp only [TimerDelete, et, List.filter_append, List.mem_append, List.mem_filter] at ht
      rw [hB]
      rcases ht with ht | ht
      · exact ⟨ht.1.1, by simpa using ht.1.2, by simpa using ht.2⟩
      · have e1 := List.mem_singleton.1 ht.1
        have e2 := ht.2
        rw [e1] at e2
        simp at e2
    · rw [← hl]
      exact issued_of_log (by rw [rl]; simp [TimerDelete])

/-- Witness of C21: the two expiries in the connected world `wConn`, whose
timer A has the handle 3. -/
theorem C21_witness :
    wConn.g.state = app_state.app_state_connected ∧ wConn.g.con_param_update_tid = 3 ∧
    wConn.g.num_conn_update_req = 0 ∧
    issued wConn (timerExpiry F0 timer_cb.handleGapCppTimerExpiry 3 wConn) = [] ∧
    (timerExpiry F0 timer_cb.requestConnParamUpdate
      (timerExpiry F0 timer_cb.handleGapCppTimerExpiry 3 wConn).g.con_param_update_tid
      (timerExpiry F0 timer_cb.handleGapCppTimerExpiry 3 wConn)).g.num_conn_update_req = 1 :=
  ⟨by decide, by decide, by decide,
    (C21_quiescence_then_first_request F0 3 wConn (by decide) (by decide) (by decide)).1.1,
    (C21_quiescence_then_first_request F0 3 wConn (by decide) (by decide) (by decide)).2.1⟩

/-- C23. The callback requestConnParamUpdate run in connected with the stored
handle issues exactly one connection parameter update request; writing n for
the attempt counter after its increment, the request carries min interval 27,
max interval 27, latency 4 and timeout 1000 when n is 1 or 2, and min
interval 6, max interval 27, latency 4 and timeout 600 when n is 3 or 4. Two
such runs from worlds with the same counter request the same parameters,
whatever the other fields, the handles and the answers of the firmware are. -/
theorem C23_profile_is_a_function_of_the_attempt (F : Firmware) (T : Nat) (w : World)
    (h : w.g.state = app_state.app_state_connected)
    (hT : w.g.con_param_update_tid = T) :
    (requestConnParamUpdate F T w).g.num_conn_update_req =
      (w.g.num_conn_update_req + 1) % 256 ∧
    (((requestConnParamUpdate F T w).g.num_conn_update_req = 1 ∨
        (requestConnParamUpdate F T w).g.num_conn_update_req = 2) →
      requestedParams (issued w (requestConnParamUpdate F T w)) =
        [{ con_max_interval := 27, con_min_interval := 27, con_slave_latency := 4,
           con_super_timeout := 1000 }]) ∧
    (((requestConnParamUpdate F T w).g.num_conn_update_req = 3 ∨
        (requestConnParamUpdate F T w).g.num_conn_update_req = 4) →
      requestedParams (issued w (requestConnParamUpdate F T w)) =
        [{ con_max_interval := 27, con_min_interval := 6, con_slave_latency := 4,
           con_super_timeout := 600 }]) ∧
    (∀ (F2 : Firmware) (T2 : Nat) (w2 : World),
      w2.g.state = app_state.app_state_connected → w2.g.con_param_update_tid = T2 →
      w2.g.num_conn_update_req = w.g.num_conn_update_req →
      requestedParams (issued w2 (requestConnParamUpdate F2 T2 w2)) =
        requestedParams (issued w (requestConnParamUpdate F T w))) := by
  have key : ∀ (G : Firmware) (S : Nat) (v : World),
      v.g.state = app_state.app_state_connected → v.g.con_param_update_tid = S →
      (requestConnParamUpdate G S v).g.num_conn_update_req =
        (v.g.num_conn_update_req + 1) % 256 ∧
      requestedParams (issued v (requestConnParamUpdate G S v)) =
        [if (v.g.num_conn_update_req + 1) % 256 ≤ 2 then
            { con_max_interval := 27, con_min_interval := 27, con_slave_latency := 4,
              con_super_timeout := 1000 }
          else
            { con_max_interval := 27, con_min_interval := 6, con_slave_latency := 4,
              con_super_timeout := 600 }] := by
    intro G S v hv hS
    obtain ⟨p, l, hp, hl, rg, _, _, rl⟩ := requestConnParamUpdate_eq G S v hv hS
    refine ⟨by rw [rg], ?_⟩
    rw [issued_of_log rl, ← hp, hl]
    split_ifs <;> simp [requestedParams]
  obtain ⟨k1, k2⟩ := key F T w h hT
  refine ⟨k1, fun hn => ?_, fun hn => ?_, fun F2 T2 w2 h2 hT2 he => ?_⟩
  · rw [k2]; rw [k1] at hn
    rcases hn with hn | hn <;> simp [hn]
  · rw [k2]; rw [k1] at hn
    rcases hn with hn | hn <;> simp [hn]
  · rw [k2, (key F2 T2 w2 h2 hT2).2, he]

/-- Witness of C23: the first attempt, made from `wA`, whose timer B has the
handle 4. -/
theorem C23_witness :
    wA.g.state = app_state.app_state_connected ∧ wA.g.con_param_update_tid = 4 ∧
    (requestConnParamUpdate F0 4 wA).g.num_conn_update_req = 1 ∧
    requestedParams (issued wA (requestConnParamUpdate F0 4 wA)) =
      [{ con_max_interval := 27, con_min_interval := 27, con_slave_latency := 4,
         con_super_timeout := 1000 }] :=
  ⟨by decide, by decide, by decide,
    (C23_profile_is_a_function_of_the_attempt F0 4 wA (by decide) (by decide)).2.1
      (Or.inl (by decide))⟩

/-! ## Attribute accesses and the second quiescence timer -/

theorem BatteryHandleAccessRead_timers (K : Config) (F : Firmware) (i : GATT_ACCESS_IND_T)
    (w : World) : (BatteryHandleAccessRead K F i w).timers = w.timers := by
  unfold BatteryHandleAccessRead; split_ifs <;> rfl

theorem BatteryHandleAccessWrite_timers (K : Config) (F : Firmware) (i : GATT_ACCESS_IND_T)
    (w : World) : (BatteryHandleAccessWrite K F i w).timers = w.timers := by
  unfold BatteryHandleAccessWrite AppIsDeviceBonded; dsimp only
  split_ifs <;> simp [BatteryUpdateLevel_timers, Nvm_Write]

theorem HealthThermoHandleAccessRead_timers (K : Config) (i : GATT_ACCESS_IND_T)
    (w : World) : (HealthThermoHandleAccessRead K i w).timers = w.timers := by
  unfold HealthThermoHandleAccessRead; split_ifs <;> rfl

theorem HealthThermoHandleAccessWrite_timers (K : Config) (i : GATT_ACCESS_IND_T)
    (w : World) : (HealthThermoHandleAccessWrite K i w).timers = w.timers := by
  unfold HealthThermoHandleAccessWrite AppIsDeviceBonded; dsimp only
  split_ifs <;> simp [Nvm_Write]

theorem DeviceInfoHandleAccessRead_timers (K : Config) (F : Firmware)
    (i : GATT_ACCESS_IND_T) (w : World) :
    (DeviceInfoHandleAccessRead K F i w).timers = w.timers := by
  unfold DeviceInfoHandleAccessRead; split_ifs
  · cases getSystemId F <;> rfl
  · rfl

theorem HandleAccessRead_timers (K : Config) (F : Firmware) (i : GATT_ACCESS_IND_T)
    (w : World) : (HandleAccessRead K F i w).timers = w.timers := by
  unfold HandleAccessRead
  split_ifs <;>
    simp [BatteryHandleAccessRead_timers, HealthThermoHandleAccessRead_timers,
      DeviceInfoHandleAccessRead_timers]

theorem HandleAccessWrite_timers (K : Config) (F : Firmware) (i : GATT_ACCESS_IND_T)
    (w : World) : (HandleAccessWrite K F i w).timers = w.timers := by
  unfold HandleAccessWrite
  split_ifs <;> simp [BatteryHandleAccessWrite_timers, HealthThermoHandleAccessWrite_timers]

/-- The measurement callback deletes no timer. -/
theorem htTempMeasTimerHandler_timers_mono (tid : Nat) (w : World) (t : Timer)
    (ht : t ∈ w.timers) : t ∈ (htTempMeasTimerHandler tid w).timers := by
  unfold htTempMeasTimerHandler
  dsimp only
  split_ifs
  · cases hs : w.g.state <;> simp [TimerCreate, ht]
  · exact ht

/-- A timer created by htTempMeasTimerHandler is the measurement timer. -/
theorem htTempMeasTimerHandler_created_mem (tid : Nat) (w : World) (t : Timer)
    (ht : t ∈ (htTempMeasTimerHandler tid w).created) :
    t ∈ w.created ∨ t.cb = timer_cb.htTempMeasTimerHandler := by
  unfold htTempMeasTimerHandler at ht
  dsimp only at ht
  split_ifs at ht with h1
  · cases hs : w.g.state <;> simp [hs, TimerCreate] at ht <;> first | exact Or.inl ht | skip
    rcases ht with ht | ht
    · exact Or.inl ht
    · exact Or.inr (by rw [ht])
  · exact Or.inl ht

/-- The handler of an attribute access in connected: the debounce of the
second quiescence timer, then the access itself. -/
theorem GattAccessInd_eq (K : Config) (F : Firmware) (i : GATT_ACCESS_IND_T) (w : World)
    (h : w.g.state = app_state.app_state_connected) :
    ∃ v : World,
      v = (if w.g.cpu_timer_value = TGAP_CPC_PERIOD ∧ w.g.con_param_update_tid ≠ TIMER_INVALID
        then
          { w with
            g := { w.g with con_param_update_tid := w.next_tid + 1 }
            timers := w.timers.filter (fun t => t.id != w.g.con_param_update_tid) ++
              [{ id := w.next_tid + 1, period := TGAP_CPC_PERIOD,
                 cb := timer_cb.requestConnParamUpdate }]
            created := w.created ++
              [{ id := w.next_tid + 1, period := TGAP_CPC_PERIOD,
                 cb := timer_cb.requestConnParamUpdate }]
            next_tid := w.next_tid + 1 }
        else w) ∧
      handleSignalGattAccessInd K F i w =
        (if i.flags = (ATT_ACCESS_WRITE ||| ATT_ACCESS_PERMISSION ||| ATT_ACCESS_WRITE_COMPLETE)
        then
          if (HandleAccessWrite K F i v).g.encrypt_enabled = true then
            htTempMeasTimerHandler TIMER_INVALID
              { TimerDelete (HandleAccessWrite K F i v).g.app_tid (HandleAccessWrite K F i v) with
                g := { (HandleAccessWrite K F i v).g with app_tid := TIMER_INVALID } }
          else HandleAccessWrite K F i v
        else if i.flags = (ATT_ACCESS_READ ||| ATT_ACCESS_PERMISSION) then
          HandleAccessRead K F i v
        else
          emit (Req.GattAccessRsp i.cid i.handle sys_status.gatt_status_request_not_supported
            0 []) v) := by
  refine ⟨_, rfl, ?_⟩
  simp only [handleSignalGattAccessInd, h]
  split_ifs <;> simp_all [TimerCreate, TimerDelete]

/-- The access itself, after the debounce: it leaves the connection-parameter
fields alone, creates no timer but the measurement timer and deletes no timer
but the one of app_tid. -/
theorem GattAccessInd_access (K : Config) (F : Firmware) (i : GATT_ACCESS_IND_T)
    (v r : World)
    (hr : r =
      (if i.flags = (ATT_ACCESS_WRITE ||| ATT_ACCESS_PERMISSION ||| ATT_ACCESS_WRITE_COMPLETE)
      then
        if (HandleAccessWrite K F i v).g.encrypt_enabled = true then
          htTempMeasTimerHandler TIMER_INVALID
            { TimerDelete (HandleAccessWrite K F i v).g.app_tid (HandleAccessWrite K F i v) with
              g := { (HandleAccessWrite K F i v).g with app_tid := TIMER_INVALID } }
        else HandleAccessWrite K F i v
      else if i.flags = (ATT_ACCESS_READ ||| ATT_ACCESS_PERMISSION) then
        HandleAccessRead K F i v
      else
        emit (Req.GattAccessRsp i.cid i.handle sys_status.gatt_status_request_not_supported
          0 []) v)) :
    r.g.con_param_update_tid = v.g.con_param_update_tid ∧
    r.g.num_conn_update_req = v.g.num_conn_update_req ∧
    r.g.cpu_timer_value = v.g.cpu_timer_value ∧
    (∀ t ∈ r.timers, t ∈ v.timers ∨ t.cb = timer_cb.htTempMeasTimerHandler) ∧
    (∀ t ∈ v.timers, t.id ≠ v.g.app_tid → t ∈ r.timers) ∧
    (∀ t ∈ r.created, t ∈ v.created ∨ t.cb = timer_cb.htTempMeasTimerHandler) ∧
    (∀ t ∈ v.created, t ∈ r.created) := by
  subst hr
  split_ifs with h1 h2 h3
  · refine ⟨by simp, by simp, by simp, fun t ht => ?_, fun t ht hne => ?_, fun t ht => ?_,
      fun t ht => ?_⟩
    · rcases htTempMeasTimerHandler_timers_mem _ _ t ht with ht | ht
      · simp only [TimerDelete, HandleAccessWrite_timers, List.mem_filter] at ht
        exact Or.inl ht.1
      · exact Or.inr ht
    · apply htTempMeasTimerHandler_timers_mono
      simp only [TimerDelete, HandleAccessWrite_timers, List.mem_filter, HandleAccessWrite_g]
      exact ⟨ht, by simpa using hne⟩
    · rcases htTempMeasTimerHandler_created_mem _ _ t ht with ht | ht
      · simp only [TimerDelete, HandleAccessWrite_created] at ht
        exact Or.inl ht
      · exact Or.inr ht
    · have hm : ∀ (x : World), t ∈ x.created →
          t ∈ (htTempMeasTimerHandler TIMER_INVALID x).created := by
        intro x hx
        unfold htTempMeasTimerHandler
        dsimp only
        split_ifs
        · cases hs : x.g.state <;> simp [TimerCreate, hx]
        · exact hx
      apply hm
      simp only [TimerDelete, HandleAccessWrite_created]
      exact ht
  · refine ⟨by simp, by simp, by simp, fun t ht => ?_, fun t ht _ => ?_, fun t ht => ?_,
      fun t ht => ?_⟩
    · rw [HandleAccessWrite_timers] at ht; exact Or.inl ht
    · rw [HandleAccessWrite_timers]; exact ht
    · rw [HandleAccessWrite_created] at ht; exact Or.inl ht
    · rw [HandleAccessWrite_created]; exact ht
  · refine ⟨by simp, by simp, by simp, fun t ht => ?_, fun t ht _ => ?_, fun t ht => ?_,
      fun t ht => ?_⟩
    · rw [HandleAccessRead_timers] at ht; exact Or.inl ht
    · rw [HandleAccessRead_timers]; exact ht
    · rw [HandleAccessRead_created] at ht; exact Or.inl ht
    · rw [HandleAccessRead_created]; exact ht
  · exact ⟨rfl, rfl, rfl, fun t ht => Or.inl ht, fun t ht _ => ht, fun t ht => Or.inl ht,
      fun t ht => ht⟩

/-- C22. An attribute access handled in connected. When timer B is the one
outstanding (cpu_timer_value is the period of B, 1 second, and the stored
handle is valid) a fresh timer of 1 second with the callback
requestConnParamUpdate is created and its handle stored; it is live, and no
live request timer has the old handle any more (both said of handles that the
timer service has issued). In every other case, so while timer A (5 seconds)
or the retry timer (30 seconds) is outstanding or no handle is stored, the
stored handle is unchanged and no timer other than the measurement timer is
created. The attempt counter and cpu_timer_value are unchanged in all
cases. -/
theorem C22_access_debounces_timer_B (K : Config) (F : Firmware) (i : GATT_ACCESS_IND_T)
    (w : World) (h : w.g.state = app_state.app_state_connected) :
    ((w.g.cpu_timer_value = 1 * SECOND ∧ w.g.con_param_update_tid ≠ TIMER_INVALID) →
      (handleSignalGattAccessInd K F i w).g.con_param_update_tid = w.next_tid + 1 ∧
      { id := w.next_tid + 1, period := 1 * SECOND, cb := timer_cb.requestConnParamUpdate } ∈
        (handleSignalGattAccessInd K F i w).created ∧
      (w.g.app_tid ≤ w.next_tid →
        { id := w.next_tid + 1, period := 1 * SECOND, cb := timer_cb.requestConnParamUpdate } ∈
          (handleSignalGattAccessInd K F i w).timers) ∧
      (w.g.con_param_update_tid ≤ w.next_tid →
        ∀ t ∈ (handleSignalGattAccessInd K F i w).timers,
          t.cb = timer_cb.requestConnParamUpdate → t.id ≠ w.g.con_param_update_tid)) ∧
    (¬ (w.g.cpu_timer_value = 1 * SECOND ∧ w.g.con_param_update_tid ≠ TIMER_INVALID) →
      (handleSignalGattAccessInd K F i w).g.con_param_update_tid = w.g.con_param_update_tid ∧
      (∀ t ∈ (handleSignalGattAccessInd K F i w).created,
        t ∈ w.created ∨ t.cb = timer_cb.htTempMeasTimerHandler)) ∧
    ((w.g.cpu_timer_value = 5 * SECOND ∨ w.g.cpu_timer_value = 30 * SECOND ∨
        w.g.con_param_update_tid = TIMER_INVALID) →
      (handleSignalGattAccessInd K F i w).g.con_param_update_tid = w.g.con_param_update_tid) ∧
    (handleSignalGattAccessInd K F i w).g.num_conn_update_req = w.g.num_conn_update_req ∧
    (handleSignalGattAccessInd K F i w).g.cpu_timer_value = w.g.cpu_timer_value := by
  obtain ⟨v, hv, hr⟩ := GattAccessInd_eq K F i w h
  obtain ⟨a1, a2, a3, a4, a5, a6, a7⟩ := GattAccessInd_access K F i v _ hr
  have hB : TGAP_CPC_PERIOD = 1 * SECOND := rfl
  rw [hB] at hv
  have hpos : (w.g.cpu_timer_value = 1 * SECOND ∧ w.g.con_param_update_tid ≠ TIMER_INVALID) →
      v.g.con_param_update_tid = w.next_tid + 1 ∧
      v.timers = w.timers.filter (fun t => t.id != w.g.con_param_update_tid) ++
        [{ id := w.next_tid + 1, period := 1 * SECOND,
           cb := timer_cb.requestConnParamUpdate }] ∧
      v.created = w.created ++
        [{ id := w.next_tid + 1, period := 1 * SECOND,
           cb := timer_cb.requestConnParamUpdate }] ∧
      v.g.app_tid = w.g.app_tid := by
    intro hc
    rw [if_pos hc] at hv
    subst hv
    exact ⟨rfl, rfl, rfl, rfl⟩
  have hneg : ¬ (w.g.cpu_timer_value = 1 * SECOND ∧ w.g.con_param_update_tid ≠ TIMER_INVALID) →
      v = w := by
    intro hc
    rw [if_neg hc] at hv
    exact hv
  have hnum : v.g.num_conn_update_req = w.g.num_conn_update_req ∧
      v.g.cpu_timer_value = w.g.cpu_timer_value := by
    subst hv
    split_ifs <;> exact ⟨rfl, rfl⟩
  refine ⟨fun hc => ?_, fun hc => ?_, fun hc => ?_, by rw [a2, hnum.1], by rw [a3, hnum.2]⟩
  · obtain ⟨p1, p2, p3, p4⟩ := hpos hc
    refine ⟨by rw [a1, p1], a7 _ (by rw [p3]; simp), fun hle => ?_, fun hle t ht hcb => ?_⟩
    · apply a5
      · rw [p2]; simp
      · rw [p4]; show w.next_tid + 1 ≠ w.g.app_tid; omega
    · rcases a4 t ht with ht | ht
      · rw [p2] at ht
        simp only [List.mem_append, List.mem_filter, List.mem_singleton] at ht
        rcases ht with ht | ht
        · simpa using ht.2
        · rw [ht]; show w.next_tid + 1 ≠ w.g.con_param_update_tid; omega
      · rw [hcb] at ht
        exact absurd ht (by decide)
  · rw [hneg hc] at a1 a6
    exact ⟨a1, a6⟩
  · have hc2 : ¬ (w.g.cpu_timer_value = 1 * SECOND ∧
        w.g.con_param_update_tid ≠ TIMER_INVALID) := by
      rintro ⟨c1, c2⟩
      rcases hc with hc | hc | hc
      · rw [c1] at hc; exact absurd hc (by decide)
      · rw [c1] at hc; exact absurd hc (by decide)
      · exact c2 hc
    rw [hneg hc2] at a1
    exact a1

/-- Witness of C22: a read access in `wA`, where timer B (handle 4) is
outstanding, and in `wConn`, where timer A is. -/
theorem C22_witness :
    wA.g.state = app_state.app_state_connected ∧ wA.g.cpu_timer_value = 1 * SECOND ∧
    wA.g.con_param_update_tid = 4 ∧ wA.next_tid = 4 ∧
    (handleSignalGattAccessInd K0 F0 indRead wA).g.con_param_update_tid = 5 ∧
    { id := 5, period := 1 * SECOND, cb := timer_cb.requestConnParamUpdate } ∈
      (handleSignalGattAccessInd K0 F0 indRead wA).timers ∧
    wConn.g.cpu_timer_value = 5 * SECOND ∧
    (handleSignalGattAccessInd K0 F0 indRead wConn).g.con_param_update_tid =
      wConn.g.con_param_update_tid :=
  ⟨by decide, by decide, by decide, by decide,
    ((C22_access_debounces_timer_B K0 F0 indRead wA (by decide)).1
      ⟨by decide, by decide⟩).1,
    ((C22_access_debounces_timer_B K0 F0 indRead wA (by decide)).1
      ⟨by decide, by decide⟩).2.2.1 (by decide),
    by decide,
    (C22_access_debounces_timer_B K0 F0 indRead wConn (by decide)).2.2.1 (Or.inl (by decide))⟩

/-! ## Confirmation and completion of a parameter update -/

/-- C24. A confirmation of a connection parameter update request handled in
connected. When its status is a failure and the attempt counter is less than
4, the timer of the stored handle is deleted and one timer of 30 seconds with
the callback requestConnParamUpdate is created, live and stored with its
period; the attempt counter is unchanged and nothing is requested, and the
expiry of that timer issues exactly one update request. In every other case,
so with a failure and the counter at 4 or with the success status, the world
is returned as it was. -/
theorem C24_retry_budget (F : Firmware) (status : sys_status) (w : World)
    (h : w.g.state = app_state.app_state_connected) :
    ((status ≠ ls_err_none ∧ w.g.num_conn_update_req < 4) →
      (handleSignalLsConnParamUpdateCfm status w).g.con_param_update_tid = w.next_tid + 1 ∧
      (handleSignalLsConnParamUpdateCfm status w).timers =
        w.timers.filter (fun t => t.id != w.g.con_param_update_tid) ++
          [{ id := w.next_tid + 1, period := 30 * SECOND,
             cb := timer_cb.requestConnParamUpdate }] ∧
      (handleSignalLsConnParamUpdateCfm status w).created =
        w.created ++
          [{ id := w.next_tid + 1, period := 30 * SECOND,
             cb := timer_cb.requestConnParamUpdate }] ∧
      (handleSignalLsConnParamUpdateCfm status w).g.cpu_timer_value = 30 * SECOND ∧
      (handleSignalLsConnParamUpdateCfm status w).g.num_conn_update_req =
        w.g.num_conn_update_req ∧
      (handleSignalLsConnParamUpdateCfm status w).g.state = app_state.app_state_connected ∧
      issued w (handleSignalLsConnParamUpdateCfm status w) = [] ∧
      (requestedParams (issued (handleSignalLsConnParamUpdateCfm status w)
        (timerExpiry F timer_cb.requestConnParamUpdate (w.next_tid + 1)
          (handleSignalLsConnParamUpdateCfm status w)))).length = 1) ∧
    (¬ (status ≠ ls_err_none ∧ w.g.num_conn_update_req < 4) →
      handleSignalLsConnParamUpdateCfm status w = w) ∧
    (status ≠ ls_err_none → w.g.num_conn_update_req = 4 →
      handleSignalLsConnParamUpdateCfm status w = w) ∧
    (status = ls_err_none → handleSignalLsConnParamUpdateCfm status w = w) := by
  have hneg : ¬ (status ≠ ls_err_none ∧ w.g.num_conn_update_req < 4) →
      handleSignalLsConnParamUpdateCfm status w = w := by
    intro hc
    simp only [handleSignalLsConnParamUpdateCfm, h, MAX_NUM_CONN_PARAM_UPDATE_REQS]
    rw [if_neg hc]
  refine ⟨fun hc => ?_, hneg, fun _ h4 => hneg (fun hc => by omega),
    fun hs => hneg (fun hc => hc.1 hs)⟩
  have hc2 : status ≠ ls_err_none ∧ w.g.num_conn_update_req < MAX_NUM_CONN_PARAM_UPDATE_REQS :=
    hc
  have hG : GAP_CONN_PARAM_TIMEOUT = 30 * SECOND := rfl
  have eg : (handleSignalLsConnParamUpdateCfm status w).g =
      { w.g with
        con_param_update_tid := w.next_tid + 1
        cpu_timer_value := GAP_CONN_PARAM_TIMEOUT } := by
    simp [handleSignalLsConnParamUpdateCfm, h, hc2, TimerCreate, TimerDelete]
  have et : (handleSignalLsConnParamUpdateCfm status w).timers =
      w.timers.filter (fun t => t.id != w.g.con_param_update_tid) ++
        [{ id := w.next_tid + 1, period := GAP_CONN_PARAM_TIMEOUT,
           cb := timer_cb.requestConnParamUpdate }] := by
    simp [handleSignalLsConnParamUpdateCfm, h, hc2, TimerCreate, TimerDelete]
  have ec : (handleSignalLsConnParamUpdateCfm status w).created =
      w.created ++
        [{ id := w.next_tid + 1, period := GAP_CONN_PARAM_TIMEOUT,
           cb := timer_cb.requestConnParamUpdate }] := by
    simp [handleSignalLsConnParamUpdateCfm, h, hc2, TimerCreate, TimerDelete]
  have el : (handleSignalLsConnParamUpdateCfm status w).log = w.log := by
    simp [handleSignalLsConnParamUpdateCfm, h, hc2, TimerCreate, TimerDelete]
  generalize handleSignalLsConnParamUpdateCfm status w = r at eg et ec el ⊢
  refine ⟨by rw [eg], by rw [et, hG], by rw [ec, hG], by rw [eg, hG], by rw [eg], by rw [eg]; exact h,
    issued_of_log (by rw [el]; simp), ?_⟩
  rw [timerExpiry_requestConnParamUpdate]
  obtain ⟨p, l, _, hl, _, _, _, rl⟩ := requestConnParamUpdate_eq F (w.next_tid + 1)
    (TimerDelete (w.next_tid + 1) r) (by rw [TimerDelete_g, eg]; exact h)
    (by rw [TimerDelete_g, eg])
  rw [issued_of_log (l := Req.LsConnectionParamUpdateReq
    (TimerDelete (w.next_tid + 1) r).g.con_bd_addr p :: l) (by rw [rl]; rfl), hl]
  split_ifs <;> simp [requestedParams]

/-- Witness of C24: the first request of `wB` is refused. -/
theorem C24_witness :
    wB.g.state = app_state.app_state_connected ∧ wB.g.num_conn_update_req = 1 ∧
    (handleSignalLsConnParamUpdateCfm (sys_status.other 1) wB).g.cpu_timer_value =
      30 * SECOND ∧
    (handleSignalLsConnParamUpdateCfm (sys_status.other 1) wB).g.num_conn_update_req = 1 ∧
    handleSignalLsConnParamUpdateCfm sys_status.sys_status_success wB = wB :=
  ⟨by decide, by decide,
    ((C24_retry_budget F0 (sys_status.other 1) wB (by decide)).1
      ⟨by decide, by decide⟩).2.2.2.1,
    ((C24_retry_budget F0 (sys_status.other 1) wB (by decide)).1
      ⟨by decide, by decide⟩).2.2.2.2.1,
    (C24_retry_budget F0 sys_status.sys_status_success wB (by decide)).2.2.2 rfl⟩

/-- The envelope test, spelled out. -/
theorem paramsOutsidePreferred_iff (v : World) :
    paramsOutsidePreferred v = true ↔
      (v.g.conn_interval < 27 ∨ v.g.conn_interval > 27 ∨ v.g.conn_latency < 4) := by
  simp [paramsOutsidePreferred, PREFERRED_MIN_CON_INTERVAL, PREFERRED_MAX_CON_INTERVAL,
    PREFERRED_SLAVE_LATENCY]

/-- The completion of a parameter update in connected, when the stored link
parameters are outside the preferred envelope. -/
theorem ConnParamUpdateInd_outside (w : World)
    (h : w.g.state = app_state.app_state_connected)
    (ho : w.g.conn_interval < 27 ∨ w.g.conn_interval > 27 ∨ w.g.conn_latency < 4) :
    (handleSignalLsConnParamUpdateInd w).g =
      { w.g with
        con_param_update_tid := w.next_tid + 1
        cpu_timer_value := GAP_CONN_PARAM_TIMEOUT
        num_conn_update_req := 0 } ∧
    (handleSignalLsConnParamUpdateInd w).timers =
      w.timers.filter (fun t => t.id != w.g.con_param_update_tid) ++
        [{ id := w.next_tid + 1, period := GAP_CONN_PARAM_TIMEOUT,
           cb := timer_cb.requestConnParamUpdate }] ∧
    (handleSignalLsConnParamUpdateInd w).created =
      w.created ++
        [{ id := w.next_tid + 1, period := GAP_CONN_PARAM_TIMEOUT,
           cb := timer_cb.requestConnParamUpdate }] ∧
    (handleSignalLsConnParamUpdateInd w).log = w.log := by
  simp only [handleSignalLsConnParamUpdateInd, h]
  have hp : ∀ v : World, v.g.conn_interval = w.g.conn_interval →
      v.g.conn_latency = w.g.conn_latency → paramsOutsidePreferred v = true := by
    intro v e1 e2
    rw [paramsOutsidePreferred_iff, e1, e2]
    exact ho
  split_ifs with hh
  · simp [TimerCreate, TimerDelete, h]
  · exact (hh (hp _ rfl rfl)).elim

/-- The completion of a parameter update in connected, when the stored link
parameters are inside the preferred envelope. -/
theorem ConnParamUpdateInd_inside (w : World)
    (h : w.g.state = app_state.app_state_connected)
    (hi : ¬ (w.g.conn_interval < 27 ∨ w.g.conn_interval > 27 ∨ w.g.conn_latency < 4)) :
    (handleSignalLsConnParamUpdateInd w).g =
      { w.g with
        con_param_update_tid := TIMER_INVALID
        cpu_timer_value := 0 } ∧
    (handleSignalLsConnParamUpdateInd w).timers =
      w.timers.filter (fun t => t.id != w.g.con_param_update_tid) ∧
    (handleSignalLsConnParamUpdateInd w).created = w.created ∧
    (handleSignalLsConnParamUpdateInd w).log = w.log := by
  simp only [handleSignalLsConnParamUpdateInd, h]
  have hp : ∀ v : World, v.g.conn_interval = w.g.conn_interval →
      v.g.conn_latency = w.g.conn_latency → ¬ paramsOutsidePreferred v = true := by
    intro v e1 e2
    rw [paramsOutsidePreferred_iff, e1, e2]
    exact hi
  split_ifs with hh
  · exact (hp _ rfl rfl hh).elim
  · simp [TimerDelete, h]

/-- C25, as stated, fails: in `wB` (connected, stored interval 20, below the
envelope) the completion of a parameter update stores the handle of a timer of
30 seconds with the callback requestConnParamUpdate, and no timer with the
callback of timer A is live. -/
theorem C25_counterexample :
    wB.g.state = app_state.app_state_connected ∧ wB.g.conn_interval < 27 ∧
    (handleSignalLsConnParamUpdateInd wB).timers.filter
      (fun t => t.id == (handleSignalLsConnParamUpdateInd wB).g.con_param_update_tid) =
      [{ id := 5, period := 30 * SECOND, cb := timer_cb.requestConnParamUpdate }] ∧
    liveTimers [timer_cb.handleGapCppTimerExpiry] (handleSignalLsConnParamUpdateInd wB) = [] := by
  decide

/-- C25, amended. When a parameter-update completion is handled in connected
and the stored link parameters are outside the envelope, the attempt counter
is reset to 0, the timer of the stored handle is deleted and the one timer
created is of 30 seconds with the callback requestConnParamUpdate; it is live
and stored, with its period in cpu_timer_value; nothing is requested. The
expiry of that timer issues the first update request directly, with the
self-preferred parameters. -/
theorem C25_completion_outside_envelope (F : Firmware) (w : World)
    (h : w.g.state = app_state.app_state_connected)
    (ho : w.g.conn_interval < 27 ∨ w.g.conn_interval > 27 ∨ w.g.conn_latency < 4) :
    (handleSignalLsConnParamUpdateInd w).g.num_conn_update_req = 0 ∧
    (handleSignalLsConnParamUpdateInd w).g.con_param_update_tid = w.next_tid + 1 ∧
    (handleSignalLsConnParamUpdateInd w).timers =
      w.timers.filter (fun t => t.id != w.g.con_param_update_tid) ++
        [{ id := w.next_tid + 1, period := 30 * SECOND,
           cb := timer_cb.requestConnParamUpdate }] ∧
    (handleSignalLsConnParamUpdateInd w).created =
      w.created ++
        [{ id := w.next_tid + 1, period := 30 * SECOND,
           cb := timer_cb.requestConnParamUpdate }] ∧
    (handleSignalLsConnParamUpdateInd w).g.cpu_timer_value = 30 * SECOND ∧
    (handleSignalLsConnParamUpdateInd w).g.state = app_state.app_state_connected ∧
    issued w (handleSignalLsConnParamUpdateInd w) = [] ∧
    requestedParams (issued (handleSignalLsConnParamUpdateInd w)
      (timerExpiry F timer_cb.requestConnParamUpdate (w.next_tid + 1)
        (handleSignalLsConnParamUpdateInd w))) =
      [{ con_max_interval := 27, con_min_interval := 27, con_slave_latency := 4,
         con_super_timeout := 1000 }] := by
  obtain ⟨eg, et, ec, el⟩ := ConnParamUpdateInd_outside w h ho
  have hG : GAP_CONN_PARAM_TIMEOUT = 30 * SECOND := rfl
  generalize handleSignalLsConnParamUpdateInd w = r at eg et ec el ⊢
  refine ⟨by rw [eg], by rw [eg], by rw [et, hG], by rw [ec, hG], by rw [eg, hG],
    by rw [eg]; exact h, issued_of_log (by rw [el]; simp), ?_⟩
  rw [timerExpiry_requestConnParamUpdate]
  obtain ⟨p, l, hp, hl, _, _, _, rl⟩ := requestConnParamUpdate_eq F (w.next_tid + 1)
    (TimerDelete (w.next_tid + 1) r) (by rw [TimerDelete_g, eg]; exact h)
    (by rw [TimerDelete_g, eg])
  have hk : (TimerDelete (w.next_tid + 1) r).g.num_conn_update_req = 0 := by
    rw [TimerDelete_g, eg]
  rw [hk] at hp
  simp only [Nat.zero_add, Nat.one_mod, Nat.one_le_ofNat, if_true] at hp
  rw [issued_of_log (l := Req.LsConnectionParamUpdateReq
    (TimerDelete (w.next_tid + 1) r).g.con_bd_addr p :: l) (by rw [rl]; rfl), hl, hp]
  split_ifs <;> simp [requestedParams]

/-- Witness of C25: the completion in `wB`, whose stored interval is 20. -/
theorem C25_witness :
    wB.g.state = app_state.app_state_connected ∧ wB.g.conn_interval = 20 ∧
    (handleSignalLsConnParamUpdateInd wB).g.num_conn_update_req = 0 ∧
    (handleSignalLsConnParamUpdateInd wB).g.cpu_timer_value = 30 * SECOND :=
  ⟨by decide, by decide,
    (C25_completion_outside_envelope F0 wB (by decide) (Or.inl (by decide))).1,
    (C25_completion_outside_envelope F0 wB (by decide) (Or.inl (by decide))).2.2.2.2.1⟩

/-- C26. When a parameter-update completion is handled in connected and the
stored link parameters are inside the envelope (interval 27, latency at least
4), the timer of the stored handle is deleted, the stored handle becomes
TIMER_INVALID and cpu_timer_value 0; no timer is created and nothing, so no
update request, is issued. -/
theorem C26_completion_inside_envelope (w : World)
    (h : w.g.state = app_state.app_state_connected)
    (hi : w.g.conn_interval = 27) (hl : 4 ≤ w.g.conn_latency) :
    (handleSignalLsConnParamUpdateInd w).g.con_param_update_tid = TIMER_INVALID ∧
    (handleSignalLsConnParamUpdateInd w).g.cpu_timer_value = 0 ∧
    (handleSignalLsConnParamUpdateInd w).timers =
      w.timers.filter (fun t => t.id != w.g.con_param_update_tid) ∧
    (handleSignalLsConnParamUpdateInd w).created = w.created ∧
    issued w (handleSignalLsConnParamUpdateInd w) = [] ∧
    (handleSignalLsConnParamUpdateInd w).g.state = app_state.app_state_connected := by
  obtain ⟨eg, et, ec, el⟩ := ConnParamUpdateInd_inside w h (by omega)
  exact ⟨by rw [eg], by rw [eg], et, ec, issued_of_log (by rw [el]; simp), by rw [eg]; exact h⟩

/-- Witness of C26: the completion in `wIn`, whose stored parameters are the
interval 27 and the latency 4. -/
theorem C26_witness :
    wIn.g.state = app_state.app_state_connected ∧ wIn.g.conn_interval = 27 ∧
    wIn.g.conn_latency = 4 ∧
    (handleSignalLsConnParamUpdateInd wIn).g.con_param_update_tid = TIMER_INVALID ∧
    issued wIn (handleSignalLsConnParamUpdateInd wIn) = [] :=
  ⟨by decide, by decide, by decide,
    (C26_completion_inside_envelope wIn (by decide) (by decide) (by decide)).1,
    (C26_completion_inside_envelope wIn (by decide) (by decide) (by decide)).2.2.2.2.1⟩

/-- C27, as stated, fails. In `wIn` (connected, one update request made, link
parameters now inside the envelope) the completion of the update leaves the
attempt counter at 1. In `wUp` (fast advertising after that connection, the
new link inside the envelope) the successful connect confirmation leads to
connected with the attempt counter still at 1. -/
theorem C27_counterexample :
    wIn.g.state = app_state.app_state_connected ∧ wIn.g.conn_interval = 27 ∧
    wIn.g.conn_latency = 4 ∧
    (handleSignalLsConnParamUpdateInd wIn).g.num_conn_update_req = 1 ∧
    wUp.g.state = app_state.app_state_fast_advertising ∧
    (handleSignalGattConnectCfm F0 sys_status.sys_status_success 1 addrPublic wUp).g.state =
      app_state.app_state_connected ∧
    (handleSignalGattConnectCfm F0 sys_status.sys_status_success 1 addrPublic
      wUp).g.num_conn_update_req = 1 := by
  decide

/-- C27, amended. The attempt counter is 0 after every successful connect
confirmation that leads from an advertising state with no connection-parameter
handle stored to connected with the stored link parameters outside the
envelope, and after every parameter-update completion handled in connected
with the stored link parameters outside the envelope, for every prior value
of the counter. With parameters inside the envelope neither handler writes
the counter: it keeps its prior value. -/
theorem C27_counter_reset_when_negotiation_starts (F : Firmware) (cid : Nat)
    (bd_addr : TYPED_BD_ADDR_T) (w : World) :
    ((w.g.state = app_state.app_state_fast_advertising ∨
        w.g.state = app_state.app_state_slow_advertising) →
      w.g.con_param_update_tid = TIMER_INVALID →
      (handleSignalGattConnectCfm F sys_status.sys_status_success cid bd_addr w).g.state =
        app_state.app_state_connected →
      ((w.g.conn_interval < 27 ∨ w.g.conn_interval > 27 ∨ w.g.conn_latency < 4) →
        (handleSignalGattConnectCfm F sys_status.sys_status_success cid bd_addr
          w).g.num_conn_update_req = 0) ∧
      (¬ (w.g.conn_interval < 27 ∨ w.g.conn_interval > 27 ∨ w.g.conn_latency < 4) →
        (handleSignalGattConnectCfm F sys_status.sys_status_success cid bd_addr
          w).g.num_conn_update_req = w.g.num_conn_update_req)) ∧
    (w.g.state = app_state.app_state_connected →
      ((w.g.conn_interval < 27 ∨ w.g.conn_interval > 27 ∨ w.g.conn_latency < 4) →
        (handleSignalLsConnParamUpdateInd w).g.num_conn_update_req = 0) ∧
      (¬ (w.g.conn_interval < 27 ∨ w.g.conn_interval > 27 ∨ w.g.conn_latency < 4) →
        (handleSignalLsConnParamUpdateInd w).g.num_conn_update_req =
          w.g.num_conn_update_req)) := by
  constructor
  · intro h htid hconn
    have hc : ¬ (w.g.bonded = true ∧ GattIsAddressResolvableRandom w.g.bonded_bd_addr = true ∧
        F.SMPrivacyMatchAddress bd_addr w.g.central_device_irk < 0) := by
      intro hc
      have hni : w.g.state ≠ app_state.app_state_init := by
        rcases h with h | h <;> simp [h]
      rw [connectCfm_success_mismatch F cid bd_addr w h hc] at hconn
      simp [hni] at hconn
    rw [connectCfm_success_admitted F cid bd_addr w h hc]
    obtain ⟨e1, e2, e3, _, _⟩ := AppSetState_connected_of_advertising F
      { w with g := { w.g with st_ucid := cid, con_bd_addr := bd_addr } } h
    simp only at e1 e2 e3
    have hp : paramsOutsidePreferred (AppSetState F app_state.app_state_connected
        { w with g := { w.g with st_ucid := cid, con_bd_addr := bd_addr } }) = true ↔
        (w.g.conn_interval < 27 ∨ w.g.conn_interval > 27 ∨ w.g.conn_latency < 4) := by
      rw [paramsOutsidePreferred_iff, e2, e3]
    dsimp only
    refine ⟨fun ho => ?_, fun hi => ?_⟩
    · rw [if_pos ⟨by rw [e1, htid], hp.2 ho⟩]
      simp [TimerCreate]
    · rw [if_neg (fun hh => hi (hp.1 hh.2))]
      simp
  · intro h
    exact ⟨fun ho => by rw [(ConnParamUpdateInd_outside w h ho).1],
      fun hi => by rw [(ConnParamUpdateInd_inside w h hi).1]⟩

/-- Witness of C27: the connect confirmation in `wLink` (interval 20) and in
`wUp` (interval 27, latency 4, counter 1), the completion in `wB` (interval
20, counter 1). -/
theorem C27_witness :
    wLink.g.state = app_state.app_state_fast_advertising ∧
    (handleSignalGattConnectCfm F0 sys_status.sys_status_success 1 addrPublic
      wLink).g.num_conn_update_req = 0 ∧
    (handleSignalGattConnectCfm F0 sys_status.sys_status_success 1 addrPublic
      wUp).g.num_conn_update_req = wUp.g.num_conn_update_req ∧
    wB.g.num_conn_update_req = 1 ∧
    (handleSignalLsConnParamUpdateInd wB).g.num_conn_update_req = 0 :=
  ⟨by decide,
    ((C27_counter_reset_when_negotiation_starts F0 1 addrPublic wLink).1 (Or.inl (by decide))
      (by decide) (by decide)).1 (Or.inl (by decide)),
    ((C27_counter_reset_when_negotiation_starts F0 1 addrPublic wUp).1 (Or.inl (by decide))
      (by decide) (by decide)).2 (by decide),
    by decide,
    ((C27_counter_reset_when_negotiation_starts F0 1 addrPublic wB).2 (by decide)).1
      (Or.inl (by decide))⟩

/-! ## Starting and stopping the advertisements -/

/-- C28, as stated, fails: with the firmware `FRefused`, which refuses
GapSetMode, GattStartAdverts run in the advertising world `wAdv` ends with
the panic of that call: no connect request is issued, the timer of the
previous advertising handle is not deleted and no timer is created. -/
theorem C28_counterexample :
    issued wAdv (GattStartAdverts FRefused true wAdv) =
      [Req.GapSetMode, Req.Panic app_panic_code.app_panic_set_advert_params] ∧
    (issued wAdv (GattStartAdverts FRefused true wAdv)).filter isConnectReq = [] ∧
    (GattStartAdverts FRefused true wAdv).timers = wAdv.timers ∧
    (GattStartAdverts FRefused true wAdv).created = wAdv.created := by
  decide

/-- C28, amended. GattStartAdverts sets st_ucid to GATT_INVALID_UCID and runs
the advertising set-up. When no panic is reported, it requests the
advertising interval of the mode (fast or slow), issues exactly one connect
request, last of its requests, in whitelist mode if and only if the device is
bonded and the bonded address is not a resolvable private address, and in
undirected mode otherwise; it deletes the timer of the stored advertising
handle and creates exactly one timer, with the advertising callback, of 30
seconds when fast is true and of 1 minute when it is false; that timer is
live and its handle is stored in app_tid. When a panic is reported (the
firmware refused a call of the set-up), the panic is the last request, no
connect request is issued, no timer is deleted or created and the stored
advertising handle is as before. -/
theorem C28_advertising_filter_and_timeout (F : Firmware) (fast : Bool) (w : World) :
    (GattStartAdverts F fast w).g.st_ucid = GATT_INVALID_UCID ∧
    (panicked w (GattStartAdverts F fast w) = false →
      (∃ flags,
        (issued w (GattStartAdverts F fast w)).filter isConnectReq =
          [Req.GattConnectReq flags] ∧
        (issued w (GattStartAdverts F fast w)).getLast? = some (Req.GattConnectReq flags) ∧
        (flags = connect_flags.slave_whitelist ↔
          (w.g.bonded = true ∧ GattIsAddressResolvableRandom w.g.bonded_bd_addr = false)) ∧
        (flags = connect_flags.slave_undirected ↔
          ¬ (w.g.bonded = true ∧ GattIsAddressResolvableRandom w.g.bonded_bd_addr = false))) ∧
      Req.GapSetAdvInterval
          (if fast = true then FC_ADVERTISING_INTERVAL_MIN else RP_ADVERTISING_INTERVAL_MIN)
          (if fast = true then FC_ADVERTISING_INTERVAL_MAX else RP_ADVERTISING_INTERVAL_MAX) ∈
        issued w (GattStartAdverts F fast w) ∧
      (GattStartAdverts F fast w).g.app_tid = w.next_tid + 1 ∧
      (GattStartAdverts F fast w).timers =
        w.timers.filter (fun t => t.id != w.g.app_tid) ++
          [{ id := w.next_tid + 1
             period := if fast = true then 30 * SECOND else 1 * MINUTE
             cb := timer_cb.gattAdvertTimerHandler }] ∧
      (GattStartAdverts F fast w).created =
        w.created ++
          [{ id := w.next_tid + 1
             period := if fast = true then 30 * SECOND else 1 * MINUTE
             cb := timer_cb.gattAdvertTimerHandler }]) ∧
    (panicked w (GattStartAdverts F fast w) = true →
      (∃ c, (issued w (GattStartAdverts F fast w)).getLast? = some (Req.Panic c)) ∧
      (issued w (GattStartAdverts F fast w)).filter isConnectReq = [] ∧
      (GattStartAdverts F fast w).g.app_tid = w.g.app_tid ∧
      (GattStartAdverts F fast w).timers = w.timers ∧
      (GattStartAdverts F fast w).created = w.created) := by
  refine ⟨by simp, fun h => ?_, fun h => ?_⟩
  · obtain ⟨l, hl, q, _⟩ := GattStartAdverts_log_flags F fast w h
    have hi := issued_of_log hl
    refine ⟨⟨if w.g.bonded = true ∧ GattIsAddressResolvableRandom w.g.bonded_bd_addr = false then
      connect_flags.slave_whitelist else connect_flags.slave_undirected, ?_, ?_, ?_, ?_⟩,
      ?_, by simp [h], ?_, ?_⟩
    · rw [hi]
      simp [q, isConnectReq]
    · rw [hi, List.getLast?_append]
      simp
    · cases w.g.bonded <;> cases GattIsAddressResolvableRandom w.g.bonded_bd_addr <;> simp
    · cases w.g.bonded <;> cases GattIsAddressResolvableRandom w.g.bonded_bd_addr <;> simp
    · rw [hi]
      simp
    · rw [GattStartAdverts_timers F fast w h]
      cases fast <;> rfl
    · rw [GattStartAdverts_created F fast w h]
      cases fast <;> rfl
  · obtain ⟨⟨l, c, hl, q, _⟩, ht, hc, _⟩ := GattStartAdverts_halt F fast w h
    have hi := issued_of_log hl
    refine ⟨⟨c, ?_⟩, ?_, by simp [h], ht, hc⟩
    · rw [hi]
      simp
    · rw [hi]
      simp [q, isConnectReq]

/-- Witness of C28: GattStartAdverts in the world after AppInit, with the
firmware that accepts every call, and in the advertising world `wAdv` with
the one that refuses GapSetMode. -/
theorem C28_witness :
    (issued wBoot (GattStartAdverts F0 true wBoot)).getLast? =
      some (Req.GattConnectReq connect_flags.slave_undirected) ∧
    (GattStartAdverts F0 true wBoot).g.app_tid = wBoot.next_tid + 1 ∧
    (GattStartAdverts FRefused true wAdv).timers = wAdv.timers :=
  ⟨by decide,
    ((C28_advertising_filter_and_timeout F0 true wBoot).2.1 (by decide)).2.2.1,
    ((C28_advertising_filter_and_timeout FRefused true wAdv).2.2 (by decide)).2.2.2.1⟩

/-- The expiry of the advertising timer, delivered with the stored handle in
an advertising state: the handle is cleared and the advertisements are
cancelled. -/
theorem timerExpiry_gattAdvert (F : Firmware) (T : Nat) (w : World)
    (h : w.g.state = app_state.app_state_fast_advertising ∨
      w.g.state = app_state.app_state_slow_advertising)
    (hT : w.g.app_tid = T) :
    (timerExpiry F timer_cb.gattAdvertTimerHandler T w).g =
      { w.g with app_tid := TIMER_INVALID } ∧
    (timerExpiry F timer_cb.gattAdvertTimerHandler T w).timers =
      w.timers.filter (fun t => t.id != T) ∧
    (timerExpiry F timer_cb.gattAdvertTimerHandler T w).created = w.created ∧
    (timerExpiry F timer_cb.gattAdvertTimerHandler T w).log =
      w.log ++ [Req.GattCancelConnectReq] := by
  rcases h with h | h <;>
    simp [timerExpiry, gattAdvertTimerHandler, hT, h, GattStopAdverts, TimerDelete, emit]

/-- The cancel confirmation in fast advertising, no pairing removal pending:
the slow advertisements are started. -/
theorem cancelConnectCfm_fast (F : Firmware) (w : World)
    (hp : w.g.pairing_button_pressed = false)
    (h : w.g.state = app_state.app_state_fast_advertising) :
    handleSignalGattCancelConnectCfm F w =
      GattStartAdverts F false { appAdvertisingExit w with g := { (appAdvertisingExit w).g with
        state := app_state.app_state_slow_advertising } } := by
  simp [handleSignalGattCancelConnectCfm, cancelConnectCfmAdvertising, h, hp, AppSetState]

/-- The cancel confirmation in slow advertising, no pairing removal pending:
the device becomes idle and beeps. -/
theorem cancelConnectCfm_slow (F : Firmware) (w : World)
    (hp : w.g.pairing_button_pressed = false)
    (h : w.g.state = app_state.app_state_slow_advertising) :
    handleSignalGattCancelConnectCfm F w =
      SoundBuzzer buzzer_beep_type.buzzer_beep_long
        { appAdvertisingExit w with g := { (appAdvertisingExit w).g with
          state := app_state.app_state_idle } } := by
  simp [handleSignalGattCancelConnectCfm, cancelConnectCfmAdvertising, h, hp, AppSetState]

/-- A timer live after SoundBuzzer was live before, or is the buzzer timer. -/
theorem SoundBuzzer_timers_mem (b : buzzer_beep_type) (w : World) (t : Timer)
    (ht : t ∈ (SoundBuzzer b w).timers) :
    t ∈ w.timers ∨ t.cb = timer_cb.appBuzzerTimerHandler := by
  unfold SoundBuzzer at ht
  dsimp only at ht
  split at ht
  · simp only [TimerCreate, TimerDelete, emit, List.mem_append, List.mem_filter,
      List.mem_singleton] at ht
    rcases ht with ht | ht
    · exact Or.inl ht.1.1
    · exact Or.inr (by rw [ht])
  · simp only [TimerDelete, emit, List.mem_filter] at ht
    exact Or.inl ht.1

/-- A timer created by SoundBuzzer is the buzzer timer. -/
theorem SoundBuzzer_created_new (b : buzzer_beep_type) (w : World) (t : Timer)
    (ht : t ∈ (SoundBuzzer b w).created) :
    t ∈ w.created ∨ t.cb = timer_cb.appBuzzerTimerHandler := by
  unfold SoundBuzzer at ht
  dsimp only at ht
  split at ht
  · simp only [TimerCreate, TimerDelete, emit, List.mem_append, List.mem_singleton] at ht
    rcases ht with ht | ht
    · exact Or.inl ht
    · exact Or.inr (by rw [ht])
  · exact Or.inl ht

/-- C29, as stated, fails: with the firmware `FRefused`, which refuses
GapSetMode, the expiry of the advertising timer of the fast advertising world
`wAdv` (handle 1) and the cancel confirmation handled next leave the device
in slow advertising with no advertising handle stored and no advertising
timer live. -/
theorem C29_counterexample :
    wAdv.g.pairing_button_pressed = false ∧
    wAdv.g.state = app_state.app_state_fast_advertising ∧ wAdv.g.app_tid = 1 ∧
    (handleSignalGattCancelConnectCfm FRefused
      (timerExpiry FRefused timer_cb.gattAdvertTimerHandler 1 wAdv)).g.state =
      app_state.app_state_slow_advertising ∧
    (handleSignalGattCancelConnectCfm FRefused
      (timerExpiry FRefused timer_cb.gattAdvertTimerHandler 1 wAdv)).g.app_tid =
      TIMER_INVALID ∧
    liveTimers [timer_cb.gattAdvertTimerHandler] (handleSignalGattCancelConnectCfm FRefused
      (timerExpiry FRefused timer_cb.gattAdvertTimerHandler 1 wAdv)) = [] := by
  decide

/-- C29, amended. No pairing removal is pending and the advertising timer
expires with the stored handle T. In fast advertising the expiry issues the
cancel request and nothing else; the confirmation handled next leaves the
device in slow advertising, and, when it reports no panic, with a live
advertising timer of 1 minute, whose handle is stored; when it reports a
panic (the firmware refused a call of the advertising set-up), the panic is
its last request, no advertising handle is stored and no timer has been
created. In slow advertising the expiry issues the cancel request and nothing
else; the confirmation handled next leaves the device idle with no
advertising handle stored, no advertising timer created, no advertising timer
live other than ones live before with a handle other than T, and no connect
request issued: the only requests are the two buzzer calls of the long
beep. -/
theorem C29_advertising_timeout_cascade (F : Firmware) (T : Nat) (w : World)
    (hp : w.g.pairing_button_pressed = false)
    (hT : w.g.app_tid = T) :
    (w.g.state = app_state.app_state_fast_advertising →
      issued w (timerExpiry F timer_cb.gattAdvertTimerHandler T w) =
        [Req.GattCancelConnectReq] ∧
      (handleSignalGattCancelConnectCfm F
        (timerExpiry F timer_cb.gattAdvertTimerHandler T w)).g.state =
        app_state.app_state_slow_advertising ∧
      (panicked (timerExpiry F timer_cb.gattAdvertTimerHandler T w)
          (handleSignalGattCancelConnectCfm F
            (timerExpiry F timer_cb.gattAdvertTimerHandler T w)) = false →
        (handleSignalGattCancelConnectCfm F
          (timerExpiry F timer_cb.gattAdvertTimerHandler T w)).g.app_tid ≠ TIMER_INVALID ∧
        { id := (handleSignalGattCancelConnectCfm F
            (timerExpiry F timer_cb.gattAdvertTimerHandler T w)).g.app_tid
          period := 1 * MINUTE
          cb := timer_cb.gattAdvertTimerHandler } ∈
          (handleSignalGattCancelConnectCfm F
            (timerExpiry F timer_cb.gattAdvertTimerHandler T w)).timers) ∧
      (panicked (timerExpiry F timer_cb.gattAdvertTimerHandler T w)
          (handleSignalGattCancelConnectCfm F
            (timerExpiry F timer_cb.gattAdvertTimerHandler T w)) = true →
        (∃ c, (issued (timerExpiry F timer_cb.gattAdvertTimerHandler T w)
          (handleSignalGattCancelConnectCfm F
            (timerExpiry F timer_cb.gattAdvertTimerHandler T w))).getLast? =
          some (Req.Panic c)) ∧
        (handleSignalGattCancelConnectCfm F
          (timerExpiry F timer_cb.gattAdvertTimerHandler T w)).g.app_tid = TIMER_INVALID ∧
        (handleSignalGattCancelConnectCfm F
          (timerExpiry F timer_cb.gattAdvertTimerHandler T w)).created = w.created)) ∧
    (w.g.state = app_state.app_state_slow_advertising →
      issued w (timerExpiry F timer_cb.gattAdvertTimerHandler T w) =
        [Req.GattCancelConnectReq] ∧
      (handleSignalGattCancelConnectCfm F
        (timerExpiry F timer_cb.gattAdvertTimerHandler T w)).g.state =
        app_state.app_state_idle ∧
      (handleSignalGattCancelConnectCfm F
        (timerExpiry F timer_cb.gattAdvertTimerHandler T w)).g.app_tid = TIMER_INVALID ∧
      (∀ t ∈ (handleSignalGattCancelConnectCfm F
          (timerExpiry F timer_cb.gattAdvertTimerHandler T w)).created,
        t.cb = timer_cb.gattAdvertTimerHandler → t ∈ w.created) ∧
      (∀ t ∈ (handleSignalGattCancelConnectCfm F
          (timerExpiry F timer_cb.gattAdvertTimerHandler T w)).timers,
        t.cb = timer_cb.gattAdvertTimerHandler → t ∈ w.timers ∧ t.id ≠ T) ∧
      issued (timerExpiry F timer_cb.gattAdvertTimerHandler T w)
        (handleSignalGattCancelConnectCfm F
          (timerExpiry F timer_cb.gattAdvertTimerHandler T w)) =
        [Req.PioEnablePWM BUZZER_PWM_INDEX_0 false, Req.PioEnablePWM BUZZER_PWM_INDEX_0 true] ∧
      (issued (timerExpiry F timer_cb.gattAdvertTimerHandler T w)
        (handleSignalGattCancelConnectCfm F
          (timerExpiry F timer_cb.gattAdvertTimerHandler T w))).filter isConnectReq = []) := by
  constructor
  · intro h
    obtain ⟨eg, et, ec, el⟩ := timerExpiry_gattAdvert F T w (Or.inl h) hT
    generalize timerExpiry F timer_cb.gattAdvertTimerHandler T w = w1 at eg et ec el ⊢
    rw [cancelConnectCfm_fast F w1 (by rw [eg]; exact hp) (by rw [eg]; exact h)]
    obtain ⟨l, q, hpk, hok, hpanic⟩ := GattStartAdverts_eq F false
      { appAdvertisingExit w1 with g := { (appAdvertisingExit w1).g with
        state := app_state.app_state_slow_advertising } }
    have hpk2 : panicked w1 (GattStartAdverts F false { appAdvertisingExit w1 with
        g := { (appAdvertisingExit w1).g with
          state := app_state.app_state_slow_advertising } }) = l.any isPanic := hpk
    refine ⟨issued_of_log el, by simp, fun hh => ?_, fun hh => ?_⟩
    · rw [hpk2] at hh
      obtain ⟨_, hG⟩ := hok hh
      rw [hG]
      exact ⟨by simp [TIMER_INVALID], by simp [SLOW_CONNECTION_ADVERT_TIMEOUT_VALUE]⟩
    · rw [hpk2] at hh
      obtain ⟨⟨c, l1, e, _⟩, hG⟩ := hpanic hh
      refine ⟨⟨c, ?_⟩, by rw [hG]; rfl, by rw [hG]; exact ec⟩
      rw [issued_of_log (l := l) (by rw [hG]; rfl), e]
      simp
  · intro h
    obtain ⟨eg, et, ec, el⟩ := timerExpiry_gattAdvert F T w (Or.inr h) hT
    generalize timerExpiry F timer_cb.gattAdvertTimerHandler T w = w1 at eg et ec el ⊢
    rw [cancelConnectCfm_slow F w1 (by rw [eg]; exact hp) (by rw [eg]; exact h)]
    have hi : issued w1 (SoundBuzzer buzzer_beep_type.buzzer_beep_long
        { appAdvertisingExit w1 with g := { (appAdvertisingExit w1).g with
          state := app_state.app_state_idle } }) =
        [Req.PioEnablePWM BUZZER_PWM_INDEX_0 false, Req.PioEnablePWM BUZZER_PWM_INDEX_0 true] :=
      issued_of_log (by rw [SoundBuzzer_log]; simp)
    refine ⟨issued_of_log el, by simp, by simp, fun t ht hcb => ?_, fun t ht hcb => ?_, hi, ?_⟩
    · rcases SoundBuzzer_created_new _ _ t ht with ht | ht
      · simpa [ec] using ht
      · rw [hcb] at ht; exact absurd ht (by decide)
    · rcases SoundBuzzer_timers_mem _ _ t ht with ht | ht
      · simp only [appAdvertisingExit, TimerDelete, et, List.mem_filter] at ht
        exact ⟨ht.1.1, by simpa using ht.1.2⟩
      · rw [hcb] at ht; exact absurd ht (by decide)
    · rw [hi]; rfl

/-- Witness of C29: the cascade from the fast advertising world `wAdv`
(advertising handle 1), with the firmware that accepts every call and with
the one that refuses GapSetMode, and from the slow advertising world `wSlow`
(advertising handle 3). -/
theorem C29_witness :
    wAdv.g.state = app_state.app_state_fast_advertising ∧ wAdv.g.app_tid = 1 ∧
    (handleSignalGattCancelConnectCfm F0
      (timerExpiry F0 timer_cb.gattAdvertTimerHandler 1 wAdv)).g.state =
      app_state.app_state_slow_advertising ∧
    (handleSignalGattCancelConnectCfm F0
      (timerExpiry F0 timer_cb.gattAdvertTimerHandler 1 wAdv)).g.app_tid ≠ TIMER_INVALID ∧
    (handleSignalGattCancelConnectCfm FRefused
      (timerExpiry FRefused timer_cb.gattAdvertTimerHandler 1 wAdv)).g.app_tid =
      TIMER_INVALID ∧
    wSlow.g.state = app_state.app_state_slow_advertising ∧ wSlow.g.app_tid = 3 ∧
    (handleSignalGattCancelConnectCfm F0
      (timerExpiry F0 timer_cb.gattAdvertTimerHandler 3 wSlow)).g.state =
      app_state.app_state_idle ∧
    liveTimers [timer_cb.gattAdvertTimerHandler] (handleSignalGattCancelConnectCfm F0
      (timerExpiry F0 timer_cb.gattAdvertTimerHandler 3 wSlow)) = [] :=
  ⟨by decide, by decide,
    ((C29_advertising_timeout_cascade F0 1 wAdv (by decide) (by decide)).1 (by decide)).2.1,
    (((C29_advertising_timeout_cascade F0 1 wAdv (by decide) (by decide)).1
      (by decide)).2.2.1 (by decide)).1,
    (((C29_advertising_timeout_cascade FRefused 1 wAdv (by decide) (by decide)).1
      (by decide)).2.2.2 (by decide)).2.1,
    by decide, by decide,
    ((C29_advertising_timeout_cascade F0 3 wSlow (by decide) (by decide)).2 (by decide)).2.1,
    by decide⟩

/-! ## The device name in the advertising data -/

/-- The requests of one store: the store itself, then the panic of the caller
when the firmware refuses it. Nothing else of the world changes. -/
theorem storeAdvScanData_issued (F : Firmware) (n : Nat) (d : List Nat) (s : ad_src)
    (c : app_panic_code) (w : World) :
    issued w (storeAdvScanData F n d s c w) =
      Req.LsStoreAdvScanData n d s ::
        (if F.LsStoreAdvScanData n d s = ls_err_none then [] else [Req.Panic c]) ∧
    { storeAdvScanData F n d s c w with log := w.log } = w := by
  unfold storeAdvScanData
  dsimp only
  by_cases h1 : F.LsStoreAdvScanData n d s = ls_err_none
  · rw [if_neg (not_not.2 h1), if_pos h1]
    exact ⟨issued_of_log (by simp), rfl⟩
  · rw [if_pos h1, if_neg h1]
    exact ⟨issued_of_log (by simp), rfl⟩

/-- With lengths that fit the 16-bit arithmetic without wrapping, the tests of
addDeviceNameToAdvData are those of plain arithmetic. -/
theorem addDeviceNameToAdvData_eq (F : Firmware) (a s : Nat) (w : World)
    (ha : a ≤ 31) (hs : s ≤ 31) (hn : F.GapGetNameAndLength.length + 1 < 65536) :
    addDeviceNameToAdvData F a s w =
      if F.GapGetNameAndLength.length + 1 ≤ 31 - a then
        storeAdvScanData F F.GapGetNameAndLength.length
          (nameData F AD_TYPE_LOCAL_NAME_COMPLETE F.GapGetNameAndLength.length)
          ad_src.ad_src_advertise app_panic_code.app_panic_set_advert_data w
      else if F.GapGetNameAndLength.length + 1 ≤ 31 - s then
        storeAdvScanData F F.GapGetNameAndLength.length
          (nameData F AD_TYPE_LOCAL_NAME_COMPLETE F.GapGetNameAndLength.length)
          ad_src.ad_src_scan_rsp app_panic_code.app_panic_set_scan_rsp_data w
      else if 10 ≤ 31 - a then
        storeAdvScanData F 8 (nameData F AD_TYPE_LOCAL_NAME_SHORT 8)
          ad_src.ad_src_advertise app_panic_code.app_panic_set_advert_data w
      else
        storeAdvScanData F (31 - s) (nameData F AD_TYPE_LOCAL_NAME_SHORT (31 - s))
          ad_src.ad_src_scan_rsp app_panic_code.app_panic_set_scan_rsp_data w := by
  have e1 : F.GapGetNameAndLength.length % 65536 = F.GapGetNameAndLength.length :=
    Nat.mod_eq_of_lt (by omega)
  have e2 : (F.GapGetNameAndLength.length + 1) % 65536 = F.GapGetNameAndLength.length + 1 :=
    Nat.mod_eq_of_lt hn
  have e3 : (31 + 65536 - a) % 65536 = 31 - a := by omega
  have e4 : (31 + 65536 - s) % 65536 = 31 - s := by omega
  simp only [addDeviceNameToAdvData, MAX_ADV_DATA_LEN, SHORTENED_DEV_NAME_LEN, e1, e2, e3, e4,
    ge_iff_le, Nat.reduceAdd]

/-- C30, as stated, fails: the lengths are 16-bit unsigned, and with an
advertisement length of 32 the difference 31 - a wraps to 65535. For the name
of F0 (3 octets with its AD type) the first condition of the claim, n + 1 <=
31 - a, is false and the second, n + 1 <= 31 - s, is true, so the claim puts
the complete name into the scan response; the code stores it into the
advertisement. -/
theorem C30_counterexample :
    F0.GapGetNameAndLength.length = 3 ∧
    ¬ ((3 : Int) + 1 ≤ 31 - 32) ∧ (3 : Int) + 1 ≤ 31 - 0 ∧
    issued wBoot (addDeviceNameToAdvData F0 32 0 wBoot) =
      [Req.LsStoreAdvScanData 3 [0x09, 72, 84] ad_src.ad_src_advertise] := by
  decide

/-- C30, amended. For an advertisement length a and a scan-response length s
of at most 31 and a name of n octets with its AD type, n + 1 fitting 16 bits,
addDeviceNameToAdvData performs exactly one store and changes nothing else.
The store is chosen by the first condition that holds: the complete name (the
n octets of the name buffer, octet 0 being the AD type 0x09) into the
advertisement if n + 1 <= 31 - a; the complete name into the scan response if
n + 1 <= 31 - s; the shortened name (the first 8 octets of the buffer, octet
0 being the AD type 0x08) into the advertisement if 31 - a >= 10; otherwise
the shortened name, cut to the 31 - s octets left, into the scan response. A
refused store is reported as a panic, the last request. -/
theorem C30_device_name_placement (F : Firmware) (a s : Nat) (w : World)
    (ha : a ≤ 31) (hs : s ≤ 31) (hn : F.GapGetNameAndLength.length + 1 < 65536) :
    (F.GapGetNameAndLength.length + 1 ≤ 31 - a →
      issued w (addDeviceNameToAdvData F a s w) =
        Req.LsStoreAdvScanData F.GapGetNameAndLength.length
            ((F.GapGetNameAndLength.set 0 0x09).take F.GapGetNameAndLength.length)
            ad_src.ad_src_advertise ::
          (if F.LsStoreAdvScanData F.GapGetNameAndLength.length
              ((F.GapGetNameAndLength.set 0 0x09).take F.GapGetNameAndLength.length)
              ad_src.ad_src_advertise = ls_err_none then []
           else [Req.Panic app_panic_code.app_panic_set_advert_data])) ∧
    (¬ F.GapGetNameAndLength.length + 1 ≤ 31 - a →
      F.GapGetNameAndLength.length + 1 ≤ 31 - s →
      issued w (addDeviceNameToAdvData F a s w) =
        Req.LsStoreAdvScanData F.GapGetNameAndLength.length
            ((F.GapGetNameAndLength.set 0 0x09).take F.GapGetNameAndLength.length)
            ad_src.ad_src_scan_rsp ::
          (if F.LsStoreAdvScanData F.GapGetNameAndLength.length
              ((F.GapGetNameAndLength.set 0 0x09).take F.GapGetNameAndLength.length)
              ad_src.ad_src_scan_rsp = ls_err_none then []
           else [Req.Panic app_panic_code.app_panic_set_scan_rsp_data])) ∧
    (¬ F.GapGetNameAndLength.length + 1 ≤ 31 - a →
      ¬ F.GapGetNameAndLength.length + 1 ≤ 31 - s → 31 - a ≥ 10 →
      issued w (addDeviceNameToAdvData F a s w) =
        Req.LsStoreAdvScanData 8 ((F.GapGetNameAndLength.set 0 0x08).take 8)
            ad_src.ad_src_advertise ::
          (if F.LsStoreAdvScanData 8 ((F.GapGetNameAndLength.set 0 0x08).take 8)
              ad_src.ad_src_advertise = ls_err_none then []
           else [Req.Panic app_panic_code.app_panic_set_advert_data])) ∧
    (¬ F.GapGetNameAndLength.length + 1 ≤ 31 - a →
      ¬ F.GapGetNameAndLength.length + 1 ≤ 31 - s → ¬ 31 - a ≥ 10 →
      issued w (addDeviceNameToAdvData F a s w) =
        Req.LsStoreAdvScanData (31 - s) ((F.GapGetNameAndLength.set 0 0x08).take (31 - s))
            ad_src.ad_src_scan_rsp ::
          (if F.LsStoreAdvScanData (31 - s) ((F.GapGetNameAndLength.set 0 0x08).take (31 - s))
              ad_src.ad_src_scan_rsp = ls_err_none then []
           else [Req.Panic app_panic_code.app_panic_set_scan_rsp_data])) ∧
    ((issued w (addDeviceNameToAdvData F a s w)).filter isStoreReq).length = 1 ∧
    { addDeviceNameToAdvData F a s w with log := w.log } = w := by
  have key : ∀ (len : Nat) (d : List Nat) (src : ad_src) (code : app_panic_code),
      addDeviceNameToAdvData F a s w = storeAdvScanData F len d src code w →
      issued w (addDeviceNameToAdvData F a s w) =
        Req.LsStoreAdvScanData len d src ::
          (if F.LsStoreAdvScanData len d src = ls_err_none then [] else [Req.Panic code]) ∧
      ((issued w (addDeviceNameToAdvData F a s w)).filter isStoreReq).length = 1 ∧
      { addDeviceNameToAdvData F a s w with log := w.log } = w := by
    intro len d src code e
    rw [e]
    obtain ⟨k1, k2⟩ := storeAdvScanData_issued F len d src code w
    refine ⟨k1, ?_, k2⟩
    rw [k1]
    split_ifs <;> simp [isStoreReq]
  have hr := addDeviceNameToAdvData_eq F a s w ha hs hn
  simp only [nameData, AD_TYPE_LOCAL_NAME_COMPLETE, AD_TYPE_LOCAL_NAME_SHORT] at hr
  by_cases c1 : F.GapGetNameAndLength.length + 1 ≤ 31 - a
  · rw [if_pos c1] at hr
    obtain ⟨k1, k2, k3⟩ := key _ _ _ _ hr
    exact ⟨fun _ => k1, fun n1 => absurd c1 n1, fun n1 => absurd c1 n1,
      fun n1 => absurd c1 n1, k2, k3⟩
  · rw [if_neg c1] at hr
    by_cases c2 : F.GapGetNameAndLength.length + 1 ≤ 31 - s
    · rw [if_pos c2] at hr
      obtain ⟨k1, k2, k3⟩ := key _ _ _ _ hr
      exact ⟨fun y => absurd y c1, fun _ _ => k1, fun _ n2 => absurd c2 n2,
        fun _ n2 => absurd c2 n2, k2, k3⟩
    · rw [if_neg c2] at hr
      by_cases c3 : 10 ≤ 31 - a
      · rw [if_pos c3] at hr
        obtain ⟨k1, k2, k3⟩ := key _ _ _ _ hr
        exact ⟨fun y => absurd y c1, fun _ y => absurd y c2, fun _ _ _ => k1,
          fun _ _ n3 => absurd c3 n3, k2, k3⟩
      · rw [if_neg c3] at hr
        obtain ⟨k1, k2, k3⟩ := key _ _ _ _ hr
        exact ⟨fun y => absurd y c1, fun _ y => absurd y c2, fun _ _ y => absurd y c3,
          fun _ _ _ => k1, k2, k3⟩

/-- Witness of C30: the call made by gattSetAdvertParams, with 14 octets in
the advertisement, none in the scan response and the name of F0 (3 octets):
the complete name, with the AD type 0x09 as its first octet, is stored in the
advertisement. -/
theorem C30_witness :
    F0.GapGetNameAndLength = [0, 72, 84] ∧
    issued wBoot (addDeviceNameToAdvData F0 14 0 wBoot) =
      [Req.LsStoreAdvScanData 3 [0x09, 72, 84] ad_src.ad_src_advertise] ∧
    issued wBoot (addDeviceNameToAdvData F0 14 0 wBoot) =
      Req.LsStoreAdvScanData F0.GapGetNameAndLength.length
          ((F0.GapGetNameAndLength.set 0 0x09).take F0.GapGetNameAndLength.length)
          ad_src.ad_src_advertise ::
        (if F0.LsStoreAdvScanData F0.GapGetNameAndLength.length
            ((F0.GapGetNameAndLength.set 0 0x09).take F0.GapGetNameAndLength.length)
            ad_src.ad_src_advertise = ls_err_none then []
         else [Req.Panic app_panic_code.app_panic_set_advert_data]) :=
  ⟨by decide, by decide,
    (C30_device_name_placement F0 14 0 wBoot (by decide) (by decide) (by decide)).1
      (by decide)⟩

/-! ## The attribute dispatcher -/

/-- The routing rule of the specification on the four registered ranges, as
tests of the handle. -/
theorem specFirstMatch_registered (K : Config) (h : Nat) :
    specFirstMatch (registeredRanges K) h =
      if GapCheckHandleRange K h = true then some service.gap
      else if HealthThermoCheckHandleRange K h = true then some service.health_thermo
      else if BatteryCheckHandleRange K h = true then some service.battery
      else if DeviceInfoCheckHandleRange K h = true then some service.dev_info
      else none := by
  simp only [registeredRanges, specFirstMatch, GapCheckHandleRange, HealthThermoCheckHandleRange,
    BatteryCheckHandleRange, DeviceInfoCheckHandleRange, decide_eq_true_eq, ge_iff_le]

/-- The routing rule of the specification on the ranges of the services with
a write handler. -/
theorem specFirstMatch_writable (K : Config) (h : Nat) :
    specFirstMatch (writableRanges K) h =
      if GapCheckHandleRange K h = true then some service.gap
      else if HealthThermoCheckHandleRange K h = true then some service.health_thermo
      else if BatteryCheckHandleRange K h = true then some service.battery
      else none := by
  have e : writableRanges K =
      [(service.gap, K.HANDLE_GAP_SERVICE, K.HANDLE_GAP_SERVICE_END),
       (service.health_thermo, K.HANDLE_HEALTH_THERMOMETER_SERVICE,
         K.HANDLE_HEALTH_THERMOMETER_SERVICE_END),
       (service.battery, K.HANDLE_BATTERY_SERVICE, K.HANDLE_BATTERY_SERVICE_END)] := by
    simp [writableRanges, registeredRanges]
  rw [e]
  simp only [specFirstMatch, GapCheckHandleRange, HealthThermoCheckHandleRange,
    BatteryCheckHandleRange, decide_eq_true_eq, ge_iff_le]

/-- C31. HandleAccessRead hands the access to the read handler of the first
of GAP, health thermometer, battery and device information whose handle range
contains the handle, and to that handler only; when no range contains the
handle it calls no handler and responds itself, exactly once, with
gatt_status_read_not_permitted and an empty payload. The service chosen is a
function of the handle (and of the ranges of the database) alone: neither the
rest of the access, nor the world, nor the firmware enters it. -/
theorem C31_read_dispatch (K : Config) (F : Firmware) (i : GATT_ACCESS_IND_T) (w : World) :
    HandleAccessRead K F i w =
      (match specFirstMatch (registeredRanges K) i.handle with
        | some service.gap => emit (Req.GapHandleAccessRead i) w
        | some service.health_thermo => HealthThermoHandleAccessRead K i w
        | some service.battery => BatteryHandleAccessRead K F i w
        | some service.dev_info => DeviceInfoHandleAccessRead K F i w
        | none =>
          emit (Req.GattAccessRsp i.cid i.handle sys_status.gatt_status_read_not_permitted
            0 []) w) ∧
    (specFirstMatch (registeredRanges K) i.handle = none →
      issued w (HandleAccessRead K F i w) =
        [Req.GattAccessRsp i.cid i.handle sys_status.gatt_status_read_not_permitted 0 []]) ∧
    (specFirstMatch (registeredRanges K) i.handle = none ↔
      ¬ (K.HANDLE_GAP_SERVICE ≤ i.handle ∧ i.handle ≤ K.HANDLE_GAP_SERVICE_END) ∧
      ¬ (K.HANDLE_HEALTH_THERMOMETER_SERVICE ≤ i.handle ∧
          i.handle ≤ K.HANDLE_HEALTH_THERMOMETER_SERVICE_END) ∧
      ¬ (K.HANDLE_BATTERY_SERVICE ≤ i.handle ∧ i.handle ≤ K.HANDLE_BATTERY_SERVICE_END) ∧
      ¬ (K.HANDLE_DEVICE_INFO_SERVICE ≤ i.handle ∧
          i.handle ≤ K.HANDLE_DEVICE_INFO_SERVICE_END)) := by
  refine ⟨?_, fun hn => ?_, ?_⟩
  · rw [specFirstMatch_registered]
    unfold HandleAccessRead
    split_ifs <;> rfl
  · rw [specFirstMatch_registered] at hn
    unfold HandleAccessRead
    split_ifs at hn ⊢
    exact issued_of_log (by simp)
  · simp only [registeredRanges, specFirstMatch]
    split_ifs <;> simp_all

/-- C32, as stated, fails: the handle 18 lies in the range that K0 gives the
device information service, a registered service, and in no other range, and
yet HandleAccessWrite responds itself with gatt_status_write_not_permitted. -/
theorem C32_counterexample :
    DeviceInfoCheckHandleRange K0 indWriteDevInfo.handle = true ∧
    specFirstMatch (registeredRanges K0) indWriteDevInfo.handle = some service.dev_info ∧
    issued wConn (HandleAccessWrite K0 F0 indWriteDevInfo wConn) =
      [Req.GattAccessRsp 1 18 sys_status.gatt_status_write_not_permitted 0 []] := by
  decide

/-- C32, amended. HandleAccessWrite hands the access to the write handler of
the first of GAP, health thermometer and battery whose handle range contains
the handle, and responds itself with gatt_status_write_not_permitted when none
of these three ranges contains the handle; this includes the handles of the
device information service, which has no write handler. -/
theorem C32_write_dispatch (K : Config) (F : Firmware) (i : GATT_ACCESS_IND_T) (w : World) :
    HandleAccessWrite K F i w =
      (match specFirstMatch (writableRanges K) i.handle with
        | some service.gap => emit (Req.GapHandleAccessWrite i) w
        | some service.health_thermo => HealthThermoHandleAccessWrite K i w
        | some service.battery => BatteryHandleAccessWrite K F i w
        | _ =>
          emit (Req.GattAccessRsp i.cid i.handle sys_status.gatt_status_write_not_permitted
            0 []) w) ∧
    (specFirstMatch (writableRanges K) i.handle = none →
      issued w (HandleAccessWrite K F i w) =
        [Req.GattAccessRsp i.cid i.handle sys_status.gatt_status_write_not_permitted 0 []]) ∧
    (specFirstMatch (writableRanges K) i.handle = none ↔
      ¬ (K.HANDLE_GAP_SERVICE ≤ i.handle ∧ i.handle ≤ K.HANDLE_GAP_SERVICE_END) ∧
      ¬ (K.HANDLE_HEALTH_THERMOMETER_SERVICE ≤ i.handle ∧
          i.handle ≤ K.HANDLE_HEALTH_THERMOMETER_SERVICE_END) ∧
      ¬ (K.HANDLE_BATTERY_SERVICE ≤ i.handle ∧ i.handle ≤ K.HANDLE_BATTERY_SERVICE_END)) ∧
    (specFirstMatch (registeredRanges K) i.handle = some service.dev_info →
      specFirstMatch (writableRanges K) i.handle = none) := by
  refine ⟨?_, fun hn => ?_, ?_, ?_⟩
  · rw [specFirstMatch_writable]
    unfold HandleAccessWrite
    split_ifs <;> rfl
  · rw [specFirstMatch_writable] at hn
    unfold HandleAccessWrite
    split_ifs at hn ⊢
    exact issued_of_log (by simp)
  · rw [specFirstMatch_writable]
    simp only [GapCheckHandleRange, HealthThermoCheckHandleRange, BatteryCheckHandleRange,
      decide_eq_true_eq, ge_iff_le]
    split_ifs <;> simp_all
  · rw [specFirstMatch_writable, specFirstMatch_registered]
    split_ifs <;> simp

/-! ## The services -/

/-- C33. A write to the client configuration handle of the temperature
measurement. When the 16-bit value written is 0x0000 or 0x0001 the one
response is success and the value is stored in the service data, and in the
NVM word of the service when the device is bonded. For every other value, so
also for 0x0002 (indication), the one response is
gatt_status_desc_improper_config and nothing but the log changes: the stored
configuration and the NVM are as before. -/
theorem C33_temperature_config_write (K : Config) (i : GATT_ACCESS_IND_T) (w : World)
    (h : i.handle = K.HANDLE_HT_TEMP_MEAS_C_CFG) :
    ((BufReadUint16 i.value = 0x0000 ∨ BufReadUint16 i.value = 0x0001) →
      issued w (HealthThermoHandleAccessWrite K i w) =
        [Req.GattAccessRsp i.cid i.handle sys_status.sys_status_success 0 []] ∧
      (HealthThermoHandleAccessWrite K i w).serv.temp_client_config = BufReadUint16 i.value ∧
      (w.g.bonded = true →
        (HealthThermoHandleAccessWrite K i w).nvm
          (w.serv.nvm_offset + HEALTH_THERMO_NVM_TEMP_CLIENT_CONFIG_OFFSET) =
          BufReadUint16 i.value) ∧
      (w.g.bonded = false → (HealthThermoHandleAccessWrite K i w).nvm = w.nvm)) ∧
    (¬ (BufReadUint16 i.value = 0x0000 ∨ BufReadUint16 i.value = 0x0001) →
      issued w (HealthThermoHandleAccessWrite K i w) =
        [Req.GattAccessRsp i.cid i.handle sys_status.gatt_status_desc_improper_config 0 []] ∧
      (HealthThermoHandleAccessWrite K i w).serv.temp_client_config =
        w.serv.temp_client_config ∧
      (HealthThermoHandleAccessWrite K i w).nvm = w.nvm ∧
      { HealthThermoHandleAccessWrite K i w with log := w.log } = w) ∧
    (BufReadUint16 i.value = 0x0002 →
      issued w (HealthThermoHandleAccessWrite K i w) =
        [Req.GattAccessRsp i.cid i.handle sys_status.gatt_status_desc_improper_config 0 []]) ∧
    (Req.GattAccessRsp i.cid i.handle sys_status.sys_status_success 0 [] ∈
        issued w (HealthThermoHandleAccessWrite K i w) ↔
      (BufReadUint16 i.value = 0x0000 ∨ BufReadUint16 i.value = 0x0001)) := by
  have hacc : (BufReadUint16 i.value = 0x0000 ∨ BufReadUint16 i.value = 0x0001) →
      issued w (HealthThermoHandleAccessWrite K i w) =
        [Req.GattAccessRsp i.cid i.handle sys_status.sys_status_success 0 []] ∧
      (HealthThermoHandleAccessWrite K i w).serv.temp_client_config = BufReadUint16 i.value ∧
      (w.g.bonded = true →
        (HealthThermoHandleAccessWrite K i w).nvm
          (w.serv.nvm_offset + HEALTH_THERMO_NVM_TEMP_CLIENT_CONFIG_OFFSET) =
          BufReadUint16 i.value) ∧
      (w.g.bonded = false → (HealthThermoHandleAccessWrite K i w).nvm = w.nvm) := by
    intro hv
    have hv2 : BufReadUint16 i.value = gatt_client_config_notification ∨
        BufReadUint16 i.value = gatt_client_config_none := by
      rcases hv with hv | hv
      · exact Or.inr hv
      · exact Or.inl hv
    cases hb : w.g.bonded
    · have hr : HealthThermoHandleAccessWrite K i w =
          emit (Req.GattAccessRsp i.cid i.handle sys_status.sys_status_success 0 [])
            { w with serv := { w.serv with temp_client_config := BufReadUint16 i.value } } := by
        simp [HealthThermoHandleAccessWrite, h, hv2, AppIsDeviceBonded, hb]
      rw [hr]
      exact ⟨issued_of_log (by simp), rfl, fun hh => by simp at hh, fun _ => rfl⟩
    · have hr : HealthThermoHandleAccessWrite K i w =
          emit (Req.GattAccessRsp i.cid i.handle sys_status.sys_status_success 0 [])
            (Nvm_Write [BufReadUint16 i.value]
              (w.serv.nvm_offset + HEALTH_THERMO_NVM_TEMP_CLIENT_CONFIG_OFFSET)
              { w with
                serv := { w.serv with temp_client_config := BufReadUint16 i.value } }) := by
        simp [HealthThermoHandleAccessWrite, h, hv2, AppIsDeviceBonded, hb]
      rw [hr]
      refine ⟨issued_of_log (by simp), rfl, fun _ => ?_, fun hh => by simp at hh⟩
      simp [emit, Nvm_Write]
  have hrej : ¬ (BufReadUint16 i.value = 0x0000 ∨ BufReadUint16 i.value = 0x0001) →
      HealthThermoHandleAccessWrite K i w =
        emit (Req.GattAccessRsp i.cid i.handle sys_status.gatt_status_desc_improper_config
          0 []) w := by
    intro hv
    have hv2 : ¬ (BufReadUint16 i.value = gatt_client_config_notification ∨
        BufReadUint16 i.value = gatt_client_config_none) := by
      intro hh
      apply hv
      rcases hh with hh | hh
      · exact Or.inr hh
      · exact Or.inl hh
    simp [HealthThermoHandleAccessWrite, h, hv2]
  refine ⟨hacc, fun hv => ?_, fun hv => ?_, ⟨fun hm => ?_, fun hv => ?_⟩⟩
  · rw [hrej hv]
    exact ⟨issued_of_log (by simp), rfl, rfl, rfl⟩
  · rw [hrej (by rw [hv]; decide)]
    exact issued_of_log (by simp)
  · by_contra hv
    rw [hrej hv, issued_of_log (l := [Req.GattAccessRsp i.cid i.handle
      sys_status.gatt_status_desc_improper_config 0 []]) (by simp)] at hm
    simp at hm
  · rw [(hacc hv).1]
    simp

/-- Witness of C33: the value 0x0001 and the value 0x0002 written in the
connected world `wConn`. -/
theorem C33_witness :
    (HealthThermoHandleAccessWrite K0
      { cid := 1, handle := K0.HANDLE_HT_TEMP_MEAS_C_CFG, flags := 0, value := [1, 0] }
      wConn).serv.temp_client_config = 1 ∧
    issued wConn (HealthThermoHandleAccessWrite K0
      { cid := 1, handle := K0.HANDLE_HT_TEMP_MEAS_C_CFG, flags := 0, value := [2, 0] }
      wConn) =
      [Req.GattAccessRsp 1 K0.HANDLE_HT_TEMP_MEAS_C_CFG
        sys_status.gatt_status_desc_improper_config 0 []] :=
  ⟨((C33_temperature_config_write K0
      { cid := 1, handle := K0.HANDLE_HT_TEMP_MEAS_C_CFG, flags := 0, value := [1, 0] }
      wConn rfl).1 (Or.inr (by decide))).2.1,
    (C33_temperature_config_write K0
      { cid := 1, handle := K0.HANDLE_HT_TEMP_MEAS_C_CFG, flags := 0, value := [2, 0] }
      wConn rfl).2.2.1 (by decide)⟩

/-- C34. HealthThermoSendTempReading on a payload of five octets, the send
counter holding an 8-bit value c: the counter becomes c + 1 when c is not 0xFF
and 0 when it is; the payload handed back has the new counter as octet 0 and
the octets 1 to 4 as they were; the function returns TRUE if and only if the
ucid is not GATT_INVALID_UCID and the notification bit of the stored client
configuration is set, and it has then issued exactly one notification of five
octets, the payload, and otherwise nothing. -/
theorem C34_send_counter (K : Config) (ucid : Nat) (v : List Nat) (w : World)
    (hv : v.length = 5) (hc : w.serv.send_count ≤ 0xFF) :
    (w.serv.send_count ≠ 0xFF →
      (HealthThermoSendTempReading K ucid v w).1.serv.send_count = w.serv.send_count + 1) ∧
    (w.serv.send_count = 0xFF →
      (HealthThermoSendTempReading K ucid v w).1.serv.send_count = 0) ∧
    (HealthThermoSendTempReading K ucid v w).2.1 =
      [(HealthThermoSendTempReading K ucid v w).1.serv.send_count, v.getD 1 0, v.getD 2 0,
        v.getD 3 0, v.getD 4 0] ∧
    ((HealthThermoSendTempReading K ucid v w).2.2 = true ↔
      (ucid ≠ GATT_INVALID_UCID ∧ w.serv.temp_client_config &&& 0x0001 ≠ 0)) ∧
    ((HealthThermoSendTempReading K ucid v w).2.2 = true →
      issued w (HealthThermoSendTempReading K ucid v w).1 =
        [Req.GattCharValueNotification ucid K.HANDLE_HT_TEMP_MEASUREMENT 5
          (HealthThermoSendTempReading K ucid v w).2.1]) ∧
    ((HealthThermoSendTempReading K ucid v w).2.2 = false →
      issued w (HealthThermoSendTempReading K ucid v w).1 = []) := by
  obtain ⟨a, b, c, d, e, hl⟩ : ∃ a b c d e, v = [a, b, c, d, e] := by
    match v, hv with
    | [a, b, c, d, e], _ => exact ⟨a, b, c, d, e, rfl⟩
  subst hl
  have hcnt : (if w.serv.send_count = 0xFF then 0 else (w.serv.send_count + 1) % 256) =
      if w.serv.send_count = 0xFF then 0 else w.serv.send_count + 1 := by
    split_ifs with h1
    · rfl
    · exact Nat.mod_eq_of_lt (by omega)
  generalize hn : (if w.serv.send_count = 0xFF then 0 else w.serv.send_count + 1) = n at hcnt
  have hn1 : w.serv.send_count ≠ 0xFF → n = w.serv.send_count + 1 := by
    intro h1; rw [← hn, if_neg h1]
  have hn2 : w.serv.send_count = 0xFF → n = 0 := by
    intro h1; rw [← hn, if_pos h1]
  by_cases hs : ucid ≠ GATT_INVALID_UCID ∧
      (w.serv.temp_client_config &&& gatt_client_config_notification) ≠ 0
  · have hr : HealthThermoSendTempReading K ucid [a, b, c, d, e] w =
        (emit (Req.GattCharValueNotification ucid K.HANDLE_HT_TEMP_MEASUREMENT
          MAX_TEMP_MEAS_SIZE [n, b, c, d, e])
          { w with serv := { w.serv with
            send_count := n, sendcnt := n, heartcnt := b, ghgcnt := c, anjstate := d,
            batlevel := e } }, [n, b, c, d, e], true) := by
      simp only [HealthThermoSendTempReading, hcnt]
      rw [if_pos hs]
      rfl
    rw [hr]
    exact ⟨hn1, hn2, rfl, ⟨fun _ => hs, fun _ => rfl⟩, fun _ => issued_of_log rfl,
      fun hh => by simp at hh⟩
  · have hr : HealthThermoSendTempReading K ucid [a, b, c, d, e] w =
        ({ w with serv := { w.serv with
            send_count := n, sendcnt := n, heartcnt := b, ghgcnt := c, anjstate := d,
            batlevel := e } }, [n, b, c, d, e], false) := by
      simp only [HealthThermoSendTempReading, hcnt]
      rw [if_neg hs]
      rfl
    rw [hr]
    exact ⟨hn1, hn2, rfl, ⟨fun hh => by simp at hh, fun hh => absurd hh hs⟩,
      fun hh => by simp at hh, fun _ => issued_self _⟩

/-- Witness of C34: a reading sent in the connected world `wConn`, whose send
counter is 0 and whose peer has configured nothing. -/
theorem C34_witness :
    wConn.serv.send_count = 0 ∧
    (HealthThermoSendTempReading K0 1 [9, 8, 7, 6, 5] wConn).1.serv.send_count = 1 ∧
    (HealthThermoSendTempReading K0 1 [9, 8, 7, 6, 5] wConn).2.1 = [1, 8, 7, 6, 5] :=
  ⟨by decide,
    (C34_send_counter K0 1 [9, 8, 7, 6, 5] wConn rfl (by decide)).1 (by decide),
    by decide⟩

/-- C40. After HealthThermoSendTempReading on a payload v of five octets, for
every ucid and every client configuration, a read of the temperature
measurement handle is answered exactly once, with success and the five octets
made of the new send counter and of v[1], v[2], v[3], v[4]: the payload that
the sender handed back, whether or not it was notified. -/
theorem C40_send_then_read (K : Config) (ucid : Nat) (v : List Nat) (i : GATT_ACCESS_IND_T)
    (w : World) (hv : v.length = 5) (hh : i.handle = K.HANDLE_HT_TEMP_MEASUREMENT) :
    issued (HealthThermoSendTempReading K ucid v w).1
        (HealthThermoHandleAccessRead K i (HealthThermoSendTempReading K ucid v w).1) =
      [Req.GattAccessRsp i.cid i.handle sys_status.sys_status_success 5
        [(HealthThermoSendTempReading K ucid v w).1.serv.send_count, v.getD 1 0, v.getD 2 0,
          v.getD 3 0, v.getD 4 0]] ∧
    [(HealthThermoSendTempReading K ucid v w).1.serv.send_count, v.getD 1 0, v.getD 2 0,
        v.getD 3 0, v.getD 4 0] = (HealthThermoSendTempReading K ucid v w).2.1 := by
  obtain ⟨a, b, c, d, e, hl⟩ : ∃ a b c d e, v = [a, b, c, d, e] := by
    match v, hv with
    | [a, b, c, d, e], _ => exact ⟨a, b, c, d, e, rfl⟩
  subst hl
  have hr : ∃ n x f, HealthThermoSendTempReading K ucid [a, b, c, d, e] w = (x, [n, b, c, d, e], f) ∧
      x.serv.send_count = n ∧ x.serv.sendcnt = n ∧ x.serv.heartcnt = b ∧ x.serv.ghgcnt = c ∧
      x.serv.anjstate = d ∧ x.serv.batlevel = e := by
    simp only [HealthThermoSendTempReading]
    split_ifs <;> exact ⟨_, _, _, rfl, rfl, rfl, rfl, rfl, rfl, rfl⟩
  obtain ⟨n, x, f, hx, h0, h1, h2, h3, h4, h5⟩ := hr
  rw [hx]
  refine ⟨issued_of_log ?_, by simp [h0]⟩
  simp only [HealthThermoHandleAccessRead, hh, if_true, emit_log, h0, h1, h2, h3, h4, h5]
  simp

/-- Witness of C40: the reading of the witness of C34, then a read of the
measurement handle of K0. -/
theorem C40_witness :
    issued (HealthThermoSendTempReading K0 1 [9, 8, 7, 6, 5] wConn).1
        (HealthThermoHandleAccessRead K0
          { cid := 1, handle := K0.HANDLE_HT_TEMP_MEASUREMENT, flags := 0, value := [] }
          (HealthThermoSendTempReading K0 1 [9, 8, 7, 6, 5] wConn).1) =
      [Req.GattAccessRsp 1 K0.HANDLE_HT_TEMP_MEASUREMENT sys_status.sys_status_success 5
        [(HealthThermoSendTempReading K0 1 [9, 8, 7, 6, 5] wConn).1.serv.send_count, 8, 7, 6,
          5]] :=
  (C40_send_then_read K0 1 [9, 8, 7, 6, 5]
    { cid := 1, handle := K0.HANDLE_HT_TEMP_MEASUREMENT, flags := 0, value := [] } wConn rfl
    rfl).1

/-- The battery level as a function of the voltage read, when the voltage is
a 16-bit value: no step of the computation wraps. -/
theorem readBatteryLevel_eq (F : Firmware) (hv : F.BatteryReadVoltage ≤ 65535) :
    readBatteryLevel F =
      if F.BatteryReadVoltage ≤ 1800 then 0
      else if 3000 ≤ F.BatteryReadVoltage then 100
      else (F.BatteryReadVoltage - 1800) * 100 / 1200 := by
  have e1 : F.BatteryReadVoltage % 65536 = F.BatteryReadVoltage := Nat.mod_eq_of_lt (by omega)
  simp only [readBatteryLevel, BATTERY_FLAT_BATTERY_VOLTAGE, BATTERY_FULL_BATTERY_VOLTAGE, e1]
  have ex : (if F.BatteryReadVoltage < 1800 then 1800 else F.BatteryReadVoltage) - 1800 =
      F.BatteryReadVoltage - 1800 := by
    split_ifs <;> omega
  have e2 : ((F.BatteryReadVoltage - 1800) * 100) % 4294967296 =
      (F.BatteryReadVoltage - 1800) * 100 := Nat.mod_eq_of_lt (by omega)
  have e3 : (3000 - 1800 : Nat) = 1200 := rfl
  rw [ex, e2, e3]
  split_ifs <;> omega

/-- C39. For a battery voltage v of 16 bits, in millivolts, readBatteryLevel
returns 0 when v <= 1800, 100 when v >= 3000 and the floor of
(v - 1800) * 100 / 1200 in between; the result is at most 100; the product of
the 32-bit computation is below 2^32, so it does not wrap; and the result does
not decrease when the voltage increases. -/
theorem C39_battery_percentage (F : Firmware) (hv : F.BatteryReadVoltage ≤ 65535) :
    (F.BatteryReadVoltage ≤ 1800 → readBatteryLevel F = 0) ∧
    (3000 ≤ F.BatteryReadVoltage → readBatteryLevel F = 100) ∧
    (1800 < F.BatteryReadVoltage → F.BatteryReadVoltage < 3000 →
      readBatteryLevel F = (F.BatteryReadVoltage - 1800) * 100 / 1200) ∧
    0 ≤ readBatteryLevel F ∧ readBatteryLevel F ≤ 100 ∧
    ((if F.BatteryReadVoltage % 65536 < BATTERY_FLAT_BATTERY_VOLTAGE then
        BATTERY_FLAT_BATTERY_VOLTAGE else F.BatteryReadVoltage % 65536) -
      BATTERY_FLAT_BATTERY_VOLTAGE) * 100 < 4294967296 ∧
    (∀ F2 : Firmware, F2.BatteryReadVoltage ≤ 65535 →
      F.BatteryReadVoltage ≤ F2.BatteryReadVoltage →
      readBatteryLevel F ≤ readBatteryLevel F2) := by
  have hr := readBatteryLevel_eq F hv
  refine ⟨fun h1 => ?_, fun h1 => ?_, fun h1 h2 => ?_, Nat.zero_le _, ?_, ?_, fun F2 hv2 hle => ?_⟩
  · rw [hr, if_pos h1]
  · rw [hr, if_neg (by omega), if_pos h1]
  · rw [hr, if_neg (by omega), if_neg (by omega)]
  · rw [hr]
    split_ifs <;> omega
  · simp only [BATTERY_FLAT_BATTERY_VOLTAGE]
    split_ifs <;> omega
  · rw [hr, readBatteryLevel_eq F2 hv2]
    split_ifs <;> omega

/-- Witness of C39: the voltages 1500, 2400 and 3300 millivolts. -/
theorem C39_witness :
    readBatteryLevel { F0 with BatteryReadVoltage := 1500 } = 0 ∧
    readBatteryLevel { F0 with BatteryReadVoltage := 2400 } = 50 ∧
    readBatteryLevel { F0 with BatteryReadVoltage := 3300 } = 100 :=
  ⟨(C39_battery_percentage { F0 with BatteryReadVoltage := 1500 } (by decide)).1 (by decide),
    (C39_battery_percentage { F0 with BatteryReadVoltage := 2400 } (by decide)).2.2.1
      (by decide) (by decide),
    (C39_battery_percentage { F0 with BatteryReadVoltage := 3300 } (by decide)).2.1
      (by decide)⟩

/-- C38. AppSetState(idle) in the state disconnecting: afterwards the state
is idle, st_ucid is GATT_INVALID_UCID, the handles app_tid,
con_param_update_tid and bonding_reattempt_tid are TIMER_INVALID,
cpu_timer_value is 0, encrypt_enabled is false and conn_interval, conn_latency
and conn_timeout are 0; the bonded flag, the bonded address, the diversifier
and the identity key are as before, and so is every word of the NVM. -/
theorem C38_leaving_disconnecting (F : Firmware) (w : World)
    (h : w.g.state = app_state.app_state_disconnecting) :
    (AppSetState F app_state.app_state_idle w).g.state = app_state.app_state_idle ∧
    (AppSetState F app_state.app_state_idle w).g.st_ucid = GATT_INVALID_UCID ∧
    (AppSetState F app_state.app_state_idle w).g.app_tid = TIMER_INVALID ∧
    (AppSetState F app_state.app_state_idle w).g.con_param_update_tid = TIMER_INVALID ∧
    (AppSetState F app_state.app_state_idle w).g.bonding_reattempt_tid = TIMER_INVALID ∧
    (AppSetState F app_state.app_state_idle w).g.cpu_timer_value = 0 ∧
    (AppSetState F app_state.app_state_idle w).g.encrypt_enabled = false ∧
    (AppSetState F app_state.app_state_idle w).g.conn_interval = 0 ∧
    (AppSetState F app_state.app_state_idle w).g.conn_latency = 0 ∧
    (AppSetState F app_state.app_state_idle w).g.conn_timeout = 0 ∧
    (AppSetState F app_state.app_state_idle w).g.bonded = w.g.bonded ∧
    (AppSetState F app_state.app_state_idle w).g.bonded_bd_addr = w.g.bonded_bd_addr ∧
    (AppSetState F app_state.app_state_idle w).g.diversifier = w.g.diversifier ∧
    (AppSetState F app_state.app_state_idle w).g.central_device_irk =
      w.g.central_device_irk ∧
    (AppSetState F app_state.app_state_idle w).nvm = w.nvm := by
  have hr : AppSetState F app_state.app_state_idle w =
      SoundBuzzer buzzer_beep_type.buzzer_beep_long
        { htDataInit w with g := { (htDataInit w).g with state := app_state.app_state_idle } } := by
    simp [AppSetState, h]
  have hn : ∀ (b : buzzer_beep_type) (v : World), (SoundBuzzer b v).nvm = v.nvm := by
    intro b v
    unfold SoundBuzzer
    dsimp only
    split <;> rfl
  have hd : (htDataInit w).nvm = w.nvm := by
    simp only [htDataInit, HealthThermoDataInit, BatteryDataInit]
    split_ifs <;> rfl
  rw [hr]
  refine ⟨by simp, by simp, by simp, by simp, by simp, by simp, by simp, by simp, by simp,
    by simp, by simp, by simp, by simp, by simp, ?_⟩
  rw [hn]
  exact hd

/-- Witness of C38: the disconnection of the bonded world `wRep` ends in
idle. -/
theorem C38_witness :
    wRep.g.state = app_state.app_state_disconnecting ∧ wRep.g.bonded = true ∧
    (AppSetState F0 app_state.app_state_idle wRep).g.state = app_state.app_state_idle ∧
    (AppSetState F0 app_state.app_state_idle wRep).g.st_ucid = GATT_INVALID_UCID ∧
    (AppSetState F0 app_state.app_state_idle wRep).g.bonded = true :=
  ⟨by decide, by decide,
    (C38_leaving_disconnecting F0 wRep (by decide)).1,
    (C38_leaving_disconnecting F0 wRep (by decide)).2.1,
    by decide⟩

/-! ## The persistent store -/

theorem HealthThermoReadDataFromNVM_nvm (o : Nat) (w : World) :
    (HealthThermoReadDataFromNVM o w).2.nvm = w.nvm ∧
    (HealthThermoReadDataFromNVM o w).2.log = w.log := by
  unfold HealthThermoReadDataFromNVM
  dsimp only
  split_ifs <;> exact ⟨rfl, rfl⟩

theorem BatteryReadDataFromNVM_nvm (o : Nat) (w : World) :
    (BatteryReadDataFromNVM o w).2.nvm = w.nvm ∧
    (BatteryReadDataFromNVM o w).2.log = w.log := by
  unfold BatteryReadDataFromNVM
  dsimp only
  split_ifs <;> exact ⟨rfl, rfl⟩

/-- The load from a store whose sanity word is not the magic value: a fresh
bonding record is written. -/
theorem readPersistentStore_fresh (K : Config) (w : World)
    (h : w.nvm NVM_OFFSET_SANITY_WORD ≠ NVM_SANITY_MAGIC) :
    (readPersistentStore K w).g = { w.g with bonded := false, diversifier := 0 } ∧
    (∀ a, (readPersistentStore K w).nvm a =
      if a = NVM_OFFSET_SM_DIV then 0
      else if a = NVM_OFFSET_BONDED_FLAG then 0
      else if a = NVM_OFFSET_SANITY_WORD then NVM_SANITY_MAGIC
      else w.nvm a) ∧
    (readPersistentStore K w).log =
      w.log ++ [Req.GapInitWriteDataToNVM NVM_MAX_APP_MEMORY_WORDS] := by
  have hs : ¬ (Nvm_Read 1 NVM_OFFSET_SANITY_WORD w).getD 0 0 = NVM_SANITY_MAGIC := by
    simpa [Nvm_Read] using h
  refine ⟨?_, fun a => ?_, ?_⟩
  · simp only [readPersistentStore, BatteryReadDataFromNVM_g, HealthThermoReadDataFromNVM_g]
    rw [if_neg hs]
    rfl
  · simp only [readPersistentStore, (BatteryReadDataFromNVM_nvm _ _).1,
      (HealthThermoReadDataFromNVM_nvm _ _).1]
    rw [if_neg hs]
    simp only [emit, Nvm_Write, boolWord, List.length_singleton]
    have o1 := NVM_offsets.1
    have o2 : NVM_OFFSET_SM_DIV = 7 := by decide
    have o0 : NVM_OFFSET_SANITY_WORD = 0 := rfl
    rw [o1, o2, o0]
    by_cases c7 : a = 7
    · subst c7; simp
    · by_cases c1 : a = 1
      · subst c1; simp
      · by_cases c0 : a = 0
        · subst c0; simp
        · rw [if_neg (by omega), if_neg (by omega), if_neg (by omega), if_neg c7, if_neg c1,
            if_neg c0]
  · simp only [readPersistentStore, (BatteryReadDataFromNVM_nvm _ _).2,
      (HealthThermoReadDataFromNVM_nvm _ _).2]
    rw [if_neg hs]
    rfl

/-- The load from a store whose sanity word is the magic value: the bonding
record is read, nothing is written. -/
theorem readPersistentStore_valid (K : Config) (w : World)
    (h : w.nvm NVM_OFFSET_SANITY_WORD = NVM_SANITY_MAGIC) :
    (readPersistentStore K w).g.bonded = decide (w.nvm NVM_OFFSET_BONDED_FLAG ≠ 0) ∧
    (w.nvm NVM_OFFSET_BONDED_FLAG ≠ 0 →
      (readPersistentStore K w).g.bonded_bd_addr =
        addrOfWords (Nvm_Read SIZEOF_TYPED_BD_ADDR_T NVM_OFFSET_BONDED_ADDR w)) ∧
    (readPersistentStore K w).g.diversifier = w.nvm NVM_OFFSET_SM_DIV ∧
    (readPersistentStore K w).nvm = w.nvm ∧
    (readPersistentStore K w).log =
      w.log ++ [Req.GapReadDataFromNVM NVM_MAX_APP_MEMORY_WORDS] := by
  have hs : (Nvm_Read 1 NVM_OFFSET_SANITY_WORD w).getD 0 0 = NVM_SANITY_MAGIC := by
    simpa [Nvm_Read] using h
  have hb : (Nvm_Read 1 NVM_OFFSET_BONDED_FLAG w).getD 0 0 = w.nvm NVM_OFFSET_BONDED_FLAG := by
    simp [Nvm_Read]
  refine ⟨?_, fun hne => ?_, ?_, ?_, ?_⟩
  · simp only [readPersistentStore, BatteryReadDataFromNVM_g, HealthThermoReadDataFromNVM_g]
    rw [if_pos hs]
    simp only [hb, emit_g]
    by_cases c : w.nvm NVM_OFFSET_BONDED_FLAG = 0
    · simp [c]
    · simp only [ne_eq, c, not_false_eq_true, decide_True, if_true]
      split_ifs <;> rfl
  · simp only [readPersistentStore, BatteryReadDataFromNVM_g, HealthThermoReadDataFromNVM_g]
    rw [if_pos hs]
    simp only [hb, emit_g, ne_eq, hne, not_false_eq_true, decide_True, if_true]
    split_ifs <;> rfl
  · simp only [readPersistentStore, BatteryReadDataFromNVM_g, HealthThermoReadDataFromNVM_g]
    rw [if_pos hs]
    simp only [hb, emit_g]
    by_cases c : w.nvm NVM_OFFSET_BONDED_FLAG = 0
    · simp [c, Nvm_Read]
    · simp only [ne_eq, c, not_false_eq_true, decide_True, if_true]
      split_ifs <;> simp [Nvm_Read]
  · simp only [readPersistentStore, (BatteryReadDataFromNVM_nvm _ _).1,
      (HealthThermoReadDataFromNVM_nvm _ _).1]
    rw [if_pos hs]
    simp only [emit]
    split_ifs <;> rfl
  · simp only [readPersistentStore, (BatteryReadDataFromNVM_nvm _ _).2,
      (HealthThermoReadDataFromNVM_nvm _ _).2]
    rw [if_pos hs]
    simp only [emit]
    split_ifs <;> rfl
/-- C35. The load from an NVM whose sanity word is not the magic value 0xAB08:
the magic is written to the sanity offset, the bonded flag of the context is
false and its diversifier 0, and both are written to their offsets, no other
word being touched. The load run again over the resulting NVM, from any
context, takes the branch of the valid sanity word (it asks the GAP service to
read its data, not to write it), again yields bonded false and diversifier 0,
and writes nothing. -/
theorem C35_first_boot_on_blank_storage (K K2 : Config) (w v : World)
    (h : w.nvm NVM_OFFSET_SANITY_WORD ≠ 0xAB08)
    (hv : v.nvm = (readPersistentStore K w).nvm) :
    (readPersistentStore K w).nvm NVM_OFFSET_SANITY_WORD = 0xAB08 ∧
    (readPersistentStore K w).g.bonded = false ∧
    (readPersistentStore K w).g.diversifier = 0 ∧
    (readPersistentStore K w).nvm NVM_OFFSET_BONDED_FLAG = 0 ∧
    (readPersistentStore K w).nvm NVM_OFFSET_SM_DIV = 0 ∧
    (∀ a, a ≠ NVM_OFFSET_SANITY_WORD → a ≠ NVM_OFFSET_BONDED_FLAG → a ≠ NVM_OFFSET_SM_DIV →
      (readPersistentStore K w).nvm a = w.nvm a) ∧
    issued w (readPersistentStore K w) = [Req.GapInitWriteDataToNVM NVM_MAX_APP_MEMORY_WORDS] ∧
    (readPersistentStore K2 v).g.bonded = false ∧
    (readPersistentStore K2 v).g.diversifier = 0 ∧
    (readPersistentStore K2 v).nvm = v.nvm ∧
    issued v (readPersistentStore K2 v) = [Req.GapReadDataFromNVM NVM_MAX_APP_MEMORY_WORDS] := by
  obtain ⟨fg, fn, fl⟩ := readPersistentStore_fresh K w h
  have n0 : (readPersistentStore K w).nvm NVM_OFFSET_SANITY_WORD = 0xAB08 := by
    rw [fn, if_neg (by decide), if_neg (by decide), if_pos rfl]
    rfl
  have n1 : (readPersistentStore K w).nvm NVM_OFFSET_BONDED_FLAG = 0 := by
    rw [fn, if_neg (by decide), if_pos rfl]
  have n7 : (readPersistentStore K w).nvm NVM_OFFSET_SM_DIV = 0 := by
    rw [fn, if_pos rfl]
  obtain ⟨vb, _, vd, vn, vl⟩ := readPersistentStore_valid K2 v (by rw [hv]; exact n0)
  refine ⟨n0, by rw [fg], by rw [fg], n1, n7, fun a a0 a1 a7 => ?_, issued_of_log fl, ?_, ?_, vn,
    issued_of_log vl⟩
  · rw [fn, if_neg a7, if_neg a1, if_neg a0]
  · rw [vb, hv, n1]; decide
  · rw [vd, hv, n7]

/-- Witness of C35: the load over erased storage, every word reading 0xFFFF,
and again over what it leaves. -/
theorem C35_witness :
    (powerOn (fun _ => 0xFFFF)).nvm NVM_OFFSET_SANITY_WORD = 0xFFFF ∧
    (readPersistentStore K0 (powerOn (fun _ => 0xFFFF))).nvm NVM_OFFSET_SANITY_WORD = 0xAB08 ∧
    (readPersistentStore K0
      (powerOn (readPersistentStore K0 (powerOn (fun _ => 0xFFFF))).nvm)).g.bonded = false ∧
    (readPersistentStore K0
      (powerOn (readPersistentStore K0 (powerOn (fun _ => 0xFFFF))).nvm)).g.diversifier = 0 :=
  ⟨rfl,
    (C35_first_boot_on_blank_storage K0 K0 (powerOn (fun _ => 0xFFFF))
      (powerOn (readPersistentStore K0 (powerOn (fun _ => 0xFFFF))).nvm) (by decide) rfl).1,
    (C35_first_boot_on_blank_storage K0 K0 (powerOn (fun _ => 0xFFFF))
      (powerOn (readPersistentStore K0 (powerOn (fun _ => 0xFFFF))).nvm) (by decide)
      rfl).2.2.2.2.2.2.2.1,
    (C35_first_boot_on_blank_storage K0 K0 (powerOn (fun _ => 0xFFFF))
      (powerOn (readPersistentStore K0 (powerOn (fun _ => 0xFFFF))).nvm) (by decide)
      rfl).2.2.2.2.2.2.2.2.1⟩

/-- The words of a typed address, read back. -/
theorem addrOfWords_addrWords (a : TYPED_BD_ADDR_T) : addrOfWords (addrWords a) = a := by
  cases a with
  | mk t l u n =>
    simp only [addrOfWords, addrWords, List.getD_cons_zero, List.getD_cons_succ]
    congr 1
    omega

/-- The NVM after a successful pairing in connected, away from the two
configuration words of the services. -/
theorem pairingSuccess_nvm (F : Firmware) (bd_addr : TYPED_BD_ADDR_T) (w : World)
    (h : w.g.state = app_state.app_state_connected) (a : Nat)
    (h1 : a ≠ w.serv.nvm_offset + HEALTH_THERMO_NVM_TEMP_CLIENT_CONFIG_OFFSET)
    (h2 : a ≠ w.batt.nvm_offset + BATTERY_NVM_LEVEL_CLIENT_CONFIG_OFFSET) :
    (handleSignalSmSimplePairingCompleteInd F sys_status.sys_status_success bd_addr w).nvm a =
      if a = 1 then 1
      else if 2 ≤ a ∧ a < 7 then (addrWords bd_addr).getD (a - 2) 0
      else w.nvm a := by
  obtain ⟨v, hv, hvn, _, hvs, hvb, _⟩ := pairingSuccess_eq F bd_addr w h
  have hva : (handleSignalSmSimplePairingCompleteInd F sys_status.sys_status_success bd_addr
      w).nvm a = v.nvm a := by
    rcases hv with hv | hv
    · rw [hv, BatteryBondingNotify_nvm _ a
        (by rw [HealthThermoBondingNotify_batt, hvb]; exact h2),
        HealthThermoBondingNotify_nvm _ a (by rw [hvs]; exact h1)]
    · rw [hv]
  rw [hva, hvn]
  simp only [Nvm_Write, addrWords, List.length_cons, List.length_nil, NVM_offsets.1,
    NVM_offsets.2.1]
  by_cases c1 : a = 1
  · subst c1; simp
  · by_cases c2 : 2 ≤ a ∧ a < 7
    · have c3 : 2 ≤ a ∧ a < 2 + 5 := c2
      simp [c1, c2, c3]
    · rw [if_neg (by omega), if_neg (by omega), if_neg c1, if_neg c2]

/-- C36. The NVM has a valid sanity word and the words of the services lie
beyond the region of the application. After a successful pairing with the
address A, handled in connected, the power-on load run over the resulting NVM,
from any context, yields bonded true and the bonded address A. After a
key-material notification carrying a diversifier d, handled in connected, the
load run over the resulting NVM yields the diversifier d. -/
theorem C36_bonding_record_survives_power_cycle (K : Config) (F : Firmware)
    (A : TYPED_BD_ADDR_T) (w : World)
    (h : w.g.state = app_state.app_state_connected)
    (hs : w.nvm NVM_OFFSET_SANITY_WORD = NVM_SANITY_MAGIC)
    (h1 : NVM_MAX_APP_MEMORY_WORDS ≤ w.serv.nvm_offset)
    (h2 : NVM_MAX_APP_MEMORY_WORDS ≤ w.batt.nvm_offset) :
    (∀ v : World,
      v.nvm = (handleSignalSmSimplePairingCompleteInd F sys_status.sys_status_success A w).nvm →
      (readPersistentStore K v).g.bonded = true ∧
      (readPersistentStore K v).g.bonded_bd_addr = A) ∧
    (∀ (d : Nat) (id_present : Bool) (irk : List Nat) (u : World),
      u.nvm = (handleSignalSmKeysInd true id_present d irk w).nvm →
      (readPersistentStore K u).g.diversifier = d) := by
  simp only [NVM_offsets.2.2] at h1 h2
  have hk : ∀ a, a < 16 →
      a ≠ w.serv.nvm_offset + HEALTH_THERMO_NVM_TEMP_CLIENT_CONFIG_OFFSET ∧
      a ≠ w.batt.nvm_offset + BATTERY_NVM_LEVEL_CLIENT_CONFIG_OFFSET := by
    intro a ha
    simp only [HEALTH_THERMO_NVM_TEMP_CLIENT_CONFIG_OFFSET,
      BATTERY_NVM_LEVEL_CLIENT_CONFIG_OFFSET]
    omega
  have hp : ∀ a, a < 16 →
      (handleSignalSmSimplePairingCompleteInd F sys_status.sys_status_success A w).nvm a =
        if a = 1 then 1
        else if 2 ≤ a ∧ a < 7 then (addrWords A).getD (a - 2) 0
        else w.nvm a :=
    fun a ha => pairingSuccess_nvm F A w h a (hk a ha).1 (hk a ha).2
  have o0 : NVM_OFFSET_SANITY_WORD = 0 := rfl
  have o7 : NVM_OFFSET_SM_DIV = 7 := by decide
  constructor
  · intro v hv
    have s0 : v.nvm NVM_OFFSET_SANITY_WORD = NVM_SANITY_MAGIC := by
      rw [hv, o0, hp 0 (by omega)]
      simpa [o0] using hs
    have s1 : v.nvm NVM_OFFSET_BONDED_FLAG = 1 := by
      rw [hv, NVM_offsets.1, hp 1 (by omega)]
      simp
    obtain ⟨vb, va, _, _, _⟩ := readPersistentStore_valid K v s0
    refine ⟨by rw [vb, s1]; decide, ?_⟩
    rw [va (by rw [s1]; decide)]
    have e : Nvm_Read SIZEOF_TYPED_BD_ADDR_T NVM_OFFSET_BONDED_ADDR v = addrWords A := by
      have e5 : List.range 5 = [0, 1, 2, 3, 4] := by decide
      simp only [Nvm_Read, SIZEOF_TYPED_BD_ADDR_T, NVM_offsets.2.1, e5, List.map_cons,
        List.map_nil, Nat.add_zero, Nat.reduceAdd, hv]
      rw [hp 2 (by omega), hp 3 (by omega), hp 4 (by omega), hp 5 (by omega), hp 6 (by omega)]
      simp [addrWords]
    rw [e, addrOfWords_addrWords]
  · intro d id_present irk u hu
    have hn : ∀ a, a < 8 → (handleSignalSmKeysInd true id_present d irk w).nvm a =
        if a = 7 then d else w.nvm a := by
      intro a ha
      have o8 : NVM_OFFSET_SM_IRK = 8 := by decide
      simp only [handleSignalSmKeysInd, h, if_true]
      by_cases c2 : a = 7
      · subst c2
        rw [if_pos rfl]
        split_ifs <;> simp [Nvm_Write, o7, o8]
      · have c3 : ¬ (7 ≤ a) := by omega
        have c4 : ¬ (8 ≤ a) := by omega
        rw [if_neg c2]
        split_ifs <;> simp [Nvm_Write, o7, o8, c3, c4]
    have s0 : u.nvm NVM_OFFSET_SANITY_WORD = NVM_SANITY_MAGIC := by
      rw [hu, o0, hn 0 (by omega)]
      simpa [o0] using hs
    obtain ⟨_, _, vd, _, _⟩ := readPersistentStore_valid K u s0
    rw [vd, hu, o7, hn 7 (by omega)]
    simp
/-- Witness of C36: the pairing of `wConn` with its public peer, and a
diversifier 77 received in `wConn`, each followed by a power cycle. -/
theorem C36_witness :
    wConn.g.state = app_state.app_state_connected ∧
    wConn.nvm NVM_OFFSET_SANITY_WORD = NVM_SANITY_MAGIC ∧
    (readPersistentStore K0 (powerOn
      (handleSignalSmSimplePairingCompleteInd F0 sys_status.sys_status_success addrPublic
        wConn).nvm)).g.bonded = true ∧
    (readPersistentStore K0 (powerOn
      (handleSignalSmSimplePairingCompleteInd F0 sys_status.sys_status_success addrPublic
        wConn).nvm)).g.bonded_bd_addr = addrPublic ∧
    (readPersistentStore K0 (powerOn
      (handleSignalSmKeysInd true false 77 [] wConn).nvm)).g.diversifier = 77 :=
  ⟨by decide, by decide,
    ((C36_bonding_record_survives_power_cycle K0 F0 addrPublic wConn (by decide) (by decide)
      (by decide) (by decide)).1 _ rfl).1,
    ((C36_bonding_record_survives_power_cycle K0 F0 addrPublic wConn (by decide) (by decide)
      (by decide) (by decide)).1 _ rfl).2,
    (C36_bonding_record_survives_power_cycle K0 F0 addrPublic wConn (by decide) (by decide)
      (by decide) (by decide)).2 77 false [] _ rfl⟩
/-! ## The removal of the bonding by the user -/

theorem SoundBuzzer_nvm (b : buzzer_beep_type) (v : World) : (SoundBuzzer b v).nvm = v.nvm := by
  unfold SoundBuzzer
  dsimp only
  split <;> rfl

theorem htDataInit_nvm (w : World) : (htDataInit w).nvm = w.nvm := by
  simp only [htDataInit, HealthThermoDataInit, BatteryDataInit]
  split_ifs <;> rfl

theorem storeAdvScanData_nvm (F : Firmware) (n : Nat) (d : List Nat) (s : ad_src)
    (c : app_panic_code) (w : World) : (storeAdvScanData F n d s c w).nvm = w.nvm := by
  unfold storeAdvScanData
  dsimp only
  split <;> rfl

theorem GattStartAdverts_nvm (F : Firmware) (b : Bool) (w : World) :
    (GattStartAdverts F b w).nvm = w.nvm := by
  obtain ⟨l, _, _, hok, hpanic⟩ := GattStartAdverts_eq F b w
  cases hl : l.any isPanic
  · rw [(hok hl).2]
  · rw [(hpanic hl).2]

/-- Leaving init or idle for fast advertising without a bond: the state is fast
advertising whether or not the firmware refuses a call of the advertising
set-up, the NVM and the bonding fields are untouched and the log only grows. -/
theorem AppSetState_fast_unbonded (F : Firmware) (x : World) (hb : x.g.bonded = false)
    (hx : x.g.state = app_state.app_state_init ∨ x.g.state = app_state.app_state_idle) :
    (AppSetState F app_state.app_state_fast_advertising x).g.state =
        app_state.app_state_fast_advertising ∧
      (∀ a, (AppSetState F app_state.app_state_fast_advertising x).nvm a = x.nvm a) ∧
      (AppSetState F app_state.app_state_fast_advertising x).g.bonded = false ∧
      (AppSetState F app_state.app_state_fast_advertising x).g.bonded_bd_addr =
        x.g.bonded_bd_addr ∧
      (AppSetState F app_state.app_state_fast_advertising x).g.diversifier = x.g.diversifier ∧
      (AppSetState F app_state.app_state_fast_advertising x).g.central_device_irk =
        x.g.central_device_irk ∧
      ∃ l, (AppSetState F app_state.app_state_fast_advertising x).log = x.log ++ l := by
  have e : AppSetState F app_state.app_state_fast_advertising x =
      if panicked { x with g := { x.g with state := app_state.app_state_fast_advertising } }
          (GattStartAdverts F true
            { x with g := { x.g with state := app_state.app_state_fast_advertising } }) then
        GattStartAdverts F true
          { x with g := { x.g with state := app_state.app_state_fast_advertising } }
      else SoundBuzzer buzzer_beep_type.buzzer_beep_twice
        (GattStartAdverts F true
          { x with g := { x.g with state := app_state.app_state_fast_advertising } }) := by
    rcases hx with hx | hx <;> simp [AppSetState, hx, appInitExit, hb]
  obtain ⟨l, hl⟩ := GattStartAdverts_log_ext F true
    { x with g := { x.g with state := app_state.app_state_fast_advertising } }
  rw [e]
  split_ifs
  · refine ⟨by simp, fun a => by rw [GattStartAdverts_nvm], by simp [hb], by simp, by simp,
      by simp, ⟨l, hl⟩⟩
  · refine ⟨by simp, fun a => by rw [SoundBuzzer_nvm, GattStartAdverts_nvm], by simp [hb],
      by simp, by simp, by simp, ⟨_, by rw [SoundBuzzer_log, hl, List.append_assoc]⟩⟩

/-- The part of HandleExtraLongButtonPress common to all states, run with the
stored handle: the beeps, the bonded flag cleared in the context and in the
NVM; then the part that depends on the state. -/
theorem extraLongPress_eq (F : Firmware) (T : Nat) (w : World)
    (hT : T = w.hw.button_press_tid) :
    ∃ w4 : World,
      w4.g = { w.g with bonded := false } ∧
      (∀ a, w4.nvm a = if a = NVM_OFFSET_BONDED_FLAG then 0 else w.nvm a) ∧
      w4.log = w.log ++
        [Req.PioEnablePWM BUZZER_PWM_INDEX_0 false, Req.PioEnablePWM BUZZER_PWM_INDEX_0 true] ∧
      HandleExtraLongButtonPress F T w =
        (match w4.g.state with
          | app_state.app_state_connected =>
            emit Req.LsResetWhiteList
              (AppSetState F app_state.app_state_disconnecting
                { TimerDelete w4.g.app_tid w4 with
                  g := { (TimerDelete w4.g.app_tid w4).g with app_tid := TIMER_INVALID } })
          | app_state.app_state_fast_advertising =>
            GattStopAdverts
              { htDataInit w4 with g := { (htDataInit w4).g with pairing_button_pressed := true } }
          | app_state.app_state_slow_advertising =>
            GattStopAdverts
              { htDataInit w4 with g := { (htDataInit w4).g with pairing_button_pressed := true } }
          | app_state.app_state_disconnecting => emit Req.LsResetWhiteList w4
          | _ =>
            AppSetState F app_state.app_state_fast_advertising
              (emit Req.LsResetWhiteList (htDataInit w4))) := by
  refine ⟨Nvm_Write [boolWord false] NVM_OFFSET_BONDED_FLAG
    { SoundBuzzer buzzer_beep_type.buzzer_beep_thrice
        { w with hw := { w.hw with button_press_tid := TIMER_INVALID } } with
      g := { (SoundBuzzer buzzer_beep_type.buzzer_beep_thrice
        { w with hw := { w.hw with button_press_tid := TIMER_INVALID } }).g with
        bonded := false } }, ?_, fun a => ?_, ?_, ?_⟩
  · simp
  · simp only [Nvm_Write, SoundBuzzer_nvm, boolWord, List.length_singleton, NVM_offsets.1]
    by_cases c : a = 1
    · subst c; simp
    · rw [if_neg (by omega), if_neg c]
  · simp [SoundBuzzer_log]
  · simp only [HandleExtraLongButtonPress, hT, if_true] <;> rfl

/-- C37. HandleExtraLongButtonPress run with the stored button timer handle.
In every state the bonded flag becomes false and 0 is written to the NVM word
of the bonded flag, no other word of the NVM changing; the bonded address, the
diversifier and the identity key of the context are as before. From connected
the resulting state is disconnecting, a disconnect request and the whitelist
reset being issued; from fast or slow advertising the state is unchanged, the
pairing removal flag is set and the cancel request is the last request issued;
from init or idle the resulting state is fast advertising and the whitelist
reset is issued; from disconnecting the state is unchanged and the whitelist
reset is issued. -/
theorem C37_user_triggered_bonding_removal (F : Firmware) (T : Nat) (w : World)
    (hT : T = w.hw.button_press_tid) :
    (HandleExtraLongButtonPress F T w).g.bonded = false ∧
    (∀ a, (HandleExtraLongButtonPress F T w).nvm a =
      if a = NVM_OFFSET_BONDED_FLAG then 0 else w.nvm a) ∧
    (HandleExtraLongButtonPress F T w).g.bonded_bd_addr = w.g.bonded_bd_addr ∧
    (HandleExtraLongButtonPress F T w).g.diversifier = w.g.diversifier ∧
    (HandleExtraLongButtonPress F T w).g.central_device_irk = w.g.central_device_irk ∧
    (w.g.state = app_state.app_state_connected →
      (HandleExtraLongButtonPress F T w).g.state = app_state.app_state_disconnecting ∧
      issued w (HandleExtraLongButtonPress F T w) =
        [Req.PioEnablePWM BUZZER_PWM_INDEX_0 false, Req.PioEnablePWM BUZZER_PWM_INDEX_0 true,
          Req.GattDisconnectReq w.g.st_ucid, Req.LsResetWhiteList]) ∧
    ((w.g.state = app_state.app_state_fast_advertising ∨
        w.g.state = app_state.app_state_slow_advertising) →
      (HandleExtraLongButtonPress F T w).g.state = w.g.state ∧
      (HandleExtraLongButtonPress F T w).g.pairing_button_pressed = true ∧
      issued w (HandleExtraLongButtonPress F T w) =
        [Req.PioEnablePWM BUZZER_PWM_INDEX_0 false, Req.PioEnablePWM BUZZER_PWM_INDEX_0 true,
          Req.GapDataInit, Req.GattCancelConnectReq]) ∧
    ((w.g.state = app_state.app_state_init ∨ w.g.state = app_state.app_state_idle) →
      (HandleExtraLongButtonPress F T w).g.state = app_state.app_state_fast_advertising ∧
      Req.LsResetWhiteList ∈ issued w (HandleExtraLongButtonPress F T w)) ∧
    (w.g.state = app_state.app_state_disconnecting →
      (HandleExtraLongButtonPress F T w).g.state = app_state.app_state_disconnecting ∧
      issued w (HandleExtraLongButtonPress F T w) =
        [Req.PioEnablePWM BUZZER_PWM_INDEX_0 false, Req.PioEnablePWM BUZZER_PWM_INDEX_0 true,
          Req.LsResetWhiteList]) := by
  obtain ⟨w4, hg, hn, hl, hr⟩ := extraLongPress_eq F T w hT
  have hst : w4.g.state = w.g.state := by rw [hg]
  cases hs : w.g.state
  all_goals
    rw [hs] at hst
    simp only [hst] at hr
    rw [hr]
  · -- init
    obtain ⟨h1, h2, h3, h4, h5, h6, l2, h7⟩ := AppSetState_fast_unbonded F
      (emit Req.LsResetWhiteList (htDataInit w4)) (by simp [hg]) (Or.inl (by simp [hg, hs]))
    refine ⟨h3, fun a => ?_, by rw [h4]; simp [hg], by rw [h5]; simp [hg],
      by rw [h6]; simp [hg],
      fun h => by simp at h, fun h => by simp at h, fun _ => ⟨h1, ?_⟩, fun h => by simp at h⟩
    · rw [h2]
      simp only [emit, htDataInit_nvm]
      exact hn a
    · rw [issued_of_log (l := [Req.PioEnablePWM BUZZER_PWM_INDEX_0 false,
        Req.PioEnablePWM BUZZER_PWM_INDEX_0 true, Req.GapDataInit, Req.LsResetWhiteList] ++ l2)
        (by rw [h7]; simp [hl])]
      simp
  · -- fast advertising
    refine ⟨by simp [GattStopAdverts, hg], fun a => ?_, by simp [GattStopAdverts, hg],
      by simp [GattStopAdverts, hg], by simp [GattStopAdverts, hg],
      fun h => by simp at h,
      fun _ => ⟨by simp [GattStopAdverts, hg, hs], by simp [GattStopAdverts],
        issued_of_log (by simp [GattStopAdverts, hl])⟩,
      fun h => by simp at h, fun h => by simp at h⟩
    simp only [GattStopAdverts, emit, htDataInit_nvm]
    exact hn a
  · -- slow advertising
    refine ⟨by simp [GattStopAdverts, hg], fun a => ?_, by simp [GattStopAdverts, hg],
      by simp [GattStopAdverts, hg], by simp [GattStopAdverts, hg],
      fun h => by simp at h,
      fun _ => ⟨by simp [GattStopAdverts, hg, hs], by simp [GattStopAdverts],
        issued_of_log (by simp [GattStopAdverts, hl])⟩,
      fun h => by simp at h, fun h => by simp at h⟩
    simp only [GattStopAdverts, emit, htDataInit_nvm]
    exact hn a
  · -- connected
    have hd : AppSetState F app_state.app_state_disconnecting
        { TimerDelete w4.g.app_tid w4 with
          g := { (TimerDelete w4.g.app_tid w4).g with app_tid := TIMER_INVALID } } =
        emit (Req.GattDisconnectReq w4.g.st_ucid)
          { TimerDelete w4.g.app_tid w4 with
            g := { (TimerDelete w4.g.app_tid w4).g with
              app_tid := TIMER_INVALID
              state := app_state.app_state_disconnecting } } := by
      simp [AppSetState, hst]
    rw [hd]
    refine ⟨by simp [hg], fun a => ?_, by simp [hg], by simp [hg], by simp [hg],
      fun _ => ⟨by simp, issued_of_log (by simp [hl, hg])⟩,
      fun h => by simp at h, fun h => by simp at h, fun h => by simp at h⟩
    simp only [emit, TimerDelete]
    exact hn a
  · -- disconnecting
    refine ⟨by simp [hg], fun a => ?_, by simp [hg], by simp [hg], by simp [hg],
      fun h => by simp at h, fun h => by simp at h, fun h => by simp at h,
      fun _ => ⟨by simp [hg, hs], issued_of_log (by simp [hl])⟩⟩
    simp only [emit]
    exact hn a
  · -- idle
    obtain ⟨h1, h2, h3, h4, h5, h6, l2, h7⟩ := AppSetState_fast_unbonded F
      (emit Req.LsResetWhiteList (htDataInit w4)) (by simp [hg]) (Or.inr (by simp [hg, hs]))
    refine ⟨h3, fun a => ?_, by rw [h4]; simp [hg], by rw [h5]; simp [hg],
      by rw [h6]; simp [hg],
      fun h => by simp at h, fun h => by simp at h, fun _ => ⟨h1, ?_⟩, fun h => by simp at h⟩
    · rw [h2]
      simp only [emit, htDataInit_nvm]
      exact hn a
    · rw [issued_of_log (l := [Req.PioEnablePWM BUZZER_PWM_INDEX_0 false,
        Req.PioEnablePWM BUZZER_PWM_INDEX_0 true, Req.GapDataInit, Req.LsResetWhiteList] ++ l2)
        (by rw [h7]; simp [hl])]
      simp

/-- Witness of C37: the extra long press of `wPress` (advertising, button
timer 3), and the same press delivered to the bonded connected world
`wPaired` once its button timer handle is 3. -/
theorem C37_witness :
    wPress.hw.button_press_tid = 3 ∧ wPress.g.state = app_state.app_state_fast_advertising ∧
    (HandleExtraLongButtonPress F0 3 wPress).g.pairing_button_pressed = true ∧
    (HandleExtraLongButtonPress F0 3
      { wPaired with hw := { wPaired.hw with button_press_tid := 3 } }).g.bonded = false ∧
    (HandleExtraLongButtonPress F0 3
      { wPaired with hw := { wPaired.hw with button_press_tid := 3 } }).g.state =
      app_state.app_state_disconnecting :=
  ⟨by decide, by decide,
    ((C37_user_triggered_bonding_removal F0 3 wPress (by decide)).2.2.2.2.2.2.1
      (Or.inl (by decide))).2.1,
    (C37_user_triggered_bonding_removal F0 3
      { wPaired with hw := { wPaired.hw with button_press_tid := 3 } } (by decide)).1,
    ((C37_user_triggered_bonding_removal F0 3
      { wPaired with hw := { wPaired.hw with button_press_tid := 3 } } (by decide)).2.2.2.2.2.1
      (by decide)).1⟩

end HT
